import Mathlib

/-!
Shallow embedding of `8_puzzle_solver.py` (8-puzzle solver with BFS, DFS
and A*), together with theorems checking the specification's claims.

States are lists of 9 tile values (`0` is the blank).  The Python tuples,
`collections.deque`, `list`-as-stack, `set`, `dict` and `heapq` structures
are modelled by Lean lists: the queue keeps its FIFO order, the stack its
LIFO order, the visited set is a membership list, `g_scores` is an
association list whose most recent binding shadows older ones, and the
heap is a list from which `popMin` extracts the entry with the smallest
`(f_cost, node_id)` key, exactly the entry `heapq.heappop` would return
(the `node_id` tie-breaker is unique, so the minimum is unambiguous).
The unbounded `while` loops become fuel-indexed recursion; `search_fuel`
is large enough that fuel can only run out after the loop would have
terminated anyway.
-/

namespace EightPuzzle

/-- A puzzle state: the board flattened row by row, `0` is the blank. -/
abbrev State := List Nat

/-- `Puzzle.goal_state`: the fixed goal configuration. -/
def goal_state : State := [1, 2, 3, 4, 5, 6, 7, 8, 0]

/-- `Puzzle.rows`. -/
def rows : Nat := 3

/-- `Puzzle.cols`. -/
def cols : Nat := 3

/-- `Puzzle.find_blank`: index of the first `0`, as `(row, col)`. -/
def find_blank (state : State) : Nat × Nat :=
  let blank_index := state.indexOf 0
  (blank_index / cols, blank_index % cols)

/-- The direction table `[(-1,0,"Up"), (1,0,"Down"), (0,-1,"Left"), (0,1,"Right")]`. -/
def directions : List (Int × Int × String) :=
  [(-1, 0, "Up"), (1, 0, "Down"), (0, -1, "Left"), (0, 1, "Right")]

/-- The simultaneous swap `l[i], l[j] = l[j], l[i]` of Python. -/
def swapIdx (l : List Nat) (i j : Nat) : List Nat :=
  (l.set i (l.getD j 0)).set j (l.getD i 0)

/-- `Puzzle.get_possible_moves`: successors obtained by sliding the blank
Up, Down, Left, Right (in that order), keeping only in-bounds targets. -/
def get_possible_moves (state : State) : List (State × String) :=
  let rc := find_blank state
  directions.filterMap (fun d =>
    let new_row : Int := (rc.1 : Int) + d.1
    let new_col : Int := (rc.2 : Int) + d.2.1
    if 0 ≤ new_row ∧ new_row < (rows : Int) ∧ 0 ≤ new_col ∧ new_col < (cols : Int) then
      let blank_idx := rc.1 * cols + rc.2
      let new_tile_idx := (new_row * (cols : Int) + new_col).toNat
      some (swapIdx state blank_idx new_tile_idx, d.2.2)
    else none)

/-- `Puzzle.is_goal`. -/
def is_goal (state : State) : Bool :=
  state == goal_state

/-- The inner double loop of `Puzzle.is_solvable`: number of pairs `i < j`
with `tiles[i] > tiles[j]`, computed head-first. -/
def countInversions : List Nat → Nat
  | [] => 0
  | x :: xs => xs.countP (fun y => decide (y < x)) + countInversions xs

/-- `Puzzle.is_solvable`: drop the blank, count inversions, test evenness. -/
def is_solvable (state : State) : Bool :=
  let tiles := state.filter (fun t => t != 0)
  countInversions tiles % 2 == 0

/-- Search-tree nodes (`class Node`): a root (the initial state, cost 0,
no parent) or a child recording its state, parent, action and cost. -/
inductive Node where
  | root (state : State)
  | child (state : State) (parent : Node) (action : String) (cost : Nat)

/-- `Node.state`. -/
def Node.state : Node → State
  | .root s => s
  | .child s _ _ _ => s

/-- `Node.cost` (roots are built with the default `cost=0`). -/
def Node.cost : Node → Nat
  | .root _ => 0
  | .child _ _ _ c => c

/-- `Node.get_path`: the `(state, action)` pairs from the root to this
node, the root labelled `"Initial State"`. -/
def Node.get_path : Node → List (State × String)
  | .root s => [(s, "Initial State")]
  | .child s p a _ => p.get_path ++ [(s, a)]

/-- A search outcome: optional path, nodes expanded, peak frontier size. -/
abbrev SearchResult := Option (List (State × String)) × Nat × Nat

/-- Fuel for the search loops.  The loops pop one frontier entry per
iteration and (as the termination analysis in the comments of each loop
shows) push boundedly many entries, so this bound is never the reason a
search stops on well-formed input. -/
def search_fuel : Nat := 10000000

/-- The `while queue:` loop of `Solver.bfs`.  Per iteration: record the
queue size, pop the front, count the expansion, return the path on goal,
otherwise enqueue every not-yet-visited successor (marking it visited at
discovery time). -/
def bfsLoop : Nat → List Node → List State → Nat → Nat → SearchResult
  | 0, _, _, nodes_expanded, max_queue_size => (none, nodes_expanded, max_queue_size)
  | _ + 1, [], _, nodes_expanded, max_queue_size => (none, nodes_expanded, max_queue_size)
  | fuel + 1, current_node :: restQueue, visited, nodes_expanded, max_queue_size =>
    let max_queue_size' := max max_queue_size (restQueue.length + 1)
    let nodes_expanded' := nodes_expanded + 1
    if is_goal current_node.state then
      (some current_node.get_path, nodes_expanded', max_queue_size')
    else
      let step := (get_possible_moves current_node.state).foldl
        (fun (acc : List Node × List State) sm =>
          if sm.1 ∈ acc.2 then acc
          else (acc.1 ++ [Node.child sm.1 current_node sm.2 (current_node.cost + 1)],
                sm.1 :: acc.2))
        (restQueue, visited)
      bfsLoop fuel step.1 step.2 nodes_expanded' max_queue_size'

/-- `Solver.bfs`: solvability guard, then the BFS loop seeded with the
root node and the initial state already visited. -/
def bfs (initial_state : State) : SearchResult :=
  if is_solvable initial_state then
    bfsLoop search_fuel [Node.root initial_state] [initial_state] 0 0
  else (none, 0, 0)

/-- The `while stack:` loop of `Solver.dfs`.  The stack's head is its
top.  Visited states are recorded at expansion time; an already-visited
pop is skipped (after counting it).  Successors are pushed in reverse
emission order, so the head ends up being the `Up` successor. -/
def dfsLoop : Nat → List Node → List State → Nat → Nat → SearchResult
  | 0, _, _, nodes_expanded, max_stack_size => (none, nodes_expanded, max_stack_size)
  | _ + 1, [], _, nodes_expanded, max_stack_size => (none, nodes_expanded, max_stack_size)
  | fuel + 1, current_node :: restStack, visited, nodes_expanded, max_stack_size =>
    let max_stack_size' := max max_stack_size (restStack.length + 1)
    let nodes_expanded' := nodes_expanded + 1
    if current_node.state ∈ visited then
      dfsLoop fuel restStack visited nodes_expanded' max_stack_size'
    else
      let visited' := current_node.state :: visited
      if is_goal current_node.state then
        (some current_node.get_path, nodes_expanded', max_stack_size')
      else
        let stack' := (get_possible_moves current_node.state).reverse.foldl
          (fun st sm =>
            if sm.1 ∈ visited' then st
            else Node.child sm.1 current_node sm.2 (current_node.cost + 1) :: st)
          restStack
        dfsLoop fuel stack' visited' nodes_expanded' max_stack_size'

/-- `Solver.dfs`: solvability guard, then the DFS loop with an empty
visited set. -/
def dfs (initial_state : State) : SearchResult :=
  if is_solvable initial_state then
    dfsLoop search_fuel [Node.root initial_state] [] 0 0
  else (none, 0, 0)

/-- `Solver.misplaced_tiles_heuristic`: `for i in range(9)`, count the
positions holding a non-blank tile that differs from the goal's tile. -/
def misplaced_tiles_heuristic (state : State) : Nat :=
  (List.range 9).foldl
    (fun misplaced i =>
      if state.getD i 0 ≠ goal_state.getD i 0 ∧ state.getD i 0 ≠ 0 then misplaced + 1
      else misplaced)
    0

/-- `Solver.manhattan_distance_heuristic`: `for i in range(9)`, sum the
grid distances of each non-blank tile to its goal position. -/
def manhattan_distance_heuristic (state : State) : Nat :=
  (List.range 9).foldl
    (fun distance i =>
      let tile := state.getD i 0
      if tile = 0 then distance
      else
        let current_row := i / cols
        let current_col := i % cols
        let goal_index := goal_state.indexOf tile
        let goal_row := goal_index / cols
        let goal_col := goal_index % cols
        distance + ((current_row : Int) - (goal_row : Int)).natAbs
                 + ((current_col : Int) - (goal_col : Int)).natAbs)
    0

/-- A heap entry `(f_cost, node_id, node)` as pushed by `heapq.heappush`. -/
abbrev HeapEntry := Nat × Nat × Node

/-- Extract the heap entry `heapq.heappop` would return: the one with the
lexicographically least `(f_cost, node_id)` key (keys are distinct in
every reachable heap because `node_id` comes from a counter), together
with the remaining entries. -/
def popMin : List HeapEntry → Option (HeapEntry × List HeapEntry)
  | [] => none
  | e :: es =>
    match popMin es with
    | none => some (e, [])
    | some (m, rest) =>
      if m.1 < e.1 ∨ (m.1 = e.1 ∧ m.2.1 < e.2.1) then some (m, e :: rest)
      else some (e, es)

/-- Lookup in the association list modelling the `g_scores` dict. -/
def lookupScore : List (State × Nat) → State → Option Nat
  | [], _ => none
  | (k, v) :: rest, s => if k = s then some v else lookupScore rest s

/-- The `while open_set:` loop of `Solver.a_star`.  Per iteration: record
the heap size, pop the least entry, count the expansion, skip states
already closed, close the popped state, return on goal, otherwise relax
every successor: when it is new or strictly cheaper than its recorded
`g_score`, record the new score and push a fresh entry with the next
counter value. -/
def aStarLoop (h : State → Nat) :
    Nat → List HeapEntry → List (State × Nat) → List State → Nat → Nat → Nat → SearchResult
  | 0, _, _, _, nodes_expanded, max_open_set_size, _ =>
    (none, nodes_expanded, max_open_set_size)
  | fuel + 1, open_set, g_scores, closed_set, nodes_expanded, max_open_set_size, node_counter =>
    match popMin open_set with
    | none => (none, nodes_expanded, max_open_set_size)
    | some (entry, restHeap) =>
      let max_open_set_size' := max max_open_set_size open_set.length
      let nodes_expanded' := nodes_expanded + 1
      let current_node := entry.2.2
      if current_node.state ∈ closed_set then
        aStarLoop h fuel restHeap g_scores closed_set nodes_expanded' max_open_set_size'
          node_counter
      else
        let closed_set' := current_node.state :: closed_set
        if is_goal current_node.state then
          (some current_node.get_path, nodes_expanded', max_open_set_size')
        else
          let step := (get_possible_moves current_node.state).foldl
            (fun (acc : List HeapEntry × List (State × Nat) × Nat) sm =>
              let new_g_score := current_node.cost + 1
              let relax :=
                match lookupScore acc.2.1 sm.1 with
                | none => true
                | some g => decide (new_g_score < g)
              if relax then
                let new_f_score := new_g_score + h sm.1
                let counter' := acc.2.2 + 1
                ((new_f_score, counter', Node.child sm.1 current_node sm.2 new_g_score)
                   :: acc.1,
                 (sm.1, new_g_score) :: acc.2.1,
                 counter')
              else acc)
            (restHeap, g_scores, node_counter)
          aStarLoop h fuel step.1 step.2.1 closed_set' nodes_expanded' max_open_set_size'
            step.2.2

/-- `Solver.a_star`: solvability guard, then the A* loop seeded with one
heap entry `(h(start), 0, root)` and `g_scores = {start: 0}`. -/
def a_star (h : State → Nat) (initial_state : State) : SearchResult :=
  if is_solvable initial_state then
    aStarLoop h search_fuel [(h initial_state, 0, Node.root initial_state)]
      [(initial_state, 0)] [] 0 0 0
  else (none, 0, 0)

/-- The specification's pair-based inversion count: the number of index
pairs `i < j` whose tiles appear out of ascending order. -/
def inversionPairs (tiles : List Nat) : Nat :=
  ((List.range tiles.length).map (fun i =>
    (List.range tiles.length).countP
      (fun j => decide (i < j) && decide (tiles.getD j 0 < tiles.getD i 0)))).sum

/-- The opposite direction label (Up↔Down, Left↔Right). -/
def inverseMoveLabel : String → String
  | "Up" => "Down"
  | "Down" => "Up"
  | "Left" => "Right"
  | "Right" => "Left"
  | other => other

/-- Per-position contribution to the misplaced-tiles heuristic. -/
def misplacedContrib (t i : Nat) : Nat :=
  if t ≠ goal_state.getD i 0 ∧ t ≠ 0 then 1 else 0

/-- Per-position contribution to the Manhattan-distance heuristic. -/
def manhattanContrib (t i : Nat) : Nat :=
  if t = 0 then 0
  else (((i / cols : Nat) : Int) - ((goal_state.indexOf t / cols : Nat) : Int)).natAbs
     + (((i % cols : Nat) : Int) - ((goal_state.indexOf t % cols : Nat) : Int)).natAbs

/-- A node whose parent chain starts at `init` and whose every child
step is a legal move from its parent's state. -/
def Node.valid (init : State) : Node → Prop
  | .root s => s = init
  | .child s p a _ => Node.valid init p ∧ (s, a) ∈ get_possible_moves p.state

/-- `stepsTo n s t`: some sequence of `n` single moves leads from `s` to `t`. -/
def stepsTo : Nat → State → State → Bool
  | 0, s, t => s == t
  | n + 1, s, t => (get_possible_moves s).any (fun sm => stepsTo n sm.1 t)

/-- `t` is reachable from `s` by some sequence of moves. -/
def Reachable (s t : State) : Prop := ∃ n, stepsTo n s t = true

/-- The per-node BFS invariant: the node's parent chain is a legal path
from `init`, its recorded cost counts that path's moves, it is the true
(minimal) distance from `init`, and the node's state has been visited. -/
def NodeInvB (init : State) (V : List State) (n : Node) : Prop :=
  n.valid init ∧ n.get_path.length = n.cost + 1 ∧ n.state ∈ V ∧
    stepsTo n.cost init n.state = true ∧
    ∀ j, stepsTo j init n.state = true → n.cost ≤ j

/-- The BFS loop invariant at layer `c`: the visited list has no
duplicates and contains only well-formed boards; every visited state is
still queued or fully expanded; every queued node satisfies `NodeInvB`;
the queue is `k` nodes of cost `c` followed by `l` of cost `c + 1`
(a nonempty queue starts at cost `c`); every state within distance `c`
of `init` has been visited. -/
def BfsInv (init : State) (q : List Node) (V : List State) (c : Nat) : Prop :=
  V.Nodup ∧
  (∀ t ∈ V, t.Perm (List.range 9)) ∧
  (∀ t ∈ V, (∃ n ∈ q, n.state = t) ∨ (∀ sm ∈ get_possible_moves t, sm.1 ∈ V)) ∧
  (∀ n ∈ q, NodeInvB init V n) ∧
  (∃ k l, q.map Node.cost = List.replicate k c ++ List.replicate l (c + 1) ∧
    (k = 0 → l = 0)) ∧
  (∀ s j, j ≤ c → stepsTo j init s = true → s ∈ V)

/-- The per-entry A* invariant: the node's path is legal from `init`,
its cost counts that path, the entry's priority is `cost + h(state)`, and
`g_scores` records a value no larger than the entry's cost for its state. -/
def EntryInv (init : State) (h : State → Nat) (gs : List (State × Nat))
    (en : HeapEntry) : Prop :=
  Node.valid init en.2.2 ∧ en.2.2.get_path.length = en.2.2.cost + 1 ∧
    stepsTo en.2.2.cost init en.2.2.state = true ∧
    en.1 = en.2.2.cost + h en.2.2.state ∧
    ∃ g', lookupScore gs en.2.2.state = some g' ∧ g' ≤ en.2.2.cost

/-- The A* loop invariant: every heap entry satisfies `EntryInv`; every
recorded `g_score` is achievable; every recorded state is closed or has a
heap entry at exactly its recorded score; every closed state is recorded
at its true minimal distance with all successors relaxed; the initial
state is recorded at 0; the goal has not been closed. -/
def AStarInv (init : State) (h : State → Nat) (open_set : List HeapEntry)
    (gs : List (State × Nat)) (closed : List State) : Prop :=
  (∀ en ∈ open_set, EntryInv init h gs en) ∧
  (∀ s g, lookupScore gs s = some g → stepsTo g init s = true) ∧
  (∀ s g, lookupScore gs s = some g →
    s ∈ closed ∨ ∃ en ∈ open_set, en.2.2.state = s ∧ en.2.2.cost = g) ∧
  (∀ s ∈ closed, ∃ g, lookupScore gs s = some g ∧ stepsTo g init s = true ∧
    (∀ j, stepsTo j init s = true → g ≤ j) ∧
    (∀ sm ∈ get_possible_moves s, ∃ gt, lookupScore gs sm.1 = some gt ∧ gt ≤ g + 1)) ∧
  (lookupScore gs init = some 0) ∧
  (goal_state ∉ closed)

/-! ## Lemmas and claim theorems -/

lemma countP_ext (p q : Nat → Bool) (l : List Nat) (h : ∀ a ∈ l, p a = q a) :
    l.countP p = l.countP q := by
  induction l with
  | nil => rfl
  | cons x xs ih =>
    rw [List.countP_cons, List.countP_cons, h x (by simp), ih (fun a ha => h a (by simp [ha]))]

lemma countP_cons_map_succ (q : Nat → Bool) (n : Nat) :
    (0 :: (List.range n).map Nat.succ).countP q
      = (List.range n).countP (fun j => q (j + 1)) + (if q 0 = true then 1 else 0) := by
  rw [List.countP_cons, List.countP_map]
  rfl

lemma countP_range_getD (l : List Nat) (p : Nat → Bool) :
    (List.range l.length).countP (fun j => p (l.getD j 0)) = l.countP p := by
  induction l with
  | nil => rfl
  | cons x xs ih =>
    rw [List.length_cons, List.range_succ_eq_map, countP_cons_map_succ, List.countP_cons]
    have h1 : ((List.range xs.length).countP fun j => p ((x :: xs).getD (j + 1) 0))
        = (List.range xs.length).countP fun j => p (xs.getD j 0) := by
      exact countP_ext _ _ _ (fun a _ => by rw [List.getD_cons_succ])
    rw [h1, ih]
    rfl

lemma countInversions_eq_inversionPairs (l : List Nat) :
    countInversions l = inversionPairs l := by
  induction l with
  | nil => rfl
  | cons x xs ih =>
    show xs.countP (fun y => decide (y < x)) + countInversions xs = _
    unfold inversionPairs
    rw [List.length_cons, List.range_succ_eq_map, List.map_cons, List.sum_cons,
      List.map_map]
    have h0 : (0 :: (List.range xs.length).map Nat.succ).countP
        (fun j => decide (0 < j) && decide ((x :: xs).getD j 0 < (x :: xs).getD 0 0))
        = xs.countP (fun y => decide (y < x)) := by
      rw [countP_cons_map_succ]
      have h1 : ((List.range xs.length).countP fun j =>
          decide (0 < j + 1) && decide ((x :: xs).getD (j + 1) 0 < (x :: xs).getD 0 0))
          = (List.range xs.length).countP fun j => decide (xs.getD j 0 < x) := by
        apply countP_ext
        intro a _
        rw [List.getD_cons_succ, List.getD_cons_zero]
        simp
      rw [h1, countP_range_getD xs (fun y => decide (y < x))]
      simp
    have h2 : ((List.range xs.length).map
        ((fun i => (0 :: (List.range xs.length).map Nat.succ).countP
          (fun j => decide (i < j) && decide ((x :: xs).getD j 0 < (x :: xs).getD i 0)))
            ∘ Nat.succ)).sum
        = inversionPairs xs := by
      unfold inversionPairs
      congr 1
      apply List.map_congr_left
      intro i _
      show (0 :: (List.range xs.length).map Nat.succ).countP
          (fun j => decide (i + 1 < j) && decide ((x :: xs).getD j 0 < (x :: xs).getD (i + 1) 0))
        = _
      rw [countP_cons_map_succ]
      have h3 : ((List.range xs.length).countP fun j =>
          decide (i + 1 < j + 1) && decide ((x :: xs).getD (j + 1) 0 < (x :: xs).getD (i + 1) 0))
          = (List.range xs.length).countP
              (fun j => decide (i < j) && decide (xs.getD j 0 < xs.getD i 0)) := by
        apply countP_ext
        intro a _
        rw [List.getD_cons_succ, List.getD_cons_succ]
        simp [Nat.succ_lt_succ_iff]
      rw [h3]
      simp
    rw [h0, h2, ih]

/-- C5: for every 9-element state that is a permutation of 0–8,
`is_solvable` returns `true` iff the number of inversions (pairs out of
ascending order) among the non-blank tiles is even. -/
theorem is_solvable_iff_even_inversion_pairs (s : State) (_h : s.Perm (List.range 9)) :
    is_solvable s = true ↔ inversionPairs (s.filter (fun t => t != 0)) % 2 = 0 := by
  unfold is_solvable
  rw [← countInversions_eq_inversionPairs]
  simp

/-- Witness for C5 at the goal state. -/
theorem is_solvable_iff_even_inversion_pairs_witness :
    goal_state.Perm (List.range 9) ∧
      (is_solvable goal_state = true ↔
        inversionPairs (goal_state.filter (fun t => t != 0)) % 2 = 0) :=
  ⟨by decide, is_solvable_iff_even_inversion_pairs goal_state (by decide)⟩

/-- C4: a state whose non-blank tiles have an odd inversion count makes
all four entry points return the unsolvable result `(none, 0, 0)`. -/
theorem odd_inversions_unsolvable_result (s : State)
    (h : inversionPairs (s.filter (fun t => t != 0)) % 2 = 1) :
    bfs s = (none, 0, 0) ∧ dfs s = (none, 0, 0) ∧
      a_star misplaced_tiles_heuristic s = (none, 0, 0) ∧
      a_star manhattan_distance_heuristic s = (none, 0, 0) := by
  rw [← countInversions_eq_inversionPairs] at h
  have hs : is_solvable s = false := by
    simp [is_solvable, h]
  refine ⟨?_, ?_, ?_, ?_⟩ <;> simp [bfs, dfs, a_star, hs]

/-- Witness for C4 at the odd-parity state `[2,1,3,4,5,6,7,8,0]`. -/
theorem odd_inversions_unsolvable_result_witness :
    inversionPairs (([2,1,3,4,5,6,7,8,0] : State).filter (fun t => t != 0)) % 2 = 1 ∧
      (bfs [2,1,3,4,5,6,7,8,0] = (none, 0, 0) ∧ dfs [2,1,3,4,5,6,7,8,0] = (none, 0, 0) ∧
        a_star misplaced_tiles_heuristic [2,1,3,4,5,6,7,8,0] = (none, 0, 0) ∧
        a_star manhattan_distance_heuristic [2,1,3,4,5,6,7,8,0] = (none, 0, 0)) :=
  ⟨by decide, odd_inversions_unsolvable_result [2,1,3,4,5,6,7,8,0] (by decide)⟩

/-- C6 fails as stated: on `[1,2,3,4,5,6,7,0,8]`, BFS does return a
two-element path, but it expands 4 nodes with a peak queue size of 5,
not 1 and 1. -/
theorem bfs_one_step_scenario_counterexample :
    ¬ ∃ p, bfs [1,2,3,4,5,6,7,0,8] = (some p, 1, 1) ∧ p.length = 2 := by
  intro hex
  obtain ⟨p, hp, _⟩ := hex
  have hb : bfs [1,2,3,4,5,6,7,0,8]
      = (some [([1,2,3,4,5,6,7,0,8], "Initial State"),
               ([1,2,3,4,5,6,7,8,0], "Right")], 4, 5) := by rfl
  rw [hb] at hp
  simp at hp

/-- C6 amended: on `[1,2,3,4,5,6,7,0,8]`, BFS returns the one-move path
(initial state, then the goal via "Right"), with 4 nodes expanded and a
peak queue size of 5. -/
theorem bfs_one_step_scenario :
    bfs [1,2,3,4,5,6,7,0,8]
      = (some [([1,2,3,4,5,6,7,0,8], "Initial State"),
               ([1,2,3,4,5,6,7,8,0], "Right")], 4, 5) := by rfl

lemma get_possible_moves_eq (s : State)
    (hlen : s.length = 9) (h0 : 0 ∈ s) :
    get_possible_moves s =
      (if 1 ≤ s.indexOf 0 / 3 then
        [(swapIdx s (s.indexOf 0) (s.indexOf 0 - 3), "Up")] else []) ++
      (if s.indexOf 0 / 3 + 1 < 3 then
        [(swapIdx s (s.indexOf 0) (s.indexOf 0 + 3), "Down")] else []) ++
      (if 1 ≤ s.indexOf 0 % 3 then
        [(swapIdx s (s.indexOf 0) (s.indexOf 0 - 1), "Left")] else []) ++
      (if s.indexOf 0 % 3 + 1 < 3 then
        [(swapIdx s (s.indexOf 0) (s.indexOf 0 + 1), "Right")] else []) := by
  have hbi : s.indexOf 0 < 9 := by
    have := List.indexOf_lt_length.mpr h0
    omega
  set bi := s.indexOf 0 with hbi_def
  interval_cases bi <;>
    simp [get_possible_moves, find_blank, directions, ← hbi_def, rows, cols, List.filterMap_cons, Int.toNat_ofNat]

/-- C7: on a well-formed board, the successor list is exactly: the blank
swapped with the tile above (emitted when the blank's row is positive),
below (row + 1 within bounds), to the left (column positive), and to the
right (column + 1 within bounds), labelled and ordered Up, Down, Left,
Right, with out-of-bounds directions omitted. -/
theorem get_possible_moves_characterization (s : State)
    (hlen : s.length = 9) (h0 : 0 ∈ s) :
    get_possible_moves s =
      (if 1 ≤ s.indexOf 0 / 3 then
        [(swapIdx s (s.indexOf 0) (s.indexOf 0 - 3), "Up")] else []) ++
      (if s.indexOf 0 / 3 + 1 < 3 then
        [(swapIdx s (s.indexOf 0) (s.indexOf 0 + 3), "Down")] else []) ++
      (if 1 ≤ s.indexOf 0 % 3 then
        [(swapIdx s (s.indexOf 0) (s.indexOf 0 - 1), "Left")] else []) ++
      (if s.indexOf 0 % 3 + 1 < 3 then
        [(swapIdx s (s.indexOf 0) (s.indexOf 0 + 1), "Right")] else []) :=
  get_possible_moves_eq s hlen h0
lemma swapIdx_length (l : List Nat) (i j : Nat) : (swapIdx l i j).length = l.length := by
  simp [swapIdx]

lemma swapIdx_getElem? (l : List Nat) (i j k : Nat) (hi : i < l.length) (hj : j < l.length) :
    (swapIdx l i j)[k]? =
      if k = j then some (l.getD i 0)
      else if k = i then some (l.getD j 0)
      else l[k]? := by
  unfold swapIdx
  rcases eq_or_ne k j with rfl | hkj
  · rw [List.getElem?_set_self (by simpa using hj), if_pos rfl]
  · rw [List.getElem?_set_ne (Ne.symm hkj), if_neg hkj]
    rcases eq_or_ne k i with rfl | hki
    · rw [List.getElem?_set_self (by simpa using hi), if_pos rfl]
    · rw [List.getElem?_set_ne (Ne.symm hki), if_neg hki]

lemma swapIdx_getD (l : List Nat) (i j k : Nat) (hi : i < l.length) (hj : j < l.length) :
    (swapIdx l i j).getD k 0 =
      if k = j then l.getD i 0 else if k = i then l.getD j 0 else l.getD k 0 := by
  rw [List.getD_eq_getElem?_getD, swapIdx_getElem? l i j k hi hj]
  rcases eq_or_ne k j with rfl | hkj
  · simp
  · rcases eq_or_ne k i with rfl | hki
    · simp [hkj]
    · simp [hkj, hki, List.getD_eq_getElem?_getD]

lemma swapIdx_swapIdx (l : List Nat) (i j : Nat) (hi : i < l.length) (hj : j < l.length) :
    swapIdx (swapIdx l i j) j i = l := by
  apply List.ext_getElem?_iff.mpr
  intro k
  have hi' : i < (swapIdx l i j).length := by rw [swapIdx_length]; exact hi
  have hj' : j < (swapIdx l i j).length := by rw [swapIdx_length]; exact hj
  rw [swapIdx_getElem? _ j i k hj' hi']
  by_cases hki : k = i
  · rw [if_pos hki, swapIdx_getD l i j j hi hj, if_pos rfl, hki,
      List.getD_eq_getElem l 0 hi, List.getElem?_eq_getElem hi]
  · rw [if_neg hki]
    by_cases hkj : k = j
    · rw [if_pos hkj, swapIdx_getD l i j i hi hj, hkj]
      by_cases hij : i = j
      · rw [if_pos hij, hij, List.getD_eq_getElem l 0 hj, List.getElem?_eq_getElem hj]
      · rw [if_neg hij, if_pos rfl, List.getD_eq_getElem l 0 hj, List.getElem?_eq_getElem hj]
    · rw [if_neg hkj, swapIdx_getElem? l i j k hi hj, if_neg hkj, if_neg hki]

lemma indexOf_eq_of_getElem? (l : List Nat) (a : Nat) (i : Nat)
    (hget : l[i]? = some a) (hbefore : ∀ k, k < i → l[k]? ≠ some a) :
    l.indexOf a = i := by
  induction l generalizing i with
  | nil => simp at hget
  | cons x xs ih =>
    cases i with
    | zero =>
      simp only [List.getElem?_cons_zero, Option.some.injEq] at hget
      subst hget
      exact List.indexOf_cons_self x xs
    | succ n =>
      have hx : x ≠ a := by
        have h0 := hbefore 0 (Nat.succ_pos n)
        simpa using h0
      rw [List.indexOf_cons_ne xs hx]
      have := ih n (by simpa using hget)
        (fun k hk => by
          have := hbefore (k + 1) (by omega)
          simpa using this)
      omega
lemma blank_facts (s : State) (h : s.Perm (List.range 9)) :
    s.indexOf 0 < 9 ∧ s.getD (s.indexOf 0) 0 = 0 ∧
      (∀ k, k < 9 → k ≠ s.indexOf 0 → s.getD k 0 ≠ 0) := by
  have hlen : s.length = 9 := by rw [h.length_eq, List.length_range]
  have h0 : 0 ∈ s := h.mem_iff.mpr (by simp)
  have hnd : s.Nodup := h.nodup_iff.mpr (List.nodup_range 9)
  have hbi : s.indexOf 0 < s.length := List.indexOf_lt_length.mpr h0
  have hbi0 : s[s.indexOf 0] = 0 := List.indexOf_get hbi
  refine ⟨by omega, ?_, ?_⟩
  · rw [List.getD_eq_getElem s 0 hbi]
    exact hbi0
  · intro k hk hkb hc
    have hk' : k < s.length := by omega
    rw [List.getD_eq_getElem s 0 hk'] at hc
    exact hkb ((List.Nodup.getElem_inj_iff hnd).mp (hc.trans hbi0.symm))

lemma mem_if_singleton (c : Prop) [Decidable c] (x a : State × String)
    (h : a ∈ (if c then [x] else [])) : c ∧ a = x := by
  by_cases hc : c
  · rw [if_pos hc] at h
    exact ⟨hc, by simpa using h⟩
  · rw [if_neg hc] at h
    simp at h

lemma mem_get_possible_moves (s : State) (hlen : s.length = 9) (h0 : 0 ∈ s)
    (sm : State × String) (hm : sm ∈ get_possible_moves s) :
    (1 ≤ s.indexOf 0 / 3 ∧ sm = (swapIdx s (s.indexOf 0) (s.indexOf 0 - 3), "Up")) ∨
    (s.indexOf 0 / 3 + 1 < 3 ∧ sm = (swapIdx s (s.indexOf 0) (s.indexOf 0 + 3), "Down")) ∨
    (1 ≤ s.indexOf 0 % 3 ∧ sm = (swapIdx s (s.indexOf 0) (s.indexOf 0 - 1), "Left")) ∨
    (s.indexOf 0 % 3 + 1 < 3 ∧ sm = (swapIdx s (s.indexOf 0) (s.indexOf 0 + 1), "Right")) := by
  rw [get_possible_moves_eq s hlen h0] at hm
  rcases List.mem_append.mp hm with habc | h4
  · rcases List.mem_append.mp habc with hab | h3
    · rcases List.mem_append.mp hab with h1 | h2
      · exact Or.inl (mem_if_singleton _ _ _ h1)
      · exact Or.inr (Or.inl (mem_if_singleton _ _ _ h2))
    · exact Or.inr (Or.inr (Or.inl (mem_if_singleton _ _ _ h3)))
  · exact Or.inr (Or.inr (Or.inr (mem_if_singleton _ _ _ h4)))

lemma swap_blank_facts (s : State) (h : s.Perm (List.range 9)) (ni : Nat)
    (hni : ni < 9) (hnib : ni ≠ s.indexOf 0) :
    (swapIdx s (s.indexOf 0) ni).length = 9 ∧ 0 ∈ swapIdx s (s.indexOf 0) ni ∧
      (swapIdx s (s.indexOf 0) ni).indexOf 0 = ni := by
  obtain ⟨hbi, hget, huniq⟩ := blank_facts s h
  have hlen : s.length = 9 := by rw [h.length_eq, List.length_range]
  have hmni : (swapIdx s (s.indexOf 0) ni)[ni]? = some 0 := by
    rw [swapIdx_getElem? s (s.indexOf 0) ni ni (by omega) (by omega), if_pos rfl, hget]
  refine ⟨by rw [swapIdx_length, hlen], List.getElem?_mem hmni, ?_⟩
  apply indexOf_eq_of_getElem? _ 0 ni hmni
  intro k hk hc
  rw [swapIdx_getElem? s (s.indexOf 0) ni k (by omega) (by omega), if_neg (by omega)] at hc
  by_cases hkb : k = s.indexOf 0
  · rw [if_pos hkb] at hc
    exact huniq ni hni hnib (Option.some.inj hc)
  · rw [if_neg hkb] at hc
    have : s.getD k 0 = 0 := by
      rw [List.getD_eq_getElem?_getD, hc]
      rfl
    exact huniq k (by omega) hkb this

lemma moves_reversible_aux (s : State) (h : s.Perm (List.range 9)) :
    ∀ sm ∈ get_possible_moves s,
      (s, inverseMoveLabel sm.2) ∈ get_possible_moves sm.1 := by
  intro sm hm
  have hlen : s.length = 9 := by rw [h.length_eq, List.length_range]
  have h0 : 0 ∈ s := h.mem_iff.mpr (by simp)
  obtain ⟨hbi, hget, huniq⟩ := blank_facts s h
  have hblen : s.indexOf 0 < s.length := by omega
  rcases mem_get_possible_moves s hlen h0 sm hm with
    ⟨hc, he⟩ | ⟨hc, he⟩ | ⟨hc, he⟩ | ⟨hc, he⟩ <;> subst he
  · -- Up: inverse is Down at new blank index bi - 3
    obtain ⟨hl', h0', hidx'⟩ := swap_blank_facts s h (s.indexOf 0 - 3) (by omega) (by omega)
    show (s, "Down") ∈ _
    rw [get_possible_moves_eq _ hl' h0', hidx']
    refine List.mem_append.mpr (Or.inl (List.mem_append.mpr (Or.inl
      (List.mem_append.mpr (Or.inr ?_)))))
    rw [if_pos (by omega)]
    have h3 : s.indexOf 0 - 3 + 3 = s.indexOf 0 := by omega
    rw [h3, swapIdx_swapIdx s (s.indexOf 0) (s.indexOf 0 - 3) hblen (by omega)]
    exact List.mem_singleton.mpr rfl
  · -- Down: inverse is Up at new blank index bi + 3
    obtain ⟨hl', h0', hidx'⟩ := swap_blank_facts s h (s.indexOf 0 + 3) (by omega) (by omega)
    show (s, "Up") ∈ _
    rw [get_possible_moves_eq _ hl' h0', hidx']
    refine List.mem_append.mpr (Or.inl (List.mem_append.mpr (Or.inl
      (List.mem_append.mpr (Or.inl ?_)))))
    rw [if_pos (by omega)]
    have h3 : s.indexOf 0 + 3 - 3 = s.indexOf 0 := by omega
    rw [h3, swapIdx_swapIdx s (s.indexOf 0) (s.indexOf 0 + 3) hblen (by omega)]
    exact List.mem_singleton.mpr rfl
  · -- Left: inverse is Right at new blank index bi - 1
    obtain ⟨hl', h0', hidx'⟩ := swap_blank_facts s h (s.indexOf 0 - 1) (by omega) (by omega)
    show (s, "Right") ∈ _
    rw [get_possible_moves_eq _ hl' h0', hidx']
    refine List.mem_append.mpr (Or.inr ?_)
    rw [if_pos (by omega)]
    have h1 : s.indexOf 0 - 1 + 1 = s.indexOf 0 := by omega
    rw [h1, swapIdx_swapIdx s (s.indexOf 0) (s.indexOf 0 - 1) hblen (by omega)]
    exact List.mem_singleton.mpr rfl
  · -- Right: inverse is Left at new blank index bi + 1
    obtain ⟨hl', h0', hidx'⟩ := swap_blank_facts s h (s.indexOf 0 + 1) (by omega) (by omega)
    show (s, "Left") ∈ _
    rw [get_possible_moves_eq _ hl' h0', hidx']
    refine List.mem_append.mpr (Or.inl (List.mem_append.mpr (Or.inr ?_)))
    rw [if_pos (by omega)]
    have h1 : s.indexOf 0 + 1 - 1 = s.indexOf 0 := by omega
    rw [h1, swapIdx_swapIdx s (s.indexOf 0) (s.indexOf 0 + 1) hblen (by omega)]
    exact List.mem_singleton.mpr rfl
/-- Witness for C7 at the goal state (blank bottom-right: only Up and
Left are offered). -/
theorem get_possible_moves_characterization_witness :
    ([1,2,3,4,5,6,7,8,0] : State).length = 9 ∧ (0 ∈ ([1,2,3,4,5,6,7,8,0] : State)) ∧
      get_possible_moves [1,2,3,4,5,6,7,8,0] =
        (if 1 ≤ ([1,2,3,4,5,6,7,8,0] : State).indexOf 0 / 3 then
          [(swapIdx [1,2,3,4,5,6,7,8,0] (([1,2,3,4,5,6,7,8,0] : State).indexOf 0)
              (([1,2,3,4,5,6,7,8,0] : State).indexOf 0 - 3), "Up")] else []) ++
        (if ([1,2,3,4,5,6,7,8,0] : State).indexOf 0 / 3 + 1 < 3 then
          [(swapIdx [1,2,3,4,5,6,7,8,0] (([1,2,3,4,5,6,7,8,0] : State).indexOf 0)
              (([1,2,3,4,5,6,7,8,0] : State).indexOf 0 + 3), "Down")] else []) ++
        (if 1 ≤ ([1,2,3,4,5,6,7,8,0] : State).indexOf 0 % 3 then
          [(swapIdx [1,2,3,4,5,6,7,8,0] (([1,2,3,4,5,6,7,8,0] : State).indexOf 0)
              (([1,2,3,4,5,6,7,8,0] : State).indexOf 0 - 1), "Left")] else []) ++
        (if ([1,2,3,4,5,6,7,8,0] : State).indexOf 0 % 3 + 1 < 3 then
          [(swapIdx [1,2,3,4,5,6,7,8,0] (([1,2,3,4,5,6,7,8,0] : State).indexOf 0)
              (([1,2,3,4,5,6,7,8,0] : State).indexOf 0 + 1), "Right")] else []) :=
  ⟨rfl, by decide, get_possible_moves_characterization [1,2,3,4,5,6,7,8,0] rfl (by decide)⟩

/-- C9: moves round-trip: every successor `(s', m)` of a well-formed
state `s` offers `(s, m⁻¹)` among its own successors, where `m⁻¹` is the
opposite direction label. -/
theorem moves_reversible (s : State) (h : s.Perm (List.range 9)) :
    ∀ sm ∈ get_possible_moves s,
      (s, inverseMoveLabel sm.2) ∈ get_possible_moves sm.1 :=
  moves_reversible_aux s h

/-- Witness for C9 at the state `[1,2,3,4,5,6,7,0,8]`. -/
theorem moves_reversible_witness :
    ([1,2,3,4,5,6,7,0,8] : State).Perm (List.range 9) ∧
      ∀ sm ∈ get_possible_moves [1,2,3,4,5,6,7,0,8],
        (([1,2,3,4,5,6,7,0,8] : State), inverseMoveLabel sm.2) ∈ get_possible_moves sm.1 :=
  ⟨by decide, moves_reversible [1,2,3,4,5,6,7,0,8] (by decide)⟩

lemma foldl_add (f : Nat → Nat) (g : Nat → Nat → Nat) (hg : ∀ a i, g a i = a + f i)
    (l : List Nat) (acc : Nat) : l.foldl g acc = acc + (l.map f).sum := by
  induction l generalizing acc with
  | nil => simp
  | cons x xs ih =>
    rw [List.foldl_cons, ih, hg, List.map_cons, List.sum_cons]
    omega

lemma sum_map_range (f : Nat → Nat) (n : Nat) :
    ((List.range n).map f).sum = ∑ i in Finset.range n, f i := by
  induction n with
  | zero => simp
  | succ n ih =>
    rw [List.range_succ, List.map_append, List.sum_append, Finset.sum_range_succ, ih]
    simp

lemma misplaced_eq_sum (s : State) :
    misplaced_tiles_heuristic s = ∑ i in Finset.range 9, misplacedContrib (s.getD i 0) i := by
  rw [misplaced_tiles_heuristic,
    foldl_add (fun i => misplacedContrib (s.getD i 0) i) _
      (fun a i => by dsimp only [misplacedContrib]; split_ifs <;> omega) (List.range 9) 0,
    sum_map_range]
  omega

lemma manhattan_eq_sum (s : State) :
    manhattan_distance_heuristic s
      = ∑ i in Finset.range 9, manhattanContrib (s.getD i 0) i := by
  rw [manhattan_distance_heuristic,
    foldl_add (fun i => manhattanContrib (s.getD i 0) i) _
      (fun a i => by dsimp only [manhattanContrib]; split_ifs <;> omega) (List.range 9) 0,
    sum_map_range]
  omega

lemma sum_swap_blank (f : Nat → Nat → Nat) (hf0 : ∀ i, f 0 i = 0) (s : State)
    (bi ni : Nat) (hbi : bi < 9) (hni : ni < 9) (hne : bi ≠ ni) (hlen : s.length = 9)
    (hblank : s.getD bi 0 = 0) :
    (∑ i in Finset.range 9, f ((swapIdx s bi ni).getD i 0) i) + f (s.getD ni 0) ni
      = (∑ i in Finset.range 9, f (s.getD i 0) i) + f (s.getD ni 0) bi := by
  have hbl : bi < s.length := by omega
  have hnl : ni < s.length := by omega
  have hbm : bi ∈ Finset.range 9 := Finset.mem_range.mpr hbi
  have hnm : ni ∈ (Finset.range 9).erase bi :=
    Finset.mem_erase.mpr ⟨Ne.symm hne, Finset.mem_range.mpr hni⟩
  rw [← Finset.sum_erase_add (Finset.range 9)
      (fun i => f ((swapIdx s bi ni).getD i 0) i) hbm,
    ← Finset.sum_erase_add ((Finset.range 9).erase bi)
      (fun i => f ((swapIdx s bi ni).getD i 0) i) hnm,
    ← Finset.sum_erase_add (Finset.range 9) (fun i => f (s.getD i 0) i) hbm,
    ← Finset.sum_erase_add ((Finset.range 9).erase bi) (fun i => f (s.getD i 0) i) hnm]
  have hA : ∑ m in ((Finset.range 9).erase bi).erase ni,
      f ((swapIdx s bi ni).getD m 0) m
      = ∑ m in ((Finset.range 9).erase bi).erase ni, f (s.getD m 0) m := by
    apply Finset.sum_congr rfl
    intro m hmem
    have hmni : m ≠ ni := (Finset.mem_erase.mp hmem).1
    have hmbi : m ≠ bi := (Finset.mem_erase.mp (Finset.mem_erase.mp hmem).2).1
    rw [swapIdx_getD s bi ni m hbl hnl, if_neg hmni, if_neg hmbi]
  have hFni : f ((swapIdx s bi ni).getD ni 0) ni = 0 := by
    rw [swapIdx_getD s bi ni ni hbl hnl, if_pos rfl, hblank, hf0]
  have hFbi : f ((swapIdx s bi ni).getD bi 0) bi = f (s.getD ni 0) bi := by
    rw [swapIdx_getD s bi ni bi hbl hnl, if_neg hne, if_pos rfl]
  have hFbi0 : f (s.getD bi 0) bi = 0 := by rw [hblank, hf0]
  rw [hA, hFni, hFbi, hFbi0]
  omega

lemma misplacedContrib_le_one (t i : Nat) : misplacedContrib t i ≤ 1 := by
  unfold misplacedContrib
  split_ifs <;> omega

lemma heuristics_consistent_aux (s : State) (h : s.Perm (List.range 9)) :
    ∀ sm ∈ get_possible_moves s,
      ((misplaced_tiles_heuristic s : Int) - (misplaced_tiles_heuristic sm.1 : Int)).natAbs ≤ 1
      ∧ ((manhattan_distance_heuristic s : Int)
          - (manhattan_distance_heuristic sm.1 : Int)).natAbs ≤ 1 := by
  intro sm hm
  have hlen : s.length = 9 := by rw [h.length_eq, List.length_range]
  have h0 : 0 ∈ s := h.mem_iff.mpr (by simp)
  obtain ⟨hbi, hget, huniq⟩ := blank_facts s h
  have main : ∀ ni, ni < 9 → ni ≠ s.indexOf 0 →
      (∀ t, t ≠ 0 →
        ((manhattanContrib t (s.indexOf 0) : Int) - (manhattanContrib t ni : Int)).natAbs ≤ 1) →
      ((misplaced_tiles_heuristic s : Int)
          - (misplaced_tiles_heuristic (swapIdx s (s.indexOf 0) ni) : Int)).natAbs ≤ 1
      ∧ ((manhattan_distance_heuristic s : Int)
          - (manhattan_distance_heuristic (swapIdx s (s.indexOf 0) ni) : Int)).natAbs ≤ 1 := by
    intro ni hni hne hadj
    have ht : s.getD ni 0 ≠ 0 := huniq ni hni hne
    constructor
    · have hsum := sum_swap_blank misplacedContrib (fun i => by simp [misplacedContrib])
        s (s.indexOf 0) ni hbi hni (Ne.symm hne) hlen hget
      rw [← misplaced_eq_sum, ← misplaced_eq_sum] at hsum
      have b1 := misplacedContrib_le_one (s.getD ni 0) ni
      have b2 := misplacedContrib_le_one (s.getD ni 0) (s.indexOf 0)
      omega
    · have hsum := sum_swap_blank manhattanContrib (fun i => by simp [manhattanContrib])
        s (s.indexOf 0) ni hbi hni (Ne.symm hne) hlen hget
      rw [← manhattan_eq_sum, ← manhattan_eq_sum] at hsum
      have hb := hadj (s.getD ni 0) ht
      omega
  rcases mem_get_possible_moves s hlen h0 sm hm with
    ⟨hc, he⟩ | ⟨hc, he⟩ | ⟨hc, he⟩ | ⟨hc, he⟩ <;> subst he
  · exact main (s.indexOf 0 - 3) (by omega) (by omega)
      (fun t htz => by unfold manhattanContrib; rw [if_neg htz, if_neg htz]; simp only [cols]; omega)
  · exact main (s.indexOf 0 + 3) (by omega) (by omega)
      (fun t htz => by unfold manhattanContrib; rw [if_neg htz, if_neg htz]; simp only [cols]; omega)
  · exact main (s.indexOf 0 - 1) (by omega) (by omega)
      (fun t htz => by unfold manhattanContrib; rw [if_neg htz, if_neg htz]; simp only [cols]; omega)
  · exact main (s.indexOf 0 + 1) (by omega) (by omega)
      (fun t htz => by unfold manhattanContrib; rw [if_neg htz, if_neg htz]; simp only [cols]; omega)

/-- C8: both heuristics change by at most 1 along a single move: they are
consistent with the unit move cost. -/
theorem heuristics_consistent (s : State) (h : s.Perm (List.range 9)) :
    ∀ sm ∈ get_possible_moves s,
      ((misplaced_tiles_heuristic s : Int) - (misplaced_tiles_heuristic sm.1 : Int)).natAbs ≤ 1
      ∧ ((manhattan_distance_heuristic s : Int)
          - (manhattan_distance_heuristic sm.1 : Int)).natAbs ≤ 1 :=
  heuristics_consistent_aux s h

/-- Witness for C8 at the state `[1,2,3,4,5,6,7,0,8]`. -/
theorem heuristics_consistent_witness :
    ([1,2,3,4,5,6,7,0,8] : State).Perm (List.range 9) ∧
      ∀ sm ∈ get_possible_moves [1,2,3,4,5,6,7,0,8],
        ((misplaced_tiles_heuristic [1,2,3,4,5,6,7,0,8] : Int)
            - (misplaced_tiles_heuristic sm.1 : Int)).natAbs ≤ 1
        ∧ ((manhattan_distance_heuristic [1,2,3,4,5,6,7,0,8] : Int)
            - (manhattan_distance_heuristic sm.1 : Int)).natAbs ≤ 1 :=
  ⟨by decide, heuristics_consistent [1,2,3,4,5,6,7,0,8] (by decide)⟩

lemma countInversions_rotate3 (x y t : Nat) (htx : t ≠ x) (hty : t ≠ y) :
    ∀ l1 l2, countInversions (l1 ++ x :: y :: t :: l2) % 2
      = countInversions (l1 ++ t :: x :: y :: l2) % 2 := by
  intro l1
  induction l1 with
  | nil =>
    intro l2
    simp only [List.nil_append, countInversions, List.countP_cons, decide_eq_true_eq]
    split_ifs <;> omega
  | cons a l1 ih =>
    intro l2
    simp only [List.cons_append, countInversions, List.append_eq]
    have hcp : (l1 ++ x :: y :: t :: l2).countP (fun v => decide (v < a))
        = (l1 ++ t :: x :: y :: l2).countP (fun v => decide (v < a)) := by
      rw [List.countP_append, List.countP_append, List.countP_cons, List.countP_cons,
        List.countP_cons, List.countP_cons, List.countP_cons, List.countP_cons]
      omega
    rw [hcp]
    have hih := ih l2
    omega

lemma swapIdx_append_zero (l1 D : List Nat) (j : Nat) :
    swapIdx (l1 ++ D) l1.length (l1.length + j) = l1 ++ swapIdx D 0 j := by
  unfold swapIdx
  rw [List.getD_append_right l1 D 0 (l1.length + j) (by omega),
    List.getD_append_right l1 D 0 l1.length (by omega),
    Nat.add_sub_cancel_left, Nat.sub_self,
    List.set_append, if_neg (by omega), Nat.sub_self,
    List.set_append, if_neg (by omega), Nat.add_sub_cancel_left]

lemma swapIdx_append_zro (l1 D : List Nat) (j : Nat) :
    swapIdx (l1 ++ D) (l1.length + j) l1.length = l1 ++ swapIdx D j 0 := by
  unfold swapIdx
  rw [List.getD_append_right l1 D 0 (l1.length + j) (by omega),
    List.getD_append_right l1 D 0 l1.length (by omega),
    Nat.add_sub_cancel_left, Nat.sub_self,
    List.set_append, if_neg (by omega), Nat.add_sub_cancel_left,
    List.set_append, if_neg (by omega), Nat.sub_self]
lemma drop_eq_getD_cons (l : List Nat) (n : Nat) (h : n < l.length) :
    l.drop n = l.getD n 0 :: l.drop (n + 1) := by
  rw [List.drop_eq_getElem_cons h, List.getD_eq_getElem l 0 h]

lemma is_solvable_invariant_aux (s : State) (h : s.Perm (List.range 9)) :
    ∀ sm ∈ get_possible_moves s, is_solvable sm.1 = is_solvable s := by
  intro sm hm
  have hlen : s.length = 9 := by rw [h.length_eq, List.length_range]
  have h0 : 0 ∈ s := h.mem_iff.mpr (by simp)
  have hnd : s.Nodup := h.nodup_iff.mpr (List.nodup_range 9)
  obtain ⟨hbi, hget, huniq⟩ := blank_facts s h
  have hdist : ∀ k1 k2 : Nat, k1 < 9 → k2 < 9 → k1 ≠ k2 →
      s.getD k1 0 ≠ s.getD k2 0 := by
    intro k1 k2 hk1 hk2 hne hE
    rw [List.getD_eq_getElem s 0 (show k1 < s.length by omega),
      List.getD_eq_getElem s 0 (show k2 < s.length by omega)] at hE
    exact hne ((List.Nodup.getElem_inj_iff hnd).mp hE)
  have hfilter_true : ∀ k : Nat, k < 9 → k ≠ s.indexOf 0 →
      ((s.getD k 0 != 0) = true) := by
    intro k hk hkb
    simpa using huniq k hk hkb
  rcases mem_get_possible_moves s hlen h0 sm hm with
    ⟨hc, he⟩ | ⟨hc, he⟩ | ⟨hc, he⟩ | ⟨hc, he⟩ <;> subst he
  · -- Up: the blank (at index bi = ni + 3) jumps backwards over two tiles
    have hge3 : 3 ≤ s.indexOf 0 := by omega
    have htake : (s.take (s.indexOf 0 - 3)).length = s.indexOf 0 - 3 := by
      rw [List.length_take]; omega
    have e1 : s.indexOf 0 - 3 + 1 = s.indexOf 0 - 2 := by omega
    have e2 : s.indexOf 0 - 2 + 1 = s.indexOf 0 - 1 := by omega
    have e3 : s.indexOf 0 - 1 + 1 = s.indexOf 0 := by omega
    have hd : s.drop (s.indexOf 0 - 3)
        = s.getD (s.indexOf 0 - 3) 0 :: s.getD (s.indexOf 0 - 2) 0
            :: s.getD (s.indexOf 0 - 1) 0 :: s.getD (s.indexOf 0) 0
            :: s.drop (s.indexOf 0 + 1) := by
      rw [drop_eq_getD_cons s (s.indexOf 0 - 3) (by omega), e1,
        drop_eq_getD_cons s (s.indexOf 0 - 2) (by omega), e2,
        drop_eq_getD_cons s (s.indexOf 0 - 1) (by omega), e3,
        drop_eq_getD_cons s (s.indexOf 0) (by omega)]
    have hs_eq : s = s.take (s.indexOf 0 - 3)
        ++ (s.getD (s.indexOf 0 - 3) 0 :: s.getD (s.indexOf 0 - 2) 0
            :: s.getD (s.indexOf 0 - 1) 0 :: s.getD (s.indexOf 0) 0
            :: s.drop (s.indexOf 0 + 1)) := by
      conv_lhs => rw [← List.take_append_drop (s.indexOf 0 - 3) s]
      rw [hd]
    have hswap : swapIdx s (s.indexOf 0) (s.indexOf 0 - 3)
        = s.take (s.indexOf 0 - 3)
          ++ (s.getD (s.indexOf 0) 0 :: s.getD (s.indexOf 0 - 2) 0
              :: s.getD (s.indexOf 0 - 1) 0 :: s.getD (s.indexOf 0 - 3) 0
              :: s.drop (s.indexOf 0 + 1)) := by
      have key := swapIdx_append_zro (s.take (s.indexOf 0 - 3))
        (s.getD (s.indexOf 0 - 3) 0 :: s.getD (s.indexOf 0 - 2) 0
          :: s.getD (s.indexOf 0 - 1) 0 :: s.getD (s.indexOf 0) 0
          :: s.drop (s.indexOf 0 + 1)) 3
      rw [htake] at key
      have e4 : s.indexOf 0 - 3 + 3 = s.indexOf 0 := by omega
      rw [e4, ← hs_eq] at key
      rw [key]
      rfl
    show is_solvable (swapIdx s (s.indexOf 0) (s.indexOf 0 - 3)) = is_solvable s
    rw [hswap]
    conv_rhs => rw [hs_eq]
    simp only [is_solvable, List.filter_append, List.filter_cons, hget,
      hfilter_true (s.indexOf 0 - 3) (by omega) (by omega),
      hfilter_true (s.indexOf 0 - 2) (by omega) (by omega),
      hfilter_true (s.indexOf 0 - 1) (by omega) (by omega),
      bne_self_eq_false, Bool.false_eq_true, if_false, if_true]
    have hpar := countInversions_rotate3
      (s.getD (s.indexOf 0 - 2) 0) (s.getD (s.indexOf 0 - 1) 0) (s.getD (s.indexOf 0 - 3) 0)
      (hdist _ _ (by omega) (by omega) (by omega))
      (hdist _ _ (by omega) (by omega) (by omega))
      ((s.take (s.indexOf 0 - 3)).filter (fun t => t != 0))
      ((s.drop (s.indexOf 0 + 1)).filter (fun t => t != 0))
    rw [hpar]
  · -- Down: the blank (at index bi) jumps forwards over two tiles
    have hle5 : s.indexOf 0 + 3 < 9 := by omega
    have htake : (s.take (s.indexOf 0)).length = s.indexOf 0 := by
      rw [List.length_take]; omega
    have hd : s.drop (s.indexOf 0)
        = s.getD (s.indexOf 0) 0 :: s.getD (s.indexOf 0 + 1) 0
            :: s.getD (s.indexOf 0 + 2) 0 :: s.getD (s.indexOf 0 + 3) 0
            :: s.drop (s.indexOf 0 + 4) := by
      rw [drop_eq_getD_cons s (s.indexOf 0) (by omega),
        drop_eq_getD_cons s (s.indexOf 0 + 1) (by omega),
        drop_eq_getD_cons s (s.indexOf 0 + 2) (by omega),
        drop_eq_getD_cons s (s.indexOf 0 + 3) (by omega)]
    have hs_eq : s = s.take (s.indexOf 0)
        ++ (s.getD (s.indexOf 0) 0 :: s.getD (s.indexOf 0 + 1) 0
            :: s.getD (s.indexOf 0 + 2) 0 :: s.getD (s.indexOf 0 + 3) 0
            :: s.drop (s.indexOf 0 + 4)) := by
      conv_lhs => rw [← List.take_append_drop (s.indexOf 0) s]
      rw [hd]
    have hswap : swapIdx s (s.indexOf 0) (s.indexOf 0 + 3)
        = s.take (s.indexOf 0)
          ++ (s.getD (s.indexOf 0 + 3) 0 :: s.getD (s.indexOf 0 + 1) 0
              :: s.getD (s.indexOf 0 + 2) 0 :: s.getD (s.indexOf 0) 0
              :: s.drop (s.indexOf 0 + 4)) := by
      have key := swapIdx_append_zero (s.take (s.indexOf 0))
        (s.getD (s.indexOf 0) 0 :: s.getD (s.indexOf 0 + 1) 0
          :: s.getD (s.indexOf 0 + 2) 0 :: s.getD (s.indexOf 0 + 3) 0
          :: s.drop (s.indexOf 0 + 4)) 3
      rw [htake, ← hs_eq] at key
      rw [key]
      rfl
    show is_solvable (swapIdx s (s.indexOf 0) (s.indexOf 0 + 3)) = is_solvable s
    rw [hswap]
    conv_rhs => rw [hs_eq]
    simp only [is_solvable, List.filter_append, List.filter_cons, hget,
      hfilter_true (s.indexOf 0 + 1) (by omega) (by omega),
      hfilter_true (s.indexOf 0 + 2) (by omega) (by omega),
      hfilter_true (s.indexOf 0 + 3) (by omega) (by omega),
      bne_self_eq_false, Bool.false_eq_true, if_false, if_true]
    have hpar := countInversions_rotate3
      (s.getD (s.indexOf 0 + 1) 0) (s.getD (s.indexOf 0 + 2) 0) (s.getD (s.indexOf 0 + 3) 0)
      (hdist _ _ (by omega) (by omega) (by omega))
      (hdist _ _ (by omega) (by omega) (by omega))
      ((s.take (s.indexOf 0)).filter (fun t => t != 0))
      ((s.drop (s.indexOf 0 + 4)).filter (fun t => t != 0))
    rw [← hpar]
  · -- Left: the blank swaps with its left neighbour in the same row
    have hge1 : 1 ≤ s.indexOf 0 := by omega
    have htake : (s.take (s.indexOf 0 - 1)).length = s.indexOf 0 - 1 := by
      rw [List.length_take]; omega
    have e1 : s.indexOf 0 - 1 + 1 = s.indexOf 0 := by omega
    have hd : s.drop (s.indexOf 0 - 1)
        = s.getD (s.indexOf 0 - 1) 0 :: s.getD (s.indexOf 0) 0
            :: s.drop (s.indexOf 0 + 1) := by
      rw [drop_eq_getD_cons s (s.indexOf 0 - 1) (by omega), e1,
        drop_eq_getD_cons s (s.indexOf 0) (by omega)]
    have hs_eq : s = s.take (s.indexOf 0 - 1)
        ++ (s.getD (s.indexOf 0 - 1) 0 :: s.getD (s.indexOf 0) 0
            :: s.drop (s.indexOf 0 + 1)) := by
      conv_lhs => rw [← List.take_append_drop (s.indexOf 0 - 1) s]
      rw [hd]
    have hswap : swapIdx s (s.indexOf 0) (s.indexOf 0 - 1)
        = s.take (s.indexOf 0 - 1)
          ++ (s.getD (s.indexOf 0) 0 :: s.getD (s.indexOf 0 - 1) 0
              :: s.drop (s.indexOf 0 + 1)) := by
      have key := swapIdx_append_zro (s.take (s.indexOf 0 - 1))
        (s.getD (s.indexOf 0 - 1) 0 :: s.getD (s.indexOf 0) 0
          :: s.drop (s.indexOf 0 + 1)) 1
      rw [htake, e1, ← hs_eq] at key
      rw [key]
      rfl
    show is_solvable (swapIdx s (s.indexOf 0) (s.indexOf 0 - 1)) = is_solvable s
    rw [hswap]
    conv_rhs => rw [hs_eq]
    simp only [is_solvable, List.filter_append, List.filter_cons, hget,
      hfilter_true (s.indexOf 0 - 1) (by omega) (by omega),
      bne_self_eq_false, Bool.false_eq_true, if_false, if_true]
  · -- Right: the blank swaps with its right neighbour in the same row
    have hlt8 : s.indexOf 0 + 1 < 9 := by omega
    have htake : (s.take (s.indexOf 0)).length = s.indexOf 0 := by
      rw [List.length_take]; omega
    have hd : s.drop (s.indexOf 0)
        = s.getD (s.indexOf 0) 0 :: s.getD (s.indexOf 0 + 1) 0
            :: s.drop (s.indexOf 0 + 2) := by
      rw [drop_eq_getD_cons s (s.indexOf 0) (by omega),
        drop_eq_getD_cons s (s.indexOf 0 + 1) (by omega)]
    have hs_eq : s = s.take (s.indexOf 0)
        ++ (s.getD (s.indexOf 0) 0 :: s.getD (s.indexOf 0 + 1) 0
            :: s.drop (s.indexOf 0 + 2)) := by
      conv_lhs => rw [← List.take_append_drop (s.indexOf 0) s]
      rw [hd]
    have hswap : swapIdx s (s.indexOf 0) (s.indexOf 0 + 1)
        = s.take (s.indexOf 0)
          ++ (s.getD (s.indexOf 0 + 1) 0 :: s.getD (s.indexOf 0) 0
              :: s.drop (s.indexOf 0 + 2)) := by
      have key := swapIdx_append_zero (s.take (s.indexOf 0))
        (s.getD (s.indexOf 0) 0 :: s.getD (s.indexOf 0 + 1) 0
          :: s.drop (s.indexOf 0 + 2)) 1
      rw [htake, ← hs_eq] at key
      rw [key]
      rfl
    show is_solvable (swapIdx s (s.indexOf 0) (s.indexOf 0 + 1)) = is_solvable s
    rw [hswap]
    conv_rhs => rw [hs_eq]
    simp only [is_solvable, List.filter_append, List.filter_cons, hget,
      hfilter_true (s.indexOf 0 + 1) (by omega) (by omega),
      bne_self_eq_false, Bool.false_eq_true, if_false, if_true]

/-- C10: sliding the blank never changes the value of `is_solvable`:
horizontal moves leave the non-blank tile sequence unchanged, and
vertical moves slide one tile across two others, which changes the
inversion count by an even amount. -/
theorem is_solvable_invariant (s : State) (h : s.Perm (List.range 9)) :
    ∀ sm ∈ get_possible_moves s, is_solvable sm.1 = is_solvable s :=
  is_solvable_invariant_aux s h

/-- Witness for C10 at the state `[1,2,3,4,5,6,7,0,8]`. -/

theorem is_solvable_invariant_witness :
    ([1,2,3,4,5,6,7,0,8] : State).Perm (List.range 9) ∧
      ∀ sm ∈ get_possible_moves [1,2,3,4,5,6,7,0,8],
        is_solvable sm.1 = is_solvable [1,2,3,4,5,6,7,0,8] :=
  ⟨by decide, is_solvable_invariant [1,2,3,4,5,6,7,0,8] (by decide)⟩

lemma get_path_head (init : State) (n : Node) (h : n.valid init) :
    n.get_path.head? = some (init, "Initial State") := by
  induction n with
  | root s =>
    unfold Node.valid at h
    subst h
    rfl
  | child s p a c ih =>
    unfold Node.valid at h
    rw [Node.get_path, List.head?_append, ih h.1]
    rfl

lemma get_path_last (n : Node) :
    ∃ lab, n.get_path.getLast? = some (n.state, lab) := by
  cases n with
  | root s => exact ⟨"Initial State", rfl⟩
  | child s p a c => exact ⟨a, List.getLast?_concat _⟩

lemma get_path_chain (init : State) (n : Node) (h : n.valid init) :
    List.Chain' (fun x y => y ∈ get_possible_moves x.1) n.get_path := by
  induction n with
  | root s => exact List.chain'_singleton _
  | child s p a c ih =>
    unfold Node.valid at h
    rw [Node.get_path]
    refine List.chain'_append.mpr ⟨ih h.1, List.chain'_singleton _, ?_⟩
    intro x hx y hy
    obtain ⟨lab, hlast⟩ := get_path_last p
    rw [hlast] at hx
    simp only [Option.mem_def, Option.some.injEq] at hx
    subst hx
    simp only [List.head?_cons, Option.mem_def, Option.some.injEq] at hy
    subst hy
    exact h.2

lemma goal_path_props (init : State) (n : Node) (hv : n.valid init)
    (hg : is_goal n.state = true) :
    n.get_path.head? = some (init, "Initial State") ∧
      (∃ lab, n.get_path.getLast? = some (goal_state, lab)) ∧
      List.Chain' (fun x y => y ∈ get_possible_moves x.1) n.get_path := by
  have hst : n.state = goal_state := by
    simpa [is_goal] using hg
  refine ⟨get_path_head init n hv, ?_, get_path_chain init n hv⟩
  obtain ⟨lab, hlast⟩ := get_path_last n
  exact ⟨lab, by rw [hlast, hst]⟩

lemma bfs_fold_valid (init : State) (current : Node) (hcur : current.valid init) :
    ∀ (moves : List (State × String)),
      (∀ sm ∈ moves, sm ∈ get_possible_moves current.state) →
      ∀ acc : List Node × List State, (∀ n ∈ acc.1, n.valid init) →
      ∀ n ∈ (moves.foldl
        (fun (acc : List Node × List State) sm =>
          if sm.1 ∈ acc.2 then acc
          else (acc.1 ++ [Node.child sm.1 current sm.2 (current.cost + 1)],
                sm.1 :: acc.2)) acc).1, n.valid init := by
  intro moves
  induction moves with
  | nil => intro _ acc hacc n hn; exact hacc n hn
  | cons sm rest ih =>
    intro hmoves acc hacc
    rw [List.foldl_cons]
    apply ih (fun x hx => hmoves x (by simp [hx]))
    by_cases hmem : sm.1 ∈ acc.2
    · rw [if_pos hmem]; exact hacc
    · rw [if_neg hmem]
      intro n hn
      rcases List.mem_append.mp hn with hn | hn
      · exact hacc n hn
      · have : n = Node.child sm.1 current sm.2 (current.cost + 1) := by simpa using hn
        subst this
        exact ⟨hcur, hmoves sm (by simp)⟩

lemma bfsLoop_sound (init : State) : ∀ (fuel : Nat) (queue : List Node)
    (visited : List State) (e m : Nat) (path : List (State × String)) (e' m' : Nat),
    (∀ n ∈ queue, n.valid init) →
    bfsLoop fuel queue visited e m = (some path, e', m') →
    ∃ n : Node, n.valid init ∧ is_goal n.state = true ∧ path = n.get_path := by
  intro fuel
  induction fuel with
  | zero => intro queue visited e m path e' m' _ hrun; simp [bfsLoop] at hrun
  | succ fuel ih =>
    intro queue visited e m path e' m' hq hrun
    match queue with
    | [] => simp [bfsLoop] at hrun
    | current :: rest =>
      rw [bfsLoop] at hrun
      by_cases hg : is_goal current.state
      · simp only [hg, if_true] at hrun
        refine ⟨current, hq current (by simp), hg, ?_⟩
        have := congrArg Prod.fst hrun
        simpa using this.symm
      · simp only [hg, if_false, Bool.false_eq_true] at hrun
        exact ih _ _ _ _ _ _ _
          (bfs_fold_valid init current (hq current (by simp))
            (get_possible_moves current.state) (fun sm hsm => hsm) (rest, visited)
            (fun n hn => hq n (by simp [hn])))
          hrun

lemma dfs_fold_valid (init : State) (current : Node) (hcur : current.valid init)
    (visited' : List State) :
    ∀ (moves : List (State × String)),
      (∀ sm ∈ moves, sm ∈ get_possible_moves current.state) →
      ∀ acc : List Node, (∀ n ∈ acc, n.valid init) →
      ∀ n ∈ (moves.foldl
        (fun st sm =>
          if sm.1 ∈ visited' then st
          else Node.child sm.1 current sm.2 (current.cost + 1) :: st) acc),
        n.valid init := by
  intro moves
  induction moves with
  | nil => intro _ acc hacc n hn; exact hacc n hn
  | cons sm rest ih =>
    intro hmoves acc hacc
    rw [List.foldl_cons]
    apply ih (fun x hx => hmoves x (by simp [hx]))
    by_cases hmem : sm.1 ∈ visited'
    · rw [if_pos hmem]; exact hacc
    · rw [if_neg hmem]
      intro n hn
      rcases List.mem_cons.mp hn with hn | hn
      · subst hn
        exact ⟨hcur, hmoves sm (by simp)⟩
      · exact hacc n hn

lemma dfsLoop_sound (init : State) : ∀ (fuel : Nat) (stack : List Node)
    (visited : List State) (e m : Nat) (path : List (State × String)) (e' m' : Nat),
    (∀ n ∈ stack, n.valid init) →
    dfsLoop fuel stack visited e m = (some path, e', m') →
    ∃ n : Node, n.valid init ∧ is_goal n.state = true ∧ path = n.get_path := by
  intro fuel
  induction fuel with
  | zero => intro stack visited e m path e' m' _ hrun; simp [dfsLoop] at hrun
  | succ fuel ih =>
    intro stack visited e m path e' m' hq hrun
    match stack with
    | [] => simp [dfsLoop] at hrun
    | current :: rest =>
      rw [dfsLoop] at hrun
      by_cases hv : current.state ∈ visited
      · rw [if_pos hv] at hrun
        exact ih _ _ _ _ _ _ _ (fun n hn => hq n (by simp [hn])) hrun
      · rw [if_neg hv] at hrun
        by_cases hg : is_goal current.state
        · simp only [hg, if_true] at hrun
          refine ⟨current, hq current (by simp), hg, ?_⟩
          have := congrArg Prod.fst hrun
          simpa using this.symm
        · simp only [hg, if_false, Bool.false_eq_true] at hrun
          exact ih _ _ _ _ _ _ _
            (dfs_fold_valid init current (hq current (by simp)) _
              (get_possible_moves current.state).reverse
              (fun sm hsm => List.mem_reverse.mp hsm) rest
              (fun n hn => hq n (by simp [hn])))
            hrun
lemma foldl_invariant_mem {α β : Type} (P : β → Prop) (l : List α) (f : β → α → β)
    (hstep : ∀ b a, a ∈ l → P b → P (f b a)) :
    ∀ b, P b → P (l.foldl f b) := by
  induction l with
  | nil => intro b hb; exact hb
  | cons x xs ih =>
    intro b hb
    rw [List.foldl_cons]
    exact ih (fun b a ha hb => hstep b a (by simp [ha]) hb) _ (hstep b x (by simp) hb)

lemma popMin_mem_subset : ∀ (l : List HeapEntry) (e : HeapEntry) (rest : List HeapEntry),
    popMin l = some (e, rest) → e ∈ l ∧ ∀ x ∈ rest, x ∈ l := by
  intro l
  induction l with
  | nil => intro e rest h; simp [popMin] at h
  | cons a as ih =>
    intro e rest h
    rw [popMin] at h
    rcases hp : popMin as with _ | ⟨m', rest'⟩
    · rw [hp] at h
      simp only [Option.some.injEq, Prod.mk.injEq] at h
      refine ⟨by simp [← h.1], ?_⟩
      intro x hx
      rw [← h.2] at hx
      simp at hx
    · rw [hp] at h
      replace h : (if m'.1 < a.1 ∨ m'.1 = a.1 ∧ m'.2.1 < a.2.1
          then some (m', a :: rest') else some (a, as)) = some (e, rest) := h
      obtain ⟨hm, hsub⟩ := ih m' rest' hp
      by_cases hc : m'.1 < a.1 ∨ m'.1 = a.1 ∧ m'.2.1 < a.2.1
      · rw [if_pos hc] at h
        simp only [Option.some.injEq, Prod.mk.injEq] at h
        refine ⟨by simp [← h.1, hm], ?_⟩
        intro x hx
        rw [← h.2] at hx
        rcases List.mem_cons.mp hx with hx | hx
        · simp [hx]
        · simp [hsub x hx]
      · rw [if_neg hc] at h
        simp only [Option.some.injEq, Prod.mk.injEq] at h
        refine ⟨by simp [← h.1], ?_⟩
        intro x hx
        rw [← h.2] at hx
        simp [hx]

lemma aStarLoop_sound (init : State) (h : State → Nat) : ∀ (fuel : Nat)
    (open_set : List HeapEntry) (g_scores : List (State × Nat)) (closed : List State)
    (e m counter : Nat) (path : List (State × String)) (e' m' : Nat),
    (∀ en ∈ open_set, Node.valid init en.2.2) →
    aStarLoop h fuel open_set g_scores closed e m counter = (some path, e', m') →
    ∃ n : Node, n.valid init ∧ is_goal n.state = true ∧ path = n.get_path := by
  intro fuel
  induction fuel with
  | zero =>
    intro open_set g_scores closed e m counter path e' m' _ hrun
    simp [aStarLoop] at hrun
  | succ fuel ih =>
    intro open_set g_scores closed e m counter path e' m' hq hrun
    rw [aStarLoop] at hrun
    rcases hp : popMin open_set with _ | ⟨entry, restHeap⟩
    · rw [hp] at hrun
      simp at hrun
    · rw [hp] at hrun
      obtain ⟨hmem, hsub⟩ := popMin_mem_subset _ _ _ hp
      by_cases hcl : entry.2.2.state ∈ closed
      · simp only [hcl, if_true] at hrun
        exact ih _ _ _ _ _ _ _ _ _ (fun en hen => hq en (hsub en hen)) hrun
      · simp only [hcl, if_false] at hrun
        by_cases hg : is_goal entry.2.2.state
        · simp only [hg, if_true] at hrun
          refine ⟨entry.2.2, hq entry hmem, hg, ?_⟩
          have := congrArg Prod.fst hrun
          simpa using this.symm
        · simp only [hg, if_false, Bool.false_eq_true] at hrun
          refine ih _ _ _ _ _ _ _ _ _ ?_ hrun
          refine foldl_invariant_mem
            (fun (acc : List HeapEntry × List (State × Nat) × Nat) =>
              ∀ en ∈ acc.1, Node.valid init en.2.2)
            (get_possible_moves entry.2.2.state) _ ?_ _
            (fun en hen => hq en (hsub en hen))
          intro b sm hsm hb
          dsimp only []
          split
          · intro en hen
            rcases List.mem_cons.mp hen with hen | hen
            · subst hen
              exact ⟨hq entry hmem, hsm⟩
            · exact hb en hen
          · exact hb

/-- C2: every path returned by any of the four entry points starts with
`(initial_state, "Initial State")`, ends at the goal state, and every
consecutive pair of elements is linked by `get_possible_moves`. -/
theorem returned_paths_valid (init : State) (path : List (State × String)) (e m : Nat)
    (hrun : bfs init = (some path, e, m) ∨ dfs init = (some path, e, m) ∨
      a_star misplaced_tiles_heuristic init = (some path, e, m) ∨
      a_star manhattan_distance_heuristic init = (some path, e, m)) :
    path.head? = some (init, "Initial State") ∧
      (∃ lab, path.getLast? = some (goal_state, lab)) ∧
      List.Chain' (fun x y => y ∈ get_possible_moves x.1) path := by
  have hroot : ∀ n ∈ [Node.root init], Node.valid init n := by
    intro n hn
    have he : n = Node.root init := by simpa using hn
    subst he
    show init = init
    rfl
  have main : ∃ n : Node, n.valid init ∧ is_goal n.state = true ∧ path = n.get_path := by
    rcases hrun with hrun | hrun | hrun | hrun
    · rw [bfs] at hrun
      by_cases hs : is_solvable init
      · rw [if_pos hs] at hrun
        exact bfsLoop_sound init _ _ _ _ _ _ _ _ hroot hrun
      · rw [if_neg hs] at hrun
        simp at hrun
    · rw [dfs] at hrun
      by_cases hs : is_solvable init
      · rw [if_pos hs] at hrun
        exact dfsLoop_sound init _ _ _ _ _ _ _ _ hroot hrun
      · rw [if_neg hs] at hrun
        simp at hrun
    · rw [a_star] at hrun
      by_cases hs : is_solvable init
      · rw [if_pos hs] at hrun
        refine aStarLoop_sound init _ _ _ _ _ _ _ _ _ _ _ ?_ hrun
        intro en hen
        have he : en = (misplaced_tiles_heuristic init, 0, Node.root init) := by
          simpa using hen
        subst he
        show init = init
        rfl
      · rw [if_neg hs] at hrun
        simp at hrun
    · rw [a_star] at hrun
      by_cases hs : is_solvable init
      · rw [if_pos hs] at hrun
        refine aStarLoop_sound init _ _ _ _ _ _ _ _ _ _ _ ?_ hrun
        intro en hen
        have he : en = (manhattan_distance_heuristic init, 0, Node.root init) := by
          simpa using hen
        subst he
        show init = init
        rfl
      · rw [if_neg hs] at hrun
        simp at hrun
  obtain ⟨n, hv, hg, hpath⟩ := main
  subst hpath
  exact goal_path_props init n hv hg

/-- Witness for C2 on the BFS run from `[1,2,3,4,5,6,7,0,8]`. -/
theorem returned_paths_valid_witness :
    (bfs [1,2,3,4,5,6,7,0,8]
        = (some [([1,2,3,4,5,6,7,0,8], "Initial State"), ([1,2,3,4,5,6,7,8,0], "Right")], 4, 5)
      ∨ dfs [1,2,3,4,5,6,7,0,8]
        = (some [([1,2,3,4,5,6,7,0,8], "Initial State"), ([1,2,3,4,5,6,7,8,0], "Right")], 4, 5)
      ∨ a_star misplaced_tiles_heuristic [1,2,3,4,5,6,7,0,8]
        = (some [([1,2,3,4,5,6,7,0,8], "Initial State"), ([1,2,3,4,5,6,7,8,0], "Right")], 4, 5)
      ∨ a_star manhattan_distance_heuristic [1,2,3,4,5,6,7,0,8]
        = (some [([1,2,3,4,5,6,7,0,8], "Initial State"), ([1,2,3,4,5,6,7,8,0], "Right")], 4, 5))
    ∧ ([([1,2,3,4,5,6,7,0,8], "Initial State"),
        ([1,2,3,4,5,6,7,8,0], "Right")] : List (State × String)).head?
          = some ([1,2,3,4,5,6,7,0,8], "Initial State")
    ∧ (∃ lab, ([([1,2,3,4,5,6,7,0,8], "Initial State"),
        ([1,2,3,4,5,6,7,8,0], "Right")] : List (State × String)).getLast?
          = some (goal_state, lab))
    ∧ List.Chain' (fun x y => y ∈ get_possible_moves x.1)
        [(([1,2,3,4,5,6,7,0,8] : State), "Initial State"),
         (([1,2,3,4,5,6,7,8,0] : State), "Right")] :=
  ⟨Or.inl rfl, returned_paths_valid [1,2,3,4,5,6,7,0,8] _ 4 5 (Or.inl rfl)⟩

lemma stepsTo_zero (s t : State) : stepsTo 0 s t = true ↔ s = t := by
  simp [stepsTo]

lemma stepsTo_succ (n : Nat) (s t : State) :
    stepsTo (n + 1) s t = true ↔
      ∃ sm ∈ get_possible_moves s, stepsTo n sm.1 t = true := by
  simp [stepsTo, List.any_eq_true]

lemma stepsTo_extend : ∀ (n : Nat) (s u : State), stepsTo n s u = true →
    ∀ (v : State) (mlab : String), (v, mlab) ∈ get_possible_moves u →
    stepsTo (n + 1) s v = true := by
  intro n
  induction n with
  | zero =>
    intro s u hst v mlab hmv
    rw [stepsTo_zero] at hst
    subst hst
    exact (stepsTo_succ 0 s v).mpr ⟨(v, mlab), hmv, (stepsTo_zero v v).mpr rfl⟩
  | succ n ih =>
    intro s u hst v mlab hmv
    obtain ⟨sm, hsm, hrest⟩ := (stepsTo_succ n s u).mp hst
    exact (stepsTo_succ (n + 1) s v).mpr ⟨sm, hsm, ih sm.1 u hrest v mlab hmv⟩

lemma stepsTo_unextend : ∀ (n : Nat) (s v : State), stepsTo (n + 1) s v = true →
    ∃ (u : State) (mlab : String), stepsTo n s u = true ∧
      (v, mlab) ∈ get_possible_moves u := by
  intro n
  induction n with
  | zero =>
    intro s v hst
    obtain ⟨sm, hsm, hz⟩ := (stepsTo_succ 0 s v).mp hst
    rw [stepsTo_zero] at hz
    subst hz
    exact ⟨s, sm.2, (stepsTo_zero s s).mpr rfl, hsm⟩
  | succ n ih =>
    intro s v hst
    obtain ⟨sm, hsm, hrest⟩ := (stepsTo_succ (n + 1) s v).mp hst
    obtain ⟨u, mlab, hn, hmv⟩ := ih sm.1 v hrest
    exact ⟨u, mlab, (stepsTo_succ n s u).mpr ⟨sm, hsm, hn⟩, hmv⟩

lemma countP_range_eq_sum (q : Nat → Bool) (n : Nat) :
    (List.range n).countP q = ∑ i in Finset.range n, if q i = true then 1 else 0 := by
  induction n with
  | zero => rfl
  | succ n ih =>
    rw [List.range_succ, List.countP_append, Finset.sum_range_succ, ih]
    simp [List.countP_cons]

lemma sum_getD_swapIdx (f : Nat → Nat) (s : List Nat) (i j : Nat)
    (hi : i < s.length) (hj : j < s.length) :
    ∑ k in Finset.range s.length, f ((swapIdx s i j).getD k 0)
      = ∑ k in Finset.range s.length, f (s.getD k 0) := by
  rcases eq_or_ne i j with rfl | hij
  · apply Finset.sum_congr rfl
    intro k _
    rw [swapIdx_getD s i i k hi hi]
    by_cases hki : k = i
    · rw [if_pos hki, hki]
    · rw [if_neg hki, if_neg hki]
  · have him : i ∈ Finset.range s.length := Finset.mem_range.mpr hi
    have hjm : j ∈ (Finset.range s.length).erase i :=
      Finset.mem_erase.mpr ⟨Ne.symm hij, Finset.mem_range.mpr hj⟩
    rw [← Finset.sum_erase_add (Finset.range s.length)
        (fun k => f ((swapIdx s i j).getD k 0)) him,
      ← Finset.sum_erase_add ((Finset.range s.length).erase i)
        (fun k => f ((swapIdx s i j).getD k 0)) hjm,
      ← Finset.sum_erase_add (Finset.range s.length) (fun k => f (s.getD k 0)) him,
      ← Finset.sum_erase_add ((Finset.range s.length).erase i)
        (fun k => f (s.getD k 0)) hjm]
    have hA : ∑ m in ((Finset.range s.length).erase i).erase j,
        f ((swapIdx s i j).getD m 0)
        = ∑ m in ((Finset.range s.length).erase i).erase j, f (s.getD m 0) := by
      apply Finset.sum_congr rfl
      intro m hm
      have hmj : m ≠ j := (Finset.mem_erase.mp hm).1
      have hmi : m ≠ i := (Finset.mem_erase.mp (Finset.mem_erase.mp hm).2).1
      rw [swapIdx_getD s i j m hi hj, if_neg hmj, if_neg hmi]
    have hvj : f ((swapIdx s i j).getD j 0) = f (s.getD i 0) := by
      rw [swapIdx_getD s i j j hi hj, if_pos rfl]
    have hvi : f ((swapIdx s i j).getD i 0) = f (s.getD j 0) := by
      rw [swapIdx_getD s i j i hi hj, if_neg hij, if_pos rfl]
    rw [hA, hvj, hvi]
    omega

lemma swapIdx_countP (p : Nat → Bool) (s : List Nat) (i j : Nat)
    (hi : i < s.length) (hj : j < s.length) :
    (swapIdx s i j).countP p = s.countP p := by
  have h1 := countP_range_getD (swapIdx s i j) p
  have h2 := countP_range_getD s p
  rw [swapIdx_length s i j] at h1
  rw [← h1, ← h2, countP_range_eq_sum, countP_range_eq_sum]
  exact sum_getD_swapIdx (fun v => if p v = true then 1 else 0) s i j hi hj

lemma swapIdx_perm (s : List Nat) (i j : Nat) (hi : i < s.length) (hj : j < s.length) :
    (swapIdx s i j).Perm s := by
  apply List.perm_iff_count.mpr
  intro a
  show (swapIdx s i j).countP (fun x => x == a) = s.countP (fun x => x == a)
  rw [swapIdx_countP _ s i j hi hj]

lemma mem_moves_perm (s : State) (h : s.Perm (List.range 9)) :
    ∀ sm ∈ get_possible_moves s, sm.1.Perm s := by
  intro sm hm
  have hlen : s.length = 9 := by rw [h.length_eq, List.length_range]
  have h0 : 0 ∈ s := h.mem_iff.mpr (by simp)
  obtain ⟨hbi, _, _⟩ := blank_facts s h
  rcases mem_get_possible_moves s hlen h0 sm hm with
    ⟨hc, he⟩ | ⟨hc, he⟩ | ⟨hc, he⟩ | ⟨hc, he⟩ <;> subst he <;>
    exact swapIdx_perm s _ _ (by omega) (by omega)

lemma bfs_expand_spec (current : Node) :
    ∀ (moves : List (State × String)) (q0 : List Node) (V0 : List State),
    ∃ news : List Node,
      (moves.foldl
        (fun (acc : List Node × List State) sm =>
          if sm.1 ∈ acc.2 then acc
          else (acc.1 ++ [Node.child sm.1 current sm.2 (current.cost + 1)],
                sm.1 :: acc.2)) (q0, V0)).1 = q0 ++ news ∧
      (∀ n ∈ news, ∃ sm ∈ moves, n = Node.child sm.1 current sm.2 (current.cost + 1)) ∧
      (∀ n ∈ news, n.state ∉ V0) ∧
      (∀ n ∈ news, n.state ∈ (moves.foldl
        (fun (acc : List Node × List State) sm =>
          if sm.1 ∈ acc.2 then acc
          else (acc.1 ++ [Node.child sm.1 current sm.2 (current.cost + 1)],
                sm.1 :: acc.2)) (q0, V0)).2) ∧
      (∀ t ∈ V0, t ∈ (moves.foldl
        (fun (acc : List Node × List State) sm =>
          if sm.1 ∈ acc.2 then acc
          else (acc.1 ++ [Node.child sm.1 current sm.2 (current.cost + 1)],
                sm.1 :: acc.2)) (q0, V0)).2) ∧
      (∀ t ∈ (moves.foldl
        (fun (acc : List Node × List State) sm =>
          if sm.1 ∈ acc.2 then acc
          else (acc.1 ++ [Node.child sm.1 current sm.2 (current.cost + 1)],
                sm.1 :: acc.2)) (q0, V0)).2, t ∈ V0 ∨ ∃ n ∈ news, n.state = t) ∧
      (∀ sm ∈ moves, sm.1 ∈ (moves.foldl
        (fun (acc : List Node × List State) sm =>
          if sm.1 ∈ acc.2 then acc
          else (acc.1 ++ [Node.child sm.1 current sm.2 (current.cost + 1)],
                sm.1 :: acc.2)) (q0, V0)).2) ∧
      (V0.Nodup → (moves.foldl
        (fun (acc : List Node × List State) sm =>
          if sm.1 ∈ acc.2 then acc
          else (acc.1 ++ [Node.child sm.1 current sm.2 (current.cost + 1)],
                sm.1 :: acc.2)) (q0, V0)).2.Nodup) ∧
      (moves.foldl
        (fun (acc : List Node × List State) sm =>
          if sm.1 ∈ acc.2 then acc
          else (acc.1 ++ [Node.child sm.1 current sm.2 (current.cost + 1)],
                sm.1 :: acc.2)) (q0, V0)).2.length = V0.length + news.length := by
  intro moves
  induction moves with
  | nil =>
    intro q0 V0
    exact ⟨[], by simp, by simp, by simp, by simp, by simp, by simp [List.foldl_nil],
      by simp, fun h => h, by simp⟩
  | cons sm ms ih =>
    intro q0 V0
    rw [List.foldl_cons]
    by_cases hmem : sm.1 ∈ V0
    · rw [if_pos hmem]
      obtain ⟨news, h1, h2, h3, h4, h5, h6, h7, h8, h9⟩ := ih q0 V0
      refine ⟨news, h1, ?_, h3, h4, h5, h6, ?_, h8, h9⟩
      · intro n hn
        obtain ⟨sm', hsm', he⟩ := h2 n hn
        exact ⟨sm', by simp [hsm'], he⟩
      · intro sm' hsm'
        rcases List.mem_cons.mp hsm' with he | hm
        · subst he
          exact h5 sm'.1 hmem
        · exact h7 sm' hm
    · rw [if_neg hmem]
      obtain ⟨news, h1, h2, h3, h4, h5, h6, h7, h8, h9⟩ :=
        ih (q0 ++ [Node.child sm.1 current sm.2 (current.cost + 1)]) (sm.1 :: V0)
      refine ⟨Node.child sm.1 current sm.2 (current.cost + 1) :: news, ?_, ?_, ?_, ?_, ?_,
        ?_, ?_, ?_, ?_⟩
      · rw [h1, List.append_assoc]
        rfl
      · intro n hn
        rcases List.mem_cons.mp hn with he | hn
        · exact ⟨sm, by simp, he⟩
        · obtain ⟨sm', hsm', he⟩ := h2 n hn
          exact ⟨sm', by simp [hsm'], he⟩
      · intro n hn
        rcases List.mem_cons.mp hn with he | hn
        · subst he
          exact hmem
        · have := h3 n hn
          intro hc
          exact this (by simp [hc])
      · intro n hn
        rcases List.mem_cons.mp hn with he | hn
        · subst he
          exact h5 sm.1 (by simp)
        · exact h4 n hn
      · intro t ht
        exact h5 t (by simp [ht])
      · intro t ht
        rcases h6 t ht with ht' | ⟨n, hn, he⟩
        · rcases List.mem_cons.mp ht' with he | hv
          · exact Or.inr ⟨Node.child sm.1 current sm.2 (current.cost + 1), by simp, by
              simp [Node.state, he]⟩
          · exact Or.inl hv
        · exact Or.inr ⟨n, by simp [hn], he⟩
      · intro sm' hsm'
        rcases List.mem_cons.mp hsm' with he | hm
        · subst he
          exact h5 sm'.1 (by simp)
        · exact h7 sm' hm
      · intro hnd
        exact h8 (by simp [List.nodup_cons, hmem, hnd])
      · rw [h9]
        simp
        omega

lemma bfs_step_inv (init : State) (current : Node) (rest : List Node)
    (V : List State) (c : Nat)
    (hinv : BfsInv init (current :: rest) V c) :
    ∃ (c' : Nat) (news : List Node),
      ((get_possible_moves current.state).foldl
        (fun (acc : List Node × List State) sm =>
          if sm.1 ∈ acc.2 then acc
          else (acc.1 ++ [Node.child sm.1 current sm.2 (current.cost + 1)],
                sm.1 :: acc.2)) (rest, V)).1 = rest ++ news ∧
      BfsInv init (rest ++ news)
        ((get_possible_moves current.state).foldl
          (fun (acc : List Node × List State) sm =>
            if sm.1 ∈ acc.2 then acc
            else (acc.1 ++ [Node.child sm.1 current sm.2 (current.cost + 1)],
                  sm.1 :: acc.2)) (rest, V)).2 c' ∧
      ((get_possible_moves current.state).foldl
        (fun (acc : List Node × List State) sm =>
          if sm.1 ∈ acc.2 then acc
          else (acc.1 ++ [Node.child sm.1 current sm.2 (current.cost + 1)],
                sm.1 :: acc.2)) (rest, V)).2.length = V.length + news.length ∧
      (∀ t ∈ V, t ∈ ((get_possible_moves current.state).foldl
        (fun (acc : List Node × List State) sm =>
          if sm.1 ∈ acc.2 then acc
          else (acc.1 ++ [Node.child sm.1 current sm.2 (current.cost + 1)],
                sm.1 :: acc.2)) (rest, V)).2) ∧
      (∀ t ∈ ((get_possible_moves current.state).foldl
        (fun (acc : List Node × List State) sm =>
          if sm.1 ∈ acc.2 then acc
          else (acc.1 ++ [Node.child sm.1 current sm.2 (current.cost + 1)],
                sm.1 :: acc.2)) (rest, V)).2, t ∈ V ∨ ∃ n ∈ news, n.state = t) ∧
      (∀ n ∈ news, n.state ∈ ((get_possible_moves current.state).foldl
        (fun (acc : List Node × List State) sm =>
          if sm.1 ∈ acc.2 then acc
          else (acc.1 ++ [Node.child sm.1 current sm.2 (current.cost + 1)],
                sm.1 :: acc.2)) (rest, V)).2) := by
  obtain ⟨hnd, hpermV, hD, hN, ⟨k, l, hmap, hk0⟩, hC⟩ := hinv
  obtain ⟨hval, hplen, hstV, hsteps, hmin⟩ := hN current (by simp)
  have hk : k ≠ 0 := by
    intro h0
    subst h0
    have := hk0 rfl
    subst this
    simp at hmap
  obtain ⟨k₁, rfl⟩ : ∃ k₁, k = k₁ + 1 := ⟨k - 1, by omega⟩
  rw [List.map_cons, List.replicate_succ, List.cons_append, List.cons.injEq] at hmap
  obtain ⟨hcc, hrest_map⟩ := hmap
  obtain ⟨news, hfq, hform, hfresh, hnewmem, hVsub, hchar, hsucc, hndf, hlen2⟩ :=
    bfs_expand_spec current (get_possible_moves current.state) rest V
  have hpermCur : current.state.Perm (List.range 9) := hpermV _ hstV
  have hnd' := hndf hnd
  have hperm' : ∀ t ∈ ((get_possible_moves current.state).foldl
      (fun (acc : List Node × List State) sm =>
        if sm.1 ∈ acc.2 then acc
        else (acc.1 ++ [Node.child sm.1 current sm.2 (current.cost + 1)],
              sm.1 :: acc.2)) (rest, V)).2, t.Perm (List.range 9) := by
    intro t ht
    rcases hchar t ht with htV | ⟨n, hn, he⟩
    · exact hpermV t htV
    · obtain ⟨sm, hsm, rfl⟩ := hform n hn
      rw [← he]
      exact (mem_moves_perm current.state hpermCur sm hsm).trans hpermCur
  have hN' : ∀ n ∈ rest ++ news, NodeInvB init ((get_possible_moves current.state).foldl
      (fun (acc : List Node × List State) sm =>
        if sm.1 ∈ acc.2 then acc
        else (acc.1 ++ [Node.child sm.1 current sm.2 (current.cost + 1)],
              sm.1 :: acc.2)) (rest, V)).2 n := by
    intro n hn
    rcases List.mem_append.mp hn with hn | hn
    · obtain ⟨a1, a2, a3, a4, a5⟩ := hN n (by simp [hn])
      exact ⟨a1, a2, hVsub _ a3, a4, a5⟩
    · obtain ⟨sm, hsm, rfl⟩ := hform n hn
      refine ⟨⟨hval, hsm⟩, ?_, hnewmem _ hn, ?_, ?_⟩
      · show (current.get_path ++ [(sm.1, sm.2)]).length = current.cost + 1 + 1
        rw [List.length_append, hplen]
        rfl
      · exact stepsTo_extend current.cost init current.state hsteps sm.1 sm.2 hsm
      · intro j hj
        by_contra hlt
        have hcost : (Node.child sm.1 current sm.2 (current.cost + 1)).cost
            = current.cost + 1 := rfl
        rw [hcost, hcc] at hlt
        have hjc : j ≤ c := by omega
        exact hfresh _ hn (hC sm.1 j hjc hj)
  have hD' : ∀ t ∈ ((get_possible_moves current.state).foldl
      (fun (acc : List Node × List State) sm =>
        if sm.1 ∈ acc.2 then acc
        else (acc.1 ++ [Node.child sm.1 current sm.2 (current.cost + 1)],
              sm.1 :: acc.2)) (rest, V)).2,
      (∃ n ∈ rest ++ news, n.state = t) ∨
        (∀ sm ∈ get_possible_moves t, sm.1 ∈ ((get_possible_moves current.state).foldl
          (fun (acc : List Node × List State) sm =>
            if sm.1 ∈ acc.2 then acc
            else (acc.1 ++ [Node.child sm.1 current sm.2 (current.cost + 1)],
                  sm.1 :: acc.2)) (rest, V)).2) := by
    intro t ht
    rcases hchar t ht with htV | ⟨n, hn, he⟩
    · rcases hD t htV with ⟨n, hnq, he⟩ | hclosed
      · rcases List.mem_cons.mp hnq with rfl | hnrest
        · rw [← he]
          exact Or.inr (fun sm hsm => hsucc sm hsm)
        · exact Or.inl ⟨n, List.mem_append_left _ hnrest, he⟩
      · exact Or.inr (fun sm hsm => hVsub _ (hclosed sm hsm))
    · exact Or.inl ⟨n, List.mem_append_right _ hn, he⟩
  have hnews_map : news.map Node.cost = List.replicate news.length (c + 1) := by
    apply List.eq_replicate_iff.mpr
    refine ⟨by simp, ?_⟩
    intro b hb
    obtain ⟨n, hn, rfl⟩ := List.mem_map.mp hb
    obtain ⟨sm, _, rfl⟩ := hform n hn
    show current.cost + 1 = c + 1
    rw [hcc]
  have hmq : (rest ++ news).map Node.cost
      = List.replicate k₁ c ++ List.replicate (l + news.length) (c + 1) := by
    rw [List.map_append, hrest_map, hnews_map, List.replicate_add, List.append_assoc]
  by_cases hk₁ : k₁ = 0
  · by_cases hla : l + news.length = 0
    · refine ⟨c, news, hfq, ⟨hnd', hperm', hD', hN', ⟨0, 0, ?_, fun _ => rfl⟩,
        fun s j hj hst => hVsub _ (hC s j hj hst)⟩, hlen2, hVsub, hchar, hnewmem⟩
      rw [hmq, hk₁, hla]
    · refine ⟨c + 1, news, hfq, ⟨hnd', hperm', hD', hN',
        ⟨l + news.length, 0, ?_, fun h => absurd h hla⟩, ?_⟩,
        hlen2, hVsub, hchar, hnewmem⟩
      · rw [hmq, hk₁]
        simp
      · intro s j hj hst
        rcases Nat.lt_or_ge j (c + 1) with hlt | hge
        · exact hVsub _ (hC s j (by omega) hst)
        · have hj1 : j = c + 1 := by omega
          subst hj1
          obtain ⟨u, mlab, hu, hmv⟩ := stepsTo_unextend c init s hst
          have huV : u ∈ V := hC u c le_rfl hu
          rcases hD' u (hVsub _ huV) with ⟨n, hnq, he⟩ | hcl
          · exfalso
            obtain ⟨_, _, _, _, hminn⟩ := hN' n hnq
            have hcost1 : n.cost = c + 1 := by
              have hmm : n.cost ∈ (rest ++ news).map Node.cost :=
                List.mem_map_of_mem _ hnq
              rw [hmq, hk₁] at hmm
              simp only [List.replicate_zero, List.nil_append, List.mem_replicate] at hmm
              exact hmm.2
            rw [he] at hminn
            have := hminn c hu
            omega
          · exact hcl (s, mlab) hmv
  · refine ⟨c, news, hfq, ⟨hnd', hperm', hD', hN',
      ⟨k₁, l + news.length, hmq, fun h => absurd h hk₁⟩,
      fun s j hj hst => hVsub _ (hC s j hj hst)⟩, hlen2, hVsub, hchar, hnewmem⟩

lemma visited_length_le (V : List State) (hnd : V.Nodup)
    (hperm : ∀ t ∈ V, t.Perm (List.range 9)) : V.length ≤ 362880 := by
  have h1 : V.toFinset.card = V.length := List.toFinset_card_of_nodup hnd
  have h2 : V.toFinset ⊆ ((List.range 9).permutations).toFinset := by
    intro t ht
    rw [List.mem_toFinset] at ht ⊢
    exact List.mem_permutations.mpr (hperm t ht)
  have h3 := Finset.card_le_card h2
  have h4 : ((List.range 9).permutations).toFinset.card
      ≤ (List.range 9).permutations.length := List.toFinset_card_le _
  have h5 : (List.range 9).permutations.length = 362880 := by
    rw [List.length_permutations, List.length_range]
    decide
  omega

lemma bfsLoop_finds_goal (init : State) :
    ∀ (fuel : Nat) (q : List Node) (V : List State) (e m c : Nat),
      BfsInv init q V c →
      (goal_state ∈ V → ∃ n ∈ q, n.state = goal_state) →
      Reachable init goal_state →
      q.length + 2 * (362880 - V.length) < fuel →
      ∃ p e' m' d, bfsLoop fuel q V e m = (some p, e', m') ∧
        p.length = d + 1 ∧ stepsTo d init goal_state = true ∧
        ∀ j, stepsTo j init goal_state = true → d ≤ j := by
  intro fuel
  induction fuel with
  | zero =>
    intro q V e m c _ _ _ hfuel
    omega
  | succ fuel ih =>
    intro q V e m c hinv hgoalV hreach hfuel
    match q with
    | [] =>
      exfalso
      obtain ⟨hnd, hpermV, hD, hN, hshape, hC⟩ := hinv
      have hclosed : ∀ t ∈ V, ∀ sm ∈ get_possible_moves t, sm.1 ∈ V := by
        intro t ht
        rcases hD t ht with ⟨n, hn, _⟩ | h
        · simp at hn
        · exact h
      have hinit : init ∈ V := hC init 0 (Nat.zero_le c) ((stepsTo_zero init init).mpr rfl)
      have hall : ∀ n s, stepsTo n init s = true → s ∈ V := by
        intro n
        induction n with
        | zero =>
          intro s h
          rw [stepsTo_zero] at h
          subst h
          exact hinit
        | succ n ihn =>
          intro s h
          obtain ⟨u, mlab, hu, hmv⟩ := stepsTo_unextend n init s h
          exact hclosed u (ihn u hu) (s, mlab) hmv
      obtain ⟨n, hst⟩ := hreach
      obtain ⟨nd, hnd2, _⟩ := hgoalV (hall n goal_state hst)
      simp at hnd2
    | current :: rest =>
      rw [bfsLoop]
      by_cases hg : is_goal current.state
      · obtain ⟨hnd, hpermV, hD, hN, hshape, hC⟩ := hinv
        obtain ⟨_, hplen, _, hsteps, hmin⟩ := hN current (by simp)
        have hgs : current.state = goal_state := by simpa [is_goal] using hg
        rw [hgs] at hsteps hmin
        rw [if_pos hg]
        exact ⟨current.get_path, e + 1, max m (rest.length + 1), current.cost, rfl,
          hplen, hsteps, hmin⟩
      · rw [if_neg hg]
        obtain ⟨hnd0, hpermV0, -, -, -, -⟩ := id hinv
        obtain ⟨c', news, hfq, hinv', hlen2, hVsub, hchar, hnewmem⟩ :=
          bfs_step_inv init current rest V c hinv
        obtain ⟨hnd', hperm', -, -, -, -⟩ := id hinv'
        have hgoalV' : goal_state ∈ ((get_possible_moves current.state).foldl
            (fun (acc : List Node × List State) sm =>
              if sm.1 ∈ acc.2 then acc
              else (acc.1 ++ [Node.child sm.1 current sm.2 (current.cost + 1)],
                    sm.1 :: acc.2)) (rest, V)).2 →
            ∃ n ∈ ((get_possible_moves current.state).foldl
              (fun (acc : List Node × List State) sm =>
                if sm.1 ∈ acc.2 then acc
                else (acc.1 ++ [Node.child sm.1 current sm.2 (current.cost + 1)],
                      sm.1 :: acc.2)) (rest, V)).1, n.state = goal_state := by
          intro hgV'
          rcases hchar _ hgV' with hgV | ⟨n, hn, he⟩
          · obtain ⟨n, hnq, he⟩ := hgoalV hgV
            rcases List.mem_cons.mp hnq with rfl | hnr
            · exfalso
              rw [is_goal, he] at hg
              simp at hg
            · exact ⟨n, by rw [hfq]; exact List.mem_append_left _ hnr, he⟩
          · exact ⟨n, by rw [hfq]; exact List.mem_append_right _ hn, he⟩
        have hVle0 : V.length ≤ 362880 := visited_length_le V hnd0 hpermV0
        have hVle : ((get_possible_moves current.state).foldl
            (fun (acc : List Node × List State) sm =>
              if sm.1 ∈ acc.2 then acc
              else (acc.1 ++ [Node.child sm.1 current sm.2 (current.cost + 1)],
                    sm.1 :: acc.2)) (rest, V)).2.length ≤ 362880 :=
          visited_length_le _ hnd' hperm'
        have hfuel' : ((get_possible_moves current.state).foldl
            (fun (acc : List Node × List State) sm =>
              if sm.1 ∈ acc.2 then acc
              else (acc.1 ++ [Node.child sm.1 current sm.2 (current.cost + 1)],
                    sm.1 :: acc.2)) (rest, V)).1.length
            + 2 * (362880 - ((get_possible_moves current.state).foldl
            (fun (acc : List Node × List State) sm =>
              if sm.1 ∈ acc.2 then acc
              else (acc.1 ++ [Node.child sm.1 current sm.2 (current.cost + 1)],
                    sm.1 :: acc.2)) (rest, V)).2.length) < fuel := by
          rw [hfq, hlen2, List.length_append]
          simp only [List.length_cons] at hfuel
          omega
        rw [← hfq] at hinv'
        exact ih _ _ (e + 1) (max m (rest.length + 1)) c' hinv' hgoalV' hreach hfuel'

lemma bfs_optimal_of_reachable (init : State) (hperm : init.Perm (List.range 9))
    (hsolv : is_solvable init = true) (hreach : Reachable init goal_state) :
    ∃ p e m, bfs init = (some p, e, m) ∧
      stepsTo (p.length - 1) init goal_state = true ∧
      ∀ j, stepsTo j init goal_state = true → p.length - 1 ≤ j := by
  rw [bfs, if_pos hsolv]
  have hinv0 : BfsInv init [Node.root init] [init] 0 := by
    refine ⟨List.nodup_singleton _, ?_, ?_, ?_, ⟨1, 0, rfl, ?_⟩, ?_⟩
    · intro u hu
      have he : u = init := by simpa using hu
      rw [he]
      exact hperm
    · intro u hu
      have he : u = init := by simpa using hu
      rw [he]
      exact Or.inl ⟨Node.root init, by simp, rfl⟩
    · intro n hn
      have he : n = Node.root init := by simpa using hn
      rw [he]
      exact ⟨rfl, rfl, by simp [Node.state], (stepsTo_zero init init).mpr rfl,
        fun j _ => Nat.zero_le j⟩
    · intro h
      exact absurd h one_ne_zero
    · intro s j hj hst
      have hj0 : j = 0 := Nat.le_zero.mp hj
      subst hj0
      rw [stepsTo_zero] at hst
      rw [← hst]
      simp
  have hgoalV0 : goal_state ∈ ([init] : List State) →
      ∃ n ∈ [Node.root init], n.state = goal_state := by
    intro hg
    have he : goal_state = init := by simpa using hg
    exact ⟨Node.root init, by simp, he.symm⟩
  have hfuel : ([Node.root init] : List Node).length
      + 2 * (362880 - ([init] : List State).length) < search_fuel := by
    show 1 + 2 * (362880 - 1) < search_fuel
    rw [search_fuel]
    norm_num
  obtain ⟨p, e', m', d, hrun, hlen, hst, hmin⟩ :=
    bfsLoop_finds_goal init search_fuel _ _ 0 0 0 hinv0 hgoalV0 hreach hfuel
  refine ⟨p, e', m', hrun, ?_, ?_⟩
  · rw [hlen]
    simpa using hst
  · intro j hj
    have := hmin j hj
    omega

lemma bfsLoop_none_of_unreachable (init : State) (hnr : ¬ Reachable init goal_state) :
    ∀ (fuel : Nat) (q : List Node) (V : List State) (e m : Nat),
      (∀ n ∈ q, ∃ k, stepsTo k init n.state = true) →
      ∃ e' m', bfsLoop fuel q V e m = (none, e', m') := by
  intro fuel
  induction fuel with
  | zero => intro q V e m _; exact ⟨e, m, rfl⟩
  | succ fuel ih =>
    intro q V e m hq
    match q with
    | [] => exact ⟨e, m, rfl⟩
    | current :: rest =>
      rw [bfsLoop]
      by_cases hg : is_goal current.state
      · exfalso
        have hgs : current.state = goal_state := by simpa [is_goal] using hg
        obtain ⟨k, hk⟩ := hq current (by simp)
        rw [hgs] at hk
        exact hnr ⟨k, hk⟩
      · rw [if_neg hg]
        apply ih
        obtain ⟨kc, hkc⟩ := hq current (by simp)
        refine foldl_invariant_mem
          (fun (acc : List Node × List State) =>
            ∀ n ∈ acc.1, ∃ k, stepsTo k init n.state = true)
          (get_possible_moves current.state) _ ?_ _
          (fun n hn => hq n (by simp [hn]))
        intro b sm hsm hb
        by_cases hmem : sm.1 ∈ b.2
        · rw [if_pos hmem]
          exact hb
        · rw [if_neg hmem]
          intro n hn
          rcases List.mem_append.mp hn with hn | hn
          · exact hb n hn
          · have he : n = Node.child sm.1 current sm.2 (current.cost + 1) := by
              simpa using hn
            subst he
            exact ⟨kc + 1, stepsTo_extend kc init current.state hkc sm.1 sm.2 hsm⟩

lemma bfs_none_of_unreachable (init : State) (hnr : ¬ Reachable init goal_state) :
    ∃ e m, bfs init = (none, e, m) := by
  rw [bfs]
  by_cases hs : is_solvable init
  · rw [if_pos hs]
    apply bfsLoop_none_of_unreachable init hnr
    intro n hn
    have he : n = Node.root init := by simpa using hn
    subst he
    exact ⟨0, (stepsTo_zero init init).mpr rfl⟩
  · rw [if_neg hs]
    exact ⟨0, 0, rfl⟩

lemma stepsTo_perm (init : State) (hperm : init.Perm (List.range 9)) :
    ∀ (n : Nat) (s : State), stepsTo n init s = true → s.Perm (List.range 9) := by
  intro n
  induction n with
  | zero =>
    intro s h
    rw [stepsTo_zero] at h
    rw [← h]
    exact hperm
  | succ n ihn =>
    intro s h
    obtain ⟨u, mlab, hu, hmv⟩ := stepsTo_unextend n init s h
    have hup := ihn u hu
    exact (mem_moves_perm u hup (s, mlab) hmv).trans hup

lemma popMin_f_le : ∀ (l : List HeapEntry) (e : HeapEntry) (rest : List HeapEntry),
    popMin l = some (e, rest) → ∀ x ∈ l, e.1 ≤ x.1 := by
  intro l
  induction l with
  | nil => intro e rest h; simp [popMin] at h
  | cons a as ih =>
    intro e rest h x hx
    rw [popMin] at h
    rcases hp : popMin as with _ | ⟨m', rest'⟩
    · rw [hp] at h
      simp only [Option.some.injEq, Prod.mk.injEq] at h
      have hnil : as = [] := by
        cases as with
        | nil => rfl
        | cons b bs =>
          exfalso
          rw [popMin] at hp
          rcases hq : popMin bs with _ | pr
          · rw [hq] at hp
            simp at hp
          · rw [hq] at hp
            replace hp : (if pr.1.1 < b.1 ∨ pr.1.1 = b.1 ∧ pr.1.2.1 < b.2.1
                then some (pr.1, b :: pr.2) else some (b, bs)) = none := hp
            by_cases hcc : pr.1.1 < b.1 ∨ pr.1.1 = b.1 ∧ pr.1.2.1 < b.2.1
            · rw [if_pos hcc] at hp
              simp at hp
            · rw [if_neg hcc] at hp
              simp at hp
      rcases List.mem_cons.mp hx with rfl | hx
      · rw [← h.1]
      · rw [hnil] at hx
        simp at hx
    · rw [hp] at h
      replace h : (if m'.1 < a.1 ∨ m'.1 = a.1 ∧ m'.2.1 < a.2.1
          then some (m', a :: rest') else some (a, as)) = some (e, rest) := h
      by_cases hc : m'.1 < a.1 ∨ m'.1 = a.1 ∧ m'.2.1 < a.2.1
      · rw [if_pos hc] at h
        simp only [Option.some.injEq, Prod.mk.injEq] at h
        rcases List.mem_cons.mp hx with rfl | hx
        · rw [← h.1]
          rcases hc with hc | hc
          · omega
          · omega
        · rw [← h.1]
          exact ih m' rest' hp x hx
      · rw [if_neg hc] at h
        simp only [Option.some.injEq, Prod.mk.injEq] at h
        rcases List.mem_cons.mp hx with rfl | hx
        · rw [← h.1]
        · rw [← h.1]
          have h1 := ih m' rest' hp x hx
          have h2 : a.1 ≤ m'.1 := by omega
          omega

lemma h_telescope (h : State → Nat)
    (hcons : ∀ s : State, s.Perm (List.range 9) →
      ∀ sm ∈ get_possible_moves s, h s ≤ h sm.1 + 1) :
    ∀ (k : Nat) (u t : State), u.Perm (List.range 9) → stepsTo k u t = true →
      h u ≤ k + h t := by
  intro k
  induction k with
  | zero =>
    intro u t _ hst
    rw [stepsTo_zero] at hst
    rw [hst]
    omega
  | succ k ihk =>
    intro u t hup hst
    obtain ⟨sm, hsm, hrest⟩ := (stepsTo_succ k u t).mp hst
    have h1 := hcons u hup sm hsm
    have h2 := ihk sm.1 t ((mem_moves_perm u hup sm hsm).trans hup) hrest
    omega

lemma misplaced_step (s : State) (hp : s.Perm (List.range 9)) :
    ∀ sm ∈ get_possible_moves s,
      misplaced_tiles_heuristic s ≤ misplaced_tiles_heuristic sm.1 + 1 := by
  intro sm hm
  have := (heuristics_consistent_aux s hp sm hm).1
  omega

lemma manhattan_step (s : State) (hp : s.Perm (List.range 9)) :
    ∀ sm ∈ get_possible_moves s,
      manhattan_distance_heuristic s ≤ manhattan_distance_heuristic sm.1 + 1 := by
  intro sm hm
  have := (heuristics_consistent_aux s hp sm hm).2
  omega

lemma misplaced_goal : misplaced_tiles_heuristic goal_state = 0 := by decide

lemma manhattan_goal : manhattan_distance_heuristic goal_state = 0 := by decide

lemma popMin_spec : ∀ (l : List HeapEntry) (e : HeapEntry) (rest : List HeapEntry),
    popMin l = some (e, rest) →
      e ∈ l ∧ (∀ x ∈ rest, x ∈ l) ∧ (∀ x ∈ l, x = e ∨ x ∈ rest) ∧
        rest.length + 1 = l.length := by
  intro l
  induction l with
  | nil => intro e rest h; simp [popMin] at h
  | cons a as ih =>
    intro e rest h
    rw [popMin] at h
    rcases hp : popMin as with _ | ⟨m', rest'⟩
    · rw [hp] at h
      simp only [Option.some.injEq, Prod.mk.injEq] at h
      have hnil : as = [] := by
        cases as with
        | nil => rfl
        | cons b bs =>
          exfalso
          rw [popMin] at hp
          rcases hq : popMin bs with _ | pr
          · rw [hq] at hp
            simp at hp
          · rw [hq] at hp
            replace hp : (if pr.1.1 < b.1 ∨ pr.1.1 = b.1 ∧ pr.1.2.1 < b.2.1
                then some (pr.1, b :: pr.2) else some (b, bs)) = none := hp
            by_cases hcc : pr.1.1 < b.1 ∨ pr.1.1 = b.1 ∧ pr.1.2.1 < b.2.1
            · rw [if_pos hcc] at hp
              simp at hp
            · rw [if_neg hcc] at hp
              simp at hp
      subst hnil
      refine ⟨by simp [← h.1], ?_, ?_, by simp [← h.2]⟩
      · intro x hx
        rw [← h.2] at hx
        simp at hx
      · intro x hx
        simp at hx
        subst hx
        exact Or.inl h.1
    · rw [hp] at h
      replace h : (if m'.1 < a.1 ∨ m'.1 = a.1 ∧ m'.2.1 < a.2.1
          then some (m', a :: rest') else some (a, as)) = some (e, rest) := h
      obtain ⟨hm, hsub, hcovr, hlen⟩ := ih m' rest' hp
      by_cases hc : m'.1 < a.1 ∨ m'.1 = a.1 ∧ m'.2.1 < a.2.1
      · rw [if_pos hc] at h
        simp only [Option.some.injEq, Prod.mk.injEq] at h
        obtain ⟨he, hr⟩ := h
        subst he
        refine ⟨by simp [hm], ?_, ?_, ?_⟩
        · intro x hx
          rw [← hr] at hx
          rcases List.mem_cons.mp hx with rfl | hx
          · simp
          · simp [hsub x hx]
        · intro x hx
          rcases List.mem_cons.mp hx with rfl | hx
          · right
            rw [← hr]
            simp
          · rcases hcovr x hx with rfl | hx'
            · exact Or.inl rfl
            · right
              rw [← hr]
              simp [hx']
        · rw [← hr]
          simp
          omega
      · rw [if_neg hc] at h
        simp only [Option.some.injEq, Prod.mk.injEq] at h
        obtain ⟨he, hr⟩ := h
        subst he
        subst hr
        refine ⟨by simp, ?_, ?_, by simp⟩
        · intro x hx
          simp [hx]
        · intro x hx
          rcases List.mem_cons.mp hx with rfl | hx
          · exact Or.inl rfl
          · exact Or.inr hx

lemma astar_frontier (init : State) (h : State → Nat) (open_set : List HeapEntry)
    (gs : List (State × Nat)) (closed : List State)
    (hinv : AStarInv init h open_set gs closed) :
    ∀ (d : Nat) (t : State), stepsTo d init t = true →
      (∀ j, stepsTo j init t = true → d ≤ j) → t ∉ closed →
      ∃ en ∈ open_set, ∃ k, stepsTo k en.2.2.state t = true ∧ en.2.2.cost + k = d ∧
        (∀ j, stepsTo j init en.2.2.state = true → en.2.2.cost ≤ j) := by
  obtain ⟨hE, hreal, hcov, hclosedI, hinit0, hgnc⟩ := hinv
  intro d
  induction d using Nat.strong_induction_on with
  | _ d ih =>
    intro t hst hmin htc
    match d with
    | 0 =>
      rw [stepsTo_zero] at hst
      rcases hcov init 0 hinit0 with hcl | ⟨en, hen, hst', hcost⟩
      · rw [← hst] at htc
        exact absurd hcl htc
      · refine ⟨en, hen, 0, ?_, by omega, ?_⟩
        · rw [hst', ← hst, stepsTo_zero]
        · intro j _
          omega
    | d' + 1 =>
      obtain ⟨u, mlab, hu, hmv⟩ := stepsTo_unextend d' init t hst
      have humin : ∀ j, stepsTo j init u = true → d' ≤ j := by
        intro j hj
        by_contra hlt
        have hext := stepsTo_extend j init u hj t mlab hmv
        have := hmin (j + 1) hext
        omega
      by_cases huc : u ∈ closed
      · obtain ⟨g, hlk, hgreal, hgmin, hexp⟩ := hclosedI u huc
        have hgd : g = d' := le_antisymm (hgmin d' hu) (humin g hgreal)
        obtain ⟨gt, hlkt, hle⟩ := hexp (t, mlab) hmv
        have hgt1 : gt = d' + 1 := by
          have h1 := hmin gt (hreal t gt hlkt)
          omega
        rcases hcov t gt hlkt with hcl | ⟨en, hen, hst', hcost⟩
        · exact absurd hcl htc
        · refine ⟨en, hen, 0, ?_, by omega, ?_⟩
          · rw [hst', stepsTo_zero]
          · intro j hj
            rw [hst'] at hj
            have := hmin j hj
            omega
      · obtain ⟨en, hen, k, hk, hsum, hemin⟩ := ih d' (by omega) u hu humin huc
        exact ⟨en, hen, k + 1, stepsTo_extend k en.2.2.state u hk t mlab hmv,
          by omega, hemin⟩

lemma astar_pop_optimal (init : State) (hperm : init.Perm (List.range 9))
    (h : State → Nat)
    (hcons : ∀ s : State, s.Perm (List.range 9) →
      ∀ sm ∈ get_possible_moves s, h s ≤ h sm.1 + 1)
    (open_set : List HeapEntry) (gs : List (State × Nat)) (closed : List State)
    (hinv : AStarInv init h open_set gs closed)
    (e : HeapEntry) (rest : List HeapEntry)
    (hpop : popMin open_set = some (e, rest))
    (hnc : e.2.2.state ∉ closed) :
    stepsTo e.2.2.cost init e.2.2.state = true ∧
      ∀ j, stepsTo j init e.2.2.state = true → e.2.2.cost ≤ j := by
  obtain ⟨hmemE, _, _, _⟩ := popMin_spec open_set e rest hpop
  obtain ⟨_, _, hestep, hef, _⟩ := hinv.1 e hmemE
  refine ⟨hestep, ?_⟩
  intro j hj
  have hne : {i | stepsTo i init e.2.2.state = true}.Nonempty := ⟨j, hj⟩
  have hdmem : sInf {i | stepsTo i init e.2.2.state = true}
      ∈ {i | stepsTo i init e.2.2.state = true} := Nat.sInf_mem hne
  have hdle : sInf {i | stepsTo i init e.2.2.state = true} ≤ j := Nat.sInf_le hj
  obtain ⟨en, hen, k, hk, hsum, hemin⟩ :=
    astar_frontier init h open_set gs closed hinv
      (sInf {i | stepsTo i init e.2.2.state = true}) e.2.2.state hdmem
      (fun i hi => Nat.sInf_le hi) hnc
  obtain ⟨_, _, henstep, henf, _⟩ := hinv.1 en hen
  have hperm_en : en.2.2.state.Perm (List.range 9) :=
    stepsTo_perm init hperm en.2.2.cost en.2.2.state henstep
  have htel : h en.2.2.state ≤ k + h e.2.2.state :=
    h_telescope h hcons k en.2.2.state e.2.2.state hperm_en hk
  have hfle : e.1 ≤ en.1 := popMin_f_le open_set e rest hpop en hen
  omega

lemma lookupScore_cons (t : State) (v : Nat) (gs : List (State × Nat)) (x : State) :
    lookupScore ((t, v) :: gs) x = if t = x then some v else lookupScore gs x := rfl

lemma astar_fold_spec (h : State → Nat) (current : Node) :
    ∀ (ms : List (State × String)) (acc : List HeapEntry × List (State × Nat) × Nat),
    ∃ pushed : List HeapEntry,
      (ms.foldl
        (fun (acc : List HeapEntry × List (State × Nat) × Nat) sm =>
          let new_g_score := current.cost + 1
          let relax :=
            match lookupScore acc.2.1 sm.1 with
            | none => true
            | some g => decide (new_g_score < g)
          if relax then
            ((new_g_score + h sm.1, acc.2.2 + 1,
                Node.child sm.1 current sm.2 new_g_score) :: acc.1,
             (sm.1, new_g_score) :: acc.2.1, acc.2.2 + 1)
          else acc) acc).1 = pushed ++ acc.1 ∧
      (∀ en ∈ pushed, ∃ sm ∈ ms,
        en.2.2 = Node.child sm.1 current sm.2 (current.cost + 1) ∧
        en.1 = current.cost + 1 + h sm.1) ∧
      (∀ en ∈ pushed, lookupScore (ms.foldl
        (fun (acc : List HeapEntry × List (State × Nat) × Nat) sm =>
          let new_g_score := current.cost + 1
          let relax :=
            match lookupScore acc.2.1 sm.1 with
            | none => true
            | some g => decide (new_g_score < g)
          if relax then
            ((new_g_score + h sm.1, acc.2.2 + 1,
                Node.child sm.1 current sm.2 new_g_score) :: acc.1,
             (sm.1, new_g_score) :: acc.2.1, acc.2.2 + 1)
          else acc) acc).2.1 en.2.2.state = some (current.cost + 1)) ∧
      (∀ x gx, lookupScore (ms.foldl
        (fun (acc : List HeapEntry × List (State × Nat) × Nat) sm =>
          let new_g_score := current.cost + 1
          let relax :=
            match lookupScore acc.2.1 sm.1 with
            | none => true
            | some g => decide (new_g_score < g)
          if relax then
            ((new_g_score + h sm.1, acc.2.2 + 1,
                Node.child sm.1 current sm.2 new_g_score) :: acc.1,
             (sm.1, new_g_score) :: acc.2.1, acc.2.2 + 1)
          else acc) acc).2.1 x = some gx →
        lookupScore acc.2.1 x = some gx ∨
          (gx = current.cost + 1 ∧ (∃ sm ∈ ms, sm.1 = x) ∧
            ∃ en ∈ pushed, en.2.2.state = x)) ∧
      (∀ x gx, lookupScore acc.2.1 x = some gx →
        lookupScore (ms.foldl
          (fun (acc : List HeapEntry × List (State × Nat) × Nat) sm =>
            let new_g_score := current.cost + 1
            let relax :=
              match lookupScore acc.2.1 sm.1 with
              | none => true
              | some g => decide (new_g_score < g)
            if relax then
              ((new_g_score + h sm.1, acc.2.2 + 1,
                  Node.child sm.1 current sm.2 new_g_score) :: acc.1,
               (sm.1, new_g_score) :: acc.2.1, acc.2.2 + 1)
            else acc) acc).2.1 x = some gx ∨
          (lookupScore (ms.foldl
            (fun (acc : List HeapEntry × List (State × Nat) × Nat) sm =>
              let new_g_score := current.cost + 1
              let relax :=
                match lookupScore acc.2.1 sm.1 with
                | none => true
                | some g => decide (new_g_score < g)
              if relax then
                ((new_g_score + h sm.1, acc.2.2 + 1,
                    Node.child sm.1 current sm.2 new_g_score) :: acc.1,
                 (sm.1, new_g_score) :: acc.2.1, acc.2.2 + 1)
              else acc) acc).2.1 x = some (current.cost + 1) ∧
            current.cost + 1 < gx ∧ ∃ sm ∈ ms, sm.1 = x)) ∧
      (∀ sm ∈ ms, ∃ gt, lookupScore (ms.foldl
        (fun (acc : List HeapEntry × List (State × Nat) × Nat) sm =>
          let new_g_score := current.cost + 1
          let relax :=
            match lookupScore acc.2.1 sm.1 with
            | none => true
            | some g => decide (new_g_score < g)
          if relax then
            ((new_g_score + h sm.1, acc.2.2 + 1,
                Node.child sm.1 current sm.2 new_g_score) :: acc.1,
             (sm.1, new_g_score) :: acc.2.1, acc.2.2 + 1)
          else acc) acc).2.1 sm.1 = some gt ∧ gt ≤ current.cost + 1) := by
  intro ms
  induction ms with
  | nil =>
    intro acc
    exact ⟨[], rfl, by simp, by simp, fun x gx hx => Or.inl hx,
      fun x gx hx => Or.inl hx, by simp⟩
  | cons sm ms ih =>
    intro acc
    rcases hlk : lookupScore acc.2.1 sm.1 with _ | gold
    · -- not recorded: push
      have key : (sm :: ms).foldl
          (fun (acc : List HeapEntry × List (State × Nat) × Nat) sm =>
          let new_g_score := current.cost + 1
          let relax :=
            match lookupScore acc.2.1 sm.1 with
            | none => true
            | some g => decide (new_g_score < g)
          if relax then
            ((new_g_score + h sm.1, acc.2.2 + 1,
                Node.child sm.1 current sm.2 new_g_score) :: acc.1,
             (sm.1, new_g_score) :: acc.2.1, acc.2.2 + 1)
          else acc) acc
          = ms.foldl
          (fun (acc : List HeapEntry × List (State × Nat) × Nat) sm =>
          let new_g_score := current.cost + 1
          let relax :=
            match lookupScore acc.2.1 sm.1 with
            | none => true
            | some g => decide (new_g_score < g)
          if relax then
            ((new_g_score + h sm.1, acc.2.2 + 1,
                Node.child sm.1 current sm.2 new_g_score) :: acc.1,
             (sm.1, new_g_score) :: acc.2.1, acc.2.2 + 1)
          else acc)
          ((current.cost + 1 + h sm.1, acc.2.2 + 1,
              Node.child sm.1 current sm.2 (current.cost + 1)) :: acc.1,
             (sm.1, current.cost + 1) :: acc.2.1, acc.2.2 + 1) := by
        rw [List.foldl_cons]
        simp [hlk]
      rw [key]
      obtain ⟨pushed, h1, h2, h3, h4, h5, h6⟩ := ih
        (((current.cost + 1 + h sm.1, acc.2.2 + 1,
            Node.child sm.1 current sm.2 (current.cost + 1)) :: acc.1,
          (sm.1, current.cost + 1) :: acc.2.1, acc.2.2 + 1))
      refine ⟨pushed ++ [(current.cost + 1 + h sm.1, acc.2.2 + 1,
        Node.child sm.1 current sm.2 (current.cost + 1))], ?_, ?_, ?_, ?_, ?_, ?_⟩
      · rw [h1, List.append_assoc]
        rfl
      · intro en hen
        rcases List.mem_append.mp hen with hen | hen
        · obtain ⟨sm', hsm', he⟩ := h2 en hen
          exact ⟨sm', by simp [hsm'], he⟩
        · have he : en = (current.cost + 1 + h sm.1, acc.2.2 + 1,
              Node.child sm.1 current sm.2 (current.cost + 1)) := by simpa using hen
          subst he
          exact ⟨sm, by simp, rfl, rfl⟩
      · intro en hen
        rcases List.mem_append.mp hen with hen | hen
        · exact h3 en hen
        · have he : en = (current.cost + 1 + h sm.1, acc.2.2 + 1,
              Node.child sm.1 current sm.2 (current.cost + 1)) := by simpa using hen
          subst he
          have hbase : lookupScore ((sm.1, current.cost + 1) :: acc.2.1)
              (Node.child sm.1 current sm.2 (current.cost + 1)).state
              = some (current.cost + 1) := by
            show lookupScore ((sm.1, current.cost + 1) :: acc.2.1) sm.1
              = some (current.cost + 1)
            rw [lookupScore_cons, if_pos rfl]
          rcases h5 _ _ hbase with hh | ⟨hh, hlt, _⟩
          · exact hh
          · exact hh
      · intro x gx hx
        rcases h4 x gx hx with hx' | ⟨hgx, ⟨sm', hsm', hxeq⟩, ⟨en, hen, hexs⟩⟩
        · rw [lookupScore_cons] at hx'
          by_cases hxe : sm.1 = x
          · rw [if_pos hxe] at hx'
            refine Or.inr ⟨by simpa using hx'.symm, ⟨sm, by simp, hxe⟩,
              ⟨(current.cost + 1 + h sm.1, acc.2.2 + 1,
                Node.child sm.1 current sm.2 (current.cost + 1)), by simp, hxe⟩⟩
          · rw [if_neg hxe] at hx'
            exact Or.inl hx'
        · exact Or.inr ⟨hgx, ⟨sm', by simp [hsm'], hxeq⟩,
            ⟨en, List.mem_append_left _ hen, hexs⟩⟩
      · intro x gx hx
        have hx' : lookupScore ((sm.1, current.cost + 1) :: acc.2.1) x
            = some gx ∨ (sm.1 = x ∧ gx ≠ current.cost + 1 ∧
              lookupScore ((sm.1, current.cost + 1) :: acc.2.1) x
                = some (current.cost + 1)) := by
          rw [lookupScore_cons]
          by_cases hxe : sm.1 = x
          · rw [← hxe] at hx
            rw [hlk] at hx
            exact absurd hx (by simp)
          · rw [if_neg hxe]
            exact Or.inl hx
        rcases hx' with hx' | ⟨rfl, hne, hx'⟩
        · rcases h5 x gx hx' with hh | ⟨hh, hlt, ⟨sm', hsm', hxeq⟩⟩
          · exact Or.inl hh
          · exact Or.inr ⟨hh, hlt, ⟨sm', by simp [hsm'], hxeq⟩⟩
        · rw [hlk] at hx
          exact absurd hx (by simp)
      · intro sm' hsm'
        rcases List.mem_cons.mp hsm' with rfl | hm
        · have hbase : lookupScore ((sm'.1, current.cost + 1) :: acc.2.1) sm'.1
              = some (current.cost + 1) := by
            rw [lookupScore_cons, if_pos rfl]
          rcases h5 _ _ hbase with hh | ⟨hh, _, _⟩
          · exact ⟨current.cost + 1, hh, le_rfl⟩
          · exact ⟨current.cost + 1, hh, le_rfl⟩
        · exact h6 sm' hm
    · -- recorded: maybe relax
      by_cases hrel : current.cost + 1 < gold
      · have key : (sm :: ms).foldl
            (fun (acc : List HeapEntry × List (State × Nat) × Nat) sm =>
          let new_g_score := current.cost + 1
          let relax :=
            match lookupScore acc.2.1 sm.1 with
            | none => true
            | some g => decide (new_g_score < g)
          if relax then
            ((new_g_score + h sm.1, acc.2.2 + 1,
                Node.child sm.1 current sm.2 new_g_score) :: acc.1,
             (sm.1, new_g_score) :: acc.2.1, acc.2.2 + 1)
          else acc) acc
            = ms.foldl
            (fun (acc : List HeapEntry × List (State × Nat) × Nat) sm =>
          let new_g_score := current.cost + 1
          let relax :=
            match lookupScore acc.2.1 sm.1 with
            | none => true
            | some g => decide (new_g_score < g)
          if relax then
            ((new_g_score + h sm.1, acc.2.2 + 1,
                Node.child sm.1 current sm.2 new_g_score) :: acc.1,
             (sm.1, new_g_score) :: acc.2.1, acc.2.2 + 1)
          else acc)
            ((current.cost + 1 + h sm.1, acc.2.2 + 1,
              Node.child sm.1 current sm.2 (current.cost + 1)) :: acc.1,
             (sm.1, current.cost + 1) :: acc.2.1, acc.2.2 + 1) := by
          rw [List.foldl_cons]
          simp [hlk, hrel]
        rw [key]
        obtain ⟨pushed, h1, h2, h3, h4, h5, h6⟩ := ih
          (((current.cost + 1 + h sm.1, acc.2.2 + 1,
              Node.child sm.1 current sm.2 (current.cost + 1)) :: acc.1,
            (sm.1, current.cost + 1) :: acc.2.1, acc.2.2 + 1))
        refine ⟨pushed ++ [(current.cost + 1 + h sm.1, acc.2.2 + 1,
          Node.child sm.1 current sm.2 (current.cost + 1))], ?_, ?_, ?_, ?_, ?_, ?_⟩
        · rw [h1, List.append_assoc]
          rfl
        · intro en hen
          rcases List.mem_append.mp hen with hen | hen
          · obtain ⟨sm', hsm', he⟩ := h2 en hen
            exact ⟨sm', by simp [hsm'], he⟩
          · have he : en = (current.cost + 1 + h sm.1, acc.2.2 + 1,
                Node.child sm.1 current sm.2 (current.cost + 1)) := by simpa using hen
            subst he
            exact ⟨sm, by simp, rfl, rfl⟩
        · intro en hen
          rcases List.mem_append.mp hen with hen | hen
          · exact h3 en hen
          · have he : en = (current.cost + 1 + h sm.1, acc.2.2 + 1,
                Node.child sm.1 current sm.2 (current.cost + 1)) := by simpa using hen
            subst he
            have hbase : lookupScore ((sm.1, current.cost + 1) :: acc.2.1) sm.1
                = some (current.cost + 1) := by
              rw [lookupScore_cons, if_pos rfl]
            rcases h5 _ _ hbase with hh | ⟨hh, _, _⟩
            · exact hh
            · exact hh
        · intro x gx hx
          rcases h4 x gx hx with hx' | ⟨hgx, ⟨sm', hsm', hxeq⟩, ⟨en, hen, hexs⟩⟩
          · rw [lookupScore_cons] at hx'
            by_cases hxe : sm.1 = x
            · rw [if_pos hxe] at hx'
              refine Or.inr ⟨by simpa using hx'.symm, ⟨sm, by simp, hxe⟩,
                ⟨(current.cost + 1 + h sm.1, acc.2.2 + 1,
                  Node.child sm.1 current sm.2 (current.cost + 1)), by simp, hxe⟩⟩
            · rw [if_neg hxe] at hx'
              exact Or.inl hx'
          · exact Or.inr ⟨hgx, ⟨sm', by simp [hsm'], hxeq⟩,
              ⟨en, List.mem_append_left _ hen, hexs⟩⟩
        · intro x gx hx
          by_cases hxe : sm.1 = x
          · subst hxe
            rw [hlk] at hx
            have hgxe : gx = gold := by simpa using hx.symm
            subst hgxe
            have hbase : lookupScore ((sm.1, current.cost + 1) :: acc.2.1) sm.1
                = some (current.cost + 1) := by
              rw [lookupScore_cons, if_pos rfl]
            rcases h5 _ _ hbase with hh | ⟨hh, _, _⟩
            · exact Or.inr ⟨hh, hrel, ⟨sm, by simp, rfl⟩⟩
            · exact Or.inr ⟨hh, hrel, ⟨sm, by simp, rfl⟩⟩
          · have hx' : lookupScore ((sm.1, current.cost + 1) :: acc.2.1) x = some gx := by
              rw [lookupScore_cons, if_neg hxe]
              exact hx
            rcases h5 x gx hx' with hh | ⟨hh, hlt, ⟨sm', hsm', hxeq⟩⟩
            · exact Or.inl hh
            · exact Or.inr ⟨hh, hlt, ⟨sm', by simp [hsm'], hxeq⟩⟩
        · intro sm' hsm'
          rcases List.mem_cons.mp hsm' with rfl | hm
          · have hbase : lookupScore ((sm'.1, current.cost + 1) :: acc.2.1) sm'.1
                = some (current.cost + 1) := by
              rw [lookupScore_cons, if_pos rfl]
            rcases h5 _ _ hbase with hh | ⟨hh, _, _⟩
            · exact ⟨current.cost + 1, hh, le_rfl⟩
            · exact ⟨current.cost + 1, hh, le_rfl⟩
          · exact h6 sm' hm
      · -- no relax
        have key : (sm :: ms).foldl
            (fun (acc : List HeapEntry × List (State × Nat) × Nat) sm =>
          let new_g_score := current.cost + 1
          let relax :=
            match lookupScore acc.2.1 sm.1 with
            | none => true
            | some g => decide (new_g_score < g)
          if relax then
            ((new_g_score + h sm.1, acc.2.2 + 1,
                Node.child sm.1 current sm.2 new_g_score) :: acc.1,
             (sm.1, new_g_score) :: acc.2.1, acc.2.2 + 1)
          else acc) acc
            = ms.foldl
            (fun (acc : List HeapEntry × List (State × Nat) × Nat) sm =>
          let new_g_score := current.cost + 1
          let relax :=
            match lookupScore acc.2.1 sm.1 with
            | none => true
            | some g => decide (new_g_score < g)
          if relax then
            ((new_g_score + h sm.1, acc.2.2 + 1,
                Node.child sm.1 current sm.2 new_g_score) :: acc.1,
             (sm.1, new_g_score) :: acc.2.1, acc.2.2 + 1)
          else acc) acc := by
          rw [List.foldl_cons]
          simp [hlk, hrel]
        rw [key]
        obtain ⟨pushed, h1, h2, h3, h4, h5, h6⟩ := ih acc
        refine ⟨pushed, h1, ?_, h3, ?_, ?_, ?_⟩
        · intro en hen
          obtain ⟨sm', hsm', he⟩ := h2 en hen
          exact ⟨sm', by simp [hsm'], he⟩
        · intro x gx hx
          rcases h4 x gx hx with hx' | ⟨hgx, ⟨sm', hsm', hxeq⟩, hw⟩
          · exact Or.inl hx'
          · exact Or.inr ⟨hgx, ⟨sm', by simp [hsm'], hxeq⟩, hw⟩
        · intro x gx hx
          rcases h5 x gx hx with hh | ⟨hh, hlt, ⟨sm', hsm', hxeq⟩⟩
          · exact Or.inl hh
          · exact Or.inr ⟨hh, hlt, ⟨sm', by simp [hsm'], hxeq⟩⟩
        · intro sm' hsm'
          rcases List.mem_cons.mp hsm' with rfl | hm
          · rcases h5 sm'.1 gold hlk with hh | ⟨hh, hlt, _⟩
            · exact ⟨gold, hh, by omega⟩
            · exact ⟨current.cost + 1, hh, le_rfl⟩
          · exact h6 sm' hm

lemma sum_update_le (P : Finset State) (G F : State → Nat) (t : State) (ht : t ∈ P)
    (hagree : ∀ x ∈ P, x ≠ t → G x = F x) (hdec : G t + 1 ≤ F t) :
    (∑ x in P, G x) + 1 ≤ ∑ x in P, F x := by
  rw [← Finset.sum_erase_add P G ht, ← Finset.sum_erase_add P F ht]
  have hagr : ∑ x in P.erase t, G x = ∑ x in P.erase t, F x :=
    Finset.sum_congr rfl (fun x hx =>
      hagree x (Finset.mem_of_mem_erase hx) (Finset.ne_of_mem_erase hx))
  omega

lemma astar_fold_psi (init : State) (h : State → Nat) (current : Node) :
    ∀ (ms : List (State × String)) (acc : List HeapEntry × List (State × Nat) × Nat),
      (∀ sm ∈ ms, sm.1 ∈ ((List.range 9).permutations).toFinset ∧
        sInf {j | stepsTo j init sm.1 = true} ≤ current.cost + 1 ∧
        current.cost ≤ sInf {j | stepsTo j init sm.1 = true} + 1) →
      (∑ x in ((List.range 9).permutations).toFinset,
        (match lookupScore (ms.foldl
          (fun (acc : List HeapEntry × List (State × Nat) × Nat) sm =>
          let new_g_score := current.cost + 1
          let relax :=
            match lookupScore acc.2.1 sm.1 with
            | none => true
            | some g => decide (new_g_score < g)
          if relax then
            ((new_g_score + h sm.1, acc.2.2 + 1,
                Node.child sm.1 current sm.2 new_g_score) :: acc.1,
             (sm.1, new_g_score) :: acc.2.1, acc.2.2 + 1)
          else acc) acc).2.1 x with
          | none => 3
          | some gx => gx - sInf {j | stepsTo j init x = true}))
        + (ms.foldl
          (fun (acc : List HeapEntry × List (State × Nat) × Nat) sm =>
          let new_g_score := current.cost + 1
          let relax :=
            match lookupScore acc.2.1 sm.1 with
            | none => true
            | some g => decide (new_g_score < g)
          if relax then
            ((new_g_score + h sm.1, acc.2.2 + 1,
                Node.child sm.1 current sm.2 new_g_score) :: acc.1,
             (sm.1, new_g_score) :: acc.2.1, acc.2.2 + 1)
          else acc) acc).1.length
      ≤ (∑ x in ((List.range 9).permutations).toFinset,
        (match lookupScore acc.2.1 x with
          | none => 3
          | some gx => gx - sInf {j | stepsTo j init x = true}))
        + acc.1.length := by
  intro ms
  induction ms with
  | nil =>
    intro acc _
    exact le_rfl
  | cons sm ms ih =>
    intro acc hms
    have hsm := hms sm (List.mem_cons_self sm ms)
    have hrest : ∀ sm' ∈ ms, sm'.1 ∈ ((List.range 9).permutations).toFinset ∧
        sInf {j | stepsTo j init sm'.1 = true} ≤ current.cost + 1 ∧
        current.cost ≤ sInf {j | stepsTo j init sm'.1 = true} + 1 :=
      fun sm' hm => hms sm' (List.mem_cons_of_mem _ hm)
    rcases hlk : lookupScore acc.2.1 sm.1 with _ | gold
    · have key : (sm :: ms).foldl
          (fun (acc : List HeapEntry × List (State × Nat) × Nat) sm =>
          let new_g_score := current.cost + 1
          let relax :=
            match lookupScore acc.2.1 sm.1 with
            | none => true
            | some g => decide (new_g_score < g)
          if relax then
            ((new_g_score + h sm.1, acc.2.2 + 1,
                Node.child sm.1 current sm.2 new_g_score) :: acc.1,
             (sm.1, new_g_score) :: acc.2.1, acc.2.2 + 1)
          else acc) acc
          = ms.foldl
          (fun (acc : List HeapEntry × List (State × Nat) × Nat) sm =>
          let new_g_score := current.cost + 1
          let relax :=
            match lookupScore acc.2.1 sm.1 with
            | none => true
            | some g => decide (new_g_score < g)
          if relax then
            ((new_g_score + h sm.1, acc.2.2 + 1,
                Node.child sm.1 current sm.2 new_g_score) :: acc.1,
             (sm.1, new_g_score) :: acc.2.1, acc.2.2 + 1)
          else acc)
          ((current.cost + 1 + h sm.1, acc.2.2 + 1,
              Node.child sm.1 current sm.2 (current.cost + 1)) :: acc.1,
             (sm.1, current.cost + 1) :: acc.2.1, acc.2.2 + 1) := by
        rw [List.foldl_cons]
        simp [hlk]
      rw [key]
      have hstep : (∑ x in ((List.range 9).permutations).toFinset,
        (match lookupScore ((sm.1, current.cost + 1) :: acc.2.1) x with
          | none => 3
          | some gx => gx - sInf {j | stepsTo j init x = true})) + 1
          ≤ (∑ x in ((List.range 9).permutations).toFinset,
        (match lookupScore acc.2.1 x with
          | none => 3
          | some gx => gx - sInf {j | stepsTo j init x = true})) := by
        apply sum_update_le _ _ _ sm.1 hsm.1
        · intro x hx hxt
          simp only [lookupScore_cons]
          rw [if_neg (fun he => hxt he.symm)]
        · have h2 := hsm.2.2
          have hGt : lookupScore ((sm.1, current.cost + 1) :: acc.2.1) sm.1
              = some (current.cost + 1) := by
            rw [lookupScore_cons, if_pos rfl]
          rw [hGt, hlk]
          show current.cost + 1 - sInf {j | stepsTo j init sm.1 = true} + 1 ≤ 3
          omega
      refine le_trans (ih ((current.cost + 1 + h sm.1, acc.2.2 + 1,
              Node.child sm.1 current sm.2 (current.cost + 1)) :: acc.1,
             (sm.1, current.cost + 1) :: acc.2.1, acc.2.2 + 1) hrest) ?_
      show (∑ x in ((List.range 9).permutations).toFinset,
        (match lookupScore ((sm.1, current.cost + 1) :: acc.2.1) x with
          | none => 3
          | some gx => gx - sInf {j | stepsTo j init x = true}))
        + (acc.1.length + 1)
        ≤ (∑ x in ((List.range 9).permutations).toFinset,
        (match lookupScore acc.2.1 x with
          | none => 3
          | some gx => gx - sInf {j | stepsTo j init x = true}))
        + acc.1.length
      omega
    · by_cases hrel : current.cost + 1 < gold
      · have key : (sm :: ms).foldl
            (fun (acc : List HeapEntry × List (State × Nat) × Nat) sm =>
          let new_g_score := current.cost + 1
          let relax :=
            match lookupScore acc.2.1 sm.1 with
            | none => true
            | some g => decide (new_g_score < g)
          if relax then
            ((new_g_score + h sm.1, acc.2.2 + 1,
                Node.child sm.1 current sm.2 new_g_score) :: acc.1,
             (sm.1, new_g_score) :: acc.2.1, acc.2.2 + 1)
          else acc) acc
            = ms.foldl
            (fun (acc : List HeapEntry × List (State × Nat) × Nat) sm =>
          let new_g_score := current.cost + 1
          let relax :=
            match lookupScore acc.2.1 sm.1 with
            | none => true
            | some g => decide (new_g_score < g)
          if relax then
            ((new_g_score + h sm.1, acc.2.2 + 1,
                Node.child sm.1 current sm.2 new_g_score) :: acc.1,
             (sm.1, new_g_score) :: acc.2.1, acc.2.2 + 1)
          else acc)
            ((current.cost + 1 + h sm.1, acc.2.2 + 1,
              Node.child sm.1 current sm.2 (current.cost + 1)) :: acc.1,
             (sm.1, current.cost + 1) :: acc.2.1, acc.2.2 + 1) := by
          rw [List.foldl_cons]
          simp [hlk, hrel]
        rw [key]
        have hstep : (∑ x in ((List.range 9).permutations).toFinset,
        (match lookupScore ((sm.1, current.cost + 1) :: acc.2.1) x with
          | none => 3
          | some gx => gx - sInf {j | stepsTo j init x = true})) + 1
            ≤ (∑ x in ((List.range 9).permutations).toFinset,
        (match lookupScore acc.2.1 x with
          | none => 3
          | some gx => gx - sInf {j | stepsTo j init x = true})) := by
          apply sum_update_le _ _ _ sm.1 hsm.1
          · intro x hx hxt
            simp only [lookupScore_cons]
            rw [if_neg (fun he => hxt he.symm)]
          · have h1 := hsm.2.1
            have hGt : lookupScore ((sm.1, current.cost + 1) :: acc.2.1) sm.1
                = some (current.cost + 1) := by
              rw [lookupScore_cons, if_pos rfl]
            rw [hGt, hlk]
            show current.cost + 1 - sInf {j | stepsTo j init sm.1 = true} + 1
                ≤ gold - sInf {j | stepsTo j init sm.1 = true}
            omega
        refine le_trans (ih ((current.cost + 1 + h sm.1, acc.2.2 + 1,
              Node.child sm.1 current sm.2 (current.cost + 1)) :: acc.1,
             (sm.1, current.cost + 1) :: acc.2.1, acc.2.2 + 1) hrest) ?_
        show (∑ x in ((List.range 9).permutations).toFinset,
        (match lookupScore ((sm.1, current.cost + 1) :: acc.2.1) x with
          | none => 3
          | some gx => gx - sInf {j | stepsTo j init x = true}))
          + (acc.1.length + 1)
          ≤ (∑ x in ((List.range 9).permutations).toFinset,
        (match lookupScore acc.2.1 x with
          | none => 3
          | some gx => gx - sInf {j | stepsTo j init x = true}))
          + acc.1.length
        omega
      · have key : (sm :: ms).foldl
            (fun (acc : List HeapEntry × List (State × Nat) × Nat) sm =>
          let new_g_score := current.cost + 1
          let relax :=
            match lookupScore acc.2.1 sm.1 with
            | none => true
            | some g => decide (new_g_score < g)
          if relax then
            ((new_g_score + h sm.1, acc.2.2 + 1,
                Node.child sm.1 current sm.2 new_g_score) :: acc.1,
             (sm.1, new_g_score) :: acc.2.1, acc.2.2 + 1)
          else acc) acc
            = ms.foldl
            (fun (acc : List HeapEntry × List (State × Nat) × Nat) sm =>
          let new_g_score := current.cost + 1
          let relax :=
            match lookupScore acc.2.1 sm.1 with
            | none => true
            | some g => decide (new_g_score < g)
          if relax then
            ((new_g_score + h sm.1, acc.2.2 + 1,
                Node.child sm.1 current sm.2 new_g_score) :: acc.1,
             (sm.1, new_g_score) :: acc.2.1, acc.2.2 + 1)
          else acc) acc := by
          rw [List.foldl_cons]
          simp [hlk, hrel]
        rw [key]
        exact ih acc hrest

lemma popMin_eq_none : ∀ (l : List HeapEntry), popMin l = none → l = [] := by
  intro l hl
  cases l with
  | nil => rfl
  | cons a as =>
    rw [popMin] at hl
    rcases hp : popMin as with _ | pr
    · rw [hp] at hl
      simp at hl
    · rw [hp] at hl
      replace hl : (if pr.1.1 < a.1 ∨ (pr.1.1 = a.1 ∧ pr.1.2.1 < a.2.1)
          then some (pr.1, a :: pr.2) else some (a, as)) = none := hl
      by_cases hcc : pr.1.1 < a.1 ∨ (pr.1.1 = a.1 ∧ pr.1.2.1 < a.2.1)
      · rw [if_pos hcc] at hl
        simp at hl
      · rw [if_neg hcc] at hl
        simp at hl

lemma astar_expand_inv (init : State) (h : State → Nat)
    (gs : List (State × Nat)) (closed : List State)
    (current : Node) (rest : List HeapEntry)
    (pushed openF : List HeapEntry) (gsF : List (State × Nat))
    (hrestE : ∀ en ∈ rest, EntryInv init h gs en)
    (hreal : ∀ s g, lookupScore gs s = some g → stepsTo g init s = true)
    (hcov2 : ∀ s g, lookupScore gs s = some g →
      s ∈ current.state :: closed ∨ ∃ en ∈ rest, en.2.2.state = s ∧ en.2.2.cost = g)
    (hclosedI : ∀ s ∈ closed, ∃ g, lookupScore gs s = some g ∧
      stepsTo g init s = true ∧ (∀ j, stepsTo j init s = true → g ≤ j) ∧
      (∀ sm ∈ get_possible_moves s, ∃ gt, lookupScore gs sm.1 = some gt ∧ gt ≤ g + 1))
    (hinit0 : lookupScore gs init = some 0)
    (hgnc : goal_state ∉ closed)
    (hvalid0 : Node.valid init current)
    (hplen0 : current.get_path.length = current.cost + 1)
    (hstep0 : stepsTo current.cost init current.state = true)
    (hlkg : lookupScore gs current.state = some current.cost)
    (hgmin : ∀ j, stepsTo j init current.state = true → current.cost ≤ j)
    (hsneq : current.state ≠ goal_state)
    (hF1 : openF = pushed ++ rest)
    (hf2 : ∀ en ∈ pushed, ∃ sm ∈ get_possible_moves current.state,
      en.2.2 = Node.child sm.1 current sm.2 (current.cost + 1) ∧
      en.1 = current.cost + 1 + h sm.1)
    (hF3 : ∀ en ∈ pushed, lookupScore gsF en.2.2.state = some (current.cost + 1))
    (hF4 : ∀ x gx, lookupScore gsF x = some gx → lookupScore gs x = some gx ∨
      (gx = current.cost + 1 ∧ (∃ sm ∈ get_possible_moves current.state, sm.1 = x) ∧
        ∃ en ∈ pushed, en.2.2.state = x))
    (hF5 : ∀ x gx, lookupScore gs x = some gx → lookupScore gsF x = some gx ∨
      (lookupScore gsF x = some (current.cost + 1) ∧ current.cost + 1 < gx ∧
        ∃ sm ∈ get_possible_moves current.state, sm.1 = x))
    (hF6 : ∀ sm ∈ get_possible_moves current.state,
      ∃ gt, lookupScore gsF sm.1 = some gt ∧ gt ≤ current.cost + 1) :
    AStarInv init h openF gsF (current.state :: closed) := by
  refine ⟨?_, ?_, ?_, ?_, ?_, ?_⟩
  · intro en hen
    rw [hF1] at hen
    rcases List.mem_append.mp hen with hp | hr
    · obtain ⟨sm, hsm, hform, hfval⟩ := hf2 en hp
      have hstate : en.2.2.state = sm.1 := by
        rw [hform]
        rfl
      have hcost : en.2.2.cost = current.cost + 1 := by
        rw [hform]
        rfl
      refine ⟨?_, ?_, ?_, ?_, ?_⟩
      · rw [hform]
        exact ⟨hvalid0, hsm⟩
      · rw [hform]
        show (current.get_path ++ [(sm.1, sm.2)]).length = current.cost + 1 + 1
        rw [List.length_append, hplen0]
        rfl
      · rw [hcost, hstate]
        exact stepsTo_extend _ init current.state hstep0 sm.1 sm.2 hsm
      · rw [hcost, hstate]
        exact hfval
      · exact ⟨current.cost + 1, hF3 en hp, hcost.ge⟩
    · obtain ⟨hv, hl, hs, hfv, g2, hg2, hg2le⟩ := hrestE en hr
      refine ⟨hv, hl, hs, hfv, ?_⟩
      rcases hF5 en.2.2.state g2 hg2 with hh | ⟨hh, hlt, -⟩
      · exact ⟨g2, hh, hg2le⟩
      · exact ⟨current.cost + 1, hh, by omega⟩
  · intro s' g2 hlk2
    rcases hF4 s' g2 hlk2 with hold | ⟨rfl, ⟨sm, hsm, hx⟩, -⟩
    · exact hreal s' g2 hold
    · rw [← hx]
      exact stepsTo_extend _ init current.state hstep0 sm.1 sm.2 hsm
  · intro s' g2 hlk2
    rcases hF4 s' g2 hlk2 with hold | ⟨rfl, -, en, henp, hens⟩
    · rcases hcov2 s' g2 hold with hcl | ⟨en, hr, hens, henc⟩
      · exact Or.inl hcl
      · refine Or.inr ⟨en, ?_, hens, henc⟩
        rw [hF1]
        exact List.mem_append_right _ hr
    · refine Or.inr ⟨en, ?_, hens, ?_⟩
      · rw [hF1]
        exact List.mem_append_left _ henp
      · obtain ⟨sm, hsm, hform, -⟩ := hf2 en henp
        rw [hform]
        rfl
  · intro u hu
    rcases List.mem_cons.mp hu with rfl | hucl
    · refine ⟨current.cost, ?_, hstep0, hgmin, hF6⟩
      rcases hF5 _ _ hlkg with hh | ⟨-, hlt, -⟩
      · exact hh
      · omega
    · obtain ⟨gu, hlku, hureal, humin, huexp⟩ := hclosedI u hucl
      refine ⟨gu, ?_, hureal, humin, ?_⟩
      · rcases hF5 u gu hlku with hh | ⟨hh, hlt, sm, hsm, hx⟩
        · exact hh
        · exfalso
          have hext : stepsTo (current.cost + 1) init u = true := by
            rw [← hx]
            exact stepsTo_extend _ init current.state hstep0 sm.1 sm.2 hsm
          have := humin _ hext
          omega
      · intro sm' hsm'
        obtain ⟨gt, hlkt, hlet⟩ := huexp sm' hsm'
        rcases hF5 sm'.1 gt hlkt with hh | ⟨hh, hlt, -⟩
        · exact ⟨gt, hh, hlet⟩
        · exact ⟨current.cost + 1, hh, by omega⟩
  · rcases hF5 init 0 hinit0 with hh | ⟨-, hlt, -⟩
    · exact hh
    · omega
  · intro hgc
    rcases List.mem_cons.mp hgc with he | hcl
    · exact hsneq he.symm
    · exact hgnc hcl

set_option maxHeartbeats 800000 in
lemma aStarLoop_finds_goal (init : State) (hperm : init.Perm (List.range 9))
    (h : State → Nat)
    (hcons : ∀ s : State, s.Perm (List.range 9) →
      ∀ sm ∈ get_possible_moves s, h s ≤ h sm.1 + 1) :
    ∀ (fuel : Nat) (open_set : List HeapEntry) (gs : List (State × Nat))
      (closed : List State) (e m c : Nat),
      AStarInv init h open_set gs closed →
      Reachable init goal_state →
      open_set.length + (∑ x in ((List.range 9).permutations).toFinset,
        (match lookupScore gs x with
          | none => 3
          | some gx => gx - sInf {j | stepsTo j init x = true})) < fuel →
      ∃ p e' m' d, aStarLoop h fuel open_set gs closed e m c = (some p, e', m') ∧
        p.length = d + 1 ∧ stepsTo d init goal_state = true ∧
        ∀ j, stepsTo j init goal_state = true → d ≤ j := by
  intro fuel
  induction fuel with
  | zero =>
    intro open_set gs closed e m c _ _ hfuel
    omega
  | succ fuel ih =>
    intro open_set gs closed e m c hinv hreach hfuel
    obtain ⟨hE, hreal, hcov, hclosedI, hinit0, hgnc⟩ := id hinv
    rcases hpop : popMin open_set with _ | ⟨e0, rest⟩
    · exfalso
      have hopen : open_set = [] := popMin_eq_none open_set hpop
      obtain ⟨n, hst⟩ := hreach
      have hne : {j | stepsTo j init goal_state = true}.Nonempty := ⟨n, hst⟩
      obtain ⟨en, hen, -⟩ :=
        astar_frontier init h open_set gs closed hinv
          (sInf {j | stepsTo j init goal_state = true}) goal_state
          (Nat.sInf_mem hne) (fun i hi => Nat.sInf_le hi) hgnc
      rw [hopen] at hen
      simp at hen
    · have hrun : aStarLoop h (fuel + 1) open_set gs closed e m c
          = if e0.2.2.state ∈ closed then
              aStarLoop h fuel rest gs closed (e + 1) (max m open_set.length) c
            else if is_goal e0.2.2.state then
              (some e0.2.2.get_path, e + 1, max m open_set.length)
            else
              aStarLoop h fuel ((get_possible_moves e0.2.2.state).foldl
          (fun (acc : List HeapEntry × List (State × Nat) × Nat) sm =>
          let new_g_score := e0.2.2.cost + 1
          let relax :=
            match lookupScore acc.2.1 sm.1 with
            | none => true
            | some g => decide (new_g_score < g)
          if relax then
            ((new_g_score + h sm.1, acc.2.2 + 1,
                Node.child sm.1 e0.2.2 sm.2 new_g_score) :: acc.1,
             (sm.1, new_g_score) :: acc.2.1, acc.2.2 + 1)
          else acc) (rest, gs, c)).1 ((get_possible_moves e0.2.2.state).foldl
          (fun (acc : List HeapEntry × List (State × Nat) × Nat) sm =>
          let new_g_score := e0.2.2.cost + 1
          let relax :=
            match lookupScore acc.2.1 sm.1 with
            | none => true
            | some g => decide (new_g_score < g)
          if relax then
            ((new_g_score + h sm.1, acc.2.2 + 1,
                Node.child sm.1 e0.2.2 sm.2 new_g_score) :: acc.1,
             (sm.1, new_g_score) :: acc.2.1, acc.2.2 + 1)
          else acc) (rest, gs, c)).2.1 (e0.2.2.state :: closed) (e + 1)
                (max m open_set.length) ((get_possible_moves e0.2.2.state).foldl
          (fun (acc : List HeapEntry × List (State × Nat) × Nat) sm =>
          let new_g_score := e0.2.2.cost + 1
          let relax :=
            match lookupScore acc.2.1 sm.1 with
            | none => true
            | some g => decide (new_g_score < g)
          if relax then
            ((new_g_score + h sm.1, acc.2.2 + 1,
                Node.child sm.1 e0.2.2 sm.2 new_g_score) :: acc.1,
             (sm.1, new_g_score) :: acc.2.1, acc.2.2 + 1)
          else acc) (rest, gs, c)).2.2 := by
        rw [aStarLoop, hpop]
      rw [hrun]
      have hmeme0 : e0 ∈ open_set := (popMin_spec open_set e0 rest hpop).1
      have hrestsub : ∀ x ∈ rest, x ∈ open_set :=
        (popMin_spec open_set e0 rest hpop).2.1
      have hcover : ∀ x ∈ open_set, x = e0 ∨ x ∈ rest :=
        (popMin_spec open_set e0 rest hpop).2.2.1
      have hlen : rest.length + 1 = open_set.length :=
        (popMin_spec open_set e0 rest hpop).2.2.2
      by_cases hc : e0.2.2.state ∈ closed
      · rw [if_pos hc]
        have hinv2 : AStarInv init h rest gs closed := by
          refine ⟨fun en hen => hE en (hrestsub en hen), hreal, ?_,
            hclosedI, hinit0, hgnc⟩
          intro s' g2 hlk2
          rcases hcov s' g2 hlk2 with hcl | ⟨en, hen, hens, henc⟩
          · exact Or.inl hcl
          · rcases hcover en hen with rfl | hr
            · exact Or.inl (by rw [← hens]; exact hc)
            · exact Or.inr ⟨en, hr, hens, henc⟩
        have hfuel2 : rest.length + (∑ x in ((List.range 9).permutations).toFinset,
        (match lookupScore gs x with
          | none => 3
          | some gx => gx - sInf {j | stepsTo j init x = true})) < fuel := by omega
        exact ih rest gs closed (e + 1) (max m open_set.length) c hinv2 hreach hfuel2
      · rw [if_neg hc]
        obtain ⟨hgreal, hgmin⟩ :=
          astar_pop_optimal init hperm h hcons open_set gs closed hinv e0 rest hpop hc
        obtain ⟨hvalid0, hplen0, hstep0, hf0, g', hg', hgle⟩ := hE e0 hmeme0
        have hlkg : lookupScore gs e0.2.2.state = some e0.2.2.cost := by
          have h1 := hgmin g' (hreal _ _ hg')
          have h2 : g' = e0.2.2.cost := le_antisymm hgle h1
          rw [← h2]
          exact hg'
        have hpermS : e0.2.2.state.Perm (List.range 9) :=
          stepsTo_perm init hperm _ _ hstep0
        by_cases hgoal : is_goal e0.2.2.state
        · rw [if_pos hgoal]
          have hgs : e0.2.2.state = goal_state := by simpa [is_goal] using hgoal
          refine ⟨e0.2.2.get_path, e + 1, max m open_set.length, e0.2.2.cost,
            rfl, hplen0, ?_, ?_⟩
          · rw [← hgs]
            exact hgreal
          · intro j hj
            rw [← hgs] at hj
            exact hgmin j hj
        · rw [if_neg hgoal]
          have hsneq : e0.2.2.state ≠ goal_state := by
            intro he
            rw [is_goal, he] at hgoal
            simp at hgoal
          have hcov2 : ∀ s' g2, lookupScore gs s' = some g2 →
              s' ∈ e0.2.2.state :: closed ∨
                ∃ en ∈ rest, en.2.2.state = s' ∧ en.2.2.cost = g2 := by
            intro s' g2 hlk2
            rcases hcov s' g2 hlk2 with hcl | ⟨en, hen, hens, henc⟩
            · exact Or.inl (List.mem_cons_of_mem _ hcl)
            · rcases hcover en hen with rfl | hr
              · exact Or.inl (by rw [← hens]; exact List.mem_cons_self _ _)
              · exact Or.inr ⟨en, hr, hens, henc⟩
          obtain ⟨pushed, hf1, hf2, hf3, hf4, hf5, hf6⟩ :=
            astar_fold_spec h e0.2.2 (get_possible_moves e0.2.2.state) (rest, gs, c)
          have hF1 : ((get_possible_moves e0.2.2.state).foldl
          (fun (acc : List HeapEntry × List (State × Nat) × Nat) sm =>
          let new_g_score := e0.2.2.cost + 1
          let relax :=
            match lookupScore acc.2.1 sm.1 with
            | none => true
            | some g => decide (new_g_score < g)
          if relax then
            ((new_g_score + h sm.1, acc.2.2 + 1,
                Node.child sm.1 e0.2.2 sm.2 new_g_score) :: acc.1,
             (sm.1, new_g_score) :: acc.2.1, acc.2.2 + 1)
          else acc) (rest, gs, c)).1 = pushed ++ rest := hf1
          have hF3 : ∀ en ∈ pushed,
              lookupScore ((get_possible_moves e0.2.2.state).foldl
          (fun (acc : List HeapEntry × List (State × Nat) × Nat) sm =>
          let new_g_score := e0.2.2.cost + 1
          let relax :=
            match lookupScore acc.2.1 sm.1 with
            | none => true
            | some g => decide (new_g_score < g)
          if relax then
            ((new_g_score + h sm.1, acc.2.2 + 1,
                Node.child sm.1 e0.2.2 sm.2 new_g_score) :: acc.1,
             (sm.1, new_g_score) :: acc.2.1, acc.2.2 + 1)
          else acc) (rest, gs, c)).2.1 en.2.2.state = some (e0.2.2.cost + 1) := hf3
          have hF4 : ∀ x gx, lookupScore ((get_possible_moves e0.2.2.state).foldl
          (fun (acc : List HeapEntry × List (State × Nat) × Nat) sm =>
          let new_g_score := e0.2.2.cost + 1
          let relax :=
            match lookupScore acc.2.1 sm.1 with
            | none => true
            | some g => decide (new_g_score < g)
          if relax then
            ((new_g_score + h sm.1, acc.2.2 + 1,
                Node.child sm.1 e0.2.2 sm.2 new_g_score) :: acc.1,
             (sm.1, new_g_score) :: acc.2.1, acc.2.2 + 1)
          else acc) (rest, gs, c)).2.1 x = some gx →
              lookupScore gs x = some gx ∨
                (gx = e0.2.2.cost + 1 ∧
                  (∃ sm ∈ get_possible_moves e0.2.2.state, sm.1 = x) ∧
                  ∃ en ∈ pushed, en.2.2.state = x) := hf4
          have hF5 : ∀ x gx, lookupScore gs x = some gx →
              lookupScore ((get_possible_moves e0.2.2.state).foldl
          (fun (acc : List HeapEntry × List (State × Nat) × Nat) sm =>
          let new_g_score := e0.2.2.cost + 1
          let relax :=
            match lookupScore acc.2.1 sm.1 with
            | none => true
            | some g => decide (new_g_score < g)
          if relax then
            ((new_g_score + h sm.1, acc.2.2 + 1,
                Node.child sm.1 e0.2.2 sm.2 new_g_score) :: acc.1,
             (sm.1, new_g_score) :: acc.2.1, acc.2.2 + 1)
          else acc) (rest, gs, c)).2.1 x = some gx ∨
                (lookupScore ((get_possible_moves e0.2.2.state).foldl
          (fun (acc : List HeapEntry × List (State × Nat) × Nat) sm =>
          let new_g_score := e0.2.2.cost + 1
          let relax :=
            match lookupScore acc.2.1 sm.1 with
            | none => true
            | some g => decide (new_g_score < g)
          if relax then
            ((new_g_score + h sm.1, acc.2.2 + 1,
                Node.child sm.1 e0.2.2 sm.2 new_g_score) :: acc.1,
             (sm.1, new_g_score) :: acc.2.1, acc.2.2 + 1)
          else acc) (rest, gs, c)).2.1 x = some (e0.2.2.cost + 1) ∧
                  e0.2.2.cost + 1 < gx ∧
                  ∃ sm ∈ get_possible_moves e0.2.2.state, sm.1 = x) := hf5
          have hF6 : ∀ sm ∈ get_possible_moves e0.2.2.state,
              ∃ gt, lookupScore ((get_possible_moves e0.2.2.state).foldl
          (fun (acc : List HeapEntry × List (State × Nat) × Nat) sm =>
          let new_g_score := e0.2.2.cost + 1
          let relax :=
            match lookupScore acc.2.1 sm.1 with
            | none => true
            | some g => decide (new_g_score < g)
          if relax then
            ((new_g_score + h sm.1, acc.2.2 + 1,
                Node.child sm.1 e0.2.2 sm.2 new_g_score) :: acc.1,
             (sm.1, new_g_score) :: acc.2.1, acc.2.2 + 1)
          else acc) (rest, gs, c)).2.1 sm.1 = some gt ∧
                gt ≤ e0.2.2.cost + 1 := hf6
          have hms : ∀ sm ∈ get_possible_moves e0.2.2.state,
              sm.1 ∈ ((List.range 9).permutations).toFinset ∧
              sInf {j | stepsTo j init sm.1 = true} ≤ e0.2.2.cost + 1 ∧
              e0.2.2.cost ≤ sInf {j | stepsTo j init sm.1 = true} + 1 := by
            intro sm hsm
            have hpt : sm.1.Perm (List.range 9) :=
              (mem_moves_perm _ hpermS sm hsm).trans hpermS
            have hreacht : stepsTo (e0.2.2.cost + 1) init sm.1 = true :=
              stepsTo_extend e0.2.2.cost init e0.2.2.state hstep0 sm.1 sm.2 hsm
            have hnet : {j | stepsTo j init sm.1 = true}.Nonempty := ⟨_, hreacht⟩
            refine ⟨List.mem_toFinset.mpr (List.mem_permutations.mpr hpt),
              Nat.sInf_le hreacht, ?_⟩
            have hdmem : stepsTo (sInf {j | stepsTo j init sm.1 = true})
                init sm.1 = true := Nat.sInf_mem hnet
            have hrev : (e0.2.2.state, inverseMoveLabel sm.2)
                ∈ get_possible_moves sm.1 :=
              moves_reversible_aux e0.2.2.state hpermS sm hsm
            have hback : stepsTo (sInf {j | stepsTo j init sm.1 = true} + 1)
                init e0.2.2.state = true :=
              stepsTo_extend _ init sm.1 hdmem e0.2.2.state
                (inverseMoveLabel sm.2) hrev
            exact hgmin _ hback
          have hpsi0 := astar_fold_psi init h e0.2.2
            (get_possible_moves e0.2.2.state) (rest, gs, c) hms
          have hpsi : (∑ x in ((List.range 9).permutations).toFinset,
        (match lookupScore ((get_possible_moves e0.2.2.state).foldl
          (fun (acc : List HeapEntry × List (State × Nat) × Nat) sm =>
          let new_g_score := e0.2.2.cost + 1
          let relax :=
            match lookupScore acc.2.1 sm.1 with
            | none => true
            | some g => decide (new_g_score < g)
          if relax then
            ((new_g_score + h sm.1, acc.2.2 + 1,
                Node.child sm.1 e0.2.2 sm.2 new_g_score) :: acc.1,
             (sm.1, new_g_score) :: acc.2.1, acc.2.2 + 1)
          else acc) (rest, gs, c)).2.1 x with
          | none => 3
          | some gx => gx - sInf {j | stepsTo j init x = true})) + ((get_possible_moves e0.2.2.state).foldl
          (fun (acc : List HeapEntry × List (State × Nat) × Nat) sm =>
          let new_g_score := e0.2.2.cost + 1
          let relax :=
            match lookupScore acc.2.1 sm.1 with
            | none => true
            | some g => decide (new_g_score < g)
          if relax then
            ((new_g_score + h sm.1, acc.2.2 + 1,
                Node.child sm.1 e0.2.2 sm.2 new_g_score) :: acc.1,
             (sm.1, new_g_score) :: acc.2.1, acc.2.2 + 1)
          else acc) (rest, gs, c)).1.length ≤ (∑ x in ((List.range 9).permutations).toFinset,
        (match lookupScore gs x with
          | none => 3
          | some gx => gx - sInf {j | stepsTo j init x = true})) + rest.length := hpsi0
          have hinv' : AStarInv init h ((get_possible_moves e0.2.2.state).foldl
          (fun (acc : List HeapEntry × List (State × Nat) × Nat) sm =>
          let new_g_score := e0.2.2.cost + 1
          let relax :=
            match lookupScore acc.2.1 sm.1 with
            | none => true
            | some g => decide (new_g_score < g)
          if relax then
            ((new_g_score + h sm.1, acc.2.2 + 1,
                Node.child sm.1 e0.2.2 sm.2 new_g_score) :: acc.1,
             (sm.1, new_g_score) :: acc.2.1, acc.2.2 + 1)
          else acc) (rest, gs, c)).1 ((get_possible_moves e0.2.2.state).foldl
          (fun (acc : List HeapEntry × List (State × Nat) × Nat) sm =>
          let new_g_score := e0.2.2.cost + 1
          let relax :=
            match lookupScore acc.2.1 sm.1 with
            | none => true
            | some g => decide (new_g_score < g)
          if relax then
            ((new_g_score + h sm.1, acc.2.2 + 1,
                Node.child sm.1 e0.2.2 sm.2 new_g_score) :: acc.1,
             (sm.1, new_g_score) :: acc.2.1, acc.2.2 + 1)
          else acc) (rest, gs, c)).2.1
              (e0.2.2.state :: closed) :=
            astar_expand_inv init h gs closed e0.2.2 rest pushed
              ((get_possible_moves e0.2.2.state).foldl
          (fun (acc : List HeapEntry × List (State × Nat) × Nat) sm =>
          let new_g_score := e0.2.2.cost + 1
          let relax :=
            match lookupScore acc.2.1 sm.1 with
            | none => true
            | some g => decide (new_g_score < g)
          if relax then
            ((new_g_score + h sm.1, acc.2.2 + 1,
                Node.child sm.1 e0.2.2 sm.2 new_g_score) :: acc.1,
             (sm.1, new_g_score) :: acc.2.1, acc.2.2 + 1)
          else acc) (rest, gs, c)).1 ((get_possible_moves e0.2.2.state).foldl
          (fun (acc : List HeapEntry × List (State × Nat) × Nat) sm =>
          let new_g_score := e0.2.2.cost + 1
          let relax :=
            match lookupScore acc.2.1 sm.1 with
            | none => true
            | some g => decide (new_g_score < g)
          if relax then
            ((new_g_score + h sm.1, acc.2.2 + 1,
                Node.child sm.1 e0.2.2 sm.2 new_g_score) :: acc.1,
             (sm.1, new_g_score) :: acc.2.1, acc.2.2 + 1)
          else acc) (rest, gs, c)).2.1
              (fun en hen => hE en (hrestsub en hen)) hreal hcov2 hclosedI
              hinit0 hgnc hvalid0 hplen0 hstep0 hlkg hgmin hsneq
              hF1 hf2 hF3 hF4 hF5 hF6
          have hfuel' : ((get_possible_moves e0.2.2.state).foldl
          (fun (acc : List HeapEntry × List (State × Nat) × Nat) sm =>
          let new_g_score := e0.2.2.cost + 1
          let relax :=
            match lookupScore acc.2.1 sm.1 with
            | none => true
            | some g => decide (new_g_score < g)
          if relax then
            ((new_g_score + h sm.1, acc.2.2 + 1,
                Node.child sm.1 e0.2.2 sm.2 new_g_score) :: acc.1,
             (sm.1, new_g_score) :: acc.2.1, acc.2.2 + 1)
          else acc) (rest, gs, c)).1.length + (∑ x in ((List.range 9).permutations).toFinset,
        (match lookupScore ((get_possible_moves e0.2.2.state).foldl
          (fun (acc : List HeapEntry × List (State × Nat) × Nat) sm =>
          let new_g_score := e0.2.2.cost + 1
          let relax :=
            match lookupScore acc.2.1 sm.1 with
            | none => true
            | some g => decide (new_g_score < g)
          if relax then
            ((new_g_score + h sm.1, acc.2.2 + 1,
                Node.child sm.1 e0.2.2 sm.2 new_g_score) :: acc.1,
             (sm.1, new_g_score) :: acc.2.1, acc.2.2 + 1)
          else acc) (rest, gs, c)).2.1 x with
          | none => 3
          | some gx => gx - sInf {j | stepsTo j init x = true})) < fuel := by
            omega
          exact ih ((get_possible_moves e0.2.2.state).foldl
          (fun (acc : List HeapEntry × List (State × Nat) × Nat) sm =>
          let new_g_score := e0.2.2.cost + 1
          let relax :=
            match lookupScore acc.2.1 sm.1 with
            | none => true
            | some g => decide (new_g_score < g)
          if relax then
            ((new_g_score + h sm.1, acc.2.2 + 1,
                Node.child sm.1 e0.2.2 sm.2 new_g_score) :: acc.1,
             (sm.1, new_g_score) :: acc.2.1, acc.2.2 + 1)
          else acc) (rest, gs, c)).1 ((get_possible_moves e0.2.2.state).foldl
          (fun (acc : List HeapEntry × List (State × Nat) × Nat) sm =>
          let new_g_score := e0.2.2.cost + 1
          let relax :=
            match lookupScore acc.2.1 sm.1 with
            | none => true
            | some g => decide (new_g_score < g)
          if relax then
            ((new_g_score + h sm.1, acc.2.2 + 1,
                Node.child sm.1 e0.2.2 sm.2 new_g_score) :: acc.1,
             (sm.1, new_g_score) :: acc.2.1, acc.2.2 + 1)
          else acc) (rest, gs, c)).2.1 (e0.2.2.state :: closed) (e + 1)
            (max m open_set.length) ((get_possible_moves e0.2.2.state).foldl
          (fun (acc : List HeapEntry × List (State × Nat) × Nat) sm =>
          let new_g_score := e0.2.2.cost + 1
          let relax :=
            match lookupScore acc.2.1 sm.1 with
            | none => true
            | some g => decide (new_g_score < g)
          if relax then
            ((new_g_score + h sm.1, acc.2.2 + 1,
                Node.child sm.1 e0.2.2 sm.2 new_g_score) :: acc.1,
             (sm.1, new_g_score) :: acc.2.1, acc.2.2 + 1)
          else acc) (rest, gs, c)).2.2 hinv' hreach hfuel'

lemma valid_stepsTo (init : State) :
    ∀ n : Node, Node.valid init n → ∃ k, stepsTo k init n.state = true := by
  intro n
  induction n with
  | root s =>
    intro hv
    exact ⟨0, (stepsTo_zero init s).mpr hv.symm⟩
  | child s p a cst ihp =>
    intro hv
    obtain ⟨hvp, hmv⟩ := hv
    obtain ⟨k, hk⟩ := ihp hvp
    exact ⟨k + 1, stepsTo_extend k init p.state hk s a hmv⟩

lemma astar_none_of_unreachable (init : State)
    (hnr : ¬ Reachable init goal_state) (h : State → Nat) :
    ∃ e m, a_star h init = (none, e, m) := by
  rw [a_star]
  by_cases hs : is_solvable init
  · rw [if_pos hs]
    have hq : ∀ en ∈ ([(h init, 0, Node.root init)] : List HeapEntry),
        Node.valid init en.2.2 := by
      intro en hen
      have he : en = ((h init, 0, Node.root init) : HeapEntry) := by simpa using hen
      subst he
      rfl
    rcases hres : aStarLoop h search_fuel [(h init, 0, Node.root init)]
        [(init, 0)] [] 0 0 0 with ⟨r, e', m'⟩
    cases r with
    | none => exact ⟨e', m', rfl⟩
    | some p =>
      exfalso
      obtain ⟨n, hv, hg, -⟩ := aStarLoop_sound init h search_fuel _ _ _ 0 0 0
        p e' m' hq hres
      obtain ⟨k, hk⟩ := valid_stepsTo init n hv
      have hgs : n.state = goal_state := by simpa [is_goal] using hg
      rw [hgs] at hk
      exact hnr ⟨k, hk⟩
  · rw [if_neg hs]
    exact ⟨0, 0, rfl⟩

lemma astar_init_inv (init : State) (h : State → Nat) :
    AStarInv init h [(h init, 0, Node.root init)] [(init, 0)] [] := by
  refine ⟨?_, ?_, ?_, ?_, ?_, ?_⟩
  · intro en hen
    have he : en = ((h init, 0, Node.root init) : HeapEntry) := by simpa using hen
    subst he
    refine ⟨?_, ?_, ?_, ?_, 0, ?_, le_rfl⟩
    · show init = init
      rfl
    · show ((Node.root init).get_path).length = (Node.root init).cost + 1
      rfl
    · show stepsTo 0 init init = true
      exact (stepsTo_zero init init).mpr rfl
    · show h init = 0 + h init
      omega
    · show lookupScore [(init, 0)] init = some 0
      rw [lookupScore, if_pos rfl]
  · intro s g hlk
    rw [lookupScore] at hlk
    by_cases he : init = s
    · rw [if_pos he] at hlk
      have hg : g = 0 := by simpa using hlk.symm
      subst hg
      exact (stepsTo_zero init s).mpr he
    · rw [if_neg he, lookupScore] at hlk
      simp at hlk
  · intro s g hlk
    rw [lookupScore] at hlk
    by_cases he : init = s
    · rw [if_pos he] at hlk
      have hg : g = 0 := by simpa using hlk.symm
      exact Or.inr ⟨(h init, 0, Node.root init), by simp, he, hg.symm⟩
    · rw [if_neg he, lookupScore] at hlk
      simp at hlk
  · intro s hs
    exact absurd hs (List.not_mem_nil s)
  · simp [lookupScore]
  · exact List.not_mem_nil goal_state

lemma sum_le_card_mul (s : Finset State) (f : State → Nat) (n : Nat)
    (hf : ∀ x ∈ s, f x ≤ n) : s.sum f ≤ s.card * n :=
  le_trans (Finset.sum_le_card_nsmul s f n hf) (le_of_eq (nsmul_eq_mul _ _))

lemma astar_init_fuel (init : State) :
    1 + (∑ x in ((List.range 9).permutations).toFinset,
        (match lookupScore [(init, 0)] x with
          | none => 3
          | some gx => gx - sInf {j | stepsTo j init x = true})) < search_fuel := by
  have hterm : ∀ x ∈ ((List.range 9).permutations).toFinset,
      (match lookupScore [(init, 0)] x with
        | none => 3
        | some gx => gx - sInf {j | stepsTo j init x = true}) ≤ 3 := by
    intro x hx
    rcases hl : lookupScore [(init, 0)] x with _ | gx
    · exact le_rfl
    · have hg0 : gx = 0 := by
        rw [lookupScore] at hl
        by_cases he : init = x
        · rw [if_pos he] at hl
          simpa using hl.symm
        · rw [if_neg he, lookupScore] at hl
          simp at hl
      subst hg0
      show 0 - sInf {j | stepsTo j init x = true} ≤ 3
      omega
  have hsum : (∑ x in ((List.range 9).permutations).toFinset,
        (match lookupScore [(init, 0)] x with
          | none => 3
          | some gx => gx - sInf {j | stepsTo j init x = true})) ≤ ((List.range 9).permutations).toFinset.card * 3 :=
    sum_le_card_mul ((List.range 9).permutations).toFinset
      (fun x => (match lookupScore [(init, 0)] x with
        | none => 3
        | some gx => gx - sInf {j | stepsTo j init x = true})) 3 hterm
  have hcard : ((List.range 9).permutations).toFinset.card ≤ 362880 := by
    refine le_trans (List.toFinset_card_le _) ?_
    rw [List.length_permutations, List.length_range]
    decide
  have h3 : ((List.range 9).permutations).toFinset.card * 3 ≤ 362880 * 3 :=
    Nat.mul_le_mul_right 3 hcard
  rw [search_fuel]
  omega

lemma astar_optimal_of_reachable (init : State) (hperm : init.Perm (List.range 9))
    (hsolv : is_solvable init = true) (hreach : Reachable init goal_state)
    (h : State → Nat)
    (hcons : ∀ s : State, s.Perm (List.range 9) →
      ∀ sm ∈ get_possible_moves s, h s ≤ h sm.1 + 1) :
    ∃ p e m, a_star h init = (some p, e, m) ∧
      stepsTo (p.length - 1) init goal_state = true ∧
      ∀ j, stepsTo j init goal_state = true → p.length - 1 ≤ j := by
  rw [a_star, if_pos hsolv]
  have hfuel : ([(h init, 0, Node.root init)] : List HeapEntry).length
      + (∑ x in ((List.range 9).permutations).toFinset,
        (match lookupScore [(init, 0)] x with
          | none => 3
          | some gx => gx - sInf {j | stepsTo j init x = true})) < search_fuel := astar_init_fuel init
  obtain ⟨p, e', m', d, hrun, hlen, hst, hmin⟩ :=
    aStarLoop_finds_goal init hperm h hcons search_fuel _ _ _ 0 0 0
      (astar_init_inv init h) hreach hfuel
  refine ⟨p, e', m', hrun, ?_, ?_⟩
  · rw [hlen]
    simpa using hst
  · intro j hj
    have := hmin j hj
    omega

/-- C3: for every solvable initial state (a permutation of 0–8 accepted by
`is_solvable`) and for each of the two heuristics, the move count (path
length minus one) of the optional path returned by `Solver.a_star` equals
the move count of the optional path returned by `Solver.bfs` on the same
initial state. -/
theorem a_star_matches_bfs_move_count (init : State)
    (hperm : init.Perm (List.range 9)) (hsolv : is_solvable init = true) :
    ((a_star misplaced_tiles_heuristic init).1.map (fun p => p.length - 1)
        = (bfs init).1.map (fun p => p.length - 1)) ∧
    ((a_star manhattan_distance_heuristic init).1.map (fun p => p.length - 1)
        = (bfs init).1.map (fun p => p.length - 1)) := by
  by_cases hreach : Reachable init goal_state
  · obtain ⟨pb, eb, mb, hb, hbst, hbmin⟩ :=
      bfs_optimal_of_reachable init hperm hsolv hreach
    obtain ⟨p1, e1, m1, h1, h1st, h1min⟩ :=
      astar_optimal_of_reachable init hperm hsolv hreach
        misplaced_tiles_heuristic misplaced_step
    obtain ⟨p2, e2, m2, h2, h2st, h2min⟩ :=
      astar_optimal_of_reachable init hperm hsolv hreach
        manhattan_distance_heuristic manhattan_step
    have e1b : p1.length - 1 = pb.length - 1 :=
      le_antisymm (h1min _ hbst) (hbmin _ h1st)
    have e2b : p2.length - 1 = pb.length - 1 :=
      le_antisymm (h2min _ hbst) (hbmin _ h2st)
    constructor
    · rw [h1, hb]
      simp [e1b]
    · rw [h2, hb]
      simp [e2b]
  · obtain ⟨eb, mb, hb⟩ := bfs_none_of_unreachable init hreach
    obtain ⟨e1, m1, h1⟩ :=
      astar_none_of_unreachable init hreach misplaced_tiles_heuristic
    obtain ⟨e2, m2, h2⟩ :=
      astar_none_of_unreachable init hreach manhattan_distance_heuristic
    constructor
    · rw [h1, hb]
    · rw [h2, hb]

/-- Witness for C3: the goal state itself is a permutation of 0–8 and is
solvable, so the claim applies to it. -/
theorem a_star_matches_bfs_move_count_witness :
    (goal_state : State).Perm (List.range 9) ∧ is_solvable goal_state = true ∧
    (((a_star misplaced_tiles_heuristic goal_state).1.map (fun p => p.length - 1)
        = (bfs goal_state).1.map (fun p => p.length - 1)) ∧
     ((a_star manhattan_distance_heuristic goal_state).1.map (fun p => p.length - 1)
        = (bfs goal_state).1.map (fun p => p.length - 1))) :=
  ⟨by decide, by decide,
    a_star_matches_bfs_move_count goal_state (by decide) (by decide)⟩

lemma stepsTo_trans : ∀ (m : Nat) (s t : State), stepsTo m s t = true →
    ∀ (n : Nat) (u : State), stepsTo n t u = true → stepsTo (m + n) s u = true := by
  intro m
  induction m with
  | zero =>
    intro s t hst n u htu
    rw [stepsTo_zero] at hst
    rw [Nat.zero_add, hst]
    exact htu
  | succ m ih =>
    intro s t hst n u htu
    obtain ⟨sm, hsm, hrest⟩ := (stepsTo_succ m s t).mp hst
    have : stepsTo (m + n) sm.1 u = true := ih sm.1 t hrest n u htu
    have hgoal : stepsTo (m + n + 1) s u = true :=
      (stepsTo_succ (m + n) s u).mpr ⟨sm, hsm, this⟩
    have harith : m + 1 + n = m + n + 1 := by omega
    rw [harith]
    exact hgoal

lemma reach_refl (s : State) : Reachable s s := ⟨0, (stepsTo_zero s s).mpr rfl⟩

lemma reach_step (s t : State) (lab : String)
    (h : (t, lab) ∈ get_possible_moves s) : Reachable s t :=
  ⟨1, (stepsTo_succ 0 s t).mpr ⟨(t, lab), h, (stepsTo_zero t t).mpr rfl⟩⟩

lemma Reachable_trans {s t u : State} (h1 : Reachable s t) (h2 : Reachable t u) :
    Reachable s u := by
  obtain ⟨m, hm⟩ := h1
  obtain ⟨n, hn⟩ := h2
  exact ⟨m + n, stepsTo_trans m s t hm n u hn⟩

lemma mem_move_up (s : State) (hp : s.Perm (List.range 9)) (p : Nat)
    (hidx : s.indexOf 0 = p) (hge : 3 ≤ p) :
    (swapIdx s p (p - 3), "Up") ∈ get_possible_moves s ∧
      (swapIdx s p (p - 3)).Perm (List.range 9) ∧
      (swapIdx s p (p - 3)).indexOf 0 = p - 3 ∧
      is_solvable (swapIdx s p (p - 3)) = is_solvable s := by
  have hlen : s.length = 9 := by rw [hp.length_eq, List.length_range]
  have h0 : 0 ∈ s := hp.mem_iff.mpr (by simp)
  have hbi : s.indexOf 0 < 9 := (blank_facts s hp).1
  have hmem : (swapIdx s p (p - 3), "Up") ∈ get_possible_moves s := by
    rw [get_possible_moves_eq s hlen h0, hidx]
    apply List.mem_append_left
    apply List.mem_append_left
    apply List.mem_append_left
    rw [if_pos (show 1 ≤ p / 3 by omega)]
    simp
  refine ⟨hmem, (mem_moves_perm s hp _ hmem).trans hp, ?_,
    is_solvable_invariant_aux s hp _ hmem⟩
  have h2 := (swap_blank_facts s hp (p - 3) (by omega) (by omega)).2.2
  rw [hidx] at h2
  exact h2

lemma mem_move_down (s : State) (hp : s.Perm (List.range 9)) (p : Nat)
    (hidx : s.indexOf 0 = p) (hlt : p < 6) :
    (swapIdx s p (p + 3), "Down") ∈ get_possible_moves s ∧
      (swapIdx s p (p + 3)).Perm (List.range 9) ∧
      (swapIdx s p (p + 3)).indexOf 0 = p + 3 ∧
      is_solvable (swapIdx s p (p + 3)) = is_solvable s := by
  have hlen : s.length = 9 := by rw [hp.length_eq, List.length_range]
  have h0 : 0 ∈ s := hp.mem_iff.mpr (by simp)
  have hmem : (swapIdx s p (p + 3), "Down") ∈ get_possible_moves s := by
    rw [get_possible_moves_eq s hlen h0, hidx]
    apply List.mem_append_left
    apply List.mem_append_left
    apply List.mem_append_right
    rw [if_pos (show p / 3 + 1 < 3 by omega)]
    simp
  refine ⟨hmem, (mem_moves_perm s hp _ hmem).trans hp, ?_,
    is_solvable_invariant_aux s hp _ hmem⟩
  have h2 := (swap_blank_facts s hp (p + 3) (by omega) (by omega)).2.2
  rw [hidx] at h2
  exact h2

lemma mem_move_left (s : State) (hp : s.Perm (List.range 9)) (p : Nat)
    (hidx : s.indexOf 0 = p) (hcol : 1 ≤ p % 3) (hub : p < 9) :
    (swapIdx s p (p - 1), "Left") ∈ get_possible_moves s ∧
      (swapIdx s p (p - 1)).Perm (List.range 9) ∧
      (swapIdx s p (p - 1)).indexOf 0 = p - 1 ∧
      is_solvable (swapIdx s p (p - 1)) = is_solvable s := by
  have hlen : s.length = 9 := by rw [hp.length_eq, List.length_range]
  have h0 : 0 ∈ s := hp.mem_iff.mpr (by simp)
  have hmem : (swapIdx s p (p - 1), "Left") ∈ get_possible_moves s := by
    rw [get_possible_moves_eq s hlen h0, hidx]
    apply List.mem_append_left
    apply List.mem_append_right
    rw [if_pos hcol]
    simp
  refine ⟨hmem, (mem_moves_perm s hp _ hmem).trans hp, ?_,
    is_solvable_invariant_aux s hp _ hmem⟩
  have h2 := (swap_blank_facts s hp (p - 1) (by omega) (by omega)).2.2
  rw [hidx] at h2
  exact h2

lemma mem_move_right (s : State) (hp : s.Perm (List.range 9)) (p : Nat)
    (hidx : s.indexOf 0 = p) (hcol : p % 3 < 2) (hub : p < 9) :
    (swapIdx s p (p + 1), "Right") ∈ get_possible_moves s ∧
      (swapIdx s p (p + 1)).Perm (List.range 9) ∧
      (swapIdx s p (p + 1)).indexOf 0 = p + 1 ∧
      is_solvable (swapIdx s p (p + 1)) = is_solvable s := by
  have hlen : s.length = 9 := by rw [hp.length_eq, List.length_range]
  have h0 : 0 ∈ s := hp.mem_iff.mpr (by simp)
  have hmem : (swapIdx s p (p + 1), "Right") ∈ get_possible_moves s := by
    rw [get_possible_moves_eq s hlen h0, hidx]
    apply List.mem_append_right
    rw [if_pos (show p % 3 + 1 < 3 by omega)]
    simp
  refine ⟨hmem, (mem_moves_perm s hp _ hmem).trans hp, ?_,
    is_solvable_invariant_aux s hp _ hmem⟩
  have h2 := (swap_blank_facts s hp (p + 1) (by omega) (by omega)).2.2
  rw [hidx] at h2
  exact h2

lemma blank_to_corner : ∀ (d : Nat) (s : State), s.Perm (List.range 9) →
    8 - s.indexOf 0 ≤ d →
    ∃ t, Reachable s t ∧ t.Perm (List.range 9) ∧ t.indexOf 0 = 8 ∧
      is_solvable t = is_solvable s := by
  intro d
  induction d with
  | zero =>
    intro s hp hd
    have hbi := (blank_facts s hp).1
    have h8 : s.indexOf 0 = 8 := by omega
    exact ⟨s, reach_refl s, hp, h8, rfl⟩
  | succ d ih =>
    intro s hp hd
    by_cases h8 : s.indexOf 0 = 8
    · exact ⟨s, reach_refl s, hp, h8, rfl⟩
    · have hbi := (blank_facts s hp).1
      by_cases hcol : s.indexOf 0 % 3 < 2
      · obtain ⟨hmem, hperm2, hidx2, hsol2⟩ :=
          mem_move_right s hp (s.indexOf 0) rfl hcol (by omega)
        obtain ⟨t, hrt, htp, hti, hts⟩ := ih _ hperm2 (by rw [hidx2]; omega)
        exact ⟨t, Reachable_trans (reach_step _ _ _ hmem) hrt, htp, hti,
          by rw [hts, hsol2]⟩
      · have hlt : s.indexOf 0 < 6 := by omega
        obtain ⟨hmem, hperm2, hidx2, hsol2⟩ :=
          mem_move_down s hp (s.indexOf 0) rfl hlt
        obtain ⟨t, hrt, htp, hti, hts⟩ := ih _ hperm2 (by rw [hidx2]; omega)
        exact ⟨t, Reachable_trans (reach_step _ _ _ hmem) hrt, htp, hti,
          by rw [hts, hsol2]⟩

lemma state_explicit8 (s : State) (hp : s.Perm (List.range 9))
    (hidx : s.indexOf 0 = 8) :
    s = [s.getD 0 0, s.getD 1 0, s.getD 2 0, s.getD 3 0, s.getD 4 0,
      s.getD 5 0, s.getD 6 0, s.getD 7 0, 0] := by
  have hlen : s.length = 9 := by rw [hp.length_eq, List.length_range]
  have h8 : s.getD 8 0 = 0 := by
    have := (blank_facts s hp).2.1
    rw [hidx] at this
    exact this
  obtain ⟨a0, s, rfl⟩ := List.exists_of_length_succ s hlen
  simp only [List.length_cons, Nat.succ.injEq] at hlen
  obtain ⟨a1, s, rfl⟩ := List.exists_of_length_succ s hlen
  simp only [List.length_cons, Nat.succ.injEq] at hlen
  obtain ⟨a2, s, rfl⟩ := List.exists_of_length_succ s hlen
  simp only [List.length_cons, Nat.succ.injEq] at hlen
  obtain ⟨a3, s, rfl⟩ := List.exists_of_length_succ s hlen
  simp only [List.length_cons, Nat.succ.injEq] at hlen
  obtain ⟨a4, s, rfl⟩ := List.exists_of_length_succ s hlen
  simp only [List.length_cons, Nat.succ.injEq] at hlen
  obtain ⟨a5, s, rfl⟩ := List.exists_of_length_succ s hlen
  simp only [List.length_cons, Nat.succ.injEq] at hlen
  obtain ⟨a6, s, rfl⟩ := List.exists_of_length_succ s hlen
  simp only [List.length_cons, Nat.succ.injEq] at hlen
  obtain ⟨a7, s, rfl⟩ := List.exists_of_length_succ s hlen
  simp only [List.length_cons, Nat.succ.injEq] at hlen
  obtain ⟨a8, s, rfl⟩ := List.exists_of_length_succ s hlen
  simp only [List.length_cons, Nat.succ.injEq] at hlen
  have hnil : s = [] := List.length_eq_zero.mp hlen
  subst hnil
  simp only [List.getD_cons_zero, List.getD_cons_succ]
  have h8' : a8 = 0 := by simpa using h8
  rw [h8']

lemma c1_stage5 : ∀ x0 x1 x2 : Nat,
    ([1,2,3,4,x0,x1,7,x2,0] : State).Perm (List.range 9) →
    is_solvable ([1,2,3,4,x0,x1,7,x2,0] : State) = true →
    ([1,2,3,4,x0,x1,7,x2,0] : State).indexOf 0 = 8 →
    Reachable ([1,2,3,4,x0,x1,7,x2,0] : State) goal_state := by
  intro x0 x1 x2 hp hs hidx
  have hm5 : (5 : Nat) ∈ ([1,2,3,4,x0,x1,7,x2,0] : State) := hp.mem_iff.mpr (by decide)
  simp only [List.mem_cons, List.not_mem_nil, or_false] at hm5
  rcases hm5 with hhm5 | hhm5 | hhm5 | hhm5 | hhm5 | hhm5 | hhm5 | hhm5 | hhm5
  · exact absurd hhm5 (by decide)
  · exact absurd hhm5 (by decide)
  · exact absurd hhm5 (by decide)
  · exact absurd hhm5 (by decide)
  · subst hhm5
    have hm6 : (6 : Nat) ∈ ([1,2,3,4,5,x1,7,x2,0] : State) := hp.mem_iff.mpr (by decide)
    simp only [List.mem_cons, List.not_mem_nil, or_false] at hm6
    rcases hm6 with hhm6 | hhm6 | hhm6 | hhm6 | hhm6 | hhm6 | hhm6 | hhm6 | hhm6
    · exact absurd hhm6 (by decide)
    · exact absurd hhm6 (by decide)
    · exact absurd hhm6 (by decide)
    · exact absurd hhm6 (by decide)
    · exact absurd hhm6 (by decide)
    · subst hhm6
      have hm8 : (8 : Nat) ∈ ([1,2,3,4,5,6,7,x2,0] : State) := hp.mem_iff.mpr (by decide)
      simp only [List.mem_cons, List.not_mem_nil, or_false] at hm8
      rcases hm8 with hhm8 | hhm8 | hhm8 | hhm8 | hhm8 | hhm8 | hhm8 | hhm8 | hhm8
      · exact absurd hhm8 (by decide)
      · exact absurd hhm8 (by decide)
      · exact absurd hhm8 (by decide)
      · exact absurd hhm8 (by decide)
      · exact absurd hhm8 (by decide)
      · exact absurd hhm8 (by decide)
      · exact absurd hhm8 (by decide)
      · subst hhm8
        exact reach_refl goal_state
      · exact absurd hhm8 (by decide)
    · exact absurd hhm6 (by decide)
    · subst hhm6
      have hm8 : (8 : Nat) ∈ ([1,2,3,4,5,x1,7,6,0] : State) := hp.mem_iff.mpr (by decide)
      simp only [List.mem_cons, List.not_mem_nil, or_false] at hm8
      rcases hm8 with hhm8 | hhm8 | hhm8 | hhm8 | hhm8 | hhm8 | hhm8 | hhm8 | hhm8
      · exact absurd hhm8 (by decide)
      · exact absurd hhm8 (by decide)
      · exact absurd hhm8 (by decide)
      · exact absurd hhm8 (by decide)
      · exact absurd hhm8 (by decide)
      · subst hhm8
        exact absurd hs (by decide)
      · exact absurd hhm8 (by decide)
      · exact absurd hhm8 (by decide)
      · exact absurd hhm8 (by decide)
    · exact absurd hhm6 (by decide)
  · subst hhm5
    have hm6 : (6 : Nat) ∈ ([1,2,3,4,x0,5,7,x2,0] : State) := hp.mem_iff.mpr (by decide)
    simp only [List.mem_cons, List.not_mem_nil, or_false] at hm6
    rcases hm6 with hhm6 | hhm6 | hhm6 | hhm6 | hhm6 | hhm6 | hhm6 | hhm6 | hhm6
    · exact absurd hhm6 (by decide)
    · exact absurd hhm6 (by decide)
    · exact absurd hhm6 (by decide)
    · exact absurd hhm6 (by decide)
    · subst hhm6
      have hm8 : (8 : Nat) ∈ ([1,2,3,4,6,5,7,x2,0] : State) := hp.mem_iff.mpr (by decide)
      simp only [List.mem_cons, List.not_mem_nil, or_false] at hm8
      rcases hm8 with hhm8 | hhm8 | hhm8 | hhm8 | hhm8 | hhm8 | hhm8 | hhm8 | hhm8
      · exact absurd hhm8 (by decide)
      · exact absurd hhm8 (by decide)
      · exact absurd hhm8 (by decide)
      · exact absurd hhm8 (by decide)
      · exact absurd hhm8 (by decide)
      · exact absurd hhm8 (by decide)
      · exact absurd hhm8 (by decide)
      · subst hhm8
        exact absurd hs (by decide)
      · exact absurd hhm8 (by decide)
    · exact absurd hhm6 (by decide)
    · exact absurd hhm6 (by decide)
    · subst hhm6
      have hm8 : (8 : Nat) ∈ ([1,2,3,4,x0,5,7,6,0] : State) := hp.mem_iff.mpr (by decide)
      simp only [List.mem_cons, List.not_mem_nil, or_false] at hm8
      rcases hm8 with hhm8 | hhm8 | hhm8 | hhm8 | hhm8 | hhm8 | hhm8 | hhm8 | hhm8
      · exact absurd hhm8 (by decide)
      · exact absurd hhm8 (by decide)
      · exact absurd hhm8 (by decide)
      · exact absurd hhm8 (by decide)
      · subst hhm8
        have m1_0 := mem_move_left ([1,2,3,4,8,5,7,6,0] : State) hp 8 hidx (by decide) (by decide)
        have hp1_0 : ([1,2,3,4,8,5,7,0,6] : State).Perm (List.range 9) := m1_0.2.1
        have hidx1_0 : ([1,2,3,4,8,5,7,0,6] : State).indexOf 0 = 7 := m1_0.2.2.1
        have hsol1_0 : is_solvable ([1,2,3,4,8,5,7,0,6] : State) = is_solvable ([1,2,3,4,8,5,7,6,0] : State) := m1_0.2.2.2
        have m1_1 := mem_move_up ([1,2,3,4,8,5,7,0,6] : State) hp1_0 7 hidx1_0 (by decide)
        have hp1_1 : ([1,2,3,4,0,5,7,8,6] : State).Perm (List.range 9) := m1_1.2.1
        have hidx1_1 : ([1,2,3,4,0,5,7,8,6] : State).indexOf 0 = 4 := m1_1.2.2.1
        have hsol1_1 : is_solvable ([1,2,3,4,0,5,7,8,6] : State) = is_solvable ([1,2,3,4,8,5,7,0,6] : State) := m1_1.2.2.2
        have m1_2 := mem_move_right ([1,2,3,4,0,5,7,8,6] : State) hp1_1 4 hidx1_1 (by decide) (by decide)
        have hp1_2 : ([1,2,3,4,5,0,7,8,6] : State).Perm (List.range 9) := m1_2.2.1
        have hidx1_2 : ([1,2,3,4,5,0,7,8,6] : State).indexOf 0 = 5 := m1_2.2.2.1
        have hsol1_2 : is_solvable ([1,2,3,4,5,0,7,8,6] : State) = is_solvable ([1,2,3,4,0,5,7,8,6] : State) := m1_2.2.2.2
        have m1_3 := mem_move_down ([1,2,3,4,5,0,7,8,6] : State) hp1_2 5 hidx1_2 (by decide)
        have hp1_3 : ([1,2,3,4,5,6,7,8,0] : State).Perm (List.range 9) := m1_3.2.1
        have hidx1_3 : ([1,2,3,4,5,6,7,8,0] : State).indexOf 0 = 8 := m1_3.2.2.1
        have hsol1_3 : is_solvable ([1,2,3,4,5,6,7,8,0] : State) = is_solvable ([1,2,3,4,5,0,7,8,6] : State) := m1_3.2.2.2
        have hsF1 : is_solvable ([1,2,3,4,5,6,7,8,0] : State) = true := by
          rw [hsol1_3, hsol1_2, hsol1_1, hsol1_0]
          exact hs
        exact Reachable_trans (reach_step _ _ _ m1_0.1) (Reachable_trans (reach_step _ _ _ m1_1.1) (Reachable_trans (reach_step _ _ _ m1_2.1) (Reachable_trans (reach_step _ _ _ m1_3.1) (reach_refl goal_state))))
      · exact absurd hhm8 (by decide)
      · exact absurd hhm8 (by decide)
      · exact absurd hhm8 (by decide)
      · exact absurd hhm8 (by decide)
    · exact absurd hhm6 (by decide)
  · exact absurd hhm5 (by decide)
  · subst hhm5
    have hm6 : (6 : Nat) ∈ ([1,2,3,4,x0,x1,7,5,0] : State) := hp.mem_iff.mpr (by decide)
    simp only [List.mem_cons, List.not_mem_nil, or_false] at hm6
    rcases hm6 with hhm6 | hhm6 | hhm6 | hhm6 | hhm6 | hhm6 | hhm6 | hhm6 | hhm6
    · exact absurd hhm6 (by decide)
    · exact absurd hhm6 (by decide)
    · exact absurd hhm6 (by decide)
    · exact absurd hhm6 (by decide)
    · subst hhm6
      have hm8 : (8 : Nat) ∈ ([1,2,3,4,6,x1,7,5,0] : State) := hp.mem_iff.mpr (by decide)
      simp only [List.mem_cons, List.not_mem_nil, or_false] at hm8
      rcases hm8 with hhm8 | hhm8 | hhm8 | hhm8 | hhm8 | hhm8 | hhm8 | hhm8 | hhm8
      · exact absurd hhm8 (by decide)
      · exact absurd hhm8 (by decide)
      · exact absurd hhm8 (by decide)
      · exact absurd hhm8 (by decide)
      · exact absurd hhm8 (by decide)
      · subst hhm8
        have m2_0 := mem_move_up ([1,2,3,4,6,8,7,5,0] : State) hp 8 hidx (by decide)
        have hp2_0 : ([1,2,3,4,6,0,7,5,8] : State).Perm (List.range 9) := m2_0.2.1
        have hidx2_0 : ([1,2,3,4,6,0,7,5,8] : State).indexOf 0 = 5 := m2_0.2.2.1
        have hsol2_0 : is_solvable ([1,2,3,4,6,0,7,5,8] : State) = is_solvable ([1,2,3,4,6,8,7,5,0] : State) := m2_0.2.2.2
        have m2_1 := mem_move_left ([1,2,3,4,6,0,7,5,8] : State) hp2_0 5 hidx2_0 (by decide) (by decide)
        have hp2_1 : ([1,2,3,4,0,6,7,5,8] : State).Perm (List.range 9) := m2_1.2.1
        have hidx2_1 : ([1,2,3,4,0,6,7,5,8] : State).indexOf 0 = 4 := m2_1.2.2.1
        have hsol2_1 : is_solvable ([1,2,3,4,0,6,7,5,8] : State) = is_solvable ([1,2,3,4,6,0,7,5,8] : State) := m2_1.2.2.2
        have m2_2 := mem_move_down ([1,2,3,4,0,6,7,5,8] : State) hp2_1 4 hidx2_1 (by decide)
        have hp2_2 : ([1,2,3,4,5,6,7,0,8] : State).Perm (List.range 9) := m2_2.2.1
        have hidx2_2 : ([1,2,3,4,5,6,7,0,8] : State).indexOf 0 = 7 := m2_2.2.2.1
        have hsol2_2 : is_solvable ([1,2,3,4,5,6,7,0,8] : State) = is_solvable ([1,2,3,4,0,6,7,5,8] : State) := m2_2.2.2.2
        have m2_3 := mem_move_right ([1,2,3,4,5,6,7,0,8] : State) hp2_2 7 hidx2_2 (by decide) (by decide)
        have hp2_3 : ([1,2,3,4,5,6,7,8,0] : State).Perm (List.range 9) := m2_3.2.1
        have hidx2_3 : ([1,2,3,4,5,6,7,8,0] : State).indexOf 0 = 8 := m2_3.2.2.1
        have hsol2_3 : is_solvable ([1,2,3,4,5,6,7,8,0] : State) = is_solvable ([1,2,3,4,5,6,7,0,8] : State) := m2_3.2.2.2
        have hsF2 : is_solvable ([1,2,3,4,5,6,7,8,0] : State) = true := by
          rw [hsol2_3, hsol2_2, hsol2_1, hsol2_0]
          exact hs
        exact Reachable_trans (reach_step _ _ _ m2_0.1) (Reachable_trans (reach_step _ _ _ m2_1.1) (Reachable_trans (reach_step _ _ _ m2_2.1) (Reachable_trans (reach_step _ _ _ m2_3.1) (reach_refl goal_state))))
      · exact absurd hhm8 (by decide)
      · exact absurd hhm8 (by decide)
      · exact absurd hhm8 (by decide)
    · subst hhm6
      have hm8 : (8 : Nat) ∈ ([1,2,3,4,x0,6,7,5,0] : State) := hp.mem_iff.mpr (by decide)
      simp only [List.mem_cons, List.not_mem_nil, or_false] at hm8
      rcases hm8 with hhm8 | hhm8 | hhm8 | hhm8 | hhm8 | hhm8 | hhm8 | hhm8 | hhm8
      · exact absurd hhm8 (by decide)
      · exact absurd hhm8 (by decide)
      · exact absurd hhm8 (by decide)
      · exact absurd hhm8 (by decide)
      · subst hhm8
        exact absurd hs (by decide)
      · exact absurd hhm8 (by decide)
      · exact absurd hhm8 (by decide)
      · exact absurd hhm8 (by decide)
      · exact absurd hhm8 (by decide)
    · exact absurd hhm6 (by decide)
    · exact absurd hhm6 (by decide)
    · exact absurd hhm6 (by decide)
  · exact absurd hhm5 (by decide)

lemma c1_stage4 : ∀ x0 x1 x2 x3 : Nat,
    ([1,2,3,4,x0,x1,x2,x3,0] : State).Perm (List.range 9) →
    is_solvable ([1,2,3,4,x0,x1,x2,x3,0] : State) = true →
    ([1,2,3,4,x0,x1,x2,x3,0] : State).indexOf 0 = 8 →
    Reachable ([1,2,3,4,x0,x1,x2,x3,0] : State) goal_state := by
  intro x0 x1 x2 x3 hp hs hidx
  have hmt : (7 : Nat) ∈ ([1,2,3,4,x0,x1,x2,x3,0] : State) := hp.mem_iff.mpr (by decide)
  simp only [List.mem_cons, List.not_mem_nil, or_false] at hmt
  rcases hmt with hhmt | hhmt | hhmt | hhmt | hhmt | hhmt | hhmt | hhmt | hhmt
  · exact absurd hhmt (by decide)
  · exact absurd hhmt (by decide)
  · exact absurd hhmt (by decide)
  · exact absurd hhmt (by decide)
  · subst hhmt
    have m29_0 := mem_move_up ([1,2,3,4,7,x1,x2,x3,0] : State) hp 8 hidx (by decide)
    have hp29_0 : ([1,2,3,4,7,0,x2,x3,x1] : State).Perm (List.range 9) := m29_0.2.1
    have hidx29_0 : ([1,2,3,4,7,0,x2,x3,x1] : State).indexOf 0 = 5 := m29_0.2.2.1
    have hsol29_0 : is_solvable ([1,2,3,4,7,0,x2,x3,x1] : State) = is_solvable ([1,2,3,4,7,x1,x2,x3,0] : State) := m29_0.2.2.2
    have m29_1 := mem_move_up ([1,2,3,4,7,0,x2,x3,x1] : State) hp29_0 5 hidx29_0 (by decide)
    have hp29_1 : ([1,2,0,4,7,3,x2,x3,x1] : State).Perm (List.range 9) := m29_1.2.1
    have hidx29_1 : ([1,2,0,4,7,3,x2,x3,x1] : State).indexOf 0 = 2 := m29_1.2.2.1
    have hsol29_1 : is_solvable ([1,2,0,4,7,3,x2,x3,x1] : State) = is_solvable ([1,2,3,4,7,0,x2,x3,x1] : State) := m29_1.2.2.2
    have m29_2 := mem_move_left ([1,2,0,4,7,3,x2,x3,x1] : State) hp29_1 2 hidx29_1 (by decide) (by decide)
    have hp29_2 : ([1,0,2,4,7,3,x2,x3,x1] : State).Perm (List.range 9) := m29_2.2.1
    have hidx29_2 : ([1,0,2,4,7,3,x2,x3,x1] : State).indexOf 0 = 1 := m29_2.2.2.1
    have hsol29_2 : is_solvable ([1,0,2,4,7,3,x2,x3,x1] : State) = is_solvable ([1,2,0,4,7,3,x2,x3,x1] : State) := m29_2.2.2.2
    have m29_3 := mem_move_left ([1,0,2,4,7,3,x2,x3,x1] : State) hp29_2 1 hidx29_2 (by decide) (by decide)
    have hp29_3 : ([0,1,2,4,7,3,x2,x3,x1] : State).Perm (List.range 9) := m29_3.2.1
    have hidx29_3 : ([0,1,2,4,7,3,x2,x3,x1] : State).indexOf 0 = 0 := m29_3.2.2.1
    have hsol29_3 : is_solvable ([0,1,2,4,7,3,x2,x3,x1] : State) = is_solvable ([1,0,2,4,7,3,x2,x3,x1] : State) := m29_3.2.2.2
    have m29_4 := mem_move_down ([0,1,2,4,7,3,x2,x3,x1] : State) hp29_3 0 hidx29_3 (by decide)
    have hp29_4 : ([4,1,2,0,7,3,x2,x3,x1] : State).Perm (List.range 9) := m29_4.2.1
    have hidx29_4 : ([4,1,2,0,7,3,x2,x3,x1] : State).indexOf 0 = 3 := m29_4.2.2.1
    have hsol29_4 : is_solvable ([4,1,2,0,7,3,x2,x3,x1] : State) = is_solvable ([0,1,2,4,7,3,x2,x3,x1] : State) := m29_4.2.2.2
    have m29_5 := mem_move_right ([4,1,2,0,7,3,x2,x3,x1] : State) hp29_4 3 hidx29_4 (by decide) (by decide)
    have hp29_5 : ([4,1,2,7,0,3,x2,x3,x1] : State).Perm (List.range 9) := m29_5.2.1
    have hidx29_5 : ([4,1,2,7,0,3,x2,x3,x1] : State).indexOf 0 = 4 := m29_5.2.2.1
    have hsol29_5 : is_solvable ([4,1,2,7,0,3,x2,x3,x1] : State) = is_solvable ([4,1,2,0,7,3,x2,x3,x1] : State) := m29_5.2.2.2
    have m29_6 := mem_move_down ([4,1,2,7,0,3,x2,x3,x1] : State) hp29_5 4 hidx29_5 (by decide)
    have hp29_6 : ([4,1,2,7,x3,3,x2,0,x1] : State).Perm (List.range 9) := m29_6.2.1
    have hidx29_6 : ([4,1,2,7,x3,3,x2,0,x1] : State).indexOf 0 = 7 := m29_6.2.2.1
    have hsol29_6 : is_solvable ([4,1,2,7,x3,3,x2,0,x1] : State) = is_solvable ([4,1,2,7,0,3,x2,x3,x1] : State) := m29_6.2.2.2
    have m29_7 := mem_move_left ([4,1,2,7,x3,3,x2,0,x1] : State) hp29_6 7 hidx29_6 (by decide) (by decide)
    have hp29_7 : ([4,1,2,7,x3,3,0,x2,x1] : State).Perm (List.range 9) := m29_7.2.1
    have hidx29_7 : ([4,1,2,7,x3,3,0,x2,x1] : State).indexOf 0 = 6 := m29_7.2.2.1
    have hsol29_7 : is_solvable ([4,1,2,7,x3,3,0,x2,x1] : State) = is_solvable ([4,1,2,7,x3,3,x2,0,x1] : State) := m29_7.2.2.2
    have m29_8 := mem_move_up ([4,1,2,7,x3,3,0,x2,x1] : State) hp29_7 6 hidx29_7 (by decide)
    have hp29_8 : ([4,1,2,0,x3,3,7,x2,x1] : State).Perm (List.range 9) := m29_8.2.1
    have hidx29_8 : ([4,1,2,0,x3,3,7,x2,x1] : State).indexOf 0 = 3 := m29_8.2.2.1
    have hsol29_8 : is_solvable ([4,1,2,0,x3,3,7,x2,x1] : State) = is_solvable ([4,1,2,7,x3,3,0,x2,x1] : State) := m29_8.2.2.2
    have m29_9 := mem_move_up ([4,1,2,0,x3,3,7,x2,x1] : State) hp29_8 3 hidx29_8 (by decide)
    have hp29_9 : ([0,1,2,4,x3,3,7,x2,x1] : State).Perm (List.range 9) := m29_9.2.1
    have hidx29_9 : ([0,1,2,4,x3,3,7,x2,x1] : State).indexOf 0 = 0 := m29_9.2.2.1
    have hsol29_9 : is_solvable ([0,1,2,4,x3,3,7,x2,x1] : State) = is_solvable ([4,1,2,0,x3,3,7,x2,x1] : State) := m29_9.2.2.2
    have m29_10 := mem_move_right ([0,1,2,4,x3,3,7,x2,x1] : State) hp29_9 0 hidx29_9 (by decide) (by decide)
    have hp29_10 : ([1,0,2,4,x3,3,7,x2,x1] : State).Perm (List.range 9) := m29_10.2.1
    have hidx29_10 : ([1,0,2,4,x3,3,7,x2,x1] : State).indexOf 0 = 1 := m29_10.2.2.1
    have hsol29_10 : is_solvable ([1,0,2,4,x3,3,7,x2,x1] : State) = is_solvable ([0,1,2,4,x3,3,7,x2,x1] : State) := m29_10.2.2.2
    have m29_11 := mem_move_right ([1,0,2,4,x3,3,7,x2,x1] : State) hp29_10 1 hidx29_10 (by decide) (by decide)
    have hp29_11 : ([1,2,0,4,x3,3,7,x2,x1] : State).Perm (List.range 9) := m29_11.2.1
    have hidx29_11 : ([1,2,0,4,x3,3,7,x2,x1] : State).indexOf 0 = 2 := m29_11.2.2.1
    have hsol29_11 : is_solvable ([1,2,0,4,x3,3,7,x2,x1] : State) = is_solvable ([1,0,2,4,x3,3,7,x2,x1] : State) := m29_11.2.2.2
    have m29_12 := mem_move_down ([1,2,0,4,x3,3,7,x2,x1] : State) hp29_11 2 hidx29_11 (by decide)
    have hp29_12 : ([1,2,3,4,x3,0,7,x2,x1] : State).Perm (List.range 9) := m29_12.2.1
    have hidx29_12 : ([1,2,3,4,x3,0,7,x2,x1] : State).indexOf 0 = 5 := m29_12.2.2.1
    have hsol29_12 : is_solvable ([1,2,3,4,x3,0,7,x2,x1] : State) = is_solvable ([1,2,0,4,x3,3,7,x2,x1] : State) := m29_12.2.2.2
    have m29_13 := mem_move_down ([1,2,3,4,x3,0,7,x2,x1] : State) hp29_12 5 hidx29_12 (by decide)
    have hp29_13 : ([1,2,3,4,x3,x1,7,x2,0] : State).Perm (List.range 9) := m29_13.2.1
    have hidx29_13 : ([1,2,3,4,x3,x1,7,x2,0] : State).indexOf 0 = 8 := m29_13.2.2.1
    have hsol29_13 : is_solvable ([1,2,3,4,x3,x1,7,x2,0] : State) = is_solvable ([1,2,3,4,x3,0,7,x2,x1] : State) := m29_13.2.2.2
    have hsF29 : is_solvable ([1,2,3,4,x3,x1,7,x2,0] : State) = true := by
      rw [hsol29_13, hsol29_12, hsol29_11, hsol29_10, hsol29_9, hsol29_8, hsol29_7, hsol29_6, hsol29_5, hsol29_4, hsol29_3, hsol29_2, hsol29_1, hsol29_0]
      exact hs
    exact Reachable_trans (reach_step _ _ _ m29_0.1) (Reachable_trans (reach_step _ _ _ m29_1.1) (Reachable_trans (reach_step _ _ _ m29_2.1) (Reachable_trans (reach_step _ _ _ m29_3.1) (Reachable_trans (reach_step _ _ _ m29_4.1) (Reachable_trans (reach_step _ _ _ m29_5.1) (Reachable_trans (reach_step _ _ _ m29_6.1) (Reachable_trans (reach_step _ _ _ m29_7.1) (Reachable_trans (reach_step _ _ _ m29_8.1) (Reachable_trans (reach_step _ _ _ m29_9.1) (Reachable_trans (reach_step _ _ _ m29_10.1) (Reachable_trans (reach_step _ _ _ m29_11.1) (Reachable_trans (reach_step _ _ _ m29_12.1) (Reachable_trans (reach_step _ _ _ m29_13.1) (c1_stage5 x3 x1 x2 hp29_13 hsF29 hidx29_13))))))))))))))
  · subst hhmt
    have m30_0 := mem_move_left ([1,2,3,4,x0,7,x2,x3,0] : State) hp 8 hidx (by decide) (by decide)
    have hp30_0 : ([1,2,3,4,x0,7,x2,0,x3] : State).Perm (List.range 9) := m30_0.2.1
    have hidx30_0 : ([1,2,3,4,x0,7,x2,0,x3] : State).indexOf 0 = 7 := m30_0.2.2.1
    have hsol30_0 : is_solvable ([1,2,3,4,x0,7,x2,0,x3] : State) = is_solvable ([1,2,3,4,x0,7,x2,x3,0] : State) := m30_0.2.2.2
    have m30_1 := mem_move_left ([1,2,3,4,x0,7,x2,0,x3] : State) hp30_0 7 hidx30_0 (by decide) (by decide)
    have hp30_1 : ([1,2,3,4,x0,7,0,x2,x3] : State).Perm (List.range 9) := m30_1.2.1
    have hidx30_1 : ([1,2,3,4,x0,7,0,x2,x3] : State).indexOf 0 = 6 := m30_1.2.2.1
    have hsol30_1 : is_solvable ([1,2,3,4,x0,7,0,x2,x3] : State) = is_solvable ([1,2,3,4,x0,7,x2,0,x3] : State) := m30_1.2.2.2
    have m30_2 := mem_move_up ([1,2,3,4,x0,7,0,x2,x3] : State) hp30_1 6 hidx30_1 (by decide)
    have hp30_2 : ([1,2,3,0,x0,7,4,x2,x3] : State).Perm (List.range 9) := m30_2.2.1
    have hidx30_2 : ([1,2,3,0,x0,7,4,x2,x3] : State).indexOf 0 = 3 := m30_2.2.2.1
    have hsol30_2 : is_solvable ([1,2,3,0,x0,7,4,x2,x3] : State) = is_solvable ([1,2,3,4,x0,7,0,x2,x3] : State) := m30_2.2.2.2
    have m30_3 := mem_move_right ([1,2,3,0,x0,7,4,x2,x3] : State) hp30_2 3 hidx30_2 (by decide) (by decide)
    have hp30_3 : ([1,2,3,x0,0,7,4,x2,x3] : State).Perm (List.range 9) := m30_3.2.1
    have hidx30_3 : ([1,2,3,x0,0,7,4,x2,x3] : State).indexOf 0 = 4 := m30_3.2.2.1
    have hsol30_3 : is_solvable ([1,2,3,x0,0,7,4,x2,x3] : State) = is_solvable ([1,2,3,0,x0,7,4,x2,x3] : State) := m30_3.2.2.2
    have m30_4 := mem_move_right ([1,2,3,x0,0,7,4,x2,x3] : State) hp30_3 4 hidx30_3 (by decide) (by decide)
    have hp30_4 : ([1,2,3,x0,7,0,4,x2,x3] : State).Perm (List.range 9) := m30_4.2.1
    have hidx30_4 : ([1,2,3,x0,7,0,4,x2,x3] : State).indexOf 0 = 5 := m30_4.2.2.1
    have hsol30_4 : is_solvable ([1,2,3,x0,7,0,4,x2,x3] : State) = is_solvable ([1,2,3,x0,0,7,4,x2,x3] : State) := m30_4.2.2.2
    have m30_5 := mem_move_down ([1,2,3,x0,7,0,4,x2,x3] : State) hp30_4 5 hidx30_4 (by decide)
    have hp30_5 : ([1,2,3,x0,7,x3,4,x2,0] : State).Perm (List.range 9) := m30_5.2.1
    have hidx30_5 : ([1,2,3,x0,7,x3,4,x2,0] : State).indexOf 0 = 8 := m30_5.2.2.1
    have hsol30_5 : is_solvable ([1,2,3,x0,7,x3,4,x2,0] : State) = is_solvable ([1,2,3,x0,7,0,4,x2,x3] : State) := m30_5.2.2.2
    have m30_6 := mem_move_left ([1,2,3,x0,7,x3,4,x2,0] : State) hp30_5 8 hidx30_5 (by decide) (by decide)
    have hp30_6 : ([1,2,3,x0,7,x3,4,0,x2] : State).Perm (List.range 9) := m30_6.2.1
    have hidx30_6 : ([1,2,3,x0,7,x3,4,0,x2] : State).indexOf 0 = 7 := m30_6.2.2.1
    have hsol30_6 : is_solvable ([1,2,3,x0,7,x3,4,0,x2] : State) = is_solvable ([1,2,3,x0,7,x3,4,x2,0] : State) := m30_6.2.2.2
    have m30_7 := mem_move_up ([1,2,3,x0,7,x3,4,0,x2] : State) hp30_6 7 hidx30_6 (by decide)
    have hp30_7 : ([1,2,3,x0,0,x3,4,7,x2] : State).Perm (List.range 9) := m30_7.2.1
    have hidx30_7 : ([1,2,3,x0,0,x3,4,7,x2] : State).indexOf 0 = 4 := m30_7.2.2.1
    have hsol30_7 : is_solvable ([1,2,3,x0,0,x3,4,7,x2] : State) = is_solvable ([1,2,3,x0,7,x3,4,0,x2] : State) := m30_7.2.2.2
    have m30_8 := mem_move_left ([1,2,3,x0,0,x3,4,7,x2] : State) hp30_7 4 hidx30_7 (by decide) (by decide)
    have hp30_8 : ([1,2,3,0,x0,x3,4,7,x2] : State).Perm (List.range 9) := m30_8.2.1
    have hidx30_8 : ([1,2,3,0,x0,x3,4,7,x2] : State).indexOf 0 = 3 := m30_8.2.2.1
    have hsol30_8 : is_solvable ([1,2,3,0,x0,x3,4,7,x2] : State) = is_solvable ([1,2,3,x0,0,x3,4,7,x2] : State) := m30_8.2.2.2
    have m30_9 := mem_move_down ([1,2,3,0,x0,x3,4,7,x2] : State) hp30_8 3 hidx30_8 (by decide)
    have hp30_9 : ([1,2,3,4,x0,x3,0,7,x2] : State).Perm (List.range 9) := m30_9.2.1
    have hidx30_9 : ([1,2,3,4,x0,x3,0,7,x2] : State).indexOf 0 = 6 := m30_9.2.2.1
    have hsol30_9 : is_solvable ([1,2,3,4,x0,x3,0,7,x2] : State) = is_solvable ([1,2,3,0,x0,x3,4,7,x2] : State) := m30_9.2.2.2
    have m30_10 := mem_move_right ([1,2,3,4,x0,x3,0,7,x2] : State) hp30_9 6 hidx30_9 (by decide) (by decide)
    have hp30_10 : ([1,2,3,4,x0,x3,7,0,x2] : State).Perm (List.range 9) := m30_10.2.1
    have hidx30_10 : ([1,2,3,4,x0,x3,7,0,x2] : State).indexOf 0 = 7 := m30_10.2.2.1
    have hsol30_10 : is_solvable ([1,2,3,4,x0,x3,7,0,x2] : State) = is_solvable ([1,2,3,4,x0,x3,0,7,x2] : State) := m30_10.2.2.2
    have m30_11 := mem_move_right ([1,2,3,4,x0,x3,7,0,x2] : State) hp30_10 7 hidx30_10 (by decide) (by decide)
    have hp30_11 : ([1,2,3,4,x0,x3,7,x2,0] : State).Perm (List.range 9) := m30_11.2.1
    have hidx30_11 : ([1,2,3,4,x0,x3,7,x2,0] : State).indexOf 0 = 8 := m30_11.2.2.1
    have hsol30_11 : is_solvable ([1,2,3,4,x0,x3,7,x2,0] : State) = is_solvable ([1,2,3,4,x0,x3,7,0,x2] : State) := m30_11.2.2.2
    have hsF30 : is_solvable ([1,2,3,4,x0,x3,7,x2,0] : State) = true := by
      rw [hsol30_11, hsol30_10, hsol30_9, hsol30_8, hsol30_7, hsol30_6, hsol30_5, hsol30_4, hsol30_3, hsol30_2, hsol30_1, hsol30_0]
      exact hs
    exact Reachable_trans (reach_step _ _ _ m30_0.1) (Reachable_trans (reach_step _ _ _ m30_1.1) (Reachable_trans (reach_step _ _ _ m30_2.1) (Reachable_trans (reach_step _ _ _ m30_3.1) (Reachable_trans (reach_step _ _ _ m30_4.1) (Reachable_trans (reach_step _ _ _ m30_5.1) (Reachable_trans (reach_step _ _ _ m30_6.1) (Reachable_trans (reach_step _ _ _ m30_7.1) (Reachable_trans (reach_step _ _ _ m30_8.1) (Reachable_trans (reach_step _ _ _ m30_9.1) (Reachable_trans (reach_step _ _ _ m30_10.1) (Reachable_trans (reach_step _ _ _ m30_11.1) (c1_stage5 x0 x3 x2 hp30_11 hsF30 hidx30_11))))))))))))
  · subst hhmt
    exact c1_stage5 x0 x1 x3 hp hs hidx
  · subst hhmt
    have m32_0 := mem_move_left ([1,2,3,4,x0,x1,x2,7,0] : State) hp 8 hidx (by decide) (by decide)
    have hp32_0 : ([1,2,3,4,x0,x1,x2,0,7] : State).Perm (List.range 9) := m32_0.2.1
    have hidx32_0 : ([1,2,3,4,x0,x1,x2,0,7] : State).indexOf 0 = 7 := m32_0.2.2.1
    have hsol32_0 : is_solvable ([1,2,3,4,x0,x1,x2,0,7] : State) = is_solvable ([1,2,3,4,x0,x1,x2,7,0] : State) := m32_0.2.2.2
    have m32_1 := mem_move_left ([1,2,3,4,x0,x1,x2,0,7] : State) hp32_0 7 hidx32_0 (by decide) (by decide)
    have hp32_1 : ([1,2,3,4,x0,x1,0,x2,7] : State).Perm (List.range 9) := m32_1.2.1
    have hidx32_1 : ([1,2,3,4,x0,x1,0,x2,7] : State).indexOf 0 = 6 := m32_1.2.2.1
    have hsol32_1 : is_solvable ([1,2,3,4,x0,x1,0,x2,7] : State) = is_solvable ([1,2,3,4,x0,x1,x2,0,7] : State) := m32_1.2.2.2
    have m32_2 := mem_move_up ([1,2,3,4,x0,x1,0,x2,7] : State) hp32_1 6 hidx32_1 (by decide)
    have hp32_2 : ([1,2,3,0,x0,x1,4,x2,7] : State).Perm (List.range 9) := m32_2.2.1
    have hidx32_2 : ([1,2,3,0,x0,x1,4,x2,7] : State).indexOf 0 = 3 := m32_2.2.2.1
    have hsol32_2 : is_solvable ([1,2,3,0,x0,x1,4,x2,7] : State) = is_solvable ([1,2,3,4,x0,x1,0,x2,7] : State) := m32_2.2.2.2
    have m32_3 := mem_move_right ([1,2,3,0,x0,x1,4,x2,7] : State) hp32_2 3 hidx32_2 (by decide) (by decide)
    have hp32_3 : ([1,2,3,x0,0,x1,4,x2,7] : State).Perm (List.range 9) := m32_3.2.1
    have hidx32_3 : ([1,2,3,x0,0,x1,4,x2,7] : State).indexOf 0 = 4 := m32_3.2.2.1
    have hsol32_3 : is_solvable ([1,2,3,x0,0,x1,4,x2,7] : State) = is_solvable ([1,2,3,0,x0,x1,4,x2,7] : State) := m32_3.2.2.2
    have m32_4 := mem_move_down ([1,2,3,x0,0,x1,4,x2,7] : State) hp32_3 4 hidx32_3 (by decide)
    have hp32_4 : ([1,2,3,x0,x2,x1,4,0,7] : State).Perm (List.range 9) := m32_4.2.1
    have hidx32_4 : ([1,2,3,x0,x2,x1,4,0,7] : State).indexOf 0 = 7 := m32_4.2.2.1
    have hsol32_4 : is_solvable ([1,2,3,x0,x2,x1,4,0,7] : State) = is_solvable ([1,2,3,x0,0,x1,4,x2,7] : State) := m32_4.2.2.2
    have m32_5 := mem_move_right ([1,2,3,x0,x2,x1,4,0,7] : State) hp32_4 7 hidx32_4 (by decide) (by decide)
    have hp32_5 : ([1,2,3,x0,x2,x1,4,7,0] : State).Perm (List.range 9) := m32_5.2.1
    have hidx32_5 : ([1,2,3,x0,x2,x1,4,7,0] : State).indexOf 0 = 8 := m32_5.2.2.1
    have hsol32_5 : is_solvable ([1,2,3,x0,x2,x1,4,7,0] : State) = is_solvable ([1,2,3,x0,x2,x1,4,0,7] : State) := m32_5.2.2.2
    have m32_6 := mem_move_up ([1,2,3,x0,x2,x1,4,7,0] : State) hp32_5 8 hidx32_5 (by decide)
    have hp32_6 : ([1,2,3,x0,x2,0,4,7,x1] : State).Perm (List.range 9) := m32_6.2.1
    have hidx32_6 : ([1,2,3,x0,x2,0,4,7,x1] : State).indexOf 0 = 5 := m32_6.2.2.1
    have hsol32_6 : is_solvable ([1,2,3,x0,x2,0,4,7,x1] : State) = is_solvable ([1,2,3,x0,x2,x1,4,7,0] : State) := m32_6.2.2.2
    have m32_7 := mem_move_left ([1,2,3,x0,x2,0,4,7,x1] : State) hp32_6 5 hidx32_6 (by decide) (by decide)
    have hp32_7 : ([1,2,3,x0,0,x2,4,7,x1] : State).Perm (List.range 9) := m32_7.2.1
    have hidx32_7 : ([1,2,3,x0,0,x2,4,7,x1] : State).indexOf 0 = 4 := m32_7.2.2.1
    have hsol32_7 : is_solvable ([1,2,3,x0,0,x2,4,7,x1] : State) = is_solvable ([1,2,3,x0,x2,0,4,7,x1] : State) := m32_7.2.2.2
    have m32_8 := mem_move_left ([1,2,3,x0,0,x2,4,7,x1] : State) hp32_7 4 hidx32_7 (by decide) (by decide)
    have hp32_8 : ([1,2,3,0,x0,x2,4,7,x1] : State).Perm (List.range 9) := m32_8.2.1
    have hidx32_8 : ([1,2,3,0,x0,x2,4,7,x1] : State).indexOf 0 = 3 := m32_8.2.2.1
    have hsol32_8 : is_solvable ([1,2,3,0,x0,x2,4,7,x1] : State) = is_solvable ([1,2,3,x0,0,x2,4,7,x1] : State) := m32_8.2.2.2
    have m32_9 := mem_move_down ([1,2,3,0,x0,x2,4,7,x1] : State) hp32_8 3 hidx32_8 (by decide)
    have hp32_9 : ([1,2,3,4,x0,x2,0,7,x1] : State).Perm (List.range 9) := m32_9.2.1
    have hidx32_9 : ([1,2,3,4,x0,x2,0,7,x1] : State).indexOf 0 = 6 := m32_9.2.2.1
    have hsol32_9 : is_solvable ([1,2,3,4,x0,x2,0,7,x1] : State) = is_solvable ([1,2,3,0,x0,x2,4,7,x1] : State) := m32_9.2.2.2
    have m32_10 := mem_move_right ([1,2,3,4,x0,x2,0,7,x1] : State) hp32_9 6 hidx32_9 (by decide) (by decide)
    have hp32_10 : ([1,2,3,4,x0,x2,7,0,x1] : State).Perm (List.range 9) := m32_10.2.1
    have hidx32_10 : ([1,2,3,4,x0,x2,7,0,x1] : State).indexOf 0 = 7 := m32_10.2.2.1
    have hsol32_10 : is_solvable ([1,2,3,4,x0,x2,7,0,x1] : State) = is_solvable ([1,2,3,4,x0,x2,0,7,x1] : State) := m32_10.2.2.2
    have m32_11 := mem_move_right ([1,2,3,4,x0,x2,7,0,x1] : State) hp32_10 7 hidx32_10 (by decide) (by decide)
    have hp32_11 : ([1,2,3,4,x0,x2,7,x1,0] : State).Perm (List.range 9) := m32_11.2.1
    have hidx32_11 : ([1,2,3,4,x0,x2,7,x1,0] : State).indexOf 0 = 8 := m32_11.2.2.1
    have hsol32_11 : is_solvable ([1,2,3,4,x0,x2,7,x1,0] : State) = is_solvable ([1,2,3,4,x0,x2,7,0,x1] : State) := m32_11.2.2.2
    have hsF32 : is_solvable ([1,2,3,4,x0,x2,7,x1,0] : State) = true := by
      rw [hsol32_11, hsol32_10, hsol32_9, hsol32_8, hsol32_7, hsol32_6, hsol32_5, hsol32_4, hsol32_3, hsol32_2, hsol32_1, hsol32_0]
      exact hs
    exact Reachable_trans (reach_step _ _ _ m32_0.1) (Reachable_trans (reach_step _ _ _ m32_1.1) (Reachable_trans (reach_step _ _ _ m32_2.1) (Reachable_trans (reach_step _ _ _ m32_3.1) (Reachable_trans (reach_step _ _ _ m32_4.1) (Reachable_trans (reach_step _ _ _ m32_5.1) (Reachable_trans (reach_step _ _ _ m32_6.1) (Reachable_trans (reach_step _ _ _ m32_7.1) (Reachable_trans (reach_step _ _ _ m32_8.1) (Reachable_trans (reach_step _ _ _ m32_9.1) (Reachable_trans (reach_step _ _ _ m32_10.1) (Reachable_trans (reach_step _ _ _ m32_11.1) (c1_stage5 x0 x2 x1 hp32_11 hsF32 hidx32_11))))))))))))
  · exact absurd hhmt (by decide)

lemma c1_stage3 : ∀ x0 x1 x2 x3 x4 : Nat,
    ([1,2,3,x0,x1,x2,x3,x4,0] : State).Perm (List.range 9) →
    is_solvable ([1,2,3,x0,x1,x2,x3,x4,0] : State) = true →
    ([1,2,3,x0,x1,x2,x3,x4,0] : State).indexOf 0 = 8 →
    Reachable ([1,2,3,x0,x1,x2,x3,x4,0] : State) goal_state := by
  intro x0 x1 x2 x3 x4 hp hs hidx
  have hmt : (4 : Nat) ∈ ([1,2,3,x0,x1,x2,x3,x4,0] : State) := hp.mem_iff.mpr (by decide)
  simp only [List.mem_cons, List.not_mem_nil, or_false] at hmt
  rcases hmt with hhmt | hhmt | hhmt | hhmt | hhmt | hhmt | hhmt | hhmt | hhmt
  · exact absurd hhmt (by decide)
  · exact absurd hhmt (by decide)
  · exact absurd hhmt (by decide)
  · subst hhmt
    exact c1_stage4 x1 x2 x3 x4 hp hs hidx
  · subst hhmt
    have m25_0 := mem_move_left ([1,2,3,x0,4,x2,x3,x4,0] : State) hp 8 hidx (by decide) (by decide)
    have hp25_0 : ([1,2,3,x0,4,x2,x3,0,x4] : State).Perm (List.range 9) := m25_0.2.1
    have hidx25_0 : ([1,2,3,x0,4,x2,x3,0,x4] : State).indexOf 0 = 7 := m25_0.2.2.1
    have hsol25_0 : is_solvable ([1,2,3,x0,4,x2,x3,0,x4] : State) = is_solvable ([1,2,3,x0,4,x2,x3,x4,0] : State) := m25_0.2.2.2
    have m25_1 := mem_move_left ([1,2,3,x0,4,x2,x3,0,x4] : State) hp25_0 7 hidx25_0 (by decide) (by decide)
    have hp25_1 : ([1,2,3,x0,4,x2,0,x3,x4] : State).Perm (List.range 9) := m25_1.2.1
    have hidx25_1 : ([1,2,3,x0,4,x2,0,x3,x4] : State).indexOf 0 = 6 := m25_1.2.2.1
    have hsol25_1 : is_solvable ([1,2,3,x0,4,x2,0,x3,x4] : State) = is_solvable ([1,2,3,x0,4,x2,x3,0,x4] : State) := m25_1.2.2.2
    have m25_2 := mem_move_up ([1,2,3,x0,4,x2,0,x3,x4] : State) hp25_1 6 hidx25_1 (by decide)
    have hp25_2 : ([1,2,3,0,4,x2,x0,x3,x4] : State).Perm (List.range 9) := m25_2.2.1
    have hidx25_2 : ([1,2,3,0,4,x2,x0,x3,x4] : State).indexOf 0 = 3 := m25_2.2.2.1
    have hsol25_2 : is_solvable ([1,2,3,0,4,x2,x0,x3,x4] : State) = is_solvable ([1,2,3,x0,4,x2,0,x3,x4] : State) := m25_2.2.2.2
    have m25_3 := mem_move_right ([1,2,3,0,4,x2,x0,x3,x4] : State) hp25_2 3 hidx25_2 (by decide) (by decide)
    have hp25_3 : ([1,2,3,4,0,x2,x0,x3,x4] : State).Perm (List.range 9) := m25_3.2.1
    have hidx25_3 : ([1,2,3,4,0,x2,x0,x3,x4] : State).indexOf 0 = 4 := m25_3.2.2.1
    have hsol25_3 : is_solvable ([1,2,3,4,0,x2,x0,x3,x4] : State) = is_solvable ([1,2,3,0,4,x2,x0,x3,x4] : State) := m25_3.2.2.2
    have m25_4 := mem_move_down ([1,2,3,4,0,x2,x0,x3,x4] : State) hp25_3 4 hidx25_3 (by decide)
    have hp25_4 : ([1,2,3,4,x3,x2,x0,0,x4] : State).Perm (List.range 9) := m25_4.2.1
    have hidx25_4 : ([1,2,3,4,x3,x2,x0,0,x4] : State).indexOf 0 = 7 := m25_4.2.2.1
    have hsol25_4 : is_solvable ([1,2,3,4,x3,x2,x0,0,x4] : State) = is_solvable ([1,2,3,4,0,x2,x0,x3,x4] : State) := m25_4.2.2.2
    have m25_5 := mem_move_right ([1,2,3,4,x3,x2,x0,0,x4] : State) hp25_4 7 hidx25_4 (by decide) (by decide)
    have hp25_5 : ([1,2,3,4,x3,x2,x0,x4,0] : State).Perm (List.range 9) := m25_5.2.1
    have hidx25_5 : ([1,2,3,4,x3,x2,x0,x4,0] : State).indexOf 0 = 8 := m25_5.2.2.1
    have hsol25_5 : is_solvable ([1,2,3,4,x3,x2,x0,x4,0] : State) = is_solvable ([1,2,3,4,x3,x2,x0,0,x4] : State) := m25_5.2.2.2
    have hsF25 : is_solvable ([1,2,3,4,x3,x2,x0,x4,0] : State) = true := by
      rw [hsol25_5, hsol25_4, hsol25_3, hsol25_2, hsol25_1, hsol25_0]
      exact hs
    exact Reachable_trans (reach_step _ _ _ m25_0.1) (Reachable_trans (reach_step _ _ _ m25_1.1) (Reachable_trans (reach_step _ _ _ m25_2.1) (Reachable_trans (reach_step _ _ _ m25_3.1) (Reachable_trans (reach_step _ _ _ m25_4.1) (Reachable_trans (reach_step _ _ _ m25_5.1) (c1_stage4 x3 x2 x0 x4 hp25_5 hsF25 hidx25_5))))))
  · subst hhmt
    have m26_0 := mem_move_left ([1,2,3,x0,x1,4,x3,x4,0] : State) hp 8 hidx (by decide) (by decide)
    have hp26_0 : ([1,2,3,x0,x1,4,x3,0,x4] : State).Perm (List.range 9) := m26_0.2.1
    have hidx26_0 : ([1,2,3,x0,x1,4,x3,0,x4] : State).indexOf 0 = 7 := m26_0.2.2.1
    have hsol26_0 : is_solvable ([1,2,3,x0,x1,4,x3,0,x4] : State) = is_solvable ([1,2,3,x0,x1,4,x3,x4,0] : State) := m26_0.2.2.2
    have m26_1 := mem_move_up ([1,2,3,x0,x1,4,x3,0,x4] : State) hp26_0 7 hidx26_0 (by decide)
    have hp26_1 : ([1,2,3,x0,0,4,x3,x1,x4] : State).Perm (List.range 9) := m26_1.2.1
    have hidx26_1 : ([1,2,3,x0,0,4,x3,x1,x4] : State).indexOf 0 = 4 := m26_1.2.2.1
    have hsol26_1 : is_solvable ([1,2,3,x0,0,4,x3,x1,x4] : State) = is_solvable ([1,2,3,x0,x1,4,x3,0,x4] : State) := m26_1.2.2.2
    have m26_2 := mem_move_right ([1,2,3,x0,0,4,x3,x1,x4] : State) hp26_1 4 hidx26_1 (by decide) (by decide)
    have hp26_2 : ([1,2,3,x0,4,0,x3,x1,x4] : State).Perm (List.range 9) := m26_2.2.1
    have hidx26_2 : ([1,2,3,x0,4,0,x3,x1,x4] : State).indexOf 0 = 5 := m26_2.2.2.1
    have hsol26_2 : is_solvable ([1,2,3,x0,4,0,x3,x1,x4] : State) = is_solvable ([1,2,3,x0,0,4,x3,x1,x4] : State) := m26_2.2.2.2
    have m26_3 := mem_move_down ([1,2,3,x0,4,0,x3,x1,x4] : State) hp26_2 5 hidx26_2 (by decide)
    have hp26_3 : ([1,2,3,x0,4,x4,x3,x1,0] : State).Perm (List.range 9) := m26_3.2.1
    have hidx26_3 : ([1,2,3,x0,4,x4,x3,x1,0] : State).indexOf 0 = 8 := m26_3.2.2.1
    have hsol26_3 : is_solvable ([1,2,3,x0,4,x4,x3,x1,0] : State) = is_solvable ([1,2,3,x0,4,0,x3,x1,x4] : State) := m26_3.2.2.2
    have m26_4 := mem_move_left ([1,2,3,x0,4,x4,x3,x1,0] : State) hp26_3 8 hidx26_3 (by decide) (by decide)
    have hp26_4 : ([1,2,3,x0,4,x4,x3,0,x1] : State).Perm (List.range 9) := m26_4.2.1
    have hidx26_4 : ([1,2,3,x0,4,x4,x3,0,x1] : State).indexOf 0 = 7 := m26_4.2.2.1
    have hsol26_4 : is_solvable ([1,2,3,x0,4,x4,x3,0,x1] : State) = is_solvable ([1,2,3,x0,4,x4,x3,x1,0] : State) := m26_4.2.2.2
    have m26_5 := mem_move_left ([1,2,3,x0,4,x4,x3,0,x1] : State) hp26_4 7 hidx26_4 (by decide) (by decide)
    have hp26_5 : ([1,2,3,x0,4,x4,0,x3,x1] : State).Perm (List.range 9) := m26_5.2.1
    have hidx26_5 : ([1,2,3,x0,4,x4,0,x3,x1] : State).indexOf 0 = 6 := m26_5.2.2.1
    have hsol26_5 : is_solvable ([1,2,3,x0,4,x4,0,x3,x1] : State) = is_solvable ([1,2,3,x0,4,x4,x3,0,x1] : State) := m26_5.2.2.2
    have m26_6 := mem_move_up ([1,2,3,x0,4,x4,0,x3,x1] : State) hp26_5 6 hidx26_5 (by decide)
    have hp26_6 : ([1,2,3,0,4,x4,x0,x3,x1] : State).Perm (List.range 9) := m26_6.2.1
    have hidx26_6 : ([1,2,3,0,4,x4,x0,x3,x1] : State).indexOf 0 = 3 := m26_6.2.2.1
    have hsol26_6 : is_solvable ([1,2,3,0,4,x4,x0,x3,x1] : State) = is_solvable ([1,2,3,x0,4,x4,0,x3,x1] : State) := m26_6.2.2.2
    have m26_7 := mem_move_right ([1,2,3,0,4,x4,x0,x3,x1] : State) hp26_6 3 hidx26_6 (by decide) (by decide)
    have hp26_7 : ([1,2,3,4,0,x4,x0,x3,x1] : State).Perm (List.range 9) := m26_7.2.1
    have hidx26_7 : ([1,2,3,4,0,x4,x0,x3,x1] : State).indexOf 0 = 4 := m26_7.2.2.1
    have hsol26_7 : is_solvable ([1,2,3,4,0,x4,x0,x3,x1] : State) = is_solvable ([1,2,3,0,4,x4,x0,x3,x1] : State) := m26_7.2.2.2
    have m26_8 := mem_move_down ([1,2,3,4,0,x4,x0,x3,x1] : State) hp26_7 4 hidx26_7 (by decide)
    have hp26_8 : ([1,2,3,4,x3,x4,x0,0,x1] : State).Perm (List.range 9) := m26_8.2.1
    have hidx26_8 : ([1,2,3,4,x3,x4,x0,0,x1] : State).indexOf 0 = 7 := m26_8.2.2.1
    have hsol26_8 : is_solvable ([1,2,3,4,x3,x4,x0,0,x1] : State) = is_solvable ([1,2,3,4,0,x4,x0,x3,x1] : State) := m26_8.2.2.2
    have m26_9 := mem_move_right ([1,2,3,4,x3,x4,x0,0,x1] : State) hp26_8 7 hidx26_8 (by decide) (by decide)
    have hp26_9 : ([1,2,3,4,x3,x4,x0,x1,0] : State).Perm (List.range 9) := m26_9.2.1
    have hidx26_9 : ([1,2,3,4,x3,x4,x0,x1,0] : State).indexOf 0 = 8 := m26_9.2.2.1
    have hsol26_9 : is_solvable ([1,2,3,4,x3,x4,x0,x1,0] : State) = is_solvable ([1,2,3,4,x3,x4,x0,0,x1] : State) := m26_9.2.2.2
    have hsF26 : is_solvable ([1,2,3,4,x3,x4,x0,x1,0] : State) = true := by
      rw [hsol26_9, hsol26_8, hsol26_7, hsol26_6, hsol26_5, hsol26_4, hsol26_3, hsol26_2, hsol26_1, hsol26_0]
      exact hs
    exact Reachable_trans (reach_step _ _ _ m26_0.1) (Reachable_trans (reach_step _ _ _ m26_1.1) (Reachable_trans (reach_step _ _ _ m26_2.1) (Reachable_trans (reach_step _ _ _ m26_3.1) (Reachable_trans (reach_step _ _ _ m26_4.1) (Reachable_trans (reach_step _ _ _ m26_5.1) (Reachable_trans (reach_step _ _ _ m26_6.1) (Reachable_trans (reach_step _ _ _ m26_7.1) (Reachable_trans (reach_step _ _ _ m26_8.1) (Reachable_trans (reach_step _ _ _ m26_9.1) (c1_stage4 x3 x4 x0 x1 hp26_9 hsF26 hidx26_9))))))))))
  · subst hhmt
    have m27_0 := mem_move_up ([1,2,3,x0,x1,x2,4,x4,0] : State) hp 8 hidx (by decide)
    have hp27_0 : ([1,2,3,x0,x1,0,4,x4,x2] : State).Perm (List.range 9) := m27_0.2.1
    have hidx27_0 : ([1,2,3,x0,x1,0,4,x4,x2] : State).indexOf 0 = 5 := m27_0.2.2.1
    have hsol27_0 : is_solvable ([1,2,3,x0,x1,0,4,x4,x2] : State) = is_solvable ([1,2,3,x0,x1,x2,4,x4,0] : State) := m27_0.2.2.2
    have m27_1 := mem_move_left ([1,2,3,x0,x1,0,4,x4,x2] : State) hp27_0 5 hidx27_0 (by decide) (by decide)
    have hp27_1 : ([1,2,3,x0,0,x1,4,x4,x2] : State).Perm (List.range 9) := m27_1.2.1
    have hidx27_1 : ([1,2,3,x0,0,x1,4,x4,x2] : State).indexOf 0 = 4 := m27_1.2.2.1
    have hsol27_1 : is_solvable ([1,2,3,x0,0,x1,4,x4,x2] : State) = is_solvable ([1,2,3,x0,x1,0,4,x4,x2] : State) := m27_1.2.2.2
    have m27_2 := mem_move_left ([1,2,3,x0,0,x1,4,x4,x2] : State) hp27_1 4 hidx27_1 (by decide) (by decide)
    have hp27_2 : ([1,2,3,0,x0,x1,4,x4,x2] : State).Perm (List.range 9) := m27_2.2.1
    have hidx27_2 : ([1,2,3,0,x0,x1,4,x4,x2] : State).indexOf 0 = 3 := m27_2.2.2.1
    have hsol27_2 : is_solvable ([1,2,3,0,x0,x1,4,x4,x2] : State) = is_solvable ([1,2,3,x0,0,x1,4,x4,x2] : State) := m27_2.2.2.2
    have m27_3 := mem_move_down ([1,2,3,0,x0,x1,4,x4,x2] : State) hp27_2 3 hidx27_2 (by decide)
    have hp27_3 : ([1,2,3,4,x0,x1,0,x4,x2] : State).Perm (List.range 9) := m27_3.2.1
    have hidx27_3 : ([1,2,3,4,x0,x1,0,x4,x2] : State).indexOf 0 = 6 := m27_3.2.2.1
    have hsol27_3 : is_solvable ([1,2,3,4,x0,x1,0,x4,x2] : State) = is_solvable ([1,2,3,0,x0,x1,4,x4,x2] : State) := m27_3.2.2.2
    have m27_4 := mem_move_right ([1,2,3,4,x0,x1,0,x4,x2] : State) hp27_3 6 hidx27_3 (by decide) (by decide)
    have hp27_4 : ([1,2,3,4,x0,x1,x4,0,x2] : State).Perm (List.range 9) := m27_4.2.1
    have hidx27_4 : ([1,2,3,4,x0,x1,x4,0,x2] : State).indexOf 0 = 7 := m27_4.2.2.1
    have hsol27_4 : is_solvable ([1,2,3,4,x0,x1,x4,0,x2] : State) = is_solvable ([1,2,3,4,x0,x1,0,x4,x2] : State) := m27_4.2.2.2
    have m27_5 := mem_move_right ([1,2,3,4,x0,x1,x4,0,x2] : State) hp27_4 7 hidx27_4 (by decide) (by decide)
    have hp27_5 : ([1,2,3,4,x0,x1,x4,x2,0] : State).Perm (List.range 9) := m27_5.2.1
    have hidx27_5 : ([1,2,3,4,x0,x1,x4,x2,0] : State).indexOf 0 = 8 := m27_5.2.2.1
    have hsol27_5 : is_solvable ([1,2,3,4,x0,x1,x4,x2,0] : State) = is_solvable ([1,2,3,4,x0,x1,x4,0,x2] : State) := m27_5.2.2.2
    have hsF27 : is_solvable ([1,2,3,4,x0,x1,x4,x2,0] : State) = true := by
      rw [hsol27_5, hsol27_4, hsol27_3, hsol27_2, hsol27_1, hsol27_0]
      exact hs
    exact Reachable_trans (reach_step _ _ _ m27_0.1) (Reachable_trans (reach_step _ _ _ m27_1.1) (Reachable_trans (reach_step _ _ _ m27_2.1) (Reachable_trans (reach_step _ _ _ m27_3.1) (Reachable_trans (reach_step _ _ _ m27_4.1) (Reachable_trans (reach_step _ _ _ m27_5.1) (c1_stage4 x0 x1 x4 x2 hp27_5 hsF27 hidx27_5))))))
  · subst hhmt
    have m28_0 := mem_move_up ([1,2,3,x0,x1,x2,x3,4,0] : State) hp 8 hidx (by decide)
    have hp28_0 : ([1,2,3,x0,x1,0,x3,4,x2] : State).Perm (List.range 9) := m28_0.2.1
    have hidx28_0 : ([1,2,3,x0,x1,0,x3,4,x2] : State).indexOf 0 = 5 := m28_0.2.2.1
    have hsol28_0 : is_solvable ([1,2,3,x0,x1,0,x3,4,x2] : State) = is_solvable ([1,2,3,x0,x1,x2,x3,4,0] : State) := m28_0.2.2.2
    have m28_1 := mem_move_left ([1,2,3,x0,x1,0,x3,4,x2] : State) hp28_0 5 hidx28_0 (by decide) (by decide)
    have hp28_1 : ([1,2,3,x0,0,x1,x3,4,x2] : State).Perm (List.range 9) := m28_1.2.1
    have hidx28_1 : ([1,2,3,x0,0,x1,x3,4,x2] : State).indexOf 0 = 4 := m28_1.2.2.1
    have hsol28_1 : is_solvable ([1,2,3,x0,0,x1,x3,4,x2] : State) = is_solvable ([1,2,3,x0,x1,0,x3,4,x2] : State) := m28_1.2.2.2
    have m28_2 := mem_move_down ([1,2,3,x0,0,x1,x3,4,x2] : State) hp28_1 4 hidx28_1 (by decide)
    have hp28_2 : ([1,2,3,x0,4,x1,x3,0,x2] : State).Perm (List.range 9) := m28_2.2.1
    have hidx28_2 : ([1,2,3,x0,4,x1,x3,0,x2] : State).indexOf 0 = 7 := m28_2.2.2.1
    have hsol28_2 : is_solvable ([1,2,3,x0,4,x1,x3,0,x2] : State) = is_solvable ([1,2,3,x0,0,x1,x3,4,x2] : State) := m28_2.2.2.2
    have m28_3 := mem_move_left ([1,2,3,x0,4,x1,x3,0,x2] : State) hp28_2 7 hidx28_2 (by decide) (by decide)
    have hp28_3 : ([1,2,3,x0,4,x1,0,x3,x2] : State).Perm (List.range 9) := m28_3.2.1
    have hidx28_3 : ([1,2,3,x0,4,x1,0,x3,x2] : State).indexOf 0 = 6 := m28_3.2.2.1
    have hsol28_3 : is_solvable ([1,2,3,x0,4,x1,0,x3,x2] : State) = is_solvable ([1,2,3,x0,4,x1,x3,0,x2] : State) := m28_3.2.2.2
    have m28_4 := mem_move_up ([1,2,3,x0,4,x1,0,x3,x2] : State) hp28_3 6 hidx28_3 (by decide)
    have hp28_4 : ([1,2,3,0,4,x1,x0,x3,x2] : State).Perm (List.range 9) := m28_4.2.1
    have hidx28_4 : ([1,2,3,0,4,x1,x0,x3,x2] : State).indexOf 0 = 3 := m28_4.2.2.1
    have hsol28_4 : is_solvable ([1,2,3,0,4,x1,x0,x3,x2] : State) = is_solvable ([1,2,3,x0,4,x1,0,x3,x2] : State) := m28_4.2.2.2
    have m28_5 := mem_move_right ([1,2,3,0,4,x1,x0,x3,x2] : State) hp28_4 3 hidx28_4 (by decide) (by decide)
    have hp28_5 : ([1,2,3,4,0,x1,x0,x3,x2] : State).Perm (List.range 9) := m28_5.2.1
    have hidx28_5 : ([1,2,3,4,0,x1,x0,x3,x2] : State).indexOf 0 = 4 := m28_5.2.2.1
    have hsol28_5 : is_solvable ([1,2,3,4,0,x1,x0,x3,x2] : State) = is_solvable ([1,2,3,0,4,x1,x0,x3,x2] : State) := m28_5.2.2.2
    have m28_6 := mem_move_down ([1,2,3,4,0,x1,x0,x3,x2] : State) hp28_5 4 hidx28_5 (by decide)
    have hp28_6 : ([1,2,3,4,x3,x1,x0,0,x2] : State).Perm (List.range 9) := m28_6.2.1
    have hidx28_6 : ([1,2,3,4,x3,x1,x0,0,x2] : State).indexOf 0 = 7 := m28_6.2.2.1
    have hsol28_6 : is_solvable ([1,2,3,4,x3,x1,x0,0,x2] : State) = is_solvable ([1,2,3,4,0,x1,x0,x3,x2] : State) := m28_6.2.2.2
    have m28_7 := mem_move_right ([1,2,3,4,x3,x1,x0,0,x2] : State) hp28_6 7 hidx28_6 (by decide) (by decide)
    have hp28_7 : ([1,2,3,4,x3,x1,x0,x2,0] : State).Perm (List.range 9) := m28_7.2.1
    have hidx28_7 : ([1,2,3,4,x3,x1,x0,x2,0] : State).indexOf 0 = 8 := m28_7.2.2.1
    have hsol28_7 : is_solvable ([1,2,3,4,x3,x1,x0,x2,0] : State) = is_solvable ([1,2,3,4,x3,x1,x0,0,x2] : State) := m28_7.2.2.2
    have hsF28 : is_solvable ([1,2,3,4,x3,x1,x0,x2,0] : State) = true := by
      rw [hsol28_7, hsol28_6, hsol28_5, hsol28_4, hsol28_3, hsol28_2, hsol28_1, hsol28_0]
      exact hs
    exact Reachable_trans (reach_step _ _ _ m28_0.1) (Reachable_trans (reach_step _ _ _ m28_1.1) (Reachable_trans (reach_step _ _ _ m28_2.1) (Reachable_trans (reach_step _ _ _ m28_3.1) (Reachable_trans (reach_step _ _ _ m28_4.1) (Reachable_trans (reach_step _ _ _ m28_5.1) (Reachable_trans (reach_step _ _ _ m28_6.1) (Reachable_trans (reach_step _ _ _ m28_7.1) (c1_stage4 x3 x1 x0 x2 hp28_7 hsF28 hidx28_7))))))))
  · exact absurd hhmt (by decide)

lemma c1_stage2 : ∀ x0 x1 x2 x3 x4 x5 : Nat,
    ([1,2,x0,x1,x2,x3,x4,x5,0] : State).Perm (List.range 9) →
    is_solvable ([1,2,x0,x1,x2,x3,x4,x5,0] : State) = true →
    ([1,2,x0,x1,x2,x3,x4,x5,0] : State).indexOf 0 = 8 →
    Reachable ([1,2,x0,x1,x2,x3,x4,x5,0] : State) goal_state := by
  intro x0 x1 x2 x3 x4 x5 hp hs hidx
  have hmt : (3 : Nat) ∈ ([1,2,x0,x1,x2,x3,x4,x5,0] : State) := hp.mem_iff.mpr (by decide)
  simp only [List.mem_cons, List.not_mem_nil, or_false] at hmt
  rcases hmt with hhmt | hhmt | hhmt | hhmt | hhmt | hhmt | hhmt | hhmt | hhmt
  · exact absurd hhmt (by decide)
  · exact absurd hhmt (by decide)
  · subst hhmt
    exact c1_stage3 x1 x2 x3 x4 x5 hp hs hidx
  · subst hhmt
    have m19_0 := mem_move_up ([1,2,x0,3,x2,x3,x4,x5,0] : State) hp 8 hidx (by decide)
    have hp19_0 : ([1,2,x0,3,x2,0,x4,x5,x3] : State).Perm (List.range 9) := m19_0.2.1
    have hidx19_0 : ([1,2,x0,3,x2,0,x4,x5,x3] : State).indexOf 0 = 5 := m19_0.2.2.1
    have hsol19_0 : is_solvable ([1,2,x0,3,x2,0,x4,x5,x3] : State) = is_solvable ([1,2,x0,3,x2,x3,x4,x5,0] : State) := m19_0.2.2.2
    have m19_1 := mem_move_up ([1,2,x0,3,x2,0,x4,x5,x3] : State) hp19_0 5 hidx19_0 (by decide)
    have hp19_1 : ([1,2,0,3,x2,x0,x4,x5,x3] : State).Perm (List.range 9) := m19_1.2.1
    have hidx19_1 : ([1,2,0,3,x2,x0,x4,x5,x3] : State).indexOf 0 = 2 := m19_1.2.2.1
    have hsol19_1 : is_solvable ([1,2,0,3,x2,x0,x4,x5,x3] : State) = is_solvable ([1,2,x0,3,x2,0,x4,x5,x3] : State) := m19_1.2.2.2
    have m19_2 := mem_move_left ([1,2,0,3,x2,x0,x4,x5,x3] : State) hp19_1 2 hidx19_1 (by decide) (by decide)
    have hp19_2 : ([1,0,2,3,x2,x0,x4,x5,x3] : State).Perm (List.range 9) := m19_2.2.1
    have hidx19_2 : ([1,0,2,3,x2,x0,x4,x5,x3] : State).indexOf 0 = 1 := m19_2.2.2.1
    have hsol19_2 : is_solvable ([1,0,2,3,x2,x0,x4,x5,x3] : State) = is_solvable ([1,2,0,3,x2,x0,x4,x5,x3] : State) := m19_2.2.2.2
    have m19_3 := mem_move_down ([1,0,2,3,x2,x0,x4,x5,x3] : State) hp19_2 1 hidx19_2 (by decide)
    have hp19_3 : ([1,x2,2,3,0,x0,x4,x5,x3] : State).Perm (List.range 9) := m19_3.2.1
    have hidx19_3 : ([1,x2,2,3,0,x0,x4,x5,x3] : State).indexOf 0 = 4 := m19_3.2.2.1
    have hsol19_3 : is_solvable ([1,x2,2,3,0,x0,x4,x5,x3] : State) = is_solvable ([1,0,2,3,x2,x0,x4,x5,x3] : State) := m19_3.2.2.2
    have m19_4 := mem_move_left ([1,x2,2,3,0,x0,x4,x5,x3] : State) hp19_3 4 hidx19_3 (by decide) (by decide)
    have hp19_4 : ([1,x2,2,0,3,x0,x4,x5,x3] : State).Perm (List.range 9) := m19_4.2.1
    have hidx19_4 : ([1,x2,2,0,3,x0,x4,x5,x3] : State).indexOf 0 = 3 := m19_4.2.2.1
    have hsol19_4 : is_solvable ([1,x2,2,0,3,x0,x4,x5,x3] : State) = is_solvable ([1,x2,2,3,0,x0,x4,x5,x3] : State) := m19_4.2.2.2
    have m19_5 := mem_move_down ([1,x2,2,0,3,x0,x4,x5,x3] : State) hp19_4 3 hidx19_4 (by decide)
    have hp19_5 : ([1,x2,2,x4,3,x0,0,x5,x3] : State).Perm (List.range 9) := m19_5.2.1
    have hidx19_5 : ([1,x2,2,x4,3,x0,0,x5,x3] : State).indexOf 0 = 6 := m19_5.2.2.1
    have hsol19_5 : is_solvable ([1,x2,2,x4,3,x0,0,x5,x3] : State) = is_solvable ([1,x2,2,0,3,x0,x4,x5,x3] : State) := m19_5.2.2.2
    have m19_6 := mem_move_right ([1,x2,2,x4,3,x0,0,x5,x3] : State) hp19_5 6 hidx19_5 (by decide) (by decide)
    have hp19_6 : ([1,x2,2,x4,3,x0,x5,0,x3] : State).Perm (List.range 9) := m19_6.2.1
    have hidx19_6 : ([1,x2,2,x4,3,x0,x5,0,x3] : State).indexOf 0 = 7 := m19_6.2.2.1
    have hsol19_6 : is_solvable ([1,x2,2,x4,3,x0,x5,0,x3] : State) = is_solvable ([1,x2,2,x4,3,x0,0,x5,x3] : State) := m19_6.2.2.2
    have m19_7 := mem_move_right ([1,x2,2,x4,3,x0,x5,0,x3] : State) hp19_6 7 hidx19_6 (by decide) (by decide)
    have hp19_7 : ([1,x2,2,x4,3,x0,x5,x3,0] : State).Perm (List.range 9) := m19_7.2.1
    have hidx19_7 : ([1,x2,2,x4,3,x0,x5,x3,0] : State).indexOf 0 = 8 := m19_7.2.2.1
    have hsol19_7 : is_solvable ([1,x2,2,x4,3,x0,x5,x3,0] : State) = is_solvable ([1,x2,2,x4,3,x0,x5,0,x3] : State) := m19_7.2.2.2
    have m19_8 := mem_move_up ([1,x2,2,x4,3,x0,x5,x3,0] : State) hp19_7 8 hidx19_7 (by decide)
    have hp19_8 : ([1,x2,2,x4,3,0,x5,x3,x0] : State).Perm (List.range 9) := m19_8.2.1
    have hidx19_8 : ([1,x2,2,x4,3,0,x5,x3,x0] : State).indexOf 0 = 5 := m19_8.2.2.1
    have hsol19_8 : is_solvable ([1,x2,2,x4,3,0,x5,x3,x0] : State) = is_solvable ([1,x2,2,x4,3,x0,x5,x3,0] : State) := m19_8.2.2.2
    have m19_9 := mem_move_left ([1,x2,2,x4,3,0,x5,x3,x0] : State) hp19_8 5 hidx19_8 (by decide) (by decide)
    have hp19_9 : ([1,x2,2,x4,0,3,x5,x3,x0] : State).Perm (List.range 9) := m19_9.2.1
    have hidx19_9 : ([1,x2,2,x4,0,3,x5,x3,x0] : State).indexOf 0 = 4 := m19_9.2.2.1
    have hsol19_9 : is_solvable ([1,x2,2,x4,0,3,x5,x3,x0] : State) = is_solvable ([1,x2,2,x4,3,0,x5,x3,x0] : State) := m19_9.2.2.2
    have m19_10 := mem_move_up ([1,x2,2,x4,0,3,x5,x3,x0] : State) hp19_9 4 hidx19_9 (by decide)
    have hp19_10 : ([1,0,2,x4,x2,3,x5,x3,x0] : State).Perm (List.range 9) := m19_10.2.1
    have hidx19_10 : ([1,0,2,x4,x2,3,x5,x3,x0] : State).indexOf 0 = 1 := m19_10.2.2.1
    have hsol19_10 : is_solvable ([1,0,2,x4,x2,3,x5,x3,x0] : State) = is_solvable ([1,x2,2,x4,0,3,x5,x3,x0] : State) := m19_10.2.2.2
    have m19_11 := mem_move_right ([1,0,2,x4,x2,3,x5,x3,x0] : State) hp19_10 1 hidx19_10 (by decide) (by decide)
    have hp19_11 : ([1,2,0,x4,x2,3,x5,x3,x0] : State).Perm (List.range 9) := m19_11.2.1
    have hidx19_11 : ([1,2,0,x4,x2,3,x5,x3,x0] : State).indexOf 0 = 2 := m19_11.2.2.1
    have hsol19_11 : is_solvable ([1,2,0,x4,x2,3,x5,x3,x0] : State) = is_solvable ([1,0,2,x4,x2,3,x5,x3,x0] : State) := m19_11.2.2.2
    have m19_12 := mem_move_down ([1,2,0,x4,x2,3,x5,x3,x0] : State) hp19_11 2 hidx19_11 (by decide)
    have hp19_12 : ([1,2,3,x4,x2,0,x5,x3,x0] : State).Perm (List.range 9) := m19_12.2.1
    have hidx19_12 : ([1,2,3,x4,x2,0,x5,x3,x0] : State).indexOf 0 = 5 := m19_12.2.2.1
    have hsol19_12 : is_solvable ([1,2,3,x4,x2,0,x5,x3,x0] : State) = is_solvable ([1,2,0,x4,x2,3,x5,x3,x0] : State) := m19_12.2.2.2
    have m19_13 := mem_move_down ([1,2,3,x4,x2,0,x5,x3,x0] : State) hp19_12 5 hidx19_12 (by decide)
    have hp19_13 : ([1,2,3,x4,x2,x0,x5,x3,0] : State).Perm (List.range 9) := m19_13.2.1
    have hidx19_13 : ([1,2,3,x4,x2,x0,x5,x3,0] : State).indexOf 0 = 8 := m19_13.2.2.1
    have hsol19_13 : is_solvable ([1,2,3,x4,x2,x0,x5,x3,0] : State) = is_solvable ([1,2,3,x4,x2,0,x5,x3,x0] : State) := m19_13.2.2.2
    have hsF19 : is_solvable ([1,2,3,x4,x2,x0,x5,x3,0] : State) = true := by
      rw [hsol19_13, hsol19_12, hsol19_11, hsol19_10, hsol19_9, hsol19_8, hsol19_7, hsol19_6, hsol19_5, hsol19_4, hsol19_3, hsol19_2, hsol19_1, hsol19_0]
      exact hs
    exact Reachable_trans (reach_step _ _ _ m19_0.1) (Reachable_trans (reach_step _ _ _ m19_1.1) (Reachable_trans (reach_step _ _ _ m19_2.1) (Reachable_trans (reach_step _ _ _ m19_3.1) (Reachable_trans (reach_step _ _ _ m19_4.1) (Reachable_trans (reach_step _ _ _ m19_5.1) (Reachable_trans (reach_step _ _ _ m19_6.1) (Reachable_trans (reach_step _ _ _ m19_7.1) (Reachable_trans (reach_step _ _ _ m19_8.1) (Reachable_trans (reach_step _ _ _ m19_9.1) (Reachable_trans (reach_step _ _ _ m19_10.1) (Reachable_trans (reach_step _ _ _ m19_11.1) (Reachable_trans (reach_step _ _ _ m19_12.1) (Reachable_trans (reach_step _ _ _ m19_13.1) (c1_stage3 x4 x2 x0 x5 x3 hp19_13 hsF19 hidx19_13))))))))))))))
  · subst hhmt
    have m20_0 := mem_move_up ([1,2,x0,x1,3,x3,x4,x5,0] : State) hp 8 hidx (by decide)
    have hp20_0 : ([1,2,x0,x1,3,0,x4,x5,x3] : State).Perm (List.range 9) := m20_0.2.1
    have hidx20_0 : ([1,2,x0,x1,3,0,x4,x5,x3] : State).indexOf 0 = 5 := m20_0.2.2.1
    have hsol20_0 : is_solvable ([1,2,x0,x1,3,0,x4,x5,x3] : State) = is_solvable ([1,2,x0,x1,3,x3,x4,x5,0] : State) := m20_0.2.2.2
    have m20_1 := mem_move_left ([1,2,x0,x1,3,0,x4,x5,x3] : State) hp20_0 5 hidx20_0 (by decide) (by decide)
    have hp20_1 : ([1,2,x0,x1,0,3,x4,x5,x3] : State).Perm (List.range 9) := m20_1.2.1
    have hidx20_1 : ([1,2,x0,x1,0,3,x4,x5,x3] : State).indexOf 0 = 4 := m20_1.2.2.1
    have hsol20_1 : is_solvable ([1,2,x0,x1,0,3,x4,x5,x3] : State) = is_solvable ([1,2,x0,x1,3,0,x4,x5,x3] : State) := m20_1.2.2.2
    have m20_2 := mem_move_left ([1,2,x0,x1,0,3,x4,x5,x3] : State) hp20_1 4 hidx20_1 (by decide) (by decide)
    have hp20_2 : ([1,2,x0,0,x1,3,x4,x5,x3] : State).Perm (List.range 9) := m20_2.2.1
    have hidx20_2 : ([1,2,x0,0,x1,3,x4,x5,x3] : State).indexOf 0 = 3 := m20_2.2.2.1
    have hsol20_2 : is_solvable ([1,2,x0,0,x1,3,x4,x5,x3] : State) = is_solvable ([1,2,x0,x1,0,3,x4,x5,x3] : State) := m20_2.2.2.2
    have m20_3 := mem_move_up ([1,2,x0,0,x1,3,x4,x5,x3] : State) hp20_2 3 hidx20_2 (by decide)
    have hp20_3 : ([0,2,x0,1,x1,3,x4,x5,x3] : State).Perm (List.range 9) := m20_3.2.1
    have hidx20_3 : ([0,2,x0,1,x1,3,x4,x5,x3] : State).indexOf 0 = 0 := m20_3.2.2.1
    have hsol20_3 : is_solvable ([0,2,x0,1,x1,3,x4,x5,x3] : State) = is_solvable ([1,2,x0,0,x1,3,x4,x5,x3] : State) := m20_3.2.2.2
    have m20_4 := mem_move_right ([0,2,x0,1,x1,3,x4,x5,x3] : State) hp20_3 0 hidx20_3 (by decide) (by decide)
    have hp20_4 : ([2,0,x0,1,x1,3,x4,x5,x3] : State).Perm (List.range 9) := m20_4.2.1
    have hidx20_4 : ([2,0,x0,1,x1,3,x4,x5,x3] : State).indexOf 0 = 1 := m20_4.2.2.1
    have hsol20_4 : is_solvable ([2,0,x0,1,x1,3,x4,x5,x3] : State) = is_solvable ([0,2,x0,1,x1,3,x4,x5,x3] : State) := m20_4.2.2.2
    have m20_5 := mem_move_right ([2,0,x0,1,x1,3,x4,x5,x3] : State) hp20_4 1 hidx20_4 (by decide) (by decide)
    have hp20_5 : ([2,x0,0,1,x1,3,x4,x5,x3] : State).Perm (List.range 9) := m20_5.2.1
    have hidx20_5 : ([2,x0,0,1,x1,3,x4,x5,x3] : State).indexOf 0 = 2 := m20_5.2.2.1
    have hsol20_5 : is_solvable ([2,x0,0,1,x1,3,x4,x5,x3] : State) = is_solvable ([2,0,x0,1,x1,3,x4,x5,x3] : State) := m20_5.2.2.2
    have m20_6 := mem_move_down ([2,x0,0,1,x1,3,x4,x5,x3] : State) hp20_5 2 hidx20_5 (by decide)
    have hp20_6 : ([2,x0,3,1,x1,0,x4,x5,x3] : State).Perm (List.range 9) := m20_6.2.1
    have hidx20_6 : ([2,x0,3,1,x1,0,x4,x5,x3] : State).indexOf 0 = 5 := m20_6.2.2.1
    have hsol20_6 : is_solvable ([2,x0,3,1,x1,0,x4,x5,x3] : State) = is_solvable ([2,x0,0,1,x1,3,x4,x5,x3] : State) := m20_6.2.2.2
    have m20_7 := mem_move_left ([2,x0,3,1,x1,0,x4,x5,x3] : State) hp20_6 5 hidx20_6 (by decide) (by decide)
    have hp20_7 : ([2,x0,3,1,0,x1,x4,x5,x3] : State).Perm (List.range 9) := m20_7.2.1
    have hidx20_7 : ([2,x0,3,1,0,x1,x4,x5,x3] : State).indexOf 0 = 4 := m20_7.2.2.1
    have hsol20_7 : is_solvable ([2,x0,3,1,0,x1,x4,x5,x3] : State) = is_solvable ([2,x0,3,1,x1,0,x4,x5,x3] : State) := m20_7.2.2.2
    have m20_8 := mem_move_up ([2,x0,3,1,0,x1,x4,x5,x3] : State) hp20_7 4 hidx20_7 (by decide)
    have hp20_8 : ([2,0,3,1,x0,x1,x4,x5,x3] : State).Perm (List.range 9) := m20_8.2.1
    have hidx20_8 : ([2,0,3,1,x0,x1,x4,x5,x3] : State).indexOf 0 = 1 := m20_8.2.2.1
    have hsol20_8 : is_solvable ([2,0,3,1,x0,x1,x4,x5,x3] : State) = is_solvable ([2,x0,3,1,0,x1,x4,x5,x3] : State) := m20_8.2.2.2
    have m20_9 := mem_move_left ([2,0,3,1,x0,x1,x4,x5,x3] : State) hp20_8 1 hidx20_8 (by decide) (by decide)
    have hp20_9 : ([0,2,3,1,x0,x1,x4,x5,x3] : State).Perm (List.range 9) := m20_9.2.1
    have hidx20_9 : ([0,2,3,1,x0,x1,x4,x5,x3] : State).indexOf 0 = 0 := m20_9.2.2.1
    have hsol20_9 : is_solvable ([0,2,3,1,x0,x1,x4,x5,x3] : State) = is_solvable ([2,0,3,1,x0,x1,x4,x5,x3] : State) := m20_9.2.2.2
    have m20_10 := mem_move_down ([0,2,3,1,x0,x1,x4,x5,x3] : State) hp20_9 0 hidx20_9 (by decide)
    have hp20_10 : ([1,2,3,0,x0,x1,x4,x5,x3] : State).Perm (List.range 9) := m20_10.2.1
    have hidx20_10 : ([1,2,3,0,x0,x1,x4,x5,x3] : State).indexOf 0 = 3 := m20_10.2.2.1
    have hsol20_10 : is_solvable ([1,2,3,0,x0,x1,x4,x5,x3] : State) = is_solvable ([0,2,3,1,x0,x1,x4,x5,x3] : State) := m20_10.2.2.2
    have m20_11 := mem_move_down ([1,2,3,0,x0,x1,x4,x5,x3] : State) hp20_10 3 hidx20_10 (by decide)
    have hp20_11 : ([1,2,3,x4,x0,x1,0,x5,x3] : State).Perm (List.range 9) := m20_11.2.1
    have hidx20_11 : ([1,2,3,x4,x0,x1,0,x5,x3] : State).indexOf 0 = 6 := m20_11.2.2.1
    have hsol20_11 : is_solvable ([1,2,3,x4,x0,x1,0,x5,x3] : State) = is_solvable ([1,2,3,0,x0,x1,x4,x5,x3] : State) := m20_11.2.2.2
    have m20_12 := mem_move_right ([1,2,3,x4,x0,x1,0,x5,x3] : State) hp20_11 6 hidx20_11 (by decide) (by decide)
    have hp20_12 : ([1,2,3,x4,x0,x1,x5,0,x3] : State).Perm (List.range 9) := m20_12.2.1
    have hidx20_12 : ([1,2,3,x4,x0,x1,x5,0,x3] : State).indexOf 0 = 7 := m20_12.2.2.1
    have hsol20_12 : is_solvable ([1,2,3,x4,x0,x1,x5,0,x3] : State) = is_solvable ([1,2,3,x4,x0,x1,0,x5,x3] : State) := m20_12.2.2.2
    have m20_13 := mem_move_right ([1,2,3,x4,x0,x1,x5,0,x3] : State) hp20_12 7 hidx20_12 (by decide) (by decide)
    have hp20_13 : ([1,2,3,x4,x0,x1,x5,x3,0] : State).Perm (List.range 9) := m20_13.2.1
    have hidx20_13 : ([1,2,3,x4,x0,x1,x5,x3,0] : State).indexOf 0 = 8 := m20_13.2.2.1
    have hsol20_13 : is_solvable ([1,2,3,x4,x0,x1,x5,x3,0] : State) = is_solvable ([1,2,3,x4,x0,x1,x5,0,x3] : State) := m20_13.2.2.2
    have hsF20 : is_solvable ([1,2,3,x4,x0,x1,x5,x3,0] : State) = true := by
      rw [hsol20_13, hsol20_12, hsol20_11, hsol20_10, hsol20_9, hsol20_8, hsol20_7, hsol20_6, hsol20_5, hsol20_4, hsol20_3, hsol20_2, hsol20_1, hsol20_0]
      exact hs
    exact Reachable_trans (reach_step _ _ _ m20_0.1) (Reachable_trans (reach_step _ _ _ m20_1.1) (Reachable_trans (reach_step _ _ _ m20_2.1) (Reachable_trans (reach_step _ _ _ m20_3.1) (Reachable_trans (reach_step _ _ _ m20_4.1) (Reachable_trans (reach_step _ _ _ m20_5.1) (Reachable_trans (reach_step _ _ _ m20_6.1) (Reachable_trans (reach_step _ _ _ m20_7.1) (Reachable_trans (reach_step _ _ _ m20_8.1) (Reachable_trans (reach_step _ _ _ m20_9.1) (Reachable_trans (reach_step _ _ _ m20_10.1) (Reachable_trans (reach_step _ _ _ m20_11.1) (Reachable_trans (reach_step _ _ _ m20_12.1) (Reachable_trans (reach_step _ _ _ m20_13.1) (c1_stage3 x4 x0 x1 x5 x3 hp20_13 hsF20 hidx20_13))))))))))))))
  · subst hhmt
    have m21_0 := mem_move_up ([1,2,x0,x1,x2,3,x4,x5,0] : State) hp 8 hidx (by decide)
    have hp21_0 : ([1,2,x0,x1,x2,0,x4,x5,3] : State).Perm (List.range 9) := m21_0.2.1
    have hidx21_0 : ([1,2,x0,x1,x2,0,x4,x5,3] : State).indexOf 0 = 5 := m21_0.2.2.1
    have hsol21_0 : is_solvable ([1,2,x0,x1,x2,0,x4,x5,3] : State) = is_solvable ([1,2,x0,x1,x2,3,x4,x5,0] : State) := m21_0.2.2.2
    have m21_1 := mem_move_up ([1,2,x0,x1,x2,0,x4,x5,3] : State) hp21_0 5 hidx21_0 (by decide)
    have hp21_1 : ([1,2,0,x1,x2,x0,x4,x5,3] : State).Perm (List.range 9) := m21_1.2.1
    have hidx21_1 : ([1,2,0,x1,x2,x0,x4,x5,3] : State).indexOf 0 = 2 := m21_1.2.2.1
    have hsol21_1 : is_solvable ([1,2,0,x1,x2,x0,x4,x5,3] : State) = is_solvable ([1,2,x0,x1,x2,0,x4,x5,3] : State) := m21_1.2.2.2
    have m21_2 := mem_move_left ([1,2,0,x1,x2,x0,x4,x5,3] : State) hp21_1 2 hidx21_1 (by decide) (by decide)
    have hp21_2 : ([1,0,2,x1,x2,x0,x4,x5,3] : State).Perm (List.range 9) := m21_2.2.1
    have hidx21_2 : ([1,0,2,x1,x2,x0,x4,x5,3] : State).indexOf 0 = 1 := m21_2.2.2.1
    have hsol21_2 : is_solvable ([1,0,2,x1,x2,x0,x4,x5,3] : State) = is_solvable ([1,2,0,x1,x2,x0,x4,x5,3] : State) := m21_2.2.2.2
    have m21_3 := mem_move_down ([1,0,2,x1,x2,x0,x4,x5,3] : State) hp21_2 1 hidx21_2 (by decide)
    have hp21_3 : ([1,x2,2,x1,0,x0,x4,x5,3] : State).Perm (List.range 9) := m21_3.2.1
    have hidx21_3 : ([1,x2,2,x1,0,x0,x4,x5,3] : State).indexOf 0 = 4 := m21_3.2.2.1
    have hsol21_3 : is_solvable ([1,x2,2,x1,0,x0,x4,x5,3] : State) = is_solvable ([1,0,2,x1,x2,x0,x4,x5,3] : State) := m21_3.2.2.2
    have m21_4 := mem_move_right ([1,x2,2,x1,0,x0,x4,x5,3] : State) hp21_3 4 hidx21_3 (by decide) (by decide)
    have hp21_4 : ([1,x2,2,x1,x0,0,x4,x5,3] : State).Perm (List.range 9) := m21_4.2.1
    have hidx21_4 : ([1,x2,2,x1,x0,0,x4,x5,3] : State).indexOf 0 = 5 := m21_4.2.2.1
    have hsol21_4 : is_solvable ([1,x2,2,x1,x0,0,x4,x5,3] : State) = is_solvable ([1,x2,2,x1,0,x0,x4,x5,3] : State) := m21_4.2.2.2
    have m21_5 := mem_move_down ([1,x2,2,x1,x0,0,x4,x5,3] : State) hp21_4 5 hidx21_4 (by decide)
    have hp21_5 : ([1,x2,2,x1,x0,3,x4,x5,0] : State).Perm (List.range 9) := m21_5.2.1
    have hidx21_5 : ([1,x2,2,x1,x0,3,x4,x5,0] : State).indexOf 0 = 8 := m21_5.2.2.1
    have hsol21_5 : is_solvable ([1,x2,2,x1,x0,3,x4,x5,0] : State) = is_solvable ([1,x2,2,x1,x0,0,x4,x5,3] : State) := m21_5.2.2.2
    have m21_6 := mem_move_left ([1,x2,2,x1,x0,3,x4,x5,0] : State) hp21_5 8 hidx21_5 (by decide) (by decide)
    have hp21_6 : ([1,x2,2,x1,x0,3,x4,0,x5] : State).Perm (List.range 9) := m21_6.2.1
    have hidx21_6 : ([1,x2,2,x1,x0,3,x4,0,x5] : State).indexOf 0 = 7 := m21_6.2.2.1
    have hsol21_6 : is_solvable ([1,x2,2,x1,x0,3,x4,0,x5] : State) = is_solvable ([1,x2,2,x1,x0,3,x4,x5,0] : State) := m21_6.2.2.2
    have m21_7 := mem_move_up ([1,x2,2,x1,x0,3,x4,0,x5] : State) hp21_6 7 hidx21_6 (by decide)
    have hp21_7 : ([1,x2,2,x1,0,3,x4,x0,x5] : State).Perm (List.range 9) := m21_7.2.1
    have hidx21_7 : ([1,x2,2,x1,0,3,x4,x0,x5] : State).indexOf 0 = 4 := m21_7.2.2.1
    have hsol21_7 : is_solvable ([1,x2,2,x1,0,3,x4,x0,x5] : State) = is_solvable ([1,x2,2,x1,x0,3,x4,0,x5] : State) := m21_7.2.2.2
    have m21_8 := mem_move_up ([1,x2,2,x1,0,3,x4,x0,x5] : State) hp21_7 4 hidx21_7 (by decide)
    have hp21_8 : ([1,0,2,x1,x2,3,x4,x0,x5] : State).Perm (List.range 9) := m21_8.2.1
    have hidx21_8 : ([1,0,2,x1,x2,3,x4,x0,x5] : State).indexOf 0 = 1 := m21_8.2.2.1
    have hsol21_8 : is_solvable ([1,0,2,x1,x2,3,x4,x0,x5] : State) = is_solvable ([1,x2,2,x1,0,3,x4,x0,x5] : State) := m21_8.2.2.2
    have m21_9 := mem_move_right ([1,0,2,x1,x2,3,x4,x0,x5] : State) hp21_8 1 hidx21_8 (by decide) (by decide)
    have hp21_9 : ([1,2,0,x1,x2,3,x4,x0,x5] : State).Perm (List.range 9) := m21_9.2.1
    have hidx21_9 : ([1,2,0,x1,x2,3,x4,x0,x5] : State).indexOf 0 = 2 := m21_9.2.2.1
    have hsol21_9 : is_solvable ([1,2,0,x1,x2,3,x4,x0,x5] : State) = is_solvable ([1,0,2,x1,x2,3,x4,x0,x5] : State) := m21_9.2.2.2
    have m21_10 := mem_move_down ([1,2,0,x1,x2,3,x4,x0,x5] : State) hp21_9 2 hidx21_9 (by decide)
    have hp21_10 : ([1,2,3,x1,x2,0,x4,x0,x5] : State).Perm (List.range 9) := m21_10.2.1
    have hidx21_10 : ([1,2,3,x1,x2,0,x4,x0,x5] : State).indexOf 0 = 5 := m21_10.2.2.1
    have hsol21_10 : is_solvable ([1,2,3,x1,x2,0,x4,x0,x5] : State) = is_solvable ([1,2,0,x1,x2,3,x4,x0,x5] : State) := m21_10.2.2.2
    have m21_11 := mem_move_down ([1,2,3,x1,x2,0,x4,x0,x5] : State) hp21_10 5 hidx21_10 (by decide)
    have hp21_11 : ([1,2,3,x1,x2,x5,x4,x0,0] : State).Perm (List.range 9) := m21_11.2.1
    have hidx21_11 : ([1,2,3,x1,x2,x5,x4,x0,0] : State).indexOf 0 = 8 := m21_11.2.2.1
    have hsol21_11 : is_solvable ([1,2,3,x1,x2,x5,x4,x0,0] : State) = is_solvable ([1,2,3,x1,x2,0,x4,x0,x5] : State) := m21_11.2.2.2
    have hsF21 : is_solvable ([1,2,3,x1,x2,x5,x4,x0,0] : State) = true := by
      rw [hsol21_11, hsol21_10, hsol21_9, hsol21_8, hsol21_7, hsol21_6, hsol21_5, hsol21_4, hsol21_3, hsol21_2, hsol21_1, hsol21_0]
      exact hs
    exact Reachable_trans (reach_step _ _ _ m21_0.1) (Reachable_trans (reach_step _ _ _ m21_1.1) (Reachable_trans (reach_step _ _ _ m21_2.1) (Reachable_trans (reach_step _ _ _ m21_3.1) (Reachable_trans (reach_step _ _ _ m21_4.1) (Reachable_trans (reach_step _ _ _ m21_5.1) (Reachable_trans (reach_step _ _ _ m21_6.1) (Reachable_trans (reach_step _ _ _ m21_7.1) (Reachable_trans (reach_step _ _ _ m21_8.1) (Reachable_trans (reach_step _ _ _ m21_9.1) (Reachable_trans (reach_step _ _ _ m21_10.1) (Reachable_trans (reach_step _ _ _ m21_11.1) (c1_stage3 x1 x2 x5 x4 x0 hp21_11 hsF21 hidx21_11))))))))))))
  · subst hhmt
    have m22_0 := mem_move_up ([1,2,x0,x1,x2,x3,3,x5,0] : State) hp 8 hidx (by decide)
    have hp22_0 : ([1,2,x0,x1,x2,0,3,x5,x3] : State).Perm (List.range 9) := m22_0.2.1
    have hidx22_0 : ([1,2,x0,x1,x2,0,3,x5,x3] : State).indexOf 0 = 5 := m22_0.2.2.1
    have hsol22_0 : is_solvable ([1,2,x0,x1,x2,0,3,x5,x3] : State) = is_solvable ([1,2,x0,x1,x2,x3,3,x5,0] : State) := m22_0.2.2.2
    have m22_1 := mem_move_up ([1,2,x0,x1,x2,0,3,x5,x3] : State) hp22_0 5 hidx22_0 (by decide)
    have hp22_1 : ([1,2,0,x1,x2,x0,3,x5,x3] : State).Perm (List.range 9) := m22_1.2.1
    have hidx22_1 : ([1,2,0,x1,x2,x0,3,x5,x3] : State).indexOf 0 = 2 := m22_1.2.2.1
    have hsol22_1 : is_solvable ([1,2,0,x1,x2,x0,3,x5,x3] : State) = is_solvable ([1,2,x0,x1,x2,0,3,x5,x3] : State) := m22_1.2.2.2
    have m22_2 := mem_move_left ([1,2,0,x1,x2,x0,3,x5,x3] : State) hp22_1 2 hidx22_1 (by decide) (by decide)
    have hp22_2 : ([1,0,2,x1,x2,x0,3,x5,x3] : State).Perm (List.range 9) := m22_2.2.1
    have hidx22_2 : ([1,0,2,x1,x2,x0,3,x5,x3] : State).indexOf 0 = 1 := m22_2.2.2.1
    have hsol22_2 : is_solvable ([1,0,2,x1,x2,x0,3,x5,x3] : State) = is_solvable ([1,2,0,x1,x2,x0,3,x5,x3] : State) := m22_2.2.2.2
    have m22_3 := mem_move_down ([1,0,2,x1,x2,x0,3,x5,x3] : State) hp22_2 1 hidx22_2 (by decide)
    have hp22_3 : ([1,x2,2,x1,0,x0,3,x5,x3] : State).Perm (List.range 9) := m22_3.2.1
    have hidx22_3 : ([1,x2,2,x1,0,x0,3,x5,x3] : State).indexOf 0 = 4 := m22_3.2.2.1
    have hsol22_3 : is_solvable ([1,x2,2,x1,0,x0,3,x5,x3] : State) = is_solvable ([1,0,2,x1,x2,x0,3,x5,x3] : State) := m22_3.2.2.2
    have m22_4 := mem_move_down ([1,x2,2,x1,0,x0,3,x5,x3] : State) hp22_3 4 hidx22_3 (by decide)
    have hp22_4 : ([1,x2,2,x1,x5,x0,3,0,x3] : State).Perm (List.range 9) := m22_4.2.1
    have hidx22_4 : ([1,x2,2,x1,x5,x0,3,0,x3] : State).indexOf 0 = 7 := m22_4.2.2.1
    have hsol22_4 : is_solvable ([1,x2,2,x1,x5,x0,3,0,x3] : State) = is_solvable ([1,x2,2,x1,0,x0,3,x5,x3] : State) := m22_4.2.2.2
    have m22_5 := mem_move_left ([1,x2,2,x1,x5,x0,3,0,x3] : State) hp22_4 7 hidx22_4 (by decide) (by decide)
    have hp22_5 : ([1,x2,2,x1,x5,x0,0,3,x3] : State).Perm (List.range 9) := m22_5.2.1
    have hidx22_5 : ([1,x2,2,x1,x5,x0,0,3,x3] : State).indexOf 0 = 6 := m22_5.2.2.1
    have hsol22_5 : is_solvable ([1,x2,2,x1,x5,x0,0,3,x3] : State) = is_solvable ([1,x2,2,x1,x5,x0,3,0,x3] : State) := m22_5.2.2.2
    have m22_6 := mem_move_up ([1,x2,2,x1,x5,x0,0,3,x3] : State) hp22_5 6 hidx22_5 (by decide)
    have hp22_6 : ([1,x2,2,0,x5,x0,x1,3,x3] : State).Perm (List.range 9) := m22_6.2.1
    have hidx22_6 : ([1,x2,2,0,x5,x0,x1,3,x3] : State).indexOf 0 = 3 := m22_6.2.2.1
    have hsol22_6 : is_solvable ([1,x2,2,0,x5,x0,x1,3,x3] : State) = is_solvable ([1,x2,2,x1,x5,x0,0,3,x3] : State) := m22_6.2.2.2
    have m22_7 := mem_move_right ([1,x2,2,0,x5,x0,x1,3,x3] : State) hp22_6 3 hidx22_6 (by decide) (by decide)
    have hp22_7 : ([1,x2,2,x5,0,x0,x1,3,x3] : State).Perm (List.range 9) := m22_7.2.1
    have hidx22_7 : ([1,x2,2,x5,0,x0,x1,3,x3] : State).indexOf 0 = 4 := m22_7.2.2.1
    have hsol22_7 : is_solvable ([1,x2,2,x5,0,x0,x1,3,x3] : State) = is_solvable ([1,x2,2,0,x5,x0,x1,3,x3] : State) := m22_7.2.2.2
    have m22_8 := mem_move_down ([1,x2,2,x5,0,x0,x1,3,x3] : State) hp22_7 4 hidx22_7 (by decide)
    have hp22_8 : ([1,x2,2,x5,3,x0,x1,0,x3] : State).Perm (List.range 9) := m22_8.2.1
    have hidx22_8 : ([1,x2,2,x5,3,x0,x1,0,x3] : State).indexOf 0 = 7 := m22_8.2.2.1
    have hsol22_8 : is_solvable ([1,x2,2,x5,3,x0,x1,0,x3] : State) = is_solvable ([1,x2,2,x5,0,x0,x1,3,x3] : State) := m22_8.2.2.2
    have m22_9 := mem_move_right ([1,x2,2,x5,3,x0,x1,0,x3] : State) hp22_8 7 hidx22_8 (by decide) (by decide)
    have hp22_9 : ([1,x2,2,x5,3,x0,x1,x3,0] : State).Perm (List.range 9) := m22_9.2.1
    have hidx22_9 : ([1,x2,2,x5,3,x0,x1,x3,0] : State).indexOf 0 = 8 := m22_9.2.2.1
    have hsol22_9 : is_solvable ([1,x2,2,x5,3,x0,x1,x3,0] : State) = is_solvable ([1,x2,2,x5,3,x0,x1,0,x3] : State) := m22_9.2.2.2
    have m22_10 := mem_move_up ([1,x2,2,x5,3,x0,x1,x3,0] : State) hp22_9 8 hidx22_9 (by decide)
    have hp22_10 : ([1,x2,2,x5,3,0,x1,x3,x0] : State).Perm (List.range 9) := m22_10.2.1
    have hidx22_10 : ([1,x2,2,x5,3,0,x1,x3,x0] : State).indexOf 0 = 5 := m22_10.2.2.1
    have hsol22_10 : is_solvable ([1,x2,2,x5,3,0,x1,x3,x0] : State) = is_solvable ([1,x2,2,x5,3,x0,x1,x3,0] : State) := m22_10.2.2.2
    have m22_11 := mem_move_left ([1,x2,2,x5,3,0,x1,x3,x0] : State) hp22_10 5 hidx22_10 (by decide) (by decide)
    have hp22_11 : ([1,x2,2,x5,0,3,x1,x3,x0] : State).Perm (List.range 9) := m22_11.2.1
    have hidx22_11 : ([1,x2,2,x5,0,3,x1,x3,x0] : State).indexOf 0 = 4 := m22_11.2.2.1
    have hsol22_11 : is_solvable ([1,x2,2,x5,0,3,x1,x3,x0] : State) = is_solvable ([1,x2,2,x5,3,0,x1,x3,x0] : State) := m22_11.2.2.2
    have m22_12 := mem_move_up ([1,x2,2,x5,0,3,x1,x3,x0] : State) hp22_11 4 hidx22_11 (by decide)
    have hp22_12 : ([1,0,2,x5,x2,3,x1,x3,x0] : State).Perm (List.range 9) := m22_12.2.1
    have hidx22_12 : ([1,0,2,x5,x2,3,x1,x3,x0] : State).indexOf 0 = 1 := m22_12.2.2.1
    have hsol22_12 : is_solvable ([1,0,2,x5,x2,3,x1,x3,x0] : State) = is_solvable ([1,x2,2,x5,0,3,x1,x3,x0] : State) := m22_12.2.2.2
    have m22_13 := mem_move_right ([1,0,2,x5,x2,3,x1,x3,x0] : State) hp22_12 1 hidx22_12 (by decide) (by decide)
    have hp22_13 : ([1,2,0,x5,x2,3,x1,x3,x0] : State).Perm (List.range 9) := m22_13.2.1
    have hidx22_13 : ([1,2,0,x5,x2,3,x1,x3,x0] : State).indexOf 0 = 2 := m22_13.2.2.1
    have hsol22_13 : is_solvable ([1,2,0,x5,x2,3,x1,x3,x0] : State) = is_solvable ([1,0,2,x5,x2,3,x1,x3,x0] : State) := m22_13.2.2.2
    have m22_14 := mem_move_down ([1,2,0,x5,x2,3,x1,x3,x0] : State) hp22_13 2 hidx22_13 (by decide)
    have hp22_14 : ([1,2,3,x5,x2,0,x1,x3,x0] : State).Perm (List.range 9) := m22_14.2.1
    have hidx22_14 : ([1,2,3,x5,x2,0,x1,x3,x0] : State).indexOf 0 = 5 := m22_14.2.2.1
    have hsol22_14 : is_solvable ([1,2,3,x5,x2,0,x1,x3,x0] : State) = is_solvable ([1,2,0,x5,x2,3,x1,x3,x0] : State) := m22_14.2.2.2
    have m22_15 := mem_move_down ([1,2,3,x5,x2,0,x1,x3,x0] : State) hp22_14 5 hidx22_14 (by decide)
    have hp22_15 : ([1,2,3,x5,x2,x0,x1,x3,0] : State).Perm (List.range 9) := m22_15.2.1
    have hidx22_15 : ([1,2,3,x5,x2,x0,x1,x3,0] : State).indexOf 0 = 8 := m22_15.2.2.1
    have hsol22_15 : is_solvable ([1,2,3,x5,x2,x0,x1,x3,0] : State) = is_solvable ([1,2,3,x5,x2,0,x1,x3,x0] : State) := m22_15.2.2.2
    have hsF22 : is_solvable ([1,2,3,x5,x2,x0,x1,x3,0] : State) = true := by
      rw [hsol22_15, hsol22_14, hsol22_13, hsol22_12, hsol22_11, hsol22_10, hsol22_9, hsol22_8, hsol22_7, hsol22_6, hsol22_5, hsol22_4, hsol22_3, hsol22_2, hsol22_1, hsol22_0]
      exact hs
    exact Reachable_trans (reach_step _ _ _ m22_0.1) (Reachable_trans (reach_step _ _ _ m22_1.1) (Reachable_trans (reach_step _ _ _ m22_2.1) (Reachable_trans (reach_step _ _ _ m22_3.1) (Reachable_trans (reach_step _ _ _ m22_4.1) (Reachable_trans (reach_step _ _ _ m22_5.1) (Reachable_trans (reach_step _ _ _ m22_6.1) (Reachable_trans (reach_step _ _ _ m22_7.1) (Reachable_trans (reach_step _ _ _ m22_8.1) (Reachable_trans (reach_step _ _ _ m22_9.1) (Reachable_trans (reach_step _ _ _ m22_10.1) (Reachable_trans (reach_step _ _ _ m22_11.1) (Reachable_trans (reach_step _ _ _ m22_12.1) (Reachable_trans (reach_step _ _ _ m22_13.1) (Reachable_trans (reach_step _ _ _ m22_14.1) (Reachable_trans (reach_step _ _ _ m22_15.1) (c1_stage3 x5 x2 x0 x1 x3 hp22_15 hsF22 hidx22_15))))))))))))))))
  · subst hhmt
    have m23_0 := mem_move_up ([1,2,x0,x1,x2,x3,x4,3,0] : State) hp 8 hidx (by decide)
    have hp23_0 : ([1,2,x0,x1,x2,0,x4,3,x3] : State).Perm (List.range 9) := m23_0.2.1
    have hidx23_0 : ([1,2,x0,x1,x2,0,x4,3,x3] : State).indexOf 0 = 5 := m23_0.2.2.1
    have hsol23_0 : is_solvable ([1,2,x0,x1,x2,0,x4,3,x3] : State) = is_solvable ([1,2,x0,x1,x2,x3,x4,3,0] : State) := m23_0.2.2.2
    have m23_1 := mem_move_up ([1,2,x0,x1,x2,0,x4,3,x3] : State) hp23_0 5 hidx23_0 (by decide)
    have hp23_1 : ([1,2,0,x1,x2,x0,x4,3,x3] : State).Perm (List.range 9) := m23_1.2.1
    have hidx23_1 : ([1,2,0,x1,x2,x0,x4,3,x3] : State).indexOf 0 = 2 := m23_1.2.2.1
    have hsol23_1 : is_solvable ([1,2,0,x1,x2,x0,x4,3,x3] : State) = is_solvable ([1,2,x0,x1,x2,0,x4,3,x3] : State) := m23_1.2.2.2
    have m23_2 := mem_move_left ([1,2,0,x1,x2,x0,x4,3,x3] : State) hp23_1 2 hidx23_1 (by decide) (by decide)
    have hp23_2 : ([1,0,2,x1,x2,x0,x4,3,x3] : State).Perm (List.range 9) := m23_2.2.1
    have hidx23_2 : ([1,0,2,x1,x2,x0,x4,3,x3] : State).indexOf 0 = 1 := m23_2.2.2.1
    have hsol23_2 : is_solvable ([1,0,2,x1,x2,x0,x4,3,x3] : State) = is_solvable ([1,2,0,x1,x2,x0,x4,3,x3] : State) := m23_2.2.2.2
    have m23_3 := mem_move_down ([1,0,2,x1,x2,x0,x4,3,x3] : State) hp23_2 1 hidx23_2 (by decide)
    have hp23_3 : ([1,x2,2,x1,0,x0,x4,3,x3] : State).Perm (List.range 9) := m23_3.2.1
    have hidx23_3 : ([1,x2,2,x1,0,x0,x4,3,x3] : State).indexOf 0 = 4 := m23_3.2.2.1
    have hsol23_3 : is_solvable ([1,x2,2,x1,0,x0,x4,3,x3] : State) = is_solvable ([1,0,2,x1,x2,x0,x4,3,x3] : State) := m23_3.2.2.2
    have m23_4 := mem_move_down ([1,x2,2,x1,0,x0,x4,3,x3] : State) hp23_3 4 hidx23_3 (by decide)
    have hp23_4 : ([1,x2,2,x1,3,x0,x4,0,x3] : State).Perm (List.range 9) := m23_4.2.1
    have hidx23_4 : ([1,x2,2,x1,3,x0,x4,0,x3] : State).indexOf 0 = 7 := m23_4.2.2.1
    have hsol23_4 : is_solvable ([1,x2,2,x1,3,x0,x4,0,x3] : State) = is_solvable ([1,x2,2,x1,0,x0,x4,3,x3] : State) := m23_4.2.2.2
    have m23_5 := mem_move_right ([1,x2,2,x1,3,x0,x4,0,x3] : State) hp23_4 7 hidx23_4 (by decide) (by decide)
    have hp23_5 : ([1,x2,2,x1,3,x0,x4,x3,0] : State).Perm (List.range 9) := m23_5.2.1
    have hidx23_5 : ([1,x2,2,x1,3,x0,x4,x3,0] : State).indexOf 0 = 8 := m23_5.2.2.1
    have hsol23_5 : is_solvable ([1,x2,2,x1,3,x0,x4,x3,0] : State) = is_solvable ([1,x2,2,x1,3,x0,x4,0,x3] : State) := m23_5.2.2.2
    have m23_6 := mem_move_up ([1,x2,2,x1,3,x0,x4,x3,0] : State) hp23_5 8 hidx23_5 (by decide)
    have hp23_6 : ([1,x2,2,x1,3,0,x4,x3,x0] : State).Perm (List.range 9) := m23_6.2.1
    have hidx23_6 : ([1,x2,2,x1,3,0,x4,x3,x0] : State).indexOf 0 = 5 := m23_6.2.2.1
    have hsol23_6 : is_solvable ([1,x2,2,x1,3,0,x4,x3,x0] : State) = is_solvable ([1,x2,2,x1,3,x0,x4,x3,0] : State) := m23_6.2.2.2
    have m23_7 := mem_move_left ([1,x2,2,x1,3,0,x4,x3,x0] : State) hp23_6 5 hidx23_6 (by decide) (by decide)
    have hp23_7 : ([1,x2,2,x1,0,3,x4,x3,x0] : State).Perm (List.range 9) := m23_7.2.1
    have hidx23_7 : ([1,x2,2,x1,0,3,x4,x3,x0] : State).indexOf 0 = 4 := m23_7.2.2.1
    have hsol23_7 : is_solvable ([1,x2,2,x1,0,3,x4,x3,x0] : State) = is_solvable ([1,x2,2,x1,3,0,x4,x3,x0] : State) := m23_7.2.2.2
    have m23_8 := mem_move_up ([1,x2,2,x1,0,3,x4,x3,x0] : State) hp23_7 4 hidx23_7 (by decide)
    have hp23_8 : ([1,0,2,x1,x2,3,x4,x3,x0] : State).Perm (List.range 9) := m23_8.2.1
    have hidx23_8 : ([1,0,2,x1,x2,3,x4,x3,x0] : State).indexOf 0 = 1 := m23_8.2.2.1
    have hsol23_8 : is_solvable ([1,0,2,x1,x2,3,x4,x3,x0] : State) = is_solvable ([1,x2,2,x1,0,3,x4,x3,x0] : State) := m23_8.2.2.2
    have m23_9 := mem_move_right ([1,0,2,x1,x2,3,x4,x3,x0] : State) hp23_8 1 hidx23_8 (by decide) (by decide)
    have hp23_9 : ([1,2,0,x1,x2,3,x4,x3,x0] : State).Perm (List.range 9) := m23_9.2.1
    have hidx23_9 : ([1,2,0,x1,x2,3,x4,x3,x0] : State).indexOf 0 = 2 := m23_9.2.2.1
    have hsol23_9 : is_solvable ([1,2,0,x1,x2,3,x4,x3,x0] : State) = is_solvable ([1,0,2,x1,x2,3,x4,x3,x0] : State) := m23_9.2.2.2
    have m23_10 := mem_move_down ([1,2,0,x1,x2,3,x4,x3,x0] : State) hp23_9 2 hidx23_9 (by decide)
    have hp23_10 : ([1,2,3,x1,x2,0,x4,x3,x0] : State).Perm (List.range 9) := m23_10.2.1
    have hidx23_10 : ([1,2,3,x1,x2,0,x4,x3,x0] : State).indexOf 0 = 5 := m23_10.2.2.1
    have hsol23_10 : is_solvable ([1,2,3,x1,x2,0,x4,x3,x0] : State) = is_solvable ([1,2,0,x1,x2,3,x4,x3,x0] : State) := m23_10.2.2.2
    have m23_11 := mem_move_down ([1,2,3,x1,x2,0,x4,x3,x0] : State) hp23_10 5 hidx23_10 (by decide)
    have hp23_11 : ([1,2,3,x1,x2,x0,x4,x3,0] : State).Perm (List.range 9) := m23_11.2.1
    have hidx23_11 : ([1,2,3,x1,x2,x0,x4,x3,0] : State).indexOf 0 = 8 := m23_11.2.2.1
    have hsol23_11 : is_solvable ([1,2,3,x1,x2,x0,x4,x3,0] : State) = is_solvable ([1,2,3,x1,x2,0,x4,x3,x0] : State) := m23_11.2.2.2
    have hsF23 : is_solvable ([1,2,3,x1,x2,x0,x4,x3,0] : State) = true := by
      rw [hsol23_11, hsol23_10, hsol23_9, hsol23_8, hsol23_7, hsol23_6, hsol23_5, hsol23_4, hsol23_3, hsol23_2, hsol23_1, hsol23_0]
      exact hs
    exact Reachable_trans (reach_step _ _ _ m23_0.1) (Reachable_trans (reach_step _ _ _ m23_1.1) (Reachable_trans (reach_step _ _ _ m23_2.1) (Reachable_trans (reach_step _ _ _ m23_3.1) (Reachable_trans (reach_step _ _ _ m23_4.1) (Reachable_trans (reach_step _ _ _ m23_5.1) (Reachable_trans (reach_step _ _ _ m23_6.1) (Reachable_trans (reach_step _ _ _ m23_7.1) (Reachable_trans (reach_step _ _ _ m23_8.1) (Reachable_trans (reach_step _ _ _ m23_9.1) (Reachable_trans (reach_step _ _ _ m23_10.1) (Reachable_trans (reach_step _ _ _ m23_11.1) (c1_stage3 x1 x2 x0 x4 x3 hp23_11 hsF23 hidx23_11))))))))))))
  · exact absurd hhmt (by decide)

lemma c1_stage1 : ∀ x0 x1 x2 x3 x4 x5 x6 : Nat,
    ([1,x0,x1,x2,x3,x4,x5,x6,0] : State).Perm (List.range 9) →
    is_solvable ([1,x0,x1,x2,x3,x4,x5,x6,0] : State) = true →
    ([1,x0,x1,x2,x3,x4,x5,x6,0] : State).indexOf 0 = 8 →
    Reachable ([1,x0,x1,x2,x3,x4,x5,x6,0] : State) goal_state := by
  intro x0 x1 x2 x3 x4 x5 x6 hp hs hidx
  have hmt : (2 : Nat) ∈ ([1,x0,x1,x2,x3,x4,x5,x6,0] : State) := hp.mem_iff.mpr (by decide)
  simp only [List.mem_cons, List.not_mem_nil, or_false] at hmt
  rcases hmt with hhmt | hhmt | hhmt | hhmt | hhmt | hhmt | hhmt | hhmt | hhmt
  · exact absurd hhmt (by decide)
  · subst hhmt
    exact c1_stage2 x1 x2 x3 x4 x5 x6 hp hs hidx
  · subst hhmt
    have m12_0 := mem_move_up ([1,x0,2,x2,x3,x4,x5,x6,0] : State) hp 8 hidx (by decide)
    have hp12_0 : ([1,x0,2,x2,x3,0,x5,x6,x4] : State).Perm (List.range 9) := m12_0.2.1
    have hidx12_0 : ([1,x0,2,x2,x3,0,x5,x6,x4] : State).indexOf 0 = 5 := m12_0.2.2.1
    have hsol12_0 : is_solvable ([1,x0,2,x2,x3,0,x5,x6,x4] : State) = is_solvable ([1,x0,2,x2,x3,x4,x5,x6,0] : State) := m12_0.2.2.2
    have m12_1 := mem_move_left ([1,x0,2,x2,x3,0,x5,x6,x4] : State) hp12_0 5 hidx12_0 (by decide) (by decide)
    have hp12_1 : ([1,x0,2,x2,0,x3,x5,x6,x4] : State).Perm (List.range 9) := m12_1.2.1
    have hidx12_1 : ([1,x0,2,x2,0,x3,x5,x6,x4] : State).indexOf 0 = 4 := m12_1.2.2.1
    have hsol12_1 : is_solvable ([1,x0,2,x2,0,x3,x5,x6,x4] : State) = is_solvable ([1,x0,2,x2,x3,0,x5,x6,x4] : State) := m12_1.2.2.2
    have m12_2 := mem_move_up ([1,x0,2,x2,0,x3,x5,x6,x4] : State) hp12_1 4 hidx12_1 (by decide)
    have hp12_2 : ([1,0,2,x2,x0,x3,x5,x6,x4] : State).Perm (List.range 9) := m12_2.2.1
    have hidx12_2 : ([1,0,2,x2,x0,x3,x5,x6,x4] : State).indexOf 0 = 1 := m12_2.2.2.1
    have hsol12_2 : is_solvable ([1,0,2,x2,x0,x3,x5,x6,x4] : State) = is_solvable ([1,x0,2,x2,0,x3,x5,x6,x4] : State) := m12_2.2.2.2
    have m12_3 := mem_move_right ([1,0,2,x2,x0,x3,x5,x6,x4] : State) hp12_2 1 hidx12_2 (by decide) (by decide)
    have hp12_3 : ([1,2,0,x2,x0,x3,x5,x6,x4] : State).Perm (List.range 9) := m12_3.2.1
    have hidx12_3 : ([1,2,0,x2,x0,x3,x5,x6,x4] : State).indexOf 0 = 2 := m12_3.2.2.1
    have hsol12_3 : is_solvable ([1,2,0,x2,x0,x3,x5,x6,x4] : State) = is_solvable ([1,0,2,x2,x0,x3,x5,x6,x4] : State) := m12_3.2.2.2
    have m12_4 := mem_move_down ([1,2,0,x2,x0,x3,x5,x6,x4] : State) hp12_3 2 hidx12_3 (by decide)
    have hp12_4 : ([1,2,x3,x2,x0,0,x5,x6,x4] : State).Perm (List.range 9) := m12_4.2.1
    have hidx12_4 : ([1,2,x3,x2,x0,0,x5,x6,x4] : State).indexOf 0 = 5 := m12_4.2.2.1
    have hsol12_4 : is_solvable ([1,2,x3,x2,x0,0,x5,x6,x4] : State) = is_solvable ([1,2,0,x2,x0,x3,x5,x6,x4] : State) := m12_4.2.2.2
    have m12_5 := mem_move_down ([1,2,x3,x2,x0,0,x5,x6,x4] : State) hp12_4 5 hidx12_4 (by decide)
    have hp12_5 : ([1,2,x3,x2,x0,x4,x5,x6,0] : State).Perm (List.range 9) := m12_5.2.1
    have hidx12_5 : ([1,2,x3,x2,x0,x4,x5,x6,0] : State).indexOf 0 = 8 := m12_5.2.2.1
    have hsol12_5 : is_solvable ([1,2,x3,x2,x0,x4,x5,x6,0] : State) = is_solvable ([1,2,x3,x2,x0,0,x5,x6,x4] : State) := m12_5.2.2.2
    have hsF12 : is_solvable ([1,2,x3,x2,x0,x4,x5,x6,0] : State) = true := by
      rw [hsol12_5, hsol12_4, hsol12_3, hsol12_2, hsol12_1, hsol12_0]
      exact hs
    exact Reachable_trans (reach_step _ _ _ m12_0.1) (Reachable_trans (reach_step _ _ _ m12_1.1) (Reachable_trans (reach_step _ _ _ m12_2.1) (Reachable_trans (reach_step _ _ _ m12_3.1) (Reachable_trans (reach_step _ _ _ m12_4.1) (Reachable_trans (reach_step _ _ _ m12_5.1) (c1_stage2 x3 x2 x0 x4 x5 x6 hp12_5 hsF12 hidx12_5))))))
  · subst hhmt
    have m13_0 := mem_move_up ([1,x0,x1,2,x3,x4,x5,x6,0] : State) hp 8 hidx (by decide)
    have hp13_0 : ([1,x0,x1,2,x3,0,x5,x6,x4] : State).Perm (List.range 9) := m13_0.2.1
    have hidx13_0 : ([1,x0,x1,2,x3,0,x5,x6,x4] : State).indexOf 0 = 5 := m13_0.2.2.1
    have hsol13_0 : is_solvable ([1,x0,x1,2,x3,0,x5,x6,x4] : State) = is_solvable ([1,x0,x1,2,x3,x4,x5,x6,0] : State) := m13_0.2.2.2
    have m13_1 := mem_move_left ([1,x0,x1,2,x3,0,x5,x6,x4] : State) hp13_0 5 hidx13_0 (by decide) (by decide)
    have hp13_1 : ([1,x0,x1,2,0,x3,x5,x6,x4] : State).Perm (List.range 9) := m13_1.2.1
    have hidx13_1 : ([1,x0,x1,2,0,x3,x5,x6,x4] : State).indexOf 0 = 4 := m13_1.2.2.1
    have hsol13_1 : is_solvable ([1,x0,x1,2,0,x3,x5,x6,x4] : State) = is_solvable ([1,x0,x1,2,x3,0,x5,x6,x4] : State) := m13_1.2.2.2
    have m13_2 := mem_move_left ([1,x0,x1,2,0,x3,x5,x6,x4] : State) hp13_1 4 hidx13_1 (by decide) (by decide)
    have hp13_2 : ([1,x0,x1,0,2,x3,x5,x6,x4] : State).Perm (List.range 9) := m13_2.2.1
    have hidx13_2 : ([1,x0,x1,0,2,x3,x5,x6,x4] : State).indexOf 0 = 3 := m13_2.2.2.1
    have hsol13_2 : is_solvable ([1,x0,x1,0,2,x3,x5,x6,x4] : State) = is_solvable ([1,x0,x1,2,0,x3,x5,x6,x4] : State) := m13_2.2.2.2
    have m13_3 := mem_move_down ([1,x0,x1,0,2,x3,x5,x6,x4] : State) hp13_2 3 hidx13_2 (by decide)
    have hp13_3 : ([1,x0,x1,x5,2,x3,0,x6,x4] : State).Perm (List.range 9) := m13_3.2.1
    have hidx13_3 : ([1,x0,x1,x5,2,x3,0,x6,x4] : State).indexOf 0 = 6 := m13_3.2.2.1
    have hsol13_3 : is_solvable ([1,x0,x1,x5,2,x3,0,x6,x4] : State) = is_solvable ([1,x0,x1,0,2,x3,x5,x6,x4] : State) := m13_3.2.2.2
    have m13_4 := mem_move_right ([1,x0,x1,x5,2,x3,0,x6,x4] : State) hp13_3 6 hidx13_3 (by decide) (by decide)
    have hp13_4 : ([1,x0,x1,x5,2,x3,x6,0,x4] : State).Perm (List.range 9) := m13_4.2.1
    have hidx13_4 : ([1,x0,x1,x5,2,x3,x6,0,x4] : State).indexOf 0 = 7 := m13_4.2.2.1
    have hsol13_4 : is_solvable ([1,x0,x1,x5,2,x3,x6,0,x4] : State) = is_solvable ([1,x0,x1,x5,2,x3,0,x6,x4] : State) := m13_4.2.2.2
    have m13_5 := mem_move_right ([1,x0,x1,x5,2,x3,x6,0,x4] : State) hp13_4 7 hidx13_4 (by decide) (by decide)
    have hp13_5 : ([1,x0,x1,x5,2,x3,x6,x4,0] : State).Perm (List.range 9) := m13_5.2.1
    have hidx13_5 : ([1,x0,x1,x5,2,x3,x6,x4,0] : State).indexOf 0 = 8 := m13_5.2.2.1
    have hsol13_5 : is_solvable ([1,x0,x1,x5,2,x3,x6,x4,0] : State) = is_solvable ([1,x0,x1,x5,2,x3,x6,0,x4] : State) := m13_5.2.2.2
    have m13_6 := mem_move_up ([1,x0,x1,x5,2,x3,x6,x4,0] : State) hp13_5 8 hidx13_5 (by decide)
    have hp13_6 : ([1,x0,x1,x5,2,0,x6,x4,x3] : State).Perm (List.range 9) := m13_6.2.1
    have hidx13_6 : ([1,x0,x1,x5,2,0,x6,x4,x3] : State).indexOf 0 = 5 := m13_6.2.2.1
    have hsol13_6 : is_solvable ([1,x0,x1,x5,2,0,x6,x4,x3] : State) = is_solvable ([1,x0,x1,x5,2,x3,x6,x4,0] : State) := m13_6.2.2.2
    have m13_7 := mem_move_up ([1,x0,x1,x5,2,0,x6,x4,x3] : State) hp13_6 5 hidx13_6 (by decide)
    have hp13_7 : ([1,x0,0,x5,2,x1,x6,x4,x3] : State).Perm (List.range 9) := m13_7.2.1
    have hidx13_7 : ([1,x0,0,x5,2,x1,x6,x4,x3] : State).indexOf 0 = 2 := m13_7.2.2.1
    have hsol13_7 : is_solvable ([1,x0,0,x5,2,x1,x6,x4,x3] : State) = is_solvable ([1,x0,x1,x5,2,0,x6,x4,x3] : State) := m13_7.2.2.2
    have m13_8 := mem_move_left ([1,x0,0,x5,2,x1,x6,x4,x3] : State) hp13_7 2 hidx13_7 (by decide) (by decide)
    have hp13_8 : ([1,0,x0,x5,2,x1,x6,x4,x3] : State).Perm (List.range 9) := m13_8.2.1
    have hidx13_8 : ([1,0,x0,x5,2,x1,x6,x4,x3] : State).indexOf 0 = 1 := m13_8.2.2.1
    have hsol13_8 : is_solvable ([1,0,x0,x5,2,x1,x6,x4,x3] : State) = is_solvable ([1,x0,0,x5,2,x1,x6,x4,x3] : State) := m13_8.2.2.2
    have m13_9 := mem_move_down ([1,0,x0,x5,2,x1,x6,x4,x3] : State) hp13_8 1 hidx13_8 (by decide)
    have hp13_9 : ([1,2,x0,x5,0,x1,x6,x4,x3] : State).Perm (List.range 9) := m13_9.2.1
    have hidx13_9 : ([1,2,x0,x5,0,x1,x6,x4,x3] : State).indexOf 0 = 4 := m13_9.2.2.1
    have hsol13_9 : is_solvable ([1,2,x0,x5,0,x1,x6,x4,x3] : State) = is_solvable ([1,0,x0,x5,2,x1,x6,x4,x3] : State) := m13_9.2.2.2
    have m13_10 := mem_move_down ([1,2,x0,x5,0,x1,x6,x4,x3] : State) hp13_9 4 hidx13_9 (by decide)
    have hp13_10 : ([1,2,x0,x5,x4,x1,x6,0,x3] : State).Perm (List.range 9) := m13_10.2.1
    have hidx13_10 : ([1,2,x0,x5,x4,x1,x6,0,x3] : State).indexOf 0 = 7 := m13_10.2.2.1
    have hsol13_10 : is_solvable ([1,2,x0,x5,x4,x1,x6,0,x3] : State) = is_solvable ([1,2,x0,x5,0,x1,x6,x4,x3] : State) := m13_10.2.2.2
    have m13_11 := mem_move_right ([1,2,x0,x5,x4,x1,x6,0,x3] : State) hp13_10 7 hidx13_10 (by decide) (by decide)
    have hp13_11 : ([1,2,x0,x5,x4,x1,x6,x3,0] : State).Perm (List.range 9) := m13_11.2.1
    have hidx13_11 : ([1,2,x0,x5,x4,x1,x6,x3,0] : State).indexOf 0 = 8 := m13_11.2.2.1
    have hsol13_11 : is_solvable ([1,2,x0,x5,x4,x1,x6,x3,0] : State) = is_solvable ([1,2,x0,x5,x4,x1,x6,0,x3] : State) := m13_11.2.2.2
    have hsF13 : is_solvable ([1,2,x0,x5,x4,x1,x6,x3,0] : State) = true := by
      rw [hsol13_11, hsol13_10, hsol13_9, hsol13_8, hsol13_7, hsol13_6, hsol13_5, hsol13_4, hsol13_3, hsol13_2, hsol13_1, hsol13_0]
      exact hs
    exact Reachable_trans (reach_step _ _ _ m13_0.1) (Reachable_trans (reach_step _ _ _ m13_1.1) (Reachable_trans (reach_step _ _ _ m13_2.1) (Reachable_trans (reach_step _ _ _ m13_3.1) (Reachable_trans (reach_step _ _ _ m13_4.1) (Reachable_trans (reach_step _ _ _ m13_5.1) (Reachable_trans (reach_step _ _ _ m13_6.1) (Reachable_trans (reach_step _ _ _ m13_7.1) (Reachable_trans (reach_step _ _ _ m13_8.1) (Reachable_trans (reach_step _ _ _ m13_9.1) (Reachable_trans (reach_step _ _ _ m13_10.1) (Reachable_trans (reach_step _ _ _ m13_11.1) (c1_stage2 x0 x5 x4 x1 x6 x3 hp13_11 hsF13 hidx13_11))))))))))))
  · subst hhmt
    have m14_0 := mem_move_up ([1,x0,x1,x2,2,x4,x5,x6,0] : State) hp 8 hidx (by decide)
    have hp14_0 : ([1,x0,x1,x2,2,0,x5,x6,x4] : State).Perm (List.range 9) := m14_0.2.1
    have hidx14_0 : ([1,x0,x1,x2,2,0,x5,x6,x4] : State).indexOf 0 = 5 := m14_0.2.2.1
    have hsol14_0 : is_solvable ([1,x0,x1,x2,2,0,x5,x6,x4] : State) = is_solvable ([1,x0,x1,x2,2,x4,x5,x6,0] : State) := m14_0.2.2.2
    have m14_1 := mem_move_up ([1,x0,x1,x2,2,0,x5,x6,x4] : State) hp14_0 5 hidx14_0 (by decide)
    have hp14_1 : ([1,x0,0,x2,2,x1,x5,x6,x4] : State).Perm (List.range 9) := m14_1.2.1
    have hidx14_1 : ([1,x0,0,x2,2,x1,x5,x6,x4] : State).indexOf 0 = 2 := m14_1.2.2.1
    have hsol14_1 : is_solvable ([1,x0,0,x2,2,x1,x5,x6,x4] : State) = is_solvable ([1,x0,x1,x2,2,0,x5,x6,x4] : State) := m14_1.2.2.2
    have m14_2 := mem_move_left ([1,x0,0,x2,2,x1,x5,x6,x4] : State) hp14_1 2 hidx14_1 (by decide) (by decide)
    have hp14_2 : ([1,0,x0,x2,2,x1,x5,x6,x4] : State).Perm (List.range 9) := m14_2.2.1
    have hidx14_2 : ([1,0,x0,x2,2,x1,x5,x6,x4] : State).indexOf 0 = 1 := m14_2.2.2.1
    have hsol14_2 : is_solvable ([1,0,x0,x2,2,x1,x5,x6,x4] : State) = is_solvable ([1,x0,0,x2,2,x1,x5,x6,x4] : State) := m14_2.2.2.2
    have m14_3 := mem_move_down ([1,0,x0,x2,2,x1,x5,x6,x4] : State) hp14_2 1 hidx14_2 (by decide)
    have hp14_3 : ([1,2,x0,x2,0,x1,x5,x6,x4] : State).Perm (List.range 9) := m14_3.2.1
    have hidx14_3 : ([1,2,x0,x2,0,x1,x5,x6,x4] : State).indexOf 0 = 4 := m14_3.2.2.1
    have hsol14_3 : is_solvable ([1,2,x0,x2,0,x1,x5,x6,x4] : State) = is_solvable ([1,0,x0,x2,2,x1,x5,x6,x4] : State) := m14_3.2.2.2
    have m14_4 := mem_move_down ([1,2,x0,x2,0,x1,x5,x6,x4] : State) hp14_3 4 hidx14_3 (by decide)
    have hp14_4 : ([1,2,x0,x2,x6,x1,x5,0,x4] : State).Perm (List.range 9) := m14_4.2.1
    have hidx14_4 : ([1,2,x0,x2,x6,x1,x5,0,x4] : State).indexOf 0 = 7 := m14_4.2.2.1
    have hsol14_4 : is_solvable ([1,2,x0,x2,x6,x1,x5,0,x4] : State) = is_solvable ([1,2,x0,x2,0,x1,x5,x6,x4] : State) := m14_4.2.2.2
    have m14_5 := mem_move_right ([1,2,x0,x2,x6,x1,x5,0,x4] : State) hp14_4 7 hidx14_4 (by decide) (by decide)
    have hp14_5 : ([1,2,x0,x2,x6,x1,x5,x4,0] : State).Perm (List.range 9) := m14_5.2.1
    have hidx14_5 : ([1,2,x0,x2,x6,x1,x5,x4,0] : State).indexOf 0 = 8 := m14_5.2.2.1
    have hsol14_5 : is_solvable ([1,2,x0,x2,x6,x1,x5,x4,0] : State) = is_solvable ([1,2,x0,x2,x6,x1,x5,0,x4] : State) := m14_5.2.2.2
    have hsF14 : is_solvable ([1,2,x0,x2,x6,x1,x5,x4,0] : State) = true := by
      rw [hsol14_5, hsol14_4, hsol14_3, hsol14_2, hsol14_1, hsol14_0]
      exact hs
    exact Reachable_trans (reach_step _ _ _ m14_0.1) (Reachable_trans (reach_step _ _ _ m14_1.1) (Reachable_trans (reach_step _ _ _ m14_2.1) (Reachable_trans (reach_step _ _ _ m14_3.1) (Reachable_trans (reach_step _ _ _ m14_4.1) (Reachable_trans (reach_step _ _ _ m14_5.1) (c1_stage2 x0 x2 x6 x1 x5 x4 hp14_5 hsF14 hidx14_5))))))
  · subst hhmt
    have m15_0 := mem_move_left ([1,x0,x1,x2,x3,2,x5,x6,0] : State) hp 8 hidx (by decide) (by decide)
    have hp15_0 : ([1,x0,x1,x2,x3,2,x5,0,x6] : State).Perm (List.range 9) := m15_0.2.1
    have hidx15_0 : ([1,x0,x1,x2,x3,2,x5,0,x6] : State).indexOf 0 = 7 := m15_0.2.2.1
    have hsol15_0 : is_solvable ([1,x0,x1,x2,x3,2,x5,0,x6] : State) = is_solvable ([1,x0,x1,x2,x3,2,x5,x6,0] : State) := m15_0.2.2.2
    have m15_1 := mem_move_up ([1,x0,x1,x2,x3,2,x5,0,x6] : State) hp15_0 7 hidx15_0 (by decide)
    have hp15_1 : ([1,x0,x1,x2,0,2,x5,x3,x6] : State).Perm (List.range 9) := m15_1.2.1
    have hidx15_1 : ([1,x0,x1,x2,0,2,x5,x3,x6] : State).indexOf 0 = 4 := m15_1.2.2.1
    have hsol15_1 : is_solvable ([1,x0,x1,x2,0,2,x5,x3,x6] : State) = is_solvable ([1,x0,x1,x2,x3,2,x5,0,x6] : State) := m15_1.2.2.2
    have m15_2 := mem_move_right ([1,x0,x1,x2,0,2,x5,x3,x6] : State) hp15_1 4 hidx15_1 (by decide) (by decide)
    have hp15_2 : ([1,x0,x1,x2,2,0,x5,x3,x6] : State).Perm (List.range 9) := m15_2.2.1
    have hidx15_2 : ([1,x0,x1,x2,2,0,x5,x3,x6] : State).indexOf 0 = 5 := m15_2.2.2.1
    have hsol15_2 : is_solvable ([1,x0,x1,x2,2,0,x5,x3,x6] : State) = is_solvable ([1,x0,x1,x2,0,2,x5,x3,x6] : State) := m15_2.2.2.2
    have m15_3 := mem_move_up ([1,x0,x1,x2,2,0,x5,x3,x6] : State) hp15_2 5 hidx15_2 (by decide)
    have hp15_3 : ([1,x0,0,x2,2,x1,x5,x3,x6] : State).Perm (List.range 9) := m15_3.2.1
    have hidx15_3 : ([1,x0,0,x2,2,x1,x5,x3,x6] : State).indexOf 0 = 2 := m15_3.2.2.1
    have hsol15_3 : is_solvable ([1,x0,0,x2,2,x1,x5,x3,x6] : State) = is_solvable ([1,x0,x1,x2,2,0,x5,x3,x6] : State) := m15_3.2.2.2
    have m15_4 := mem_move_left ([1,x0,0,x2,2,x1,x5,x3,x6] : State) hp15_3 2 hidx15_3 (by decide) (by decide)
    have hp15_4 : ([1,0,x0,x2,2,x1,x5,x3,x6] : State).Perm (List.range 9) := m15_4.2.1
    have hidx15_4 : ([1,0,x0,x2,2,x1,x5,x3,x6] : State).indexOf 0 = 1 := m15_4.2.2.1
    have hsol15_4 : is_solvable ([1,0,x0,x2,2,x1,x5,x3,x6] : State) = is_solvable ([1,x0,0,x2,2,x1,x5,x3,x6] : State) := m15_4.2.2.2
    have m15_5 := mem_move_down ([1,0,x0,x2,2,x1,x5,x3,x6] : State) hp15_4 1 hidx15_4 (by decide)
    have hp15_5 : ([1,2,x0,x2,0,x1,x5,x3,x6] : State).Perm (List.range 9) := m15_5.2.1
    have hidx15_5 : ([1,2,x0,x2,0,x1,x5,x3,x6] : State).indexOf 0 = 4 := m15_5.2.2.1
    have hsol15_5 : is_solvable ([1,2,x0,x2,0,x1,x5,x3,x6] : State) = is_solvable ([1,0,x0,x2,2,x1,x5,x3,x6] : State) := m15_5.2.2.2
    have m15_6 := mem_move_down ([1,2,x0,x2,0,x1,x5,x3,x6] : State) hp15_5 4 hidx15_5 (by decide)
    have hp15_6 : ([1,2,x0,x2,x3,x1,x5,0,x6] : State).Perm (List.range 9) := m15_6.2.1
    have hidx15_6 : ([1,2,x0,x2,x3,x1,x5,0,x6] : State).indexOf 0 = 7 := m15_6.2.2.1
    have hsol15_6 : is_solvable ([1,2,x0,x2,x3,x1,x5,0,x6] : State) = is_solvable ([1,2,x0,x2,0,x1,x5,x3,x6] : State) := m15_6.2.2.2
    have m15_7 := mem_move_right ([1,2,x0,x2,x3,x1,x5,0,x6] : State) hp15_6 7 hidx15_6 (by decide) (by decide)
    have hp15_7 : ([1,2,x0,x2,x3,x1,x5,x6,0] : State).Perm (List.range 9) := m15_7.2.1
    have hidx15_7 : ([1,2,x0,x2,x3,x1,x5,x6,0] : State).indexOf 0 = 8 := m15_7.2.2.1
    have hsol15_7 : is_solvable ([1,2,x0,x2,x3,x1,x5,x6,0] : State) = is_solvable ([1,2,x0,x2,x3,x1,x5,0,x6] : State) := m15_7.2.2.2
    have hsF15 : is_solvable ([1,2,x0,x2,x3,x1,x5,x6,0] : State) = true := by
      rw [hsol15_7, hsol15_6, hsol15_5, hsol15_4, hsol15_3, hsol15_2, hsol15_1, hsol15_0]
      exact hs
    exact Reachable_trans (reach_step _ _ _ m15_0.1) (Reachable_trans (reach_step _ _ _ m15_1.1) (Reachable_trans (reach_step _ _ _ m15_2.1) (Reachable_trans (reach_step _ _ _ m15_3.1) (Reachable_trans (reach_step _ _ _ m15_4.1) (Reachable_trans (reach_step _ _ _ m15_5.1) (Reachable_trans (reach_step _ _ _ m15_6.1) (Reachable_trans (reach_step _ _ _ m15_7.1) (c1_stage2 x0 x2 x3 x1 x5 x6 hp15_7 hsF15 hidx15_7))))))))
  · subst hhmt
    have m16_0 := mem_move_left ([1,x0,x1,x2,x3,x4,2,x6,0] : State) hp 8 hidx (by decide) (by decide)
    have hp16_0 : ([1,x0,x1,x2,x3,x4,2,0,x6] : State).Perm (List.range 9) := m16_0.2.1
    have hidx16_0 : ([1,x0,x1,x2,x3,x4,2,0,x6] : State).indexOf 0 = 7 := m16_0.2.2.1
    have hsol16_0 : is_solvable ([1,x0,x1,x2,x3,x4,2,0,x6] : State) = is_solvable ([1,x0,x1,x2,x3,x4,2,x6,0] : State) := m16_0.2.2.2
    have m16_1 := mem_move_left ([1,x0,x1,x2,x3,x4,2,0,x6] : State) hp16_0 7 hidx16_0 (by decide) (by decide)
    have hp16_1 : ([1,x0,x1,x2,x3,x4,0,2,x6] : State).Perm (List.range 9) := m16_1.2.1
    have hidx16_1 : ([1,x0,x1,x2,x3,x4,0,2,x6] : State).indexOf 0 = 6 := m16_1.2.2.1
    have hsol16_1 : is_solvable ([1,x0,x1,x2,x3,x4,0,2,x6] : State) = is_solvable ([1,x0,x1,x2,x3,x4,2,0,x6] : State) := m16_1.2.2.2
    have m16_2 := mem_move_up ([1,x0,x1,x2,x3,x4,0,2,x6] : State) hp16_1 6 hidx16_1 (by decide)
    have hp16_2 : ([1,x0,x1,0,x3,x4,x2,2,x6] : State).Perm (List.range 9) := m16_2.2.1
    have hidx16_2 : ([1,x0,x1,0,x3,x4,x2,2,x6] : State).indexOf 0 = 3 := m16_2.2.2.1
    have hsol16_2 : is_solvable ([1,x0,x1,0,x3,x4,x2,2,x6] : State) = is_solvable ([1,x0,x1,x2,x3,x4,0,2,x6] : State) := m16_2.2.2.2
    have m16_3 := mem_move_right ([1,x0,x1,0,x3,x4,x2,2,x6] : State) hp16_2 3 hidx16_2 (by decide) (by decide)
    have hp16_3 : ([1,x0,x1,x3,0,x4,x2,2,x6] : State).Perm (List.range 9) := m16_3.2.1
    have hidx16_3 : ([1,x0,x1,x3,0,x4,x2,2,x6] : State).indexOf 0 = 4 := m16_3.2.2.1
    have hsol16_3 : is_solvable ([1,x0,x1,x3,0,x4,x2,2,x6] : State) = is_solvable ([1,x0,x1,0,x3,x4,x2,2,x6] : State) := m16_3.2.2.2
    have m16_4 := mem_move_down ([1,x0,x1,x3,0,x4,x2,2,x6] : State) hp16_3 4 hidx16_3 (by decide)
    have hp16_4 : ([1,x0,x1,x3,2,x4,x2,0,x6] : State).Perm (List.range 9) := m16_4.2.1
    have hidx16_4 : ([1,x0,x1,x3,2,x4,x2,0,x6] : State).indexOf 0 = 7 := m16_4.2.2.1
    have hsol16_4 : is_solvable ([1,x0,x1,x3,2,x4,x2,0,x6] : State) = is_solvable ([1,x0,x1,x3,0,x4,x2,2,x6] : State) := m16_4.2.2.2
    have m16_5 := mem_move_right ([1,x0,x1,x3,2,x4,x2,0,x6] : State) hp16_4 7 hidx16_4 (by decide) (by decide)
    have hp16_5 : ([1,x0,x1,x3,2,x4,x2,x6,0] : State).Perm (List.range 9) := m16_5.2.1
    have hidx16_5 : ([1,x0,x1,x3,2,x4,x2,x6,0] : State).indexOf 0 = 8 := m16_5.2.2.1
    have hsol16_5 : is_solvable ([1,x0,x1,x3,2,x4,x2,x6,0] : State) = is_solvable ([1,x0,x1,x3,2,x4,x2,0,x6] : State) := m16_5.2.2.2
    have m16_6 := mem_move_up ([1,x0,x1,x3,2,x4,x2,x6,0] : State) hp16_5 8 hidx16_5 (by decide)
    have hp16_6 : ([1,x0,x1,x3,2,0,x2,x6,x4] : State).Perm (List.range 9) := m16_6.2.1
    have hidx16_6 : ([1,x0,x1,x3,2,0,x2,x6,x4] : State).indexOf 0 = 5 := m16_6.2.2.1
    have hsol16_6 : is_solvable ([1,x0,x1,x3,2,0,x2,x6,x4] : State) = is_solvable ([1,x0,x1,x3,2,x4,x2,x6,0] : State) := m16_6.2.2.2
    have m16_7 := mem_move_up ([1,x0,x1,x3,2,0,x2,x6,x4] : State) hp16_6 5 hidx16_6 (by decide)
    have hp16_7 : ([1,x0,0,x3,2,x1,x2,x6,x4] : State).Perm (List.range 9) := m16_7.2.1
    have hidx16_7 : ([1,x0,0,x3,2,x1,x2,x6,x4] : State).indexOf 0 = 2 := m16_7.2.2.1
    have hsol16_7 : is_solvable ([1,x0,0,x3,2,x1,x2,x6,x4] : State) = is_solvable ([1,x0,x1,x3,2,0,x2,x6,x4] : State) := m16_7.2.2.2
    have m16_8 := mem_move_left ([1,x0,0,x3,2,x1,x2,x6,x4] : State) hp16_7 2 hidx16_7 (by decide) (by decide)
    have hp16_8 : ([1,0,x0,x3,2,x1,x2,x6,x4] : State).Perm (List.range 9) := m16_8.2.1
    have hidx16_8 : ([1,0,x0,x3,2,x1,x2,x6,x4] : State).indexOf 0 = 1 := m16_8.2.2.1
    have hsol16_8 : is_solvable ([1,0,x0,x3,2,x1,x2,x6,x4] : State) = is_solvable ([1,x0,0,x3,2,x1,x2,x6,x4] : State) := m16_8.2.2.2
    have m16_9 := mem_move_down ([1,0,x0,x3,2,x1,x2,x6,x4] : State) hp16_8 1 hidx16_8 (by decide)
    have hp16_9 : ([1,2,x0,x3,0,x1,x2,x6,x4] : State).Perm (List.range 9) := m16_9.2.1
    have hidx16_9 : ([1,2,x0,x3,0,x1,x2,x6,x4] : State).indexOf 0 = 4 := m16_9.2.2.1
    have hsol16_9 : is_solvable ([1,2,x0,x3,0,x1,x2,x6,x4] : State) = is_solvable ([1,0,x0,x3,2,x1,x2,x6,x4] : State) := m16_9.2.2.2
    have m16_10 := mem_move_down ([1,2,x0,x3,0,x1,x2,x6,x4] : State) hp16_9 4 hidx16_9 (by decide)
    have hp16_10 : ([1,2,x0,x3,x6,x1,x2,0,x4] : State).Perm (List.range 9) := m16_10.2.1
    have hidx16_10 : ([1,2,x0,x3,x6,x1,x2,0,x4] : State).indexOf 0 = 7 := m16_10.2.2.1
    have hsol16_10 : is_solvable ([1,2,x0,x3,x6,x1,x2,0,x4] : State) = is_solvable ([1,2,x0,x3,0,x1,x2,x6,x4] : State) := m16_10.2.2.2
    have m16_11 := mem_move_right ([1,2,x0,x3,x6,x1,x2,0,x4] : State) hp16_10 7 hidx16_10 (by decide) (by decide)
    have hp16_11 : ([1,2,x0,x3,x6,x1,x2,x4,0] : State).Perm (List.range 9) := m16_11.2.1
    have hidx16_11 : ([1,2,x0,x3,x6,x1,x2,x4,0] : State).indexOf 0 = 8 := m16_11.2.2.1
    have hsol16_11 : is_solvable ([1,2,x0,x3,x6,x1,x2,x4,0] : State) = is_solvable ([1,2,x0,x3,x6,x1,x2,0,x4] : State) := m16_11.2.2.2
    have hsF16 : is_solvable ([1,2,x0,x3,x6,x1,x2,x4,0] : State) = true := by
      rw [hsol16_11, hsol16_10, hsol16_9, hsol16_8, hsol16_7, hsol16_6, hsol16_5, hsol16_4, hsol16_3, hsol16_2, hsol16_1, hsol16_0]
      exact hs
    exact Reachable_trans (reach_step _ _ _ m16_0.1) (Reachable_trans (reach_step _ _ _ m16_1.1) (Reachable_trans (reach_step _ _ _ m16_2.1) (Reachable_trans (reach_step _ _ _ m16_3.1) (Reachable_trans (reach_step _ _ _ m16_4.1) (Reachable_trans (reach_step _ _ _ m16_5.1) (Reachable_trans (reach_step _ _ _ m16_6.1) (Reachable_trans (reach_step _ _ _ m16_7.1) (Reachable_trans (reach_step _ _ _ m16_8.1) (Reachable_trans (reach_step _ _ _ m16_9.1) (Reachable_trans (reach_step _ _ _ m16_10.1) (Reachable_trans (reach_step _ _ _ m16_11.1) (c1_stage2 x0 x3 x6 x1 x2 x4 hp16_11 hsF16 hidx16_11))))))))))))
  · subst hhmt
    have m17_0 := mem_move_up ([1,x0,x1,x2,x3,x4,x5,2,0] : State) hp 8 hidx (by decide)
    have hp17_0 : ([1,x0,x1,x2,x3,0,x5,2,x4] : State).Perm (List.range 9) := m17_0.2.1
    have hidx17_0 : ([1,x0,x1,x2,x3,0,x5,2,x4] : State).indexOf 0 = 5 := m17_0.2.2.1
    have hsol17_0 : is_solvable ([1,x0,x1,x2,x3,0,x5,2,x4] : State) = is_solvable ([1,x0,x1,x2,x3,x4,x5,2,0] : State) := m17_0.2.2.2
    have m17_1 := mem_move_left ([1,x0,x1,x2,x3,0,x5,2,x4] : State) hp17_0 5 hidx17_0 (by decide) (by decide)
    have hp17_1 : ([1,x0,x1,x2,0,x3,x5,2,x4] : State).Perm (List.range 9) := m17_1.2.1
    have hidx17_1 : ([1,x0,x1,x2,0,x3,x5,2,x4] : State).indexOf 0 = 4 := m17_1.2.2.1
    have hsol17_1 : is_solvable ([1,x0,x1,x2,0,x3,x5,2,x4] : State) = is_solvable ([1,x0,x1,x2,x3,0,x5,2,x4] : State) := m17_1.2.2.2
    have m17_2 := mem_move_down ([1,x0,x1,x2,0,x3,x5,2,x4] : State) hp17_1 4 hidx17_1 (by decide)
    have hp17_2 : ([1,x0,x1,x2,2,x3,x5,0,x4] : State).Perm (List.range 9) := m17_2.2.1
    have hidx17_2 : ([1,x0,x1,x2,2,x3,x5,0,x4] : State).indexOf 0 = 7 := m17_2.2.2.1
    have hsol17_2 : is_solvable ([1,x0,x1,x2,2,x3,x5,0,x4] : State) = is_solvable ([1,x0,x1,x2,0,x3,x5,2,x4] : State) := m17_2.2.2.2
    have m17_3 := mem_move_right ([1,x0,x1,x2,2,x3,x5,0,x4] : State) hp17_2 7 hidx17_2 (by decide) (by decide)
    have hp17_3 : ([1,x0,x1,x2,2,x3,x5,x4,0] : State).Perm (List.range 9) := m17_3.2.1
    have hidx17_3 : ([1,x0,x1,x2,2,x3,x5,x4,0] : State).indexOf 0 = 8 := m17_3.2.2.1
    have hsol17_3 : is_solvable ([1,x0,x1,x2,2,x3,x5,x4,0] : State) = is_solvable ([1,x0,x1,x2,2,x3,x5,0,x4] : State) := m17_3.2.2.2
    have m17_4 := mem_move_up ([1,x0,x1,x2,2,x3,x5,x4,0] : State) hp17_3 8 hidx17_3 (by decide)
    have hp17_4 : ([1,x0,x1,x2,2,0,x5,x4,x3] : State).Perm (List.range 9) := m17_4.2.1
    have hidx17_4 : ([1,x0,x1,x2,2,0,x5,x4,x3] : State).indexOf 0 = 5 := m17_4.2.2.1
    have hsol17_4 : is_solvable ([1,x0,x1,x2,2,0,x5,x4,x3] : State) = is_solvable ([1,x0,x1,x2,2,x3,x5,x4,0] : State) := m17_4.2.2.2
    have m17_5 := mem_move_up ([1,x0,x1,x2,2,0,x5,x4,x3] : State) hp17_4 5 hidx17_4 (by decide)
    have hp17_5 : ([1,x0,0,x2,2,x1,x5,x4,x3] : State).Perm (List.range 9) := m17_5.2.1
    have hidx17_5 : ([1,x0,0,x2,2,x1,x5,x4,x3] : State).indexOf 0 = 2 := m17_5.2.2.1
    have hsol17_5 : is_solvable ([1,x0,0,x2,2,x1,x5,x4,x3] : State) = is_solvable ([1,x0,x1,x2,2,0,x5,x4,x3] : State) := m17_5.2.2.2
    have m17_6 := mem_move_left ([1,x0,0,x2,2,x1,x5,x4,x3] : State) hp17_5 2 hidx17_5 (by decide) (by decide)
    have hp17_6 : ([1,0,x0,x2,2,x1,x5,x4,x3] : State).Perm (List.range 9) := m17_6.2.1
    have hidx17_6 : ([1,0,x0,x2,2,x1,x5,x4,x3] : State).indexOf 0 = 1 := m17_6.2.2.1
    have hsol17_6 : is_solvable ([1,0,x0,x2,2,x1,x5,x4,x3] : State) = is_solvable ([1,x0,0,x2,2,x1,x5,x4,x3] : State) := m17_6.2.2.2
    have m17_7 := mem_move_down ([1,0,x0,x2,2,x1,x5,x4,x3] : State) hp17_6 1 hidx17_6 (by decide)
    have hp17_7 : ([1,2,x0,x2,0,x1,x5,x4,x3] : State).Perm (List.range 9) := m17_7.2.1
    have hidx17_7 : ([1,2,x0,x2,0,x1,x5,x4,x3] : State).indexOf 0 = 4 := m17_7.2.2.1
    have hsol17_7 : is_solvable ([1,2,x0,x2,0,x1,x5,x4,x3] : State) = is_solvable ([1,0,x0,x2,2,x1,x5,x4,x3] : State) := m17_7.2.2.2
    have m17_8 := mem_move_down ([1,2,x0,x2,0,x1,x5,x4,x3] : State) hp17_7 4 hidx17_7 (by decide)
    have hp17_8 : ([1,2,x0,x2,x4,x1,x5,0,x3] : State).Perm (List.range 9) := m17_8.2.1
    have hidx17_8 : ([1,2,x0,x2,x4,x1,x5,0,x3] : State).indexOf 0 = 7 := m17_8.2.2.1
    have hsol17_8 : is_solvable ([1,2,x0,x2,x4,x1,x5,0,x3] : State) = is_solvable ([1,2,x0,x2,0,x1,x5,x4,x3] : State) := m17_8.2.2.2
    have m17_9 := mem_move_right ([1,2,x0,x2,x4,x1,x5,0,x3] : State) hp17_8 7 hidx17_8 (by decide) (by decide)
    have hp17_9 : ([1,2,x0,x2,x4,x1,x5,x3,0] : State).Perm (List.range 9) := m17_9.2.1
    have hidx17_9 : ([1,2,x0,x2,x4,x1,x5,x3,0] : State).indexOf 0 = 8 := m17_9.2.2.1
    have hsol17_9 : is_solvable ([1,2,x0,x2,x4,x1,x5,x3,0] : State) = is_solvable ([1,2,x0,x2,x4,x1,x5,0,x3] : State) := m17_9.2.2.2
    have hsF17 : is_solvable ([1,2,x0,x2,x4,x1,x5,x3,0] : State) = true := by
      rw [hsol17_9, hsol17_8, hsol17_7, hsol17_6, hsol17_5, hsol17_4, hsol17_3, hsol17_2, hsol17_1, hsol17_0]
      exact hs
    exact Reachable_trans (reach_step _ _ _ m17_0.1) (Reachable_trans (reach_step _ _ _ m17_1.1) (Reachable_trans (reach_step _ _ _ m17_2.1) (Reachable_trans (reach_step _ _ _ m17_3.1) (Reachable_trans (reach_step _ _ _ m17_4.1) (Reachable_trans (reach_step _ _ _ m17_5.1) (Reachable_trans (reach_step _ _ _ m17_6.1) (Reachable_trans (reach_step _ _ _ m17_7.1) (Reachable_trans (reach_step _ _ _ m17_8.1) (Reachable_trans (reach_step _ _ _ m17_9.1) (c1_stage2 x0 x2 x4 x1 x5 x3 hp17_9 hsF17 hidx17_9))))))))))
  · exact absurd hhmt (by decide)

lemma c1_stage0 : ∀ x0 x1 x2 x3 x4 x5 x6 x7 : Nat,
    ([x0,x1,x2,x3,x4,x5,x6,x7,0] : State).Perm (List.range 9) →
    is_solvable ([x0,x1,x2,x3,x4,x5,x6,x7,0] : State) = true →
    ([x0,x1,x2,x3,x4,x5,x6,x7,0] : State).indexOf 0 = 8 →
    Reachable ([x0,x1,x2,x3,x4,x5,x6,x7,0] : State) goal_state := by
  intro x0 x1 x2 x3 x4 x5 x6 x7 hp hs hidx
  have hmt : (1 : Nat) ∈ ([x0,x1,x2,x3,x4,x5,x6,x7,0] : State) := hp.mem_iff.mpr (by decide)
  simp only [List.mem_cons, List.not_mem_nil, or_false] at hmt
  rcases hmt with hhmt | hhmt | hhmt | hhmt | hhmt | hhmt | hhmt | hhmt | hhmt
  · subst hhmt
    exact c1_stage1 x1 x2 x3 x4 x5 x6 x7 hp hs hidx
  · subst hhmt
    have m4_0 := mem_move_up ([x0,1,x2,x3,x4,x5,x6,x7,0] : State) hp 8 hidx (by decide)
    have hp4_0 : ([x0,1,x2,x3,x4,0,x6,x7,x5] : State).Perm (List.range 9) := m4_0.2.1
    have hidx4_0 : ([x0,1,x2,x3,x4,0,x6,x7,x5] : State).indexOf 0 = 5 := m4_0.2.2.1
    have hsol4_0 : is_solvable ([x0,1,x2,x3,x4,0,x6,x7,x5] : State) = is_solvable ([x0,1,x2,x3,x4,x5,x6,x7,0] : State) := m4_0.2.2.2
    have m4_1 := mem_move_left ([x0,1,x2,x3,x4,0,x6,x7,x5] : State) hp4_0 5 hidx4_0 (by decide) (by decide)
    have hp4_1 : ([x0,1,x2,x3,0,x4,x6,x7,x5] : State).Perm (List.range 9) := m4_1.2.1
    have hidx4_1 : ([x0,1,x2,x3,0,x4,x6,x7,x5] : State).indexOf 0 = 4 := m4_1.2.2.1
    have hsol4_1 : is_solvable ([x0,1,x2,x3,0,x4,x6,x7,x5] : State) = is_solvable ([x0,1,x2,x3,x4,0,x6,x7,x5] : State) := m4_1.2.2.2
    have m4_2 := mem_move_left ([x0,1,x2,x3,0,x4,x6,x7,x5] : State) hp4_1 4 hidx4_1 (by decide) (by decide)
    have hp4_2 : ([x0,1,x2,0,x3,x4,x6,x7,x5] : State).Perm (List.range 9) := m4_2.2.1
    have hidx4_2 : ([x0,1,x2,0,x3,x4,x6,x7,x5] : State).indexOf 0 = 3 := m4_2.2.2.1
    have hsol4_2 : is_solvable ([x0,1,x2,0,x3,x4,x6,x7,x5] : State) = is_solvable ([x0,1,x2,x3,0,x4,x6,x7,x5] : State) := m4_2.2.2.2
    have m4_3 := mem_move_up ([x0,1,x2,0,x3,x4,x6,x7,x5] : State) hp4_2 3 hidx4_2 (by decide)
    have hp4_3 : ([0,1,x2,x0,x3,x4,x6,x7,x5] : State).Perm (List.range 9) := m4_3.2.1
    have hidx4_3 : ([0,1,x2,x0,x3,x4,x6,x7,x5] : State).indexOf 0 = 0 := m4_3.2.2.1
    have hsol4_3 : is_solvable ([0,1,x2,x0,x3,x4,x6,x7,x5] : State) = is_solvable ([x0,1,x2,0,x3,x4,x6,x7,x5] : State) := m4_3.2.2.2
    have m4_4 := mem_move_right ([0,1,x2,x0,x3,x4,x6,x7,x5] : State) hp4_3 0 hidx4_3 (by decide) (by decide)
    have hp4_4 : ([1,0,x2,x0,x3,x4,x6,x7,x5] : State).Perm (List.range 9) := m4_4.2.1
    have hidx4_4 : ([1,0,x2,x0,x3,x4,x6,x7,x5] : State).indexOf 0 = 1 := m4_4.2.2.1
    have hsol4_4 : is_solvable ([1,0,x2,x0,x3,x4,x6,x7,x5] : State) = is_solvable ([0,1,x2,x0,x3,x4,x6,x7,x5] : State) := m4_4.2.2.2
    have m4_5 := mem_move_down ([1,0,x2,x0,x3,x4,x6,x7,x5] : State) hp4_4 1 hidx4_4 (by decide)
    have hp4_5 : ([1,x3,x2,x0,0,x4,x6,x7,x5] : State).Perm (List.range 9) := m4_5.2.1
    have hidx4_5 : ([1,x3,x2,x0,0,x4,x6,x7,x5] : State).indexOf 0 = 4 := m4_5.2.2.1
    have hsol4_5 : is_solvable ([1,x3,x2,x0,0,x4,x6,x7,x5] : State) = is_solvable ([1,0,x2,x0,x3,x4,x6,x7,x5] : State) := m4_5.2.2.2
    have m4_6 := mem_move_down ([1,x3,x2,x0,0,x4,x6,x7,x5] : State) hp4_5 4 hidx4_5 (by decide)
    have hp4_6 : ([1,x3,x2,x0,x7,x4,x6,0,x5] : State).Perm (List.range 9) := m4_6.2.1
    have hidx4_6 : ([1,x3,x2,x0,x7,x4,x6,0,x5] : State).indexOf 0 = 7 := m4_6.2.2.1
    have hsol4_6 : is_solvable ([1,x3,x2,x0,x7,x4,x6,0,x5] : State) = is_solvable ([1,x3,x2,x0,0,x4,x6,x7,x5] : State) := m4_6.2.2.2
    have m4_7 := mem_move_right ([1,x3,x2,x0,x7,x4,x6,0,x5] : State) hp4_6 7 hidx4_6 (by decide) (by decide)
    have hp4_7 : ([1,x3,x2,x0,x7,x4,x6,x5,0] : State).Perm (List.range 9) := m4_7.2.1
    have hidx4_7 : ([1,x3,x2,x0,x7,x4,x6,x5,0] : State).indexOf 0 = 8 := m4_7.2.2.1
    have hsol4_7 : is_solvable ([1,x3,x2,x0,x7,x4,x6,x5,0] : State) = is_solvable ([1,x3,x2,x0,x7,x4,x6,0,x5] : State) := m4_7.2.2.2
    have hsF4 : is_solvable ([1,x3,x2,x0,x7,x4,x6,x5,0] : State) = true := by
      rw [hsol4_7, hsol4_6, hsol4_5, hsol4_4, hsol4_3, hsol4_2, hsol4_1, hsol4_0]
      exact hs
    exact Reachable_trans (reach_step _ _ _ m4_0.1) (Reachable_trans (reach_step _ _ _ m4_1.1) (Reachable_trans (reach_step _ _ _ m4_2.1) (Reachable_trans (reach_step _ _ _ m4_3.1) (Reachable_trans (reach_step _ _ _ m4_4.1) (Reachable_trans (reach_step _ _ _ m4_5.1) (Reachable_trans (reach_step _ _ _ m4_6.1) (Reachable_trans (reach_step _ _ _ m4_7.1) (c1_stage1 x3 x2 x0 x7 x4 x6 x5 hp4_7 hsF4 hidx4_7))))))))
  · subst hhmt
    have m5_0 := mem_move_up ([x0,x1,1,x3,x4,x5,x6,x7,0] : State) hp 8 hidx (by decide)
    have hp5_0 : ([x0,x1,1,x3,x4,0,x6,x7,x5] : State).Perm (List.range 9) := m5_0.2.1
    have hidx5_0 : ([x0,x1,1,x3,x4,0,x6,x7,x5] : State).indexOf 0 = 5 := m5_0.2.2.1
    have hsol5_0 : is_solvable ([x0,x1,1,x3,x4,0,x6,x7,x5] : State) = is_solvable ([x0,x1,1,x3,x4,x5,x6,x7,0] : State) := m5_0.2.2.2
    have m5_1 := mem_move_left ([x0,x1,1,x3,x4,0,x6,x7,x5] : State) hp5_0 5 hidx5_0 (by decide) (by decide)
    have hp5_1 : ([x0,x1,1,x3,0,x4,x6,x7,x5] : State).Perm (List.range 9) := m5_1.2.1
    have hidx5_1 : ([x0,x1,1,x3,0,x4,x6,x7,x5] : State).indexOf 0 = 4 := m5_1.2.2.1
    have hsol5_1 : is_solvable ([x0,x1,1,x3,0,x4,x6,x7,x5] : State) = is_solvable ([x0,x1,1,x3,x4,0,x6,x7,x5] : State) := m5_1.2.2.2
    have m5_2 := mem_move_up ([x0,x1,1,x3,0,x4,x6,x7,x5] : State) hp5_1 4 hidx5_1 (by decide)
    have hp5_2 : ([x0,0,1,x3,x1,x4,x6,x7,x5] : State).Perm (List.range 9) := m5_2.2.1
    have hidx5_2 : ([x0,0,1,x3,x1,x4,x6,x7,x5] : State).indexOf 0 = 1 := m5_2.2.2.1
    have hsol5_2 : is_solvable ([x0,0,1,x3,x1,x4,x6,x7,x5] : State) = is_solvable ([x0,x1,1,x3,0,x4,x6,x7,x5] : State) := m5_2.2.2.2
    have m5_3 := mem_move_right ([x0,0,1,x3,x1,x4,x6,x7,x5] : State) hp5_2 1 hidx5_2 (by decide) (by decide)
    have hp5_3 : ([x0,1,0,x3,x1,x4,x6,x7,x5] : State).Perm (List.range 9) := m5_3.2.1
    have hidx5_3 : ([x0,1,0,x3,x1,x4,x6,x7,x5] : State).indexOf 0 = 2 := m5_3.2.2.1
    have hsol5_3 : is_solvable ([x0,1,0,x3,x1,x4,x6,x7,x5] : State) = is_solvable ([x0,0,1,x3,x1,x4,x6,x7,x5] : State) := m5_3.2.2.2
    have m5_4 := mem_move_down ([x0,1,0,x3,x1,x4,x6,x7,x5] : State) hp5_3 2 hidx5_3 (by decide)
    have hp5_4 : ([x0,1,x4,x3,x1,0,x6,x7,x5] : State).Perm (List.range 9) := m5_4.2.1
    have hidx5_4 : ([x0,1,x4,x3,x1,0,x6,x7,x5] : State).indexOf 0 = 5 := m5_4.2.2.1
    have hsol5_4 : is_solvable ([x0,1,x4,x3,x1,0,x6,x7,x5] : State) = is_solvable ([x0,1,0,x3,x1,x4,x6,x7,x5] : State) := m5_4.2.2.2
    have m5_5 := mem_move_left ([x0,1,x4,x3,x1,0,x6,x7,x5] : State) hp5_4 5 hidx5_4 (by decide) (by decide)
    have hp5_5 : ([x0,1,x4,x3,0,x1,x6,x7,x5] : State).Perm (List.range 9) := m5_5.2.1
    have hidx5_5 : ([x0,1,x4,x3,0,x1,x6,x7,x5] : State).indexOf 0 = 4 := m5_5.2.2.1
    have hsol5_5 : is_solvable ([x0,1,x4,x3,0,x1,x6,x7,x5] : State) = is_solvable ([x0,1,x4,x3,x1,0,x6,x7,x5] : State) := m5_5.2.2.2
    have m5_6 := mem_move_left ([x0,1,x4,x3,0,x1,x6,x7,x5] : State) hp5_5 4 hidx5_5 (by decide) (by decide)
    have hp5_6 : ([x0,1,x4,0,x3,x1,x6,x7,x5] : State).Perm (List.range 9) := m5_6.2.1
    have hidx5_6 : ([x0,1,x4,0,x3,x1,x6,x7,x5] : State).indexOf 0 = 3 := m5_6.2.2.1
    have hsol5_6 : is_solvable ([x0,1,x4,0,x3,x1,x6,x7,x5] : State) = is_solvable ([x0,1,x4,x3,0,x1,x6,x7,x5] : State) := m5_6.2.2.2
    have m5_7 := mem_move_up ([x0,1,x4,0,x3,x1,x6,x7,x5] : State) hp5_6 3 hidx5_6 (by decide)
    have hp5_7 : ([0,1,x4,x0,x3,x1,x6,x7,x5] : State).Perm (List.range 9) := m5_7.2.1
    have hidx5_7 : ([0,1,x4,x0,x3,x1,x6,x7,x5] : State).indexOf 0 = 0 := m5_7.2.2.1
    have hsol5_7 : is_solvable ([0,1,x4,x0,x3,x1,x6,x7,x5] : State) = is_solvable ([x0,1,x4,0,x3,x1,x6,x7,x5] : State) := m5_7.2.2.2
    have m5_8 := mem_move_right ([0,1,x4,x0,x3,x1,x6,x7,x5] : State) hp5_7 0 hidx5_7 (by decide) (by decide)
    have hp5_8 : ([1,0,x4,x0,x3,x1,x6,x7,x5] : State).Perm (List.range 9) := m5_8.2.1
    have hidx5_8 : ([1,0,x4,x0,x3,x1,x6,x7,x5] : State).indexOf 0 = 1 := m5_8.2.2.1
    have hsol5_8 : is_solvable ([1,0,x4,x0,x3,x1,x6,x7,x5] : State) = is_solvable ([0,1,x4,x0,x3,x1,x6,x7,x5] : State) := m5_8.2.2.2
    have m5_9 := mem_move_down ([1,0,x4,x0,x3,x1,x6,x7,x5] : State) hp5_8 1 hidx5_8 (by decide)
    have hp5_9 : ([1,x3,x4,x0,0,x1,x6,x7,x5] : State).Perm (List.range 9) := m5_9.2.1
    have hidx5_9 : ([1,x3,x4,x0,0,x1,x6,x7,x5] : State).indexOf 0 = 4 := m5_9.2.2.1
    have hsol5_9 : is_solvable ([1,x3,x4,x0,0,x1,x6,x7,x5] : State) = is_solvable ([1,0,x4,x0,x3,x1,x6,x7,x5] : State) := m5_9.2.2.2
    have m5_10 := mem_move_down ([1,x3,x4,x0,0,x1,x6,x7,x5] : State) hp5_9 4 hidx5_9 (by decide)
    have hp5_10 : ([1,x3,x4,x0,x7,x1,x6,0,x5] : State).Perm (List.range 9) := m5_10.2.1
    have hidx5_10 : ([1,x3,x4,x0,x7,x1,x6,0,x5] : State).indexOf 0 = 7 := m5_10.2.2.1
    have hsol5_10 : is_solvable ([1,x3,x4,x0,x7,x1,x6,0,x5] : State) = is_solvable ([1,x3,x4,x0,0,x1,x6,x7,x5] : State) := m5_10.2.2.2
    have m5_11 := mem_move_right ([1,x3,x4,x0,x7,x1,x6,0,x5] : State) hp5_10 7 hidx5_10 (by decide) (by decide)
    have hp5_11 : ([1,x3,x4,x0,x7,x1,x6,x5,0] : State).Perm (List.range 9) := m5_11.2.1
    have hidx5_11 : ([1,x3,x4,x0,x7,x1,x6,x5,0] : State).indexOf 0 = 8 := m5_11.2.2.1
    have hsol5_11 : is_solvable ([1,x3,x4,x0,x7,x1,x6,x5,0] : State) = is_solvable ([1,x3,x4,x0,x7,x1,x6,0,x5] : State) := m5_11.2.2.2
    have hsF5 : is_solvable ([1,x3,x4,x0,x7,x1,x6,x5,0] : State) = true := by
      rw [hsol5_11, hsol5_10, hsol5_9, hsol5_8, hsol5_7, hsol5_6, hsol5_5, hsol5_4, hsol5_3, hsol5_2, hsol5_1, hsol5_0]
      exact hs
    exact Reachable_trans (reach_step _ _ _ m5_0.1) (Reachable_trans (reach_step _ _ _ m5_1.1) (Reachable_trans (reach_step _ _ _ m5_2.1) (Reachable_trans (reach_step _ _ _ m5_3.1) (Reachable_trans (reach_step _ _ _ m5_4.1) (Reachable_trans (reach_step _ _ _ m5_5.1) (Reachable_trans (reach_step _ _ _ m5_6.1) (Reachable_trans (reach_step _ _ _ m5_7.1) (Reachable_trans (reach_step _ _ _ m5_8.1) (Reachable_trans (reach_step _ _ _ m5_9.1) (Reachable_trans (reach_step _ _ _ m5_10.1) (Reachable_trans (reach_step _ _ _ m5_11.1) (c1_stage1 x3 x4 x0 x7 x1 x6 x5 hp5_11 hsF5 hidx5_11))))))))))))
  · subst hhmt
    have m6_0 := mem_move_up ([x0,x1,x2,1,x4,x5,x6,x7,0] : State) hp 8 hidx (by decide)
    have hp6_0 : ([x0,x1,x2,1,x4,0,x6,x7,x5] : State).Perm (List.range 9) := m6_0.2.1
    have hidx6_0 : ([x0,x1,x2,1,x4,0,x6,x7,x5] : State).indexOf 0 = 5 := m6_0.2.2.1
    have hsol6_0 : is_solvable ([x0,x1,x2,1,x4,0,x6,x7,x5] : State) = is_solvable ([x0,x1,x2,1,x4,x5,x6,x7,0] : State) := m6_0.2.2.2
    have m6_1 := mem_move_up ([x0,x1,x2,1,x4,0,x6,x7,x5] : State) hp6_0 5 hidx6_0 (by decide)
    have hp6_1 : ([x0,x1,0,1,x4,x2,x6,x7,x5] : State).Perm (List.range 9) := m6_1.2.1
    have hidx6_1 : ([x0,x1,0,1,x4,x2,x6,x7,x5] : State).indexOf 0 = 2 := m6_1.2.2.1
    have hsol6_1 : is_solvable ([x0,x1,0,1,x4,x2,x6,x7,x5] : State) = is_solvable ([x0,x1,x2,1,x4,0,x6,x7,x5] : State) := m6_1.2.2.2
    have m6_2 := mem_move_left ([x0,x1,0,1,x4,x2,x6,x7,x5] : State) hp6_1 2 hidx6_1 (by decide) (by decide)
    have hp6_2 : ([x0,0,x1,1,x4,x2,x6,x7,x5] : State).Perm (List.range 9) := m6_2.2.1
    have hidx6_2 : ([x0,0,x1,1,x4,x2,x6,x7,x5] : State).indexOf 0 = 1 := m6_2.2.2.1
    have hsol6_2 : is_solvable ([x0,0,x1,1,x4,x2,x6,x7,x5] : State) = is_solvable ([x0,x1,0,1,x4,x2,x6,x7,x5] : State) := m6_2.2.2.2
    have m6_3 := mem_move_left ([x0,0,x1,1,x4,x2,x6,x7,x5] : State) hp6_2 1 hidx6_2 (by decide) (by decide)
    have hp6_3 : ([0,x0,x1,1,x4,x2,x6,x7,x5] : State).Perm (List.range 9) := m6_3.2.1
    have hidx6_3 : ([0,x0,x1,1,x4,x2,x6,x7,x5] : State).indexOf 0 = 0 := m6_3.2.2.1
    have hsol6_3 : is_solvable ([0,x0,x1,1,x4,x2,x6,x7,x5] : State) = is_solvable ([x0,0,x1,1,x4,x2,x6,x7,x5] : State) := m6_3.2.2.2
    have m6_4 := mem_move_down ([0,x0,x1,1,x4,x2,x6,x7,x5] : State) hp6_3 0 hidx6_3 (by decide)
    have hp6_4 : ([1,x0,x1,0,x4,x2,x6,x7,x5] : State).Perm (List.range 9) := m6_4.2.1
    have hidx6_4 : ([1,x0,x1,0,x4,x2,x6,x7,x5] : State).indexOf 0 = 3 := m6_4.2.2.1
    have hsol6_4 : is_solvable ([1,x0,x1,0,x4,x2,x6,x7,x5] : State) = is_solvable ([0,x0,x1,1,x4,x2,x6,x7,x5] : State) := m6_4.2.2.2
    have m6_5 := mem_move_down ([1,x0,x1,0,x4,x2,x6,x7,x5] : State) hp6_4 3 hidx6_4 (by decide)
    have hp6_5 : ([1,x0,x1,x6,x4,x2,0,x7,x5] : State).Perm (List.range 9) := m6_5.2.1
    have hidx6_5 : ([1,x0,x1,x6,x4,x2,0,x7,x5] : State).indexOf 0 = 6 := m6_5.2.2.1
    have hsol6_5 : is_solvable ([1,x0,x1,x6,x4,x2,0,x7,x5] : State) = is_solvable ([1,x0,x1,0,x4,x2,x6,x7,x5] : State) := m6_5.2.2.2
    have m6_6 := mem_move_right ([1,x0,x1,x6,x4,x2,0,x7,x5] : State) hp6_5 6 hidx6_5 (by decide) (by decide)
    have hp6_6 : ([1,x0,x1,x6,x4,x2,x7,0,x5] : State).Perm (List.range 9) := m6_6.2.1
    have hidx6_6 : ([1,x0,x1,x6,x4,x2,x7,0,x5] : State).indexOf 0 = 7 := m6_6.2.2.1
    have hsol6_6 : is_solvable ([1,x0,x1,x6,x4,x2,x7,0,x5] : State) = is_solvable ([1,x0,x1,x6,x4,x2,0,x7,x5] : State) := m6_6.2.2.2
    have m6_7 := mem_move_right ([1,x0,x1,x6,x4,x2,x7,0,x5] : State) hp6_6 7 hidx6_6 (by decide) (by decide)
    have hp6_7 : ([1,x0,x1,x6,x4,x2,x7,x5,0] : State).Perm (List.range 9) := m6_7.2.1
    have hidx6_7 : ([1,x0,x1,x6,x4,x2,x7,x5,0] : State).indexOf 0 = 8 := m6_7.2.2.1
    have hsol6_7 : is_solvable ([1,x0,x1,x6,x4,x2,x7,x5,0] : State) = is_solvable ([1,x0,x1,x6,x4,x2,x7,0,x5] : State) := m6_7.2.2.2
    have hsF6 : is_solvable ([1,x0,x1,x6,x4,x2,x7,x5,0] : State) = true := by
      rw [hsol6_7, hsol6_6, hsol6_5, hsol6_4, hsol6_3, hsol6_2, hsol6_1, hsol6_0]
      exact hs
    exact Reachable_trans (reach_step _ _ _ m6_0.1) (Reachable_trans (reach_step _ _ _ m6_1.1) (Reachable_trans (reach_step _ _ _ m6_2.1) (Reachable_trans (reach_step _ _ _ m6_3.1) (Reachable_trans (reach_step _ _ _ m6_4.1) (Reachable_trans (reach_step _ _ _ m6_5.1) (Reachable_trans (reach_step _ _ _ m6_6.1) (Reachable_trans (reach_step _ _ _ m6_7.1) (c1_stage1 x0 x1 x6 x4 x2 x7 x5 hp6_7 hsF6 hidx6_7))))))))
  · subst hhmt
    have m7_0 := mem_move_up ([x0,x1,x2,x3,1,x5,x6,x7,0] : State) hp 8 hidx (by decide)
    have hp7_0 : ([x0,x1,x2,x3,1,0,x6,x7,x5] : State).Perm (List.range 9) := m7_0.2.1
    have hidx7_0 : ([x0,x1,x2,x3,1,0,x6,x7,x5] : State).indexOf 0 = 5 := m7_0.2.2.1
    have hsol7_0 : is_solvable ([x0,x1,x2,x3,1,0,x6,x7,x5] : State) = is_solvable ([x0,x1,x2,x3,1,x5,x6,x7,0] : State) := m7_0.2.2.2
    have m7_1 := mem_move_up ([x0,x1,x2,x3,1,0,x6,x7,x5] : State) hp7_0 5 hidx7_0 (by decide)
    have hp7_1 : ([x0,x1,0,x3,1,x2,x6,x7,x5] : State).Perm (List.range 9) := m7_1.2.1
    have hidx7_1 : ([x0,x1,0,x3,1,x2,x6,x7,x5] : State).indexOf 0 = 2 := m7_1.2.2.1
    have hsol7_1 : is_solvable ([x0,x1,0,x3,1,x2,x6,x7,x5] : State) = is_solvable ([x0,x1,x2,x3,1,0,x6,x7,x5] : State) := m7_1.2.2.2
    have m7_2 := mem_move_left ([x0,x1,0,x3,1,x2,x6,x7,x5] : State) hp7_1 2 hidx7_1 (by decide) (by decide)
    have hp7_2 : ([x0,0,x1,x3,1,x2,x6,x7,x5] : State).Perm (List.range 9) := m7_2.2.1
    have hidx7_2 : ([x0,0,x1,x3,1,x2,x6,x7,x5] : State).indexOf 0 = 1 := m7_2.2.2.1
    have hsol7_2 : is_solvable ([x0,0,x1,x3,1,x2,x6,x7,x5] : State) = is_solvable ([x0,x1,0,x3,1,x2,x6,x7,x5] : State) := m7_2.2.2.2
    have m7_3 := mem_move_down ([x0,0,x1,x3,1,x2,x6,x7,x5] : State) hp7_2 1 hidx7_2 (by decide)
    have hp7_3 : ([x0,1,x1,x3,0,x2,x6,x7,x5] : State).Perm (List.range 9) := m7_3.2.1
    have hidx7_3 : ([x0,1,x1,x3,0,x2,x6,x7,x5] : State).indexOf 0 = 4 := m7_3.2.2.1
    have hsol7_3 : is_solvable ([x0,1,x1,x3,0,x2,x6,x7,x5] : State) = is_solvable ([x0,0,x1,x3,1,x2,x6,x7,x5] : State) := m7_3.2.2.2
    have m7_4 := mem_move_left ([x0,1,x1,x3,0,x2,x6,x7,x5] : State) hp7_3 4 hidx7_3 (by decide) (by decide)
    have hp7_4 : ([x0,1,x1,0,x3,x2,x6,x7,x5] : State).Perm (List.range 9) := m7_4.2.1
    have hidx7_4 : ([x0,1,x1,0,x3,x2,x6,x7,x5] : State).indexOf 0 = 3 := m7_4.2.2.1
    have hsol7_4 : is_solvable ([x0,1,x1,0,x3,x2,x6,x7,x5] : State) = is_solvable ([x0,1,x1,x3,0,x2,x6,x7,x5] : State) := m7_4.2.2.2
    have m7_5 := mem_move_up ([x0,1,x1,0,x3,x2,x6,x7,x5] : State) hp7_4 3 hidx7_4 (by decide)
    have hp7_5 : ([0,1,x1,x0,x3,x2,x6,x7,x5] : State).Perm (List.range 9) := m7_5.2.1
    have hidx7_5 : ([0,1,x1,x0,x3,x2,x6,x7,x5] : State).indexOf 0 = 0 := m7_5.2.2.1
    have hsol7_5 : is_solvable ([0,1,x1,x0,x3,x2,x6,x7,x5] : State) = is_solvable ([x0,1,x1,0,x3,x2,x6,x7,x5] : State) := m7_5.2.2.2
    have m7_6 := mem_move_right ([0,1,x1,x0,x3,x2,x6,x7,x5] : State) hp7_5 0 hidx7_5 (by decide) (by decide)
    have hp7_6 : ([1,0,x1,x0,x3,x2,x6,x7,x5] : State).Perm (List.range 9) := m7_6.2.1
    have hidx7_6 : ([1,0,x1,x0,x3,x2,x6,x7,x5] : State).indexOf 0 = 1 := m7_6.2.2.1
    have hsol7_6 : is_solvable ([1,0,x1,x0,x3,x2,x6,x7,x5] : State) = is_solvable ([0,1,x1,x0,x3,x2,x6,x7,x5] : State) := m7_6.2.2.2
    have m7_7 := mem_move_down ([1,0,x1,x0,x3,x2,x6,x7,x5] : State) hp7_6 1 hidx7_6 (by decide)
    have hp7_7 : ([1,x3,x1,x0,0,x2,x6,x7,x5] : State).Perm (List.range 9) := m7_7.2.1
    have hidx7_7 : ([1,x3,x1,x0,0,x2,x6,x7,x5] : State).indexOf 0 = 4 := m7_7.2.2.1
    have hsol7_7 : is_solvable ([1,x3,x1,x0,0,x2,x6,x7,x5] : State) = is_solvable ([1,0,x1,x0,x3,x2,x6,x7,x5] : State) := m7_7.2.2.2
    have m7_8 := mem_move_down ([1,x3,x1,x0,0,x2,x6,x7,x5] : State) hp7_7 4 hidx7_7 (by decide)
    have hp7_8 : ([1,x3,x1,x0,x7,x2,x6,0,x5] : State).Perm (List.range 9) := m7_8.2.1
    have hidx7_8 : ([1,x3,x1,x0,x7,x2,x6,0,x5] : State).indexOf 0 = 7 := m7_8.2.2.1
    have hsol7_8 : is_solvable ([1,x3,x1,x0,x7,x2,x6,0,x5] : State) = is_solvable ([1,x3,x1,x0,0,x2,x6,x7,x5] : State) := m7_8.2.2.2
    have m7_9 := mem_move_right ([1,x3,x1,x0,x7,x2,x6,0,x5] : State) hp7_8 7 hidx7_8 (by decide) (by decide)
    have hp7_9 : ([1,x3,x1,x0,x7,x2,x6,x5,0] : State).Perm (List.range 9) := m7_9.2.1
    have hidx7_9 : ([1,x3,x1,x0,x7,x2,x6,x5,0] : State).indexOf 0 = 8 := m7_9.2.2.1
    have hsol7_9 : is_solvable ([1,x3,x1,x0,x7,x2,x6,x5,0] : State) = is_solvable ([1,x3,x1,x0,x7,x2,x6,0,x5] : State) := m7_9.2.2.2
    have hsF7 : is_solvable ([1,x3,x1,x0,x7,x2,x6,x5,0] : State) = true := by
      rw [hsol7_9, hsol7_8, hsol7_7, hsol7_6, hsol7_5, hsol7_4, hsol7_3, hsol7_2, hsol7_1, hsol7_0]
      exact hs
    exact Reachable_trans (reach_step _ _ _ m7_0.1) (Reachable_trans (reach_step _ _ _ m7_1.1) (Reachable_trans (reach_step _ _ _ m7_2.1) (Reachable_trans (reach_step _ _ _ m7_3.1) (Reachable_trans (reach_step _ _ _ m7_4.1) (Reachable_trans (reach_step _ _ _ m7_5.1) (Reachable_trans (reach_step _ _ _ m7_6.1) (Reachable_trans (reach_step _ _ _ m7_7.1) (Reachable_trans (reach_step _ _ _ m7_8.1) (Reachable_trans (reach_step _ _ _ m7_9.1) (c1_stage1 x3 x1 x0 x7 x2 x6 x5 hp7_9 hsF7 hidx7_9))))))))))
  · subst hhmt
    have m8_0 := mem_move_left ([x0,x1,x2,x3,x4,1,x6,x7,0] : State) hp 8 hidx (by decide) (by decide)
    have hp8_0 : ([x0,x1,x2,x3,x4,1,x6,0,x7] : State).Perm (List.range 9) := m8_0.2.1
    have hidx8_0 : ([x0,x1,x2,x3,x4,1,x6,0,x7] : State).indexOf 0 = 7 := m8_0.2.2.1
    have hsol8_0 : is_solvable ([x0,x1,x2,x3,x4,1,x6,0,x7] : State) = is_solvable ([x0,x1,x2,x3,x4,1,x6,x7,0] : State) := m8_0.2.2.2
    have m8_1 := mem_move_up ([x0,x1,x2,x3,x4,1,x6,0,x7] : State) hp8_0 7 hidx8_0 (by decide)
    have hp8_1 : ([x0,x1,x2,x3,0,1,x6,x4,x7] : State).Perm (List.range 9) := m8_1.2.1
    have hidx8_1 : ([x0,x1,x2,x3,0,1,x6,x4,x7] : State).indexOf 0 = 4 := m8_1.2.2.1
    have hsol8_1 : is_solvable ([x0,x1,x2,x3,0,1,x6,x4,x7] : State) = is_solvable ([x0,x1,x2,x3,x4,1,x6,0,x7] : State) := m8_1.2.2.2
    have m8_2 := mem_move_right ([x0,x1,x2,x3,0,1,x6,x4,x7] : State) hp8_1 4 hidx8_1 (by decide) (by decide)
    have hp8_2 : ([x0,x1,x2,x3,1,0,x6,x4,x7] : State).Perm (List.range 9) := m8_2.2.1
    have hidx8_2 : ([x0,x1,x2,x3,1,0,x6,x4,x7] : State).indexOf 0 = 5 := m8_2.2.2.1
    have hsol8_2 : is_solvable ([x0,x1,x2,x3,1,0,x6,x4,x7] : State) = is_solvable ([x0,x1,x2,x3,0,1,x6,x4,x7] : State) := m8_2.2.2.2
    have m8_3 := mem_move_up ([x0,x1,x2,x3,1,0,x6,x4,x7] : State) hp8_2 5 hidx8_2 (by decide)
    have hp8_3 : ([x0,x1,0,x3,1,x2,x6,x4,x7] : State).Perm (List.range 9) := m8_3.2.1
    have hidx8_3 : ([x0,x1,0,x3,1,x2,x6,x4,x7] : State).indexOf 0 = 2 := m8_3.2.2.1
    have hsol8_3 : is_solvable ([x0,x1,0,x3,1,x2,x6,x4,x7] : State) = is_solvable ([x0,x1,x2,x3,1,0,x6,x4,x7] : State) := m8_3.2.2.2
    have m8_4 := mem_move_left ([x0,x1,0,x3,1,x2,x6,x4,x7] : State) hp8_3 2 hidx8_3 (by decide) (by decide)
    have hp8_4 : ([x0,0,x1,x3,1,x2,x6,x4,x7] : State).Perm (List.range 9) := m8_4.2.1
    have hidx8_4 : ([x0,0,x1,x3,1,x2,x6,x4,x7] : State).indexOf 0 = 1 := m8_4.2.2.1
    have hsol8_4 : is_solvable ([x0,0,x1,x3,1,x2,x6,x4,x7] : State) = is_solvable ([x0,x1,0,x3,1,x2,x6,x4,x7] : State) := m8_4.2.2.2
    have m8_5 := mem_move_down ([x0,0,x1,x3,1,x2,x6,x4,x7] : State) hp8_4 1 hidx8_4 (by decide)
    have hp8_5 : ([x0,1,x1,x3,0,x2,x6,x4,x7] : State).Perm (List.range 9) := m8_5.2.1
    have hidx8_5 : ([x0,1,x1,x3,0,x2,x6,x4,x7] : State).indexOf 0 = 4 := m8_5.2.2.1
    have hsol8_5 : is_solvable ([x0,1,x1,x3,0,x2,x6,x4,x7] : State) = is_solvable ([x0,0,x1,x3,1,x2,x6,x4,x7] : State) := m8_5.2.2.2
    have m8_6 := mem_move_left ([x0,1,x1,x3,0,x2,x6,x4,x7] : State) hp8_5 4 hidx8_5 (by decide) (by decide)
    have hp8_6 : ([x0,1,x1,0,x3,x2,x6,x4,x7] : State).Perm (List.range 9) := m8_6.2.1
    have hidx8_6 : ([x0,1,x1,0,x3,x2,x6,x4,x7] : State).indexOf 0 = 3 := m8_6.2.2.1
    have hsol8_6 : is_solvable ([x0,1,x1,0,x3,x2,x6,x4,x7] : State) = is_solvable ([x0,1,x1,x3,0,x2,x6,x4,x7] : State) := m8_6.2.2.2
    have m8_7 := mem_move_up ([x0,1,x1,0,x3,x2,x6,x4,x7] : State) hp8_6 3 hidx8_6 (by decide)
    have hp8_7 : ([0,1,x1,x0,x3,x2,x6,x4,x7] : State).Perm (List.range 9) := m8_7.2.1
    have hidx8_7 : ([0,1,x1,x0,x3,x2,x6,x4,x7] : State).indexOf 0 = 0 := m8_7.2.2.1
    have hsol8_7 : is_solvable ([0,1,x1,x0,x3,x2,x6,x4,x7] : State) = is_solvable ([x0,1,x1,0,x3,x2,x6,x4,x7] : State) := m8_7.2.2.2
    have m8_8 := mem_move_right ([0,1,x1,x0,x3,x2,x6,x4,x7] : State) hp8_7 0 hidx8_7 (by decide) (by decide)
    have hp8_8 : ([1,0,x1,x0,x3,x2,x6,x4,x7] : State).Perm (List.range 9) := m8_8.2.1
    have hidx8_8 : ([1,0,x1,x0,x3,x2,x6,x4,x7] : State).indexOf 0 = 1 := m8_8.2.2.1
    have hsol8_8 : is_solvable ([1,0,x1,x0,x3,x2,x6,x4,x7] : State) = is_solvable ([0,1,x1,x0,x3,x2,x6,x4,x7] : State) := m8_8.2.2.2
    have m8_9 := mem_move_down ([1,0,x1,x0,x3,x2,x6,x4,x7] : State) hp8_8 1 hidx8_8 (by decide)
    have hp8_9 : ([1,x3,x1,x0,0,x2,x6,x4,x7] : State).Perm (List.range 9) := m8_9.2.1
    have hidx8_9 : ([1,x3,x1,x0,0,x2,x6,x4,x7] : State).indexOf 0 = 4 := m8_9.2.2.1
    have hsol8_9 : is_solvable ([1,x3,x1,x0,0,x2,x6,x4,x7] : State) = is_solvable ([1,0,x1,x0,x3,x2,x6,x4,x7] : State) := m8_9.2.2.2
    have m8_10 := mem_move_down ([1,x3,x1,x0,0,x2,x6,x4,x7] : State) hp8_9 4 hidx8_9 (by decide)
    have hp8_10 : ([1,x3,x1,x0,x4,x2,x6,0,x7] : State).Perm (List.range 9) := m8_10.2.1
    have hidx8_10 : ([1,x3,x1,x0,x4,x2,x6,0,x7] : State).indexOf 0 = 7 := m8_10.2.2.1
    have hsol8_10 : is_solvable ([1,x3,x1,x0,x4,x2,x6,0,x7] : State) = is_solvable ([1,x3,x1,x0,0,x2,x6,x4,x7] : State) := m8_10.2.2.2
    have m8_11 := mem_move_right ([1,x3,x1,x0,x4,x2,x6,0,x7] : State) hp8_10 7 hidx8_10 (by decide) (by decide)
    have hp8_11 : ([1,x3,x1,x0,x4,x2,x6,x7,0] : State).Perm (List.range 9) := m8_11.2.1
    have hidx8_11 : ([1,x3,x1,x0,x4,x2,x6,x7,0] : State).indexOf 0 = 8 := m8_11.2.2.1
    have hsol8_11 : is_solvable ([1,x3,x1,x0,x4,x2,x6,x7,0] : State) = is_solvable ([1,x3,x1,x0,x4,x2,x6,0,x7] : State) := m8_11.2.2.2
    have hsF8 : is_solvable ([1,x3,x1,x0,x4,x2,x6,x7,0] : State) = true := by
      rw [hsol8_11, hsol8_10, hsol8_9, hsol8_8, hsol8_7, hsol8_6, hsol8_5, hsol8_4, hsol8_3, hsol8_2, hsol8_1, hsol8_0]
      exact hs
    exact Reachable_trans (reach_step _ _ _ m8_0.1) (Reachable_trans (reach_step _ _ _ m8_1.1) (Reachable_trans (reach_step _ _ _ m8_2.1) (Reachable_trans (reach_step _ _ _ m8_3.1) (Reachable_trans (reach_step _ _ _ m8_4.1) (Reachable_trans (reach_step _ _ _ m8_5.1) (Reachable_trans (reach_step _ _ _ m8_6.1) (Reachable_trans (reach_step _ _ _ m8_7.1) (Reachable_trans (reach_step _ _ _ m8_8.1) (Reachable_trans (reach_step _ _ _ m8_9.1) (Reachable_trans (reach_step _ _ _ m8_10.1) (Reachable_trans (reach_step _ _ _ m8_11.1) (c1_stage1 x3 x1 x0 x4 x2 x6 x7 hp8_11 hsF8 hidx8_11))))))))))))
  · subst hhmt
    have m9_0 := mem_move_up ([x0,x1,x2,x3,x4,x5,1,x7,0] : State) hp 8 hidx (by decide)
    have hp9_0 : ([x0,x1,x2,x3,x4,0,1,x7,x5] : State).Perm (List.range 9) := m9_0.2.1
    have hidx9_0 : ([x0,x1,x2,x3,x4,0,1,x7,x5] : State).indexOf 0 = 5 := m9_0.2.2.1
    have hsol9_0 : is_solvable ([x0,x1,x2,x3,x4,0,1,x7,x5] : State) = is_solvable ([x0,x1,x2,x3,x4,x5,1,x7,0] : State) := m9_0.2.2.2
    have m9_1 := mem_move_left ([x0,x1,x2,x3,x4,0,1,x7,x5] : State) hp9_0 5 hidx9_0 (by decide) (by decide)
    have hp9_1 : ([x0,x1,x2,x3,0,x4,1,x7,x5] : State).Perm (List.range 9) := m9_1.2.1
    have hidx9_1 : ([x0,x1,x2,x3,0,x4,1,x7,x5] : State).indexOf 0 = 4 := m9_1.2.2.1
    have hsol9_1 : is_solvable ([x0,x1,x2,x3,0,x4,1,x7,x5] : State) = is_solvable ([x0,x1,x2,x3,x4,0,1,x7,x5] : State) := m9_1.2.2.2
    have m9_2 := mem_move_left ([x0,x1,x2,x3,0,x4,1,x7,x5] : State) hp9_1 4 hidx9_1 (by decide) (by decide)
    have hp9_2 : ([x0,x1,x2,0,x3,x4,1,x7,x5] : State).Perm (List.range 9) := m9_2.2.1
    have hidx9_2 : ([x0,x1,x2,0,x3,x4,1,x7,x5] : State).indexOf 0 = 3 := m9_2.2.2.1
    have hsol9_2 : is_solvable ([x0,x1,x2,0,x3,x4,1,x7,x5] : State) = is_solvable ([x0,x1,x2,x3,0,x4,1,x7,x5] : State) := m9_2.2.2.2
    have m9_3 := mem_move_down ([x0,x1,x2,0,x3,x4,1,x7,x5] : State) hp9_2 3 hidx9_2 (by decide)
    have hp9_3 : ([x0,x1,x2,1,x3,x4,0,x7,x5] : State).Perm (List.range 9) := m9_3.2.1
    have hidx9_3 : ([x0,x1,x2,1,x3,x4,0,x7,x5] : State).indexOf 0 = 6 := m9_3.2.2.1
    have hsol9_3 : is_solvable ([x0,x1,x2,1,x3,x4,0,x7,x5] : State) = is_solvable ([x0,x1,x2,0,x3,x4,1,x7,x5] : State) := m9_3.2.2.2
    have m9_4 := mem_move_right ([x0,x1,x2,1,x3,x4,0,x7,x5] : State) hp9_3 6 hidx9_3 (by decide) (by decide)
    have hp9_4 : ([x0,x1,x2,1,x3,x4,x7,0,x5] : State).Perm (List.range 9) := m9_4.2.1
    have hidx9_4 : ([x0,x1,x2,1,x3,x4,x7,0,x5] : State).indexOf 0 = 7 := m9_4.2.2.1
    have hsol9_4 : is_solvable ([x0,x1,x2,1,x3,x4,x7,0,x5] : State) = is_solvable ([x0,x1,x2,1,x3,x4,0,x7,x5] : State) := m9_4.2.2.2
    have m9_5 := mem_move_up ([x0,x1,x2,1,x3,x4,x7,0,x5] : State) hp9_4 7 hidx9_4 (by decide)
    have hp9_5 : ([x0,x1,x2,1,0,x4,x7,x3,x5] : State).Perm (List.range 9) := m9_5.2.1
    have hidx9_5 : ([x0,x1,x2,1,0,x4,x7,x3,x5] : State).indexOf 0 = 4 := m9_5.2.2.1
    have hsol9_5 : is_solvable ([x0,x1,x2,1,0,x4,x7,x3,x5] : State) = is_solvable ([x0,x1,x2,1,x3,x4,x7,0,x5] : State) := m9_5.2.2.2
    have m9_6 := mem_move_up ([x0,x1,x2,1,0,x4,x7,x3,x5] : State) hp9_5 4 hidx9_5 (by decide)
    have hp9_6 : ([x0,0,x2,1,x1,x4,x7,x3,x5] : State).Perm (List.range 9) := m9_6.2.1
    have hidx9_6 : ([x0,0,x2,1,x1,x4,x7,x3,x5] : State).indexOf 0 = 1 := m9_6.2.2.1
    have hsol9_6 : is_solvable ([x0,0,x2,1,x1,x4,x7,x3,x5] : State) = is_solvable ([x0,x1,x2,1,0,x4,x7,x3,x5] : State) := m9_6.2.2.2
    have m9_7 := mem_move_left ([x0,0,x2,1,x1,x4,x7,x3,x5] : State) hp9_6 1 hidx9_6 (by decide) (by decide)
    have hp9_7 : ([0,x0,x2,1,x1,x4,x7,x3,x5] : State).Perm (List.range 9) := m9_7.2.1
    have hidx9_7 : ([0,x0,x2,1,x1,x4,x7,x3,x5] : State).indexOf 0 = 0 := m9_7.2.2.1
    have hsol9_7 : is_solvable ([0,x0,x2,1,x1,x4,x7,x3,x5] : State) = is_solvable ([x0,0,x2,1,x1,x4,x7,x3,x5] : State) := m9_7.2.2.2
    have m9_8 := mem_move_down ([0,x0,x2,1,x1,x4,x7,x3,x5] : State) hp9_7 0 hidx9_7 (by decide)
    have hp9_8 : ([1,x0,x2,0,x1,x4,x7,x3,x5] : State).Perm (List.range 9) := m9_8.2.1
    have hidx9_8 : ([1,x0,x2,0,x1,x4,x7,x3,x5] : State).indexOf 0 = 3 := m9_8.2.2.1
    have hsol9_8 : is_solvable ([1,x0,x2,0,x1,x4,x7,x3,x5] : State) = is_solvable ([0,x0,x2,1,x1,x4,x7,x3,x5] : State) := m9_8.2.2.2
    have m9_9 := mem_move_down ([1,x0,x2,0,x1,x4,x7,x3,x5] : State) hp9_8 3 hidx9_8 (by decide)
    have hp9_9 : ([1,x0,x2,x7,x1,x4,0,x3,x5] : State).Perm (List.range 9) := m9_9.2.1
    have hidx9_9 : ([1,x0,x2,x7,x1,x4,0,x3,x5] : State).indexOf 0 = 6 := m9_9.2.2.1
    have hsol9_9 : is_solvable ([1,x0,x2,x7,x1,x4,0,x3,x5] : State) = is_solvable ([1,x0,x2,0,x1,x4,x7,x3,x5] : State) := m9_9.2.2.2
    have m9_10 := mem_move_right ([1,x0,x2,x7,x1,x4,0,x3,x5] : State) hp9_9 6 hidx9_9 (by decide) (by decide)
    have hp9_10 : ([1,x0,x2,x7,x1,x4,x3,0,x5] : State).Perm (List.range 9) := m9_10.2.1
    have hidx9_10 : ([1,x0,x2,x7,x1,x4,x3,0,x5] : State).indexOf 0 = 7 := m9_10.2.2.1
    have hsol9_10 : is_solvable ([1,x0,x2,x7,x1,x4,x3,0,x5] : State) = is_solvable ([1,x0,x2,x7,x1,x4,0,x3,x5] : State) := m9_10.2.2.2
    have m9_11 := mem_move_right ([1,x0,x2,x7,x1,x4,x3,0,x5] : State) hp9_10 7 hidx9_10 (by decide) (by decide)
    have hp9_11 : ([1,x0,x2,x7,x1,x4,x3,x5,0] : State).Perm (List.range 9) := m9_11.2.1
    have hidx9_11 : ([1,x0,x2,x7,x1,x4,x3,x5,0] : State).indexOf 0 = 8 := m9_11.2.2.1
    have hsol9_11 : is_solvable ([1,x0,x2,x7,x1,x4,x3,x5,0] : State) = is_solvable ([1,x0,x2,x7,x1,x4,x3,0,x5] : State) := m9_11.2.2.2
    have hsF9 : is_solvable ([1,x0,x2,x7,x1,x4,x3,x5,0] : State) = true := by
      rw [hsol9_11, hsol9_10, hsol9_9, hsol9_8, hsol9_7, hsol9_6, hsol9_5, hsol9_4, hsol9_3, hsol9_2, hsol9_1, hsol9_0]
      exact hs
    exact Reachable_trans (reach_step _ _ _ m9_0.1) (Reachable_trans (reach_step _ _ _ m9_1.1) (Reachable_trans (reach_step _ _ _ m9_2.1) (Reachable_trans (reach_step _ _ _ m9_3.1) (Reachable_trans (reach_step _ _ _ m9_4.1) (Reachable_trans (reach_step _ _ _ m9_5.1) (Reachable_trans (reach_step _ _ _ m9_6.1) (Reachable_trans (reach_step _ _ _ m9_7.1) (Reachable_trans (reach_step _ _ _ m9_8.1) (Reachable_trans (reach_step _ _ _ m9_9.1) (Reachable_trans (reach_step _ _ _ m9_10.1) (Reachable_trans (reach_step _ _ _ m9_11.1) (c1_stage1 x0 x2 x7 x1 x4 x3 x5 hp9_11 hsF9 hidx9_11))))))))))))
  · subst hhmt
    have m10_0 := mem_move_up ([x0,x1,x2,x3,x4,x5,x6,1,0] : State) hp 8 hidx (by decide)
    have hp10_0 : ([x0,x1,x2,x3,x4,0,x6,1,x5] : State).Perm (List.range 9) := m10_0.2.1
    have hidx10_0 : ([x0,x1,x2,x3,x4,0,x6,1,x5] : State).indexOf 0 = 5 := m10_0.2.2.1
    have hsol10_0 : is_solvable ([x0,x1,x2,x3,x4,0,x6,1,x5] : State) = is_solvable ([x0,x1,x2,x3,x4,x5,x6,1,0] : State) := m10_0.2.2.2
    have m10_1 := mem_move_left ([x0,x1,x2,x3,x4,0,x6,1,x5] : State) hp10_0 5 hidx10_0 (by decide) (by decide)
    have hp10_1 : ([x0,x1,x2,x3,0,x4,x6,1,x5] : State).Perm (List.range 9) := m10_1.2.1
    have hidx10_1 : ([x0,x1,x2,x3,0,x4,x6,1,x5] : State).indexOf 0 = 4 := m10_1.2.2.1
    have hsol10_1 : is_solvable ([x0,x1,x2,x3,0,x4,x6,1,x5] : State) = is_solvable ([x0,x1,x2,x3,x4,0,x6,1,x5] : State) := m10_1.2.2.2
    have m10_2 := mem_move_down ([x0,x1,x2,x3,0,x4,x6,1,x5] : State) hp10_1 4 hidx10_1 (by decide)
    have hp10_2 : ([x0,x1,x2,x3,1,x4,x6,0,x5] : State).Perm (List.range 9) := m10_2.2.1
    have hidx10_2 : ([x0,x1,x2,x3,1,x4,x6,0,x5] : State).indexOf 0 = 7 := m10_2.2.2.1
    have hsol10_2 : is_solvable ([x0,x1,x2,x3,1,x4,x6,0,x5] : State) = is_solvable ([x0,x1,x2,x3,0,x4,x6,1,x5] : State) := m10_2.2.2.2
    have m10_3 := mem_move_left ([x0,x1,x2,x3,1,x4,x6,0,x5] : State) hp10_2 7 hidx10_2 (by decide) (by decide)
    have hp10_3 : ([x0,x1,x2,x3,1,x4,0,x6,x5] : State).Perm (List.range 9) := m10_3.2.1
    have hidx10_3 : ([x0,x1,x2,x3,1,x4,0,x6,x5] : State).indexOf 0 = 6 := m10_3.2.2.1
    have hsol10_3 : is_solvable ([x0,x1,x2,x3,1,x4,0,x6,x5] : State) = is_solvable ([x0,x1,x2,x3,1,x4,x6,0,x5] : State) := m10_3.2.2.2
    have m10_4 := mem_move_up ([x0,x1,x2,x3,1,x4,0,x6,x5] : State) hp10_3 6 hidx10_3 (by decide)
    have hp10_4 : ([x0,x1,x2,0,1,x4,x3,x6,x5] : State).Perm (List.range 9) := m10_4.2.1
    have hidx10_4 : ([x0,x1,x2,0,1,x4,x3,x6,x5] : State).indexOf 0 = 3 := m10_4.2.2.1
    have hsol10_4 : is_solvable ([x0,x1,x2,0,1,x4,x3,x6,x5] : State) = is_solvable ([x0,x1,x2,x3,1,x4,0,x6,x5] : State) := m10_4.2.2.2
    have m10_5 := mem_move_right ([x0,x1,x2,0,1,x4,x3,x6,x5] : State) hp10_4 3 hidx10_4 (by decide) (by decide)
    have hp10_5 : ([x0,x1,x2,1,0,x4,x3,x6,x5] : State).Perm (List.range 9) := m10_5.2.1
    have hidx10_5 : ([x0,x1,x2,1,0,x4,x3,x6,x5] : State).indexOf 0 = 4 := m10_5.2.2.1
    have hsol10_5 : is_solvable ([x0,x1,x2,1,0,x4,x3,x6,x5] : State) = is_solvable ([x0,x1,x2,0,1,x4,x3,x6,x5] : State) := m10_5.2.2.2
    have m10_6 := mem_move_up ([x0,x1,x2,1,0,x4,x3,x6,x5] : State) hp10_5 4 hidx10_5 (by decide)
    have hp10_6 : ([x0,0,x2,1,x1,x4,x3,x6,x5] : State).Perm (List.range 9) := m10_6.2.1
    have hidx10_6 : ([x0,0,x2,1,x1,x4,x3,x6,x5] : State).indexOf 0 = 1 := m10_6.2.2.1
    have hsol10_6 : is_solvable ([x0,0,x2,1,x1,x4,x3,x6,x5] : State) = is_solvable ([x0,x1,x2,1,0,x4,x3,x6,x5] : State) := m10_6.2.2.2
    have m10_7 := mem_move_left ([x0,0,x2,1,x1,x4,x3,x6,x5] : State) hp10_6 1 hidx10_6 (by decide) (by decide)
    have hp10_7 : ([0,x0,x2,1,x1,x4,x3,x6,x5] : State).Perm (List.range 9) := m10_7.2.1
    have hidx10_7 : ([0,x0,x2,1,x1,x4,x3,x6,x5] : State).indexOf 0 = 0 := m10_7.2.2.1
    have hsol10_7 : is_solvable ([0,x0,x2,1,x1,x4,x3,x6,x5] : State) = is_solvable ([x0,0,x2,1,x1,x4,x3,x6,x5] : State) := m10_7.2.2.2
    have m10_8 := mem_move_down ([0,x0,x2,1,x1,x4,x3,x6,x5] : State) hp10_7 0 hidx10_7 (by decide)
    have hp10_8 : ([1,x0,x2,0,x1,x4,x3,x6,x5] : State).Perm (List.range 9) := m10_8.2.1
    have hidx10_8 : ([1,x0,x2,0,x1,x4,x3,x6,x5] : State).indexOf 0 = 3 := m10_8.2.2.1
    have hsol10_8 : is_solvable ([1,x0,x2,0,x1,x4,x3,x6,x5] : State) = is_solvable ([0,x0,x2,1,x1,x4,x3,x6,x5] : State) := m10_8.2.2.2
    have m10_9 := mem_move_down ([1,x0,x2,0,x1,x4,x3,x6,x5] : State) hp10_8 3 hidx10_8 (by decide)
    have hp10_9 : ([1,x0,x2,x3,x1,x4,0,x6,x5] : State).Perm (List.range 9) := m10_9.2.1
    have hidx10_9 : ([1,x0,x2,x3,x1,x4,0,x6,x5] : State).indexOf 0 = 6 := m10_9.2.2.1
    have hsol10_9 : is_solvable ([1,x0,x2,x3,x1,x4,0,x6,x5] : State) = is_solvable ([1,x0,x2,0,x1,x4,x3,x6,x5] : State) := m10_9.2.2.2
    have m10_10 := mem_move_right ([1,x0,x2,x3,x1,x4,0,x6,x5] : State) hp10_9 6 hidx10_9 (by decide) (by decide)
    have hp10_10 : ([1,x0,x2,x3,x1,x4,x6,0,x5] : State).Perm (List.range 9) := m10_10.2.1
    have hidx10_10 : ([1,x0,x2,x3,x1,x4,x6,0,x5] : State).indexOf 0 = 7 := m10_10.2.2.1
    have hsol10_10 : is_solvable ([1,x0,x2,x3,x1,x4,x6,0,x5] : State) = is_solvable ([1,x0,x2,x3,x1,x4,0,x6,x5] : State) := m10_10.2.2.2
    have m10_11 := mem_move_right ([1,x0,x2,x3,x1,x4,x6,0,x5] : State) hp10_10 7 hidx10_10 (by decide) (by decide)
    have hp10_11 : ([1,x0,x2,x3,x1,x4,x6,x5,0] : State).Perm (List.range 9) := m10_11.2.1
    have hidx10_11 : ([1,x0,x2,x3,x1,x4,x6,x5,0] : State).indexOf 0 = 8 := m10_11.2.2.1
    have hsol10_11 : is_solvable ([1,x0,x2,x3,x1,x4,x6,x5,0] : State) = is_solvable ([1,x0,x2,x3,x1,x4,x6,0,x5] : State) := m10_11.2.2.2
    have hsF10 : is_solvable ([1,x0,x2,x3,x1,x4,x6,x5,0] : State) = true := by
      rw [hsol10_11, hsol10_10, hsol10_9, hsol10_8, hsol10_7, hsol10_6, hsol10_5, hsol10_4, hsol10_3, hsol10_2, hsol10_1, hsol10_0]
      exact hs
    exact Reachable_trans (reach_step _ _ _ m10_0.1) (Reachable_trans (reach_step _ _ _ m10_1.1) (Reachable_trans (reach_step _ _ _ m10_2.1) (Reachable_trans (reach_step _ _ _ m10_3.1) (Reachable_trans (reach_step _ _ _ m10_4.1) (Reachable_trans (reach_step _ _ _ m10_5.1) (Reachable_trans (reach_step _ _ _ m10_6.1) (Reachable_trans (reach_step _ _ _ m10_7.1) (Reachable_trans (reach_step _ _ _ m10_8.1) (Reachable_trans (reach_step _ _ _ m10_9.1) (Reachable_trans (reach_step _ _ _ m10_10.1) (Reachable_trans (reach_step _ _ _ m10_11.1) (c1_stage1 x0 x2 x3 x1 x4 x6 x5 hp10_11 hsF10 hidx10_11))))))))))))
  · exact absurd hhmt (by decide)

lemma solvable_reachable (s : State) (hp : s.Perm (List.range 9))
    (hs : is_solvable s = true) : Reachable s goal_state := by
  obtain ⟨t, hrt, htp, hti, hts⟩ := blank_to_corner 8 s hp
    (by have := (blank_facts s hp).1; omega)
  have hsolv_t : is_solvable t = true := by
    rw [hts]
    exact hs
  refine Reachable_trans hrt ?_
  have hte := state_explicit8 t htp hti
  rw [hte] at htp hsolv_t hti ⊢
  exact c1_stage0 (t.getD 0 0) (t.getD 1 0) (t.getD 2 0) (t.getD 3 0)
    (t.getD 4 0) (t.getD 5 0) (t.getD 6 0) (t.getD 7 0) htp hsolv_t hti

/-- C1: for every solvable initial state (a permutation of 0–8 accepted by
`is_solvable`, equivalently with even inversion parity), `Solver.bfs`
returns a path whose move count (path length minus one) is realised by a
move sequence from the initial state to the goal and is no larger than the
length of any move sequence from the initial state to the goal. -/
theorem bfs_optimal (init : State) (hperm : init.Perm (List.range 9))
    (hsolv : is_solvable init = true) :
    ∃ p e m, bfs init = (some p, e, m) ∧
      stepsTo (p.length - 1) init goal_state = true ∧
      ∀ j, stepsTo j init goal_state = true → p.length - 1 ≤ j :=
  bfs_optimal_of_reachable init hperm hsolv (solvable_reachable init hperm hsolv)

/-- Witness for C1 at the solvable state `[1,2,3,4,5,6,7,0,8]`. -/
theorem bfs_optimal_witness :
    ([1,2,3,4,5,6,7,0,8] : State).Perm (List.range 9) ∧
    is_solvable [1,2,3,4,5,6,7,0,8] = true ∧
    ∃ p e m, bfs [1,2,3,4,5,6,7,0,8] = (some p, e, m) ∧
      stepsTo (p.length - 1) [1,2,3,4,5,6,7,0,8] goal_state = true ∧
      ∀ j, stepsTo j [1,2,3,4,5,6,7,0,8] goal_state = true → p.length - 1 ≤ j :=
  ⟨by decide, by decide, bfs_optimal [1,2,3,4,5,6,7,0,8] (by decide) (by decide)⟩

end EightPuzzle
